import Mathlib

/-!
# Gravity: gameplay simulation and screen flow

A shallow embedding of the game logic of `Sample_GL3_2D.cpp`.

* The process-wide variables of the program (and the locals of `main` that
  live across loop iterations) are the fields of one record, `Game`.
* `int` variables are `Int`; C++ signed overflow is undefined behaviour and is
  not reached by the magnitudes considered here.
* `float` variables are rationals (`ℚ`). Three of them count ticks: the program
  advances `ttime`, `cy` and `loading_time` by a repeated `+=`/`-=` of a
  decimal literal and tests them against a bound, and the rounding of each
  addition decides at which tick the bound is passed. These three are advanced
  as the machine does it: the sum is formed in `double` and rounded to `float`
  (`floatAdd`, `floatSub`). The bounds themselves are compared as decimals:
  0.5, -0.5 and 20 are binary fractions, and no `float` lies between 2.1 and
  the `double` nearest to it, so each test is decided as the machine decides
  it. All other `float` expressions, among them the jump offsets and the
  decrements of `health`, are evaluated exactly; what the machine holds there
  differs from the exact value by rounding.
* The five-element arrays are functions on `Fin 5`; being of static storage
  duration they start zero-filled.
* Rendering calls (drawing, matrices, textures, fonts) write none of the
  variables modelled here and are left out; the order of the remaining
  statements is the order of the source.
* What the program reads from outside (cursor position, clock, `rand()`,
  window events) is an explicit input of each main-loop iteration.
-/

namespace Gravity

/-- The global variables of the program together with the loop-carried locals of `main`. -/
structure Game where
  hover_flag : Int
  sc_flag : Int
  score : Int
  temp_score : Int
  score_string : Fin 3 → Char
  time_string : Fin 2 → Char
  level_string : Char
  score_display_flag : Int
  lives : Int
  level : Int
  loading_time : ℚ
  init_flag : Int
  pause : Bool
  jump : Bool
  dir : Int
  px : Int
  pz : Int
  rx : ℚ
  ry : ℚ
  hole : Fin 5 → Int
  tile : Fin 5 → Int
  health : ℚ
  cy : ℚ
  b_m : Int
  on_tile : Bool
  coin_count : Int
  timer : Int
  time_c : Int
  tower_view : Bool
  top_view : Bool
  follow_view : Bool
  helicopter_view : Bool
  adventure_view : Bool
  iteration : Int
  c_i : Int
  turn : Int
  camera_rotation_angle : ℚ
  coins_x : Fin 5 → Int
  coins_z : Fin 5 → Int
  fire_x : Fin 5 → Int
  fire_z : Fin 5 → Int
  ttime : ℚ
  /-- local of `main` -/
  level_c : Int
  /-- local of `main` -/
  xpos_o : ℚ
  /-- local of `main` -/
  ypos_o : ℚ
  /-- local of `main` -/
  last_update_time : ℚ
  /-- local of `main` -/
  last_timer_update : ℚ
  /-- set once `quit(window)` has run: the process has exited -/
  exited : Bool

/-- The state when `main` reaches its loop: the initialisers of the globals, and
the cursor position `(x0, y0)` and clock readings `t0`, `t1` taken before the loop. -/
def initial (x0 y0 t0 t1 : ℚ) : Game :=
  { hover_flag := 0
    sc_flag := 0
    score := 0
    temp_score := 0
    score_string := fun _ => Char.ofNat 0
    time_string := fun _ => Char.ofNat 0
    level_string := Char.ofNat 0
    score_display_flag := 0
    lives := 3
    level := 3
    loading_time := 0
    init_flag := 0
    pause := false
    jump := false
    dir := 1
    px := 0
    pz := 9
    rx := 0
    ry := 0
    hole := fun _ => 0
    tile := fun _ => 0
    health := 15
    cy := 0
    b_m := 0
    on_tile := false
    coin_count := 0
    timer := 15
    time_c := 15
    tower_view := false
    top_view := false
    follow_view := false
    helicopter_view := false
    adventure_view := false
    iteration := 0
    c_i := 0
    turn := 0
    camera_rotation_angle := 90
    coins_x := fun _ => 0
    coins_z := fun _ => 0
    fire_x := fun _ => 0
    fire_z := fun _ => 0
    ttime := 0
    level_c := 0
    xpos_o := x0
    ypos_o := y0
    last_update_time := t0
    last_timer_update := t1
    exited := false }

/-! ## `float` arithmetic -/

/-- The power of two with integer exponent `e`. -/
def pow2 (e : ℤ) : ℚ :=
  if 0 ≤ e then ((2 ^ e.toNat : ℕ) : ℚ) else 1 / ((2 ^ (-e).toNat : ℕ) : ℚ)

/-- The absolute value of a fraction. -/
def magnitude (x : ℚ) : ℚ := (x.num.natAbs : ℚ) / (x.den : ℚ)

/-- The greatest integer not above a fraction. -/
def qfloor (x : ℚ) : ℤ := x.num / (x.den : ℤ)

/-- The binary exponent of `x ≠ 0`: the `e` with `2 ^ e ≤ |x| < 2 ^ (e + 1)`. For
`|x| ≥ 1` it is the position of the leading bit of the integer part of `|x|`;
for `|x| < 1` it is minus the number of doublings that reach `1 / |x|`, found
from the leading bit of the integer below the rounded-up reciprocal. -/
def binade (x : ℚ) : ℤ :=
  if 1 ≤ magnitude x then (Nat.log2 (qfloor (magnitude x)).toNat : ℤ)
  else -((Nat.log2 ((-qfloor (-(magnitude x)⁻¹)).toNat - 1) + 1 : ℕ) : ℤ)

/-- Rounding to the nearest integer, a tie going to the even neighbour. -/
def roundHalfEven (x : ℚ) : ℤ :=
  if x - qfloor x < 1 / 2 then qfloor x
  else if x - qfloor x > 1 / 2 then qfloor x + 1
  else if qfloor x % 2 = 0 then qfloor x else qfloor x + 1

/-- IEEE 754 round-to-nearest-even to the binary format with a `p`-bit
significand: `x` is rounded to a multiple of `2 ^ (e + 1 - p)`, where
`2 ^ e ≤ |x| < 2 ^ (e + 1)`. The exponent range is not modelled (the values of
the program stay far from overflow and from the subnormal range). -/
def roundBinary (p : ℕ) (x : ℚ) : ℚ :=
  if x = 0 then 0
  else
    (roundHalfEven (x / pow2 (binade x + 1 - (p : ℤ))) : ℚ) * pow2 (binade x + 1 - (p : ℤ))

/-- Conversion to `float` (binary32, 24-bit significand). -/
def toFloat (x : ℚ) : ℚ := roundBinary 24 x

/-- Conversion to `double` (binary64, 53-bit significand); also the value of a
decimal literal such as `0.1`. -/
def toDouble (x : ℚ) : ℚ := roundBinary 53 x

/-- The statement `x += d` for a `float` variable `x` and a decimal literal `d`:
the literal is a `double`, the sum is formed in `double` and converted to `float`. -/
def floatAdd (x d : ℚ) : ℚ := toFloat (toDouble (x + toDouble d))

/-- The statement `x -= d` for a `float` variable `x` and a decimal literal `d`. -/
def floatSub (x d : ℚ) : ℚ := toFloat (toDouble (x - toDouble d))

/-! ## `gamescreen` -/

/-- `gamescreen`, lines 1672-1682: the queued auto-advance. -/
def autoAdvance (s : Game) : Game :=
  if s.c_i ≠ 0 then
    let s1 : Game :=
      if s.dir = 1 then { s with pz := s.pz - 1 }
      else if s.dir = 4 then { s with pz := s.pz + 1 }
      else if s.dir = 2 then { s with px := s.px - 1 }
      else if s.dir = 3 then { s with px := s.px + 1 }
      else s
    { s1 with c_i := s1.c_i - 1 }
  else s

/-- `gamescreen`, lines 1683-1688: the helicopter camera angle. -/
def helicopterTurn (s : Game) : Game :=
  if s.helicopter_view then
    if s.turn = 1 then { s with camera_rotation_angle := s.camera_rotation_angle - 0.5 }
    else if s.turn = -1 then { s with camera_rotation_angle := s.camera_rotation_angle + 0.5 }
    else s
  else s

/-- The C++ conversion `(char)(r + 48)` for the digit values that occur. -/
def digitChar (r : Int) : Char := Char.ofNat (Int.toNat (r + 48))

/-- One round of the digit loop of the score formatter (lines 1764-1770):
returns the updated `temp_score`, `length` and the character stored. -/
def scoreDigit (temp_score : Int) (length : Nat) : Int × Nat × Char :=
  let r := Int.tmod temp_score 10
  let length1 := if temp_score ≠ 0 then length + 1 else length
  (Int.tdiv temp_score 10, length1, digitChar r)

/-- Exchange two entries of the score string. -/
def swapChars (str : Fin 3 → Char) (i j : Fin 3) : Fin 3 → Char :=
  Function.update (Function.update str i (str j)) j (str i)

/-- `gamescreen`, lines 1761-1784: formatting of the score. -/
def formatScore (s : Game) : Game :=
  if s.temp_score ≠ s.score ∨ s.score = 0 then
    let d0 := scoreDigit s.score 0
    let d1 := scoreDigit d0.1 d0.2.1
    let d2 := scoreDigit d1.1 d1.2.1
    let length : Nat := d2.2.1
    let str0 : Fin 3 → Char := fun i => if i = 0 then d0.2.2 else if i = 1 then d1.2.2 else d2.2.2
    let str1 : Fin 3 → Char := fun i => if str0 i = '0' ∧ i.val ≥ length then ' ' else str0 i
    let str2 : Fin 3 → Char := if s.score = 0 then Function.update str1 0 '0' else str1
    -- the reversal loop runs for i < length / 2, that is once when length is 2 or 3
    let str3 : Fin 3 → Char :=
      if length = 2 then swapChars str2 0 1
      else if length = 3 then swapChars str2 0 2
      else str2
    { s with temp_score := s.score, score_string := str3 }
  else s

/-- `gamescreen`, lines 1785-1791 and 1841: the timer and level strings. -/
def formatTimer (s : Game) : Game :=
  let r0 := Int.tmod s.timer 10
  let t1 := Int.tdiv s.timer 10
  let r1 := Int.tmod t1 10
  let t2 := Int.tdiv t1 10
  { s with
    time_c := t2
    time_string := fun i => if i = 1 then digitChar r0 else digitChar r1
    level_string := digitChar s.level }

/-- Lines 1923-1925: at the upper bound the elevator turns downwards. -/
def elevatorTop (s : Game) : Game :=
  if s.cy ≥ 0.5 then { s with b_m := 1 } else s

/-- Lines 1926-1928: at the lower bound the elevator turns upwards. -/
def elevatorBottom (s : Game) : Game :=
  if s.cy ≤ -0.5 then { s with b_m := 0 } else s

/-- Lines 1929-1934: the elevator moves one increment in its direction. -/
def elevatorMove (s : Game) : Game :=
  if s.b_m = 0 then { s with cy := floatAdd s.cy 0.01 }
  else if s.b_m = 1 then { s with cy := floatSub s.cy 0.01 }
  else s

/-- `gamescreen`, lines 1922-1935: the shared elevator height, updated once per
call (at cube 97 of the drawing loop) and only at level 3. -/
def elevatorStep (s : Game) : Game :=
  if s.level = 3 then elevatorMove (elevatorBottom (elevatorTop s)) else s

/-- `gamescreen`, lines 2036-2038: the jump kinematics of one tick. -/
def jumpKinematics (s : Game) : Game :=
  { s with
    rx := 0.6 * s.ttime
    ry := 0.4 * s.ttime - 0.2 * s.ttime * s.ttime
    ttime := floatAdd s.ttime 0.1 }

/-- Lines 2041-2048: the landing, two cells along the direction. -/
def jumpLand (s : Game) : Game :=
  if s.dir = 1 then { s with pz := s.pz - 2 }
  else if s.dir = 4 then { s with pz := s.pz + 2 }
  else if s.dir = 2 then { s with px := s.px - 2 }
  else if s.dir = 3 then { s with px := s.px + 2 }
  else s

/-- `gamescreen`, lines 2039-2051: the end of a jump. -/
def jumpEnd (s : Game) : Game :=
  if s.ttime > 2.1 then
    { jumpLand { s with jump := false } with rx := 0, ttime := 0 }
  else s

/-- `gamescreen`, lines 2035-2052: the jump block. -/
def jumpBlock (s : Game) : Game :=
  if s.jump then jumpEnd (jumpKinematics s) else s

/-- The condition of the fatal check (line 2053). -/
def fatal (s : Game) : Prop :=
  s.px < 0 ∨ s.px > 9 ∨ s.pz > 9 ∨ s.pz < 0 ∨
    s.hole 0 = s.pz * 10 + s.px ∨ s.hole 1 = s.pz * 10 + s.px ∨
    s.hole 2 = s.pz * 10 + s.px ∨ s.hole 3 = s.pz * 10 + s.px ∨
    s.hole 4 = s.pz * 10 + s.px ∨ s.health ≤ 0

instance (s : Game) : Decidable (fatal s) := by
  unfold fatal; infer_instance

/-- `gamescreen`, lines 2053-2058: the fatal check. -/
def fatalCheck (s : Game) : Game :=
  if fatal s then { s with lives := s.lives - 1, px := 0, pz := 9, health := 15 } else s

/-- The index `i` is one of the five elevator tiles. -/
def isTile (s : Game) (i : Int) : Prop :=
  i = s.tile 0 ∨ i = s.tile 1 ∨ i = s.tile 2 ∨ i = s.tile 3 ∨ i = s.tile 4

instance (s : Game) (i : Int) : Decidable (isTile s i) := by
  unfold isTile; infer_instance

/-- Lines 2091-2098: the step back, one cell against the direction. -/
def bounceBack (s : Game) : Game :=
  if s.dir = 1 then { s with pz := s.pz + 1 }
  else if s.dir = 4 then { s with pz := s.pz - 1 }
  else if s.dir = 2 then { s with px := s.px + 1 }
  else if s.dir = 3 then { s with px := s.px - 1 }
  else s

/-- Lines 2101-2102: the penalty for a drop onto a low elevator. -/
def dropPenalty (s : Game) : Game :=
  if s.on_tile = false ∧ s.cy + 0.75 ≤ 0.5 + s.ry then { s with health := s.health - 5 } else s

/-- `gamescreen`, lines 2088-2107: standing on, or landing on, an elevator tile. -/
def tileLanding (s : Game) : Game :=
  if isTile s (10 * s.pz + s.px) then
    if s.cy + 0.5 > 0.5 + s.ry ∧ s.on_tile = false then
      bounceBack { s with health := s.health - 5 }
    else if s.cy + 0.5 ≤ 0.5 + s.ry then
      { dropPenalty s with on_tile := true }
    else s
  else { s with on_tile := false }

/-- The body shared by the four collision checks (lines 2110-2114 and siblings):
an airborne player meeting an elevator tile that is too high. -/
def jumpCancel (s : Game) : Game :=
  if s.cy + 0.5 > 0.5 + s.ry ∧ s.on_tile = false ∧ s.jump = true then
    { s with health := s.health - 5, jump := false, ry := 0 }
  else s

/-- Lines 2108-2116: the collision check for direction 1. -/
def collideNorth (s : Game) : Game :=
  if s.dir = 1 then (if isTile s (10 * (s.pz - 1) + s.px) then jumpCancel s else s) else s

/-- Lines 2117-2125: the collision check for direction 4. -/
def collideSouth (s : Game) : Game :=
  if s.dir = 4 then (if isTile s (10 * (s.pz + 1) + s.px) then jumpCancel s else s) else s

/-- Lines 2126-2134: the collision check for direction 2. -/
def collideWest (s : Game) : Game :=
  if s.dir = 2 then (if isTile s (10 * s.pz + s.px - 1) then jumpCancel s else s) else s

/-- Lines 2135-2143: the collision check for direction 3. -/
def collideEast (s : Game) : Game :=
  if s.dir = 3 then (if isTile s (10 * s.pz + s.px + 1) then jumpCancel s else s) else s

/-- `gamescreen`, lines 2108-2143: the four collision checks with the cell ahead. -/
def tileCollision (s : Game) : Game :=
  collideEast (collideWest (collideSouth (collideNorth s)))

/-- The state of `gamescreen` when it reaches the jump block (line 2035). -/
def beforeJump (s : Game) : Game :=
  elevatorStep (formatTimer (formatScore (helicopterTurn (autoAdvance s))))

/-- The state of `gamescreen` when it reaches the fatal check (line 2053). -/
def beforeFatal (s : Game) : Game := jumpBlock (beforeJump s)

/-- The state of `gamescreen` when it reaches the collision checks (line 2108). -/
def beforeCollision (s : Game) : Game := tileLanding (fatalCheck (beforeFatal s))

/-- `gamescreen`: one Play simulation step. -/
def gamescreen (s : Game) : Game := tileCollision (beforeCollision s)

/-! ## Input callbacks -/

/-- The keys the `keyboard` callback distinguishes; `OTHER` is any other key. -/
inductive Key where
  | KP_7 | KP_9 | KP_1 | KP_3 | KP_4 | KP_6 | F | G
  | UP | DOWN | LEFT | RIGHT | ENTER | SPACE | BACKSPACE | P
  | W | S | A | D | ESCAPE | OTHER
  deriving DecidableEq, Repr

/-- GLFW key and button actions. -/
inductive Action where
  | PRESS | RELEASE | REPEAT
  deriving DecidableEq, Repr

/-- GLFW mouse buttons; `OTHER` is any button but left and right. -/
inductive Button where
  | LEFT | RIGHT | OTHER
  deriving DecidableEq, Repr

/-- `quit`: the process exits, nothing runs afterwards. -/
def quit (s : Game) : Game := { s with exited := true }

/-- The New Game assignments of the `keyboard` callback (lines 470-479). -/
def newGameKey (s : Game) : Game :=
  { s with
    lives := 3, level := 1, loading_time := 0, sc_flag := 3,
    px := 0, pz := 9, score := 0, jump := false, dir := 1 }

/-- The New Game assignments of the `mouseButton` callback (lines 570-579). -/
def newGameClick (s : Game) : Game :=
  { s with
    lives := 3, level := 1, loading_time := 0, sc_flag := 3,
    px := 0, pz := 9, score := 0, pause := false, jump := false, dir := 1 }

/-- The guard of every movement input: Play screen, loading over, not jumping. -/
def canMove (s : Game) : Prop :=
  s.sc_flag = 3 ∧ s.loading_time > 20 ∧ s.jump = false

instance (s : Game) : Decidable (canMove s) := by
  unfold canMove; infer_instance

/-- `keyboard` on `GLFW_PRESS`. -/
def keyPress (k : Key) (s : Game) : Game :=
  match k with
  | Key.KP_7 => { s with tower_view := !s.tower_view }
  | Key.KP_9 => { s with top_view := !s.top_view }
  | Key.KP_1 => { s with follow_view := !s.follow_view }
  | Key.KP_3 => { s with adventure_view := !s.adventure_view }
  | Key.KP_4 => { s with helicopter_view := true, turn := 1, camera_rotation_angle := 90 }
  | Key.KP_6 => { s with helicopter_view := true, turn := -1, camera_rotation_angle := 90 }
  | Key.F =>
    if s.iteration < 3 then { s with iteration := s.iteration + 1, c_i := s.iteration + 1 } else s
  | Key.G =>
    if s.iteration > 1 then { s with iteration := s.iteration - 1, c_i := s.iteration - 1 } else s
  | Key.UP =>
    if s.sc_flag = 0 then
      let s1 : Game := { s with hover_flag := s.hover_flag - 1 }
      if s1.hover_flag < 0 then { s1 with hover_flag := 2 } else s1
    else if s.sc_flag = 4 then
      let s1 : Game := { s with hover_flag := s.hover_flag - 1 }
      if s1.hover_flag < 5 then { s1 with hover_flag := 6 } else s1
    else if canMove s then
      let s1 : Game := { s with pz := s.pz - 1 }
      let s2 : Game := if s1.on_tile = true ∧ s1.cy ≤ s1.ry then { s1 with pz := s1.pz + 1 } else s1
      { s2 with dir := 1 }
    else s
  | Key.DOWN =>
    if s.sc_flag = 0 then
      let s1 : Game := { s with hover_flag := s.hover_flag + 1 }
      if s1.hover_flag > 2 then { s1 with hover_flag := 0 } else s1
    else if s.sc_flag = 4 then
      let s1 : Game := { s with hover_flag := s.hover_flag + 1 }
      if s1.hover_flag > 6 then { s1 with hover_flag := 5 } else s1
    else if canMove s then
      let s1 : Game := { s with pz := s.pz + 1 }
      let s2 : Game := if s1.on_tile = true ∧ s1.cy ≤ s1.ry then { s1 with pz := s1.pz - 1 } else s1
      { s2 with dir := 4 }
    else s
  | Key.LEFT =>
    if canMove s then
      let s1 : Game := { s with px := s.px - 1 }
      let s2 : Game := if s1.on_tile = true ∧ s1.cy ≤ s1.ry then { s1 with px := s1.px + 1 } else s1
      { s2 with dir := 2 }
    else s
  | Key.RIGHT =>
    if canMove s then
      let s1 : Game := { s with px := s.px + 1 }
      let s2 : Game := if s1.on_tile = true ∧ s1.cy ≤ s1.ry then { s1 with px := s1.px - 1 } else s1
      { s2 with dir := 3 }
    else s
  | Key.ENTER =>
    if s.sc_flag = 0 then
      if s.hover_flag = 2 then quit s
      else if s.hover_flag = 0 then newGameKey s
      else if s.hover_flag = 1 then { s with sc_flag := 1 }
      else s
    else if s.sc_flag = 4 then
      if s.hover_flag = 6 then quit s
      else
        let s1 : Game := if s.hover_flag = 5 then { s with lives := 3 } else s
        { s1 with level := 1, loading_time := 0, sc_flag := 0, hover_flag := 0 }
    else s
  | Key.SPACE => { s with jump := true }
  | Key.BACKSPACE =>
    if s.hover_flag = 1 then (if s.sc_flag = 1 then { s with sc_flag := 0 } else s) else s
  | Key.P => { s with pause := !s.pause }
  | Key.W => if canMove s then { s with dir := 1 } else s
  | Key.S => if canMove s then { s with dir := 4 } else s
  | Key.A => if canMove s then { s with dir := 2 } else s
  | Key.D => if canMove s then { s with dir := 3 } else s
  | Key.ESCAPE => s
  | Key.OTHER => s

/-- `keyboard` on `GLFW_RELEASE`. -/
def keyRelease (k : Key) (s : Game) : Game :=
  match k with
  | Key.ESCAPE => quit s
  | Key.KP_4 => { s with helicopter_view := false }
  | Key.KP_6 => { s with helicopter_view := false }
  | _ => s

/-- The `keyboard` callback. -/
def keyboard (k : Key) (a : Action) (s : Game) : Game :=
  match a with
  | Action.PRESS => keyPress k s
  | Action.RELEASE => keyRelease k s
  | Action.REPEAT => s

/-- `mouseButton`, left button released (lines 562-607). -/
def leftRelease (s : Game) : Game :=
  if s.sc_flag = 0 then
    if s.hover_flag = 2 then quit s
    else
      let s1 : Game := if s.hover_flag = 1 then { s with sc_flag := 1 } else s
      if s1.hover_flag = 0 then newGameClick s1 else s1
  else if s.sc_flag = 1 then
    if s.hover_flag = 4 then { s with sc_flag := 0 } else s
  else if s.sc_flag = 4 then
    if s.hover_flag = 6 then quit s
    else if s.hover_flag = 5 then
      { s with lives := 3, level := 1, loading_time := 0, sc_flag := 0, hover_flag := 0 }
    else s
  else if canMove s then
    if s.dir = 1 then { s with pz := s.pz + 1 }
    else if s.dir = 4 then { s with pz := s.pz - 1 }
    else if s.dir = 2 then { s with px := s.px - 1 }
    else if s.dir = 3 then { s with px := s.px + 1 }
    else s
  else s

/-- The `mouseButton` callback. -/
def mouseButton (b : Button) (a : Action) (s : Game) : Game :=
  match b, a with
  | Button.LEFT, Action.RELEASE => leftRelease s
  | Button.RIGHT, Action.PRESS => { s with jump := true }
  | _, _ => s

/-- A window event delivered by `glfwPollEvents`. `quitChar` is the character
input `Q` or `q` of `keyboardChar`, `otherChar` any other character, `close` the
window-close request. -/
inductive Event where
  | key (k : Key) (a : Action)
  | mouse (b : Button) (a : Action)
  | quitChar
  | otherChar
  | close
  deriving DecidableEq, Repr

/-- Dispatch of one event to its callback; after `quit` the process is gone. -/
def handleEvent (s : Game) (e : Event) : Game :=
  if s.exited then s
  else
    match e with
    | Event.key k a => keyboard k a s
    | Event.mouse b a => mouseButton b a s
    | Event.quitChar => quit s
    | Event.otherChar => s
    | Event.close => quit s

/-- `glfwPollEvents`: the pending events run their callbacks in order. -/
def pollEvents (es : List Event) (s : Game) : Game := es.foldl handleEvent s

/-! ## The main loop -/

/-- What one iteration of the main loop reads from outside the program. Every
call of `rand()` returns an arbitrary non-negative value; each call site has
its own input here. -/
structure Input where
  /-- cursor position read at the top of the iteration -/
  xpos : ℚ
  /-- cursor position read at the top of the iteration -/
  ypos : ℚ
  /-- events delivered by `glfwPollEvents` -/
  events : List Event
  /-- first clock reading after the poll -/
  current_time : ℚ
  /-- second clock reading after the poll -/
  timer_update : ℚ
  /-- results of `rand()` in the coin reseed -/
  randCoinX : Fin 5 → Nat
  /-- results of `rand()` in the coin reseed -/
  randCoinZ : Fin 5 → Nat
  /-- results of `rand()` in the hazard reseed -/
  randHole : Fin 5 → Nat
  /-- results of `rand()` in the hazard reseed -/
  randTile : Fin 5 → Nat
  /-- results of `rand()` in the hazard reseed -/
  randFireX : Fin 5 → Nat
  /-- results of `rand()` in the hazard reseed -/
  randFireZ : Fin 5 → Nat

/-- `widthc` of `main`. -/
def widthc : ℚ := 800

/-- `heightc` of `main`. -/
def heightc : ℚ := 600

/-- The cursor lies in the screen rectangle with the given bounds (in units of
the 600-pixel layout), as tested in `main`. -/
def inRegion (xpos ypos x0 x1 y0 y1 : ℚ) : Prop :=
  xpos ≥ x0 * (widthc / 600) ∧ xpos ≤ x1 * (widthc / 600) ∧
    ypos ≤ y1 * (heightc / 600) ∧ ypos ≥ y0 * (heightc / 600)

instance (xpos ypos x0 x1 y0 y1 : ℚ) : Decidable (inRegion xpos ypos x0 x1 y0 y1) := by
  unfold inRegion; infer_instance

/-- `main`, lines 2480-2491: the Menu screen. -/
def menuStep (inp : Input) (s : Game) : Game :=
  let hover : Int :=
    if inRegion inp.xpos inp.ypos 215 365 270 305 then 0
    else if inRegion inp.xpos inp.ypos 215 365 345 380 then 1
    else if inRegion inp.xpos inp.ypos 215 365 420 455 then 2
    else s.hover_flag
  { s with hover_flag := hover, init_flag := if s.init_flag = 0 then 1 else s.init_flag }

/-- `main`, lines 2492-2502: the Controls screen. -/
def controlsStep (inp : Input) (s : Game) : Game :=
  let hover : Int := if inRegion inp.xpos inp.ypos 20 95 20 45 then 4 else 1
  { s with hover_flag := hover, init_flag := if s.init_flag = 1 then 0 else s.init_flag }

/-- `main`, lines 2510-2521: the End check after `gamescreen`. -/
def endCheck (s : Game) : Game :=
  if s.lives = 0 ∨ s.level = 4 ∨ s.timer = 0 then
    { s with
      sc_flag := 4, hover_flag := 5, lives := 3, health := 15,
      tower_view := false, top_view := false, adventure_view := false,
      follow_view := false, cy := 0 }
  else s

/-- `main`, lines 2522-2531: pointer movement sets the direction. -/
def pointerDir (inp : Input) (s : Game) : Game :=
  let d1 : Int := if inp.ypos - s.ypos_o > 0 then 1 else s.dir
  let d2 : Int := if inp.ypos - s.ypos_o < 0 then 4 else d1
  let d3 : Int := if inp.xpos - s.xpos_o > 0 then 3 else d2
  let d4 : Int := if inp.xpos - s.xpos_o < 0 then 2 else d3
  { s with dir := d4, xpos_o := inp.xpos, ypos_o := inp.ypos }

/-- Lines 2538-2546: the timer of the new level, or the end of the game. -/
def levelStart (s : Game) : Game :=
  if s.level = 2 then { s with timer := 30 }
  else if s.level = 3 then { s with timer := 45 }
  else if s.level = 4 then { s with sc_flag := 4, hover_flag := 5, lives := 3 }
  else s

/-- `main`, lines 2532-2547: the level-completion check. -/
def completionCheck (s : Game) : Game :=
  if 10 * s.pz + s.px = 9 ∧ s.coin_count = 5 then
    levelStart { s with level := s.level + 1, px := 0, pz := 9, coin_count := 0 }
  else s

/-- The player stands on coin slot `i`. -/
def onCoin (s : Game) (i : Fin 5) : Prop := s.px = s.coins_x i ∧ s.pz = s.coins_z i

instance (s : Game) (i : Fin 5) : Decidable (onCoin s i) := by
  unfold onCoin; infer_instance

/-- The assignments common to the five branches of the coin check: the award
and the retirement of slot `i`. -/
def takeCoin (s : Game) (i : Fin 5) : Game :=
  { s with
    score := s.score + 10
    coins_x := Function.update s.coins_x i 100
    coins_z := Function.update s.coins_z i 100 }

/-- `main`, lines 2548-2577: the coin check. -/
def coinCheck (s : Game) : Game :=
  if onCoin s 0 then
    let s1 := takeCoin s 0
    { s1 with coin_count := s1.coin_count + 1 }
  else if onCoin s 1 then
    let s1 := takeCoin s 1
    { s1 with coin_count := s1.coin_count + 1 }
  else if onCoin s 2 then
    takeCoin s 2
  else if onCoin s 3 then
    let s1 := takeCoin s 3
    let s2 : Game := { s1 with coin_count := s1.coin_count + 1 }
    { s2 with coin_count := s2.coin_count + 1 }
  else if onCoin s 4 then
    let s1 := takeCoin s 4
    { s1 with coin_count := s1.coin_count + 1 }
  else s

/-- The player stands on fire slot `i`. -/
def onFire (s : Game) (i : Fin 5) : Prop := s.px = s.fire_x i ∧ s.pz = s.fire_z i

instance (s : Game) (i : Fin 5) : Decidable (onFire s i) := by
  unfold onFire; infer_instance

/-- `main`, lines 2578-2592: the fire check. -/
def fireCheck (s : Game) : Game :=
  if onFire s 0 then { s with health := s.health - 0.1 }
  else if onFire s 1 then { s with health := s.health - 0.1 }
  else if onFire s 2 then { s with health := s.health - 0.1 }
  else if onFire s 3 then { s with health := s.health - 0.1 }
  else if onFire s 4 then { s with health := s.health - 0.1 }
  else s

/-- The state of a Play tick when it reaches the level-completion check (line 2532). -/
def beforeCompletion (inp : Input) (s : Game) : Game :=
  pointerDir inp (endCheck (gamescreen s))

/-- The state of a Play tick when it reaches the coin check (line 2548). -/
def beforeCoins (inp : Input) (s : Game) : Game :=
  completionCheck (beforeCompletion inp s)

/-- `main`, lines 2508-2593: one Play tick, the branch taken when `init_flag == 4`. -/
def playTick (inp : Input) (s : Game) : Game :=
  fireCheck (coinCheck (beforeCoins inp s))

/-- `main`, lines 2594-2601: one loading tick, the branch taken otherwise. -/
def loadingTick (s : Game) : Game :=
  { s with level_c := 0, level := 1, timer := 15, health := 15, cy := 0 }

/-- `main`, lines 2608-2615: the coin reseed on a change of level. -/
def coinReseed (inp : Input) (s : Game) : Game :=
  if s.level_c ≠ s.level then
    { s with
      coins_x := fun i => ((inp.randCoinX i % 10 : Nat) : Int)
      coins_z := fun i => ((inp.randCoinZ i % 10 : Nat) : Int)
      level_c := s.level }
  else s

/-- `main`, lines 2504-2507: the loading interval advances. -/
def loadingAdvance (s : Game) : Game :=
  if s.loading_time ≥ 0 ∧ s.loading_time ≤ 20 then
    { s with init_flag := 1, loading_time := floatAdd s.loading_time 0.1 }
  else s

/-- `main`, lines 2508 and 2594: a Play tick when `init_flag == 4`, a loading tick otherwise. -/
def playOrLoad (inp : Input) (s : Game) : Game :=
  if s.init_flag = 4 then playTick inp s else loadingTick s

/-- `main`, lines 2602-2607: the screen resources are set up, `init_flag` becomes 4. -/
def initDone (s : Game) : Game :=
  if s.init_flag = 1 ∨ s.init_flag = 3 then { s with init_flag := 4 } else s

/-- `main`, lines 2503-2616: the branch `sc_flag == 3` (Loading and Play). -/
def gameStep (inp : Input) (s : Game) : Game :=
  coinReseed inp (initDone (playOrLoad inp (loadingAdvance s)))

/-- `main`, lines 2617-2632: the End screen. -/
def endStep (inp : Input) (s : Game) : Game :=
  let hover : Int :=
    if inRegion inp.xpos inp.ypos 215 365 270 305 then 5
    else if inRegion inp.xpos inp.ypos 215 365 345 380 then 6
    else s.hover_flag
  let display : Int := if inRegion inp.xpos inp.ypos 265 315 130 150 then 1 else 0
  { s with
    hover_flag := hover, score_display_flag := display,
    init_flag := if s.init_flag = 4 then 0 else s.init_flag }

/-- The dispatch on `sc_flag` at the top of the loop body. -/
def screenStep (inp : Input) (s : Game) : Game :=
  if s.sc_flag = 0 then menuStep inp s
  else if s.sc_flag = 1 then controlsStep inp s
  else if s.sc_flag = 3 then gameStep inp s
  else if s.sc_flag = 4 then endStep inp s
  else s

/-- Lines 2640-2642: hole `i` is drawn; the player's cell and the spawn cell
are replaced by cell 37. -/
def holeDraw (inp : Input) (s : Game) (i : Fin 5) : Game :=
  let h : Int := ((inp.randHole i % 100 : Nat) : Int)
  { s with hole := Function.update s.hole i (if h = s.pz * 10 + s.px ∨ h = 90 then 37 else h) }

/-- Lines 2643-2645: elevator tile `i` is drawn, at level 3 only. -/
def tileDraw (inp : Input) (s : Game) (i : Fin 5) : Game :=
  if s.level = 3 then
    { s with tile := Function.update s.tile i ((inp.randTile i % 100 : Nat) : Int) }
  else s

/-- Lines 2646-2654: fire `i` is drawn, at levels 2 and 3 only; a fire on the
player's cell is moved to (8, 7). Line 2649 is the comparison `tile[i] == 100;`,
a statement without effect. -/
def fireDraw (inp : Input) (s : Game) (i : Fin 5) : Game :=
  if s.level = 2 ∨ s.level = 3 then
    let fx : Int := ((inp.randFireX i % 10 : Nat) : Int)
    let fz : Int := ((inp.randFireZ i % 10 : Nat) : Int)
    if fx = s.px ∧ fz = s.pz then
      { s with fire_x := Function.update s.fire_x i 8, fire_z := Function.update s.fire_z i 7 }
    else
      { s with fire_x := Function.update s.fire_x i fx, fire_z := Function.update s.fire_z i fz }
  else s

/-- `main`, lines 2640-2654: round `i` of the hazard reseed loop. -/
def hazardSlot (inp : Input) (s : Game) (i : Fin 5) : Game :=
  fireDraw inp (tileDraw inp (holeDraw inp s i) i) i

/-- `main`, lines 2636-2657: the periodic hazard reseed. -/
def hazardReseed (inp : Input) (s : Game) : Game :=
  if inp.current_time - s.last_update_time ≥ 5 then
    { hazardSlot inp (hazardSlot inp (hazardSlot inp (hazardSlot inp (hazardSlot inp s 0) 1) 2) 3) 4
      with last_update_time := inp.current_time }
  else s

/-- `main`, lines 2658-2661: the one-second timer. -/
def timerStep (inp : Input) (s : Game) : Game :=
  if inp.timer_update - s.last_timer_update ≥ 1 then
    { s with timer := s.timer - 1, last_timer_update := inp.timer_update }
  else s

/-- One iteration of the `while` loop of `main`. The whole body, the event poll
included, is guarded by `!pause`; once the process has exited nothing runs. -/
def mainLoop (inp : Input) (s : Game) : Game :=
  if s.exited then s
  else if s.pause = false then
    let s1 := pollEvents inp.events (screenStep inp s)
    if s1.exited then s1 else timerStep inp (hazardReseed inp s1)
  else s

/-- The main loop run over a sequence of inputs, one per iteration. -/
def run (inps : List Input) (s : Game) : Game := inps.foldl (fun t inp => mainLoop inp t) s

/-! ## The camera of `gamescreen` -/

/-- The functions `sin`, `cos` and the constant `M_PI` of `<cmath>`, which the
helicopter view uses; they are parameters of the camera. -/
structure Trig where
  sin : ℚ → ℚ
  cos : ℚ → ℚ
  pi : ℚ

/-- The nine arguments of `glm::lookAt`: eye, target and up vector. -/
structure Camera where
  ex : ℚ
  ey : ℚ
  ez : ℚ
  tx : ℚ
  ty : ℚ
  tz : ℚ
  ux : ℚ
  uy : ℚ
  uz : ℚ
  deriving DecidableEq

/-- `gamescreen`, lines 1944-2019: the camera frame, computed from the current
variables each time round the cube loop; the frame in force when the loop ends
is the one of the state `beforeJump s`. -/
def camera (T : Trig) (s : Game) : Camera :=
  if s.tower_view then
    { ex := 0, ey := 10, ez := 10, tx := 0, ty := 0, tz := 0, ux := 0, uy := 1, uz := 0 }
  else if s.top_view then
    { ex := 0, ey := 10, ez := 0, tx := 0, ty := 0, tz := 3, ux := 0, uy := -1, uz := 0 }
  else if s.follow_view then
    { ex := 0.6 * s.px - 3, ey := 5, ez := 7 + 0.6 * s.pz
      tx := -3 + 0.6 * s.px, ty := 0.5 + s.ry + s.cy, tz := 0.6 * s.pz
      ux := 0, uy := 1, uz := 0 }
  else if s.helicopter_view then
    { ex := T.sin (s.camera_rotation_angle * T.pi / 180) * 10, ey := 2
      ez := T.cos (s.camera_rotation_angle * T.pi / 180) * 10
      tx := 0, ty := 0, tz := 0, ux := 0, uy := 1, uz := 0 }
  else if s.adventure_view then
    { ex := -3 + 0.6 * s.px, ey := 0.5 + s.ry + s.cy + 1, ez := 0.6 * s.pz - 2
      tx := if s.dir = 1 then -3 + 0.6 * s.px
            else if s.dir = 4 then -3 + 0.6 * s.px
            else if s.dir = 2 then -3 + 0.6 * s.px - 5
            else if s.dir = 3 then -3 + 0.6 * s.px + 5
            else -3 + 0.6 * s.px
      ty := 0.5 + s.ry + s.cy
      tz := if s.dir = 1 then 0.6 * s.pz - 5
            else if s.dir = 4 then 0.6 * s.pz + 5
            else 0.6 * s.pz - 2
      ux := 0, uy := 1, uz := 0 }
  else
    { ex := 0.5, ey := 2, ez := 7, tx := 0, ty := 0, tz := 0, ux := 0, uy := 1, uz := 0 }

/-! ## Definitions used in the statements -/

/-- The value of a `float` variable that starts at 0 after `k` executions of
`x += 0.1`: the jump clock `ttime` after `k` ticks of a jump, and
`loading_time` after `k` loading iterations. -/
def tenths : Nat → ℚ
  | 0 => 0
  | k + 1 => floatAdd (tenths k) 0.1

/-- The value of a `float` variable that starts at 0 after `k` executions of
`x += 0.01`: the elevator height `cy` after `k` steps upwards from rest. -/
def hundredths : Nat → ℚ
  | 0 => 0
  | k + 1 => floatAdd (hundredths k) 0.01

/-- A new game `k` loading iterations after New Game was selected. -/
structure LoadingAt (k : Nat) (s : Game) : Prop where
  sc : s.sc_flag = 3
  loading : s.loading_time = tenths k
  lives : s.lives = 3
  score : s.score = 0
  px : s.px = 0
  pz : s.pz = 9
  running : s.exited = false
  unpaused : s.pause = false

/-- The value of `timer` after an iteration that ran a loading tick. -/
def timerAfterLoading (inp : Input) (s : Game) : Int :=
  if inp.timer_update - s.last_timer_update ≥ 1 then 14 else 15

/-- An iteration in which nothing happens outside: cursor at the origin, no
event, clock at 0, every `rand()` returning 0. -/
def quietInput : Input :=
  { xpos := 0, ypos := 0, events := [], current_time := 0, timer_update := 0
    randCoinX := fun _ => 0, randCoinZ := fun _ => 0, randHole := fun _ => 0
    randTile := fun _ => 0, randFireX := fun _ => 0, randFireZ := fun _ => 0 }

/-- The iteration in which Enter is pressed. -/
def enterInput : Input := { quietInput with events := [Event.key Key.ENTER Action.PRESS] }

/-- An iteration at whose end one second has passed on the clock. -/
def lateInput : Input := { quietInput with timer_update := 1 }

/-- The state `inps.length` iterations after the iteration `inp0` in which New Game was selected. -/
def newGameRun (inp0 : Input) (inps : List Input) (s : Game) : Game := run inps (mainLoop inp0 s)

/-- A Play state between two ticks: the initial state with the Play screen
entered at level 1 and the loading interval over. -/
def playState : Game :=
  { initial 0 0 0 0 with sc_flag := 3, init_flag := 4, loading_time := 20.1, level := 1, level_c := 1 }

/-- A Play state with the player on a hole: cell (3,3), hole 2 at index 33. -/
def onHoleState : Game :=
  { playState with px := 3, pz := 3, hole := fun i => if i = 2 then 33 else 0 }

/-- A Play state with the player on the exit cell (9,0) and the counter at 5. -/
def exitState : Game := { playState with px := 9, pz := 0, coin_count := 5 }

/-- A Play state whose timer has run out while the helicopter key is held. -/
def timeoutState : Game := { playState with timer := 0, helicopter_view := true, turn := 1 }

/-- The last level completed with the tower view switched on. -/
def lastExitState : Game := { exitState with level := 3, level_c := 3, tower_view := true }

/-- A Play state in which a jump has just been started from cell (5,5), facing
direction 1, on the initial board. -/
def jumpStart : Game := { playState with px := 5, pz := 5, jump := true }

/-- The player of `jumpStart` after `k` ticks of the jump, as far as the jump
is concerned. -/
structure Jumping (k : Nat) (s : Game) : Prop where
  idle : s.c_i = 0
  jump : s.jump = true
  clock : s.ttime = tenths k
  px : s.px = 5
  pz : s.pz = 5
  dir : s.dir = 1
  hole : s.hole = fun _ => 0
  tile : s.tile = fun _ => 0
  health : s.health = 15

/-- A jump at level 3 from cell (5,5) towards cell (5,4), which is an elevator
tile (index 45) standing at height 0.3. -/
def blockedJump : Game :=
  { playState with
    level := 3, level_c := 3, px := 5, pz := 5, jump := true, cy := 0.3
    tile := fun _ => 45 }

/-- An iteration in which the cursor is found 10 pixels to the right of the origin. -/
def pointerRightInput : Input := { quietInput with xpos := 10 }

/-- A Play state at level 3, on the initial board, with the elevator at rest height 0. -/
def levelThreeState : Game := { playState with level := 3, level_c := 3 }

/-- The elevator of a level-3 game `k` ticks after it started from rest at
height 0, travelling up. -/
structure Rising (k : Nat) (s : Game) : Prop where
  level : s.level = 3
  height : s.cy = hundredths k
  flag : s.b_m = 0

/-- The state at the elevator-tile logic of a level-3 tick: the player has
stepped in direction 1 onto cell (5,5), an elevator tile (index 55) that stands
at height -0.3, well below the player's offset 0. -/
def lowTileState : Game :=
  { playState with level := 3, level_c := 3, px := 5, pz := 5, cy := -0.3, tile := fun _ => 55 }

/-- The same step onto the tile while it stands at height 0.2, above the player. -/
def highTileState : Game :=
  { playState with level := 3, level_c := 3, px := 5, pz := 5, cy := 0.2, tile := fun _ => 55 }

/-- A stand-in for the library's trigonometry, right at the angle the helicopter
view starts from (sin 90° = 1, cos 90° = 0), with 22/7 for pi. -/
def quarterTurn : Trig := { sin := fun _ => 1, cos := fun _ => 0, pi := 22 / 7 }

/-- The player of `onHoleState` on its last life. -/
def lastLifeState : Game := { onHoleState with lives := 1 }

/-- A level-3 Play state between two ticks: the player, with 3 health left, has
stepped in direction 1 onto cell (5,5), an elevator tile (index 55) that stands
at height 0.2. -/
def weakState : Game :=
  { playState with
    level := 3, level_c := 3, px := 5, pz := 5, cy := 0.2, health := 3
    tile := fun _ => 55 }

/-- An iteration with no event in which both clock readings are `t`. -/
def clockInput (t : ℚ) : Input := { quietInput with current_time := t, timer_update := t }

/-- The iterations `k+1, ..., k+n` of a run in which one second passes per
iteration, the clock reading `j` in iteration `j`. -/
def secondsFrom (k : Nat) : Nat → List Input
  | 0 => []
  | n + 1 => clockInput ((k : ℚ) + 1) :: secondsFrom (k + 1) n

/-- A paused Play state. -/
def pausedState : Game := { playState with pause := true }

/-- An iteration whose poll would deliver a press of the pause key. -/
def pauseKeyInput : Input := { quietInput with events := [Event.key Key.P Action.PRESS] }

/-- A level-1 Play state with the player on cell (4,4), where fire slot 0 lies. -/
def fireLevelOneState : Game :=
  { playState with
    px := 4, pz := 4
    fire_x := fun i => if i = 0 then 4 else 0
    fire_z := fun i => if i = 0 then 4 else 0 }

/-- The Menu after a game that ended with coin_count = 2. -/
def menuAfterGame : Game := { initial 0 0 0 0 with coin_count := 2 }

/-- Coin slot `i` has been retired to the sentinel position. -/
def retired (s : Game) (i : Fin 5) : Prop := s.coins_x i = 100 ∧ s.coins_z i = 100

instance (s : Game) (i : Fin 5) : Decidable (retired s i) := by
  unfold retired; infer_instance

/-- What the collection of slot `i` adds to `coin_count` in the coin check:
slots 0, 1 and 4 add 1, slot 2 adds nothing, slot 3 adds 2. -/
def coinWeight (i : Fin 5) : Int := if i = 2 then 0 else if i = 3 then 2 else 1

/-- The number of retired slots among 0, 1 and 4, plus 2 if slot 3 is retired. -/
def collectedCount (s : Game) : Int :=
  (if retired s 0 then 1 else 0) + (if retired s 1 then 1 else 0) +
    (if retired s 4 then 1 else 0) + 2 * (if retired s 3 then 1 else 0)

/-- Consecutive coin checks with no reseed and no level completion between
them: `ps` lists the player's position at each check, and nothing between two
checks writes the coin positions, `coin_count` or `score`. -/
def coinChecks (ps : List (Int × Int)) (s : Game) : Game :=
  ps.foldl (fun t p => coinCheck { t with px := p.1, pz := p.2 }) s

/-- A Play state with coin slots 0 and 1 both on the player's cell (3,3). -/
def twoCoinsState : Game :=
  { playState with
    px := 3, pz := 3
    coins_x := fun i => if i = 0 then 3 else if i = 1 then 3 else 6
    coins_z := fun i => if i = 0 then 3 else if i = 1 then 3 else 6 }

/-- A Play state with the five coins on the cells (1,1), (2,2), (3,3), (4,4), (5,5). -/
def coinsState : Game :=
  { playState with
    coins_x := fun i => (i.val : Int) + 1
    coins_z := fun i => (i.val : Int) + 1 }

/-- The collision checks of this `gamescreen` call find the jump flag set and
clear it: the jump is cut short by an elevator tile. -/
def cutShort (s : Game) : Prop :=
  (beforeCollision s).jump = true ∧ (gamescreen s).jump = false

/-- The loading time is never negative, and on the Play screen, once a loading
tick has run, the timer is at least `b`. -/
def TimerAtLeast (b : Int) (s : Game) : Prop :=
  0 ≤ s.loading_time ∧ (s.sc_flag = 3 → 0 < s.loading_time → b ≤ s.timer)

/-! ## States and inputs of the later statements -/

/-- An iteration in which the hazard reseed is due (five seconds on the clock)
and every `rand()` of the hole draw returns 90. -/
def reseedInput : Input := { quietInput with current_time := 5, randHole := fun _ => 90 }

/-- A Play state with the player on cell (7,3), whose index is 37. -/
def alternateCellState : Game := { playState with px := 7, pz := 3 }

/-- A Play state with the player grounded on cell (5,5), facing direction 1. -/
def groundedState : Game := { playState with px := 5, pz := 5 }

/-- A level-3 Play state between two ticks: the player stands on cell (5,5), an
elevator tile (index 55), with on_tile set and the elevator at height 0,
travelling up. -/
def ridingState : Game :=
  { playState with
    level := 3, level_c := 3, px := 5, pz := 5, on_tile := true
    tile := fun _ => 55 }

/-- The jump key is pressed right after the first tick of `blockedJump`, which
the collision check cut short: the state in which the next jump begins. -/
def secondJump : Game := keyboard Key.SPACE Action.PRESS (gamescreen blockedJump)

/-- A new game half-way through its loading interval. -/
def loadingState : Game := { playState with loading_time := 10, init_flag := 1 }

/-- The decimal representation of a score, left-justified in three characters
and padded on the right with spaces. -/
def scoreText (score : Int) : Fin 3 → Char :=
  fun i => (Nat.repr score.toNat).toList.getD i.val ' '

/-- A level-3 Play state between two ticks: the player, with the coin counter at
5, stands on cell (0,1), an elevator tile (index 10) at height 0.3, facing
direction 3. -/
def aliasState : Game :=
  { playState with
    level := 3, level_c := 3, px := 0, pz := 1, dir := 3, cy := 0.3, coin_count := 5
    tile := fun _ => 10 }

/-- On the Menu: Down, then Enter, with the cursor away from the options. -/
def toControlsInput : Input :=
  { quietInput with events := [Event.key Key.DOWN Action.PRESS, Event.key Key.ENTER Action.PRESS] }

/-- On the Controls screen: the cursor on the back button at (40,40) and the
left mouse button released. -/
def backClickInput : Input :=
  { quietInput with xpos := 40, ypos := 40, events := [Event.mouse Button.LEFT Action.RELEASE] }

/-- The cursor stays on (40,40), no event. -/
def restInput : Input := { quietInput with xpos := 40, ypos := 40 }

/-! ## Frame lemmas

For each piece of code, the variables it does not assign. -/

/-- The variables that `autoAdvance` leaves as they were. -/
@[simp] theorem autoAdvance_frame (s : Game) :
    (autoAdvance s).hover_flag = s.hover_flag ∧ (autoAdvance s).sc_flag = s.sc_flag ∧
    (autoAdvance s).score = s.score ∧ (autoAdvance s).temp_score = s.temp_score ∧
    (autoAdvance s).score_string = s.score_string ∧
    (autoAdvance s).score_display_flag = s.score_display_flag ∧ (autoAdvance s).lives = s.lives ∧
    (autoAdvance s).level = s.level ∧ (autoAdvance s).loading_time = s.loading_time ∧
    (autoAdvance s).init_flag = s.init_flag ∧ (autoAdvance s).pause = s.pause ∧
    (autoAdvance s).jump = s.jump ∧ (autoAdvance s).dir = s.dir ∧ (autoAdvance s).rx = s.rx ∧
    (autoAdvance s).ry = s.ry ∧ (autoAdvance s).hole = s.hole ∧ (autoAdvance s).tile = s.tile ∧
    (autoAdvance s).health = s.health ∧ (autoAdvance s).cy = s.cy ∧ (autoAdvance s).b_m = s.b_m ∧
    (autoAdvance s).on_tile = s.on_tile ∧ (autoAdvance s).coin_count = s.coin_count ∧
    (autoAdvance s).timer = s.timer ∧ (autoAdvance s).tower_view = s.tower_view ∧
    (autoAdvance s).top_view = s.top_view ∧ (autoAdvance s).follow_view = s.follow_view ∧
    (autoAdvance s).helicopter_view = s.helicopter_view ∧
    (autoAdvance s).adventure_view = s.adventure_view ∧ (autoAdvance s).iteration = s.iteration ∧
    (autoAdvance s).turn = s.turn ∧ (autoAdvance s).coins_x = s.coins_x ∧
    (autoAdvance s).coins_z = s.coins_z ∧ (autoAdvance s).fire_x = s.fire_x ∧
    (autoAdvance s).fire_z = s.fire_z ∧ (autoAdvance s).ttime = s.ttime ∧
    (autoAdvance s).level_c = s.level_c ∧ (autoAdvance s).xpos_o = s.xpos_o ∧
    (autoAdvance s).ypos_o = s.ypos_o ∧ (autoAdvance s).last_update_time = s.last_update_time ∧
    (autoAdvance s).last_timer_update = s.last_timer_update ∧ (autoAdvance s).exited = s.exited := by
  unfold autoAdvance
  split_ifs <;> repeat' constructor

/-- The variables that `helicopterTurn` leaves as they were. -/
@[simp] theorem helicopterTurn_frame (s : Game) :
    (helicopterTurn s).hover_flag = s.hover_flag ∧ (helicopterTurn s).sc_flag = s.sc_flag ∧
    (helicopterTurn s).score = s.score ∧ (helicopterTurn s).temp_score = s.temp_score ∧
    (helicopterTurn s).score_string = s.score_string ∧
    (helicopterTurn s).score_display_flag = s.score_display_flag ∧
    (helicopterTurn s).lives = s.lives ∧ (helicopterTurn s).level = s.level ∧
    (helicopterTurn s).loading_time = s.loading_time ∧
    (helicopterTurn s).init_flag = s.init_flag ∧ (helicopterTurn s).pause = s.pause ∧
    (helicopterTurn s).jump = s.jump ∧ (helicopterTurn s).dir = s.dir ∧
    (helicopterTurn s).px = s.px ∧ (helicopterTurn s).pz = s.pz ∧ (helicopterTurn s).rx = s.rx ∧
    (helicopterTurn s).ry = s.ry ∧ (helicopterTurn s).hole = s.hole ∧
    (helicopterTurn s).tile = s.tile ∧ (helicopterTurn s).health = s.health ∧
    (helicopterTurn s).cy = s.cy ∧ (helicopterTurn s).b_m = s.b_m ∧
    (helicopterTurn s).on_tile = s.on_tile ∧ (helicopterTurn s).coin_count = s.coin_count ∧
    (helicopterTurn s).timer = s.timer ∧ (helicopterTurn s).tower_view = s.tower_view ∧
    (helicopterTurn s).top_view = s.top_view ∧ (helicopterTurn s).follow_view = s.follow_view ∧
    (helicopterTurn s).helicopter_view = s.helicopter_view ∧
    (helicopterTurn s).adventure_view = s.adventure_view ∧
    (helicopterTurn s).iteration = s.iteration ∧ (helicopterTurn s).c_i = s.c_i ∧
    (helicopterTurn s).turn = s.turn ∧ (helicopterTurn s).coins_x = s.coins_x ∧
    (helicopterTurn s).coins_z = s.coins_z ∧ (helicopterTurn s).fire_x = s.fire_x ∧
    (helicopterTurn s).fire_z = s.fire_z ∧ (helicopterTurn s).ttime = s.ttime ∧
    (helicopterTurn s).level_c = s.level_c ∧ (helicopterTurn s).xpos_o = s.xpos_o ∧
    (helicopterTurn s).ypos_o = s.ypos_o ∧
    (helicopterTurn s).last_update_time = s.last_update_time ∧
    (helicopterTurn s).last_timer_update = s.last_timer_update ∧
    (helicopterTurn s).exited = s.exited := by
  unfold helicopterTurn
  split_ifs <;> repeat' constructor

/-- The variables that `formatScore` leaves as they were. -/
@[simp] theorem formatScore_frame (s : Game) :
    (formatScore s).hover_flag = s.hover_flag ∧ (formatScore s).sc_flag = s.sc_flag ∧
    (formatScore s).score = s.score ∧ (formatScore s).score_display_flag = s.score_display_flag ∧
    (formatScore s).lives = s.lives ∧ (formatScore s).level = s.level ∧
    (formatScore s).loading_time = s.loading_time ∧ (formatScore s).init_flag = s.init_flag ∧
    (formatScore s).pause = s.pause ∧ (formatScore s).jump = s.jump ∧
    (formatScore s).dir = s.dir ∧ (formatScore s).px = s.px ∧ (formatScore s).pz = s.pz ∧
    (formatScore s).rx = s.rx ∧ (formatScore s).ry = s.ry ∧ (formatScore s).hole = s.hole ∧
    (formatScore s).tile = s.tile ∧ (formatScore s).health = s.health ∧
    (formatScore s).cy = s.cy ∧ (formatScore s).b_m = s.b_m ∧
    (formatScore s).on_tile = s.on_tile ∧ (formatScore s).coin_count = s.coin_count ∧
    (formatScore s).timer = s.timer ∧ (formatScore s).tower_view = s.tower_view ∧
    (formatScore s).top_view = s.top_view ∧ (formatScore s).follow_view = s.follow_view ∧
    (formatScore s).helicopter_view = s.helicopter_view ∧
    (formatScore s).adventure_view = s.adventure_view ∧ (formatScore s).iteration = s.iteration ∧
    (formatScore s).c_i = s.c_i ∧ (formatScore s).turn = s.turn ∧
    (formatScore s).camera_rotation_angle = s.camera_rotation_angle ∧
    (formatScore s).coins_x = s.coins_x ∧ (formatScore s).coins_z = s.coins_z ∧
    (formatScore s).fire_x = s.fire_x ∧ (formatScore s).fire_z = s.fire_z ∧
    (formatScore s).ttime = s.ttime ∧ (formatScore s).level_c = s.level_c ∧
    (formatScore s).xpos_o = s.xpos_o ∧ (formatScore s).ypos_o = s.ypos_o ∧
    (formatScore s).last_update_time = s.last_update_time ∧
    (formatScore s).last_timer_update = s.last_timer_update ∧ (formatScore s).exited = s.exited := by
  unfold formatScore
  dsimp only
  split_ifs <;> repeat' constructor

/-- The variables that `formatTimer` leaves as they were. -/
@[simp] theorem formatTimer_frame (s : Game) :
    (formatTimer s).hover_flag = s.hover_flag ∧ (formatTimer s).sc_flag = s.sc_flag ∧
    (formatTimer s).score = s.score ∧ (formatTimer s).temp_score = s.temp_score ∧
    (formatTimer s).score_string = s.score_string ∧
    (formatTimer s).score_display_flag = s.score_display_flag ∧ (formatTimer s).lives = s.lives ∧
    (formatTimer s).level = s.level ∧ (formatTimer s).loading_time = s.loading_time ∧
    (formatTimer s).init_flag = s.init_flag ∧ (formatTimer s).pause = s.pause ∧
    (formatTimer s).jump = s.jump ∧ (formatTimer s).dir = s.dir ∧ (formatTimer s).px = s.px ∧
    (formatTimer s).pz = s.pz ∧ (formatTimer s).rx = s.rx ∧ (formatTimer s).ry = s.ry ∧
    (formatTimer s).hole = s.hole ∧ (formatTimer s).tile = s.tile ∧
    (formatTimer s).health = s.health ∧ (formatTimer s).cy = s.cy ∧ (formatTimer s).b_m = s.b_m ∧
    (formatTimer s).on_tile = s.on_tile ∧ (formatTimer s).coin_count = s.coin_count ∧
    (formatTimer s).timer = s.timer ∧ (formatTimer s).tower_view = s.tower_view ∧
    (formatTimer s).top_view = s.top_view ∧ (formatTimer s).follow_view = s.follow_view ∧
    (formatTimer s).helicopter_view = s.helicopter_view ∧
    (formatTimer s).adventure_view = s.adventure_view ∧ (formatTimer s).iteration = s.iteration ∧
    (formatTimer s).c_i = s.c_i ∧ (formatTimer s).turn = s.turn ∧
    (formatTimer s).camera_rotation_angle = s.camera_rotation_angle ∧
    (formatTimer s).coins_x = s.coins_x ∧ (formatTimer s).coins_z = s.coins_z ∧
    (formatTimer s).fire_x = s.fire_x ∧ (formatTimer s).fire_z = s.fire_z ∧
    (formatTimer s).ttime = s.ttime ∧ (formatTimer s).level_c = s.level_c ∧
    (formatTimer s).xpos_o = s.xpos_o ∧ (formatTimer s).ypos_o = s.ypos_o ∧
    (formatTimer s).last_update_time = s.last_update_time ∧
    (formatTimer s).last_timer_update = s.last_timer_update ∧ (formatTimer s).exited = s.exited := by
  repeat' constructor

/-- The variables that `elevatorTop` leaves as they were. -/
@[simp] theorem elevatorTop_frame (s : Game) :
    (elevatorTop s).hover_flag = s.hover_flag ∧ (elevatorTop s).sc_flag = s.sc_flag ∧
    (elevatorTop s).score = s.score ∧ (elevatorTop s).temp_score = s.temp_score ∧
    (elevatorTop s).score_string = s.score_string ∧ (elevatorTop s).time_string = s.time_string ∧
    (elevatorTop s).level_string = s.level_string ∧
    (elevatorTop s).score_display_flag = s.score_display_flag ∧ (elevatorTop s).lives = s.lives ∧
    (elevatorTop s).level = s.level ∧ (elevatorTop s).loading_time = s.loading_time ∧
    (elevatorTop s).init_flag = s.init_flag ∧ (elevatorTop s).pause = s.pause ∧
    (elevatorTop s).jump = s.jump ∧ (elevatorTop s).dir = s.dir ∧ (elevatorTop s).px = s.px ∧
    (elevatorTop s).pz = s.pz ∧ (elevatorTop s).rx = s.rx ∧ (elevatorTop s).ry = s.ry ∧
    (elevatorTop s).hole = s.hole ∧ (elevatorTop s).tile = s.tile ∧
    (elevatorTop s).health = s.health ∧ (elevatorTop s).on_tile = s.on_tile ∧
    (elevatorTop s).coin_count = s.coin_count ∧ (elevatorTop s).timer = s.timer ∧
    (elevatorTop s).time_c = s.time_c ∧ (elevatorTop s).tower_view = s.tower_view ∧
    (elevatorTop s).top_view = s.top_view ∧ (elevatorTop s).follow_view = s.follow_view ∧
    (elevatorTop s).helicopter_view = s.helicopter_view ∧
    (elevatorTop s).adventure_view = s.adventure_view ∧ (elevatorTop s).iteration = s.iteration ∧
    (elevatorTop s).c_i = s.c_i ∧ (elevatorTop s).turn = s.turn ∧
    (elevatorTop s).camera_rotation_angle = s.camera_rotation_angle ∧
    (elevatorTop s).coins_x = s.coins_x ∧ (elevatorTop s).coins_z = s.coins_z ∧
    (elevatorTop s).fire_x = s.fire_x ∧ (elevatorTop s).fire_z = s.fire_z ∧
    (elevatorTop s).ttime = s.ttime ∧ (elevatorTop s).level_c = s.level_c ∧
    (elevatorTop s).xpos_o = s.xpos_o ∧ (elevatorTop s).ypos_o = s.ypos_o ∧
    (elevatorTop s).last_update_time = s.last_update_time ∧
    (elevatorTop s).last_timer_update = s.last_timer_update ∧ (elevatorTop s).exited = s.exited := by
  unfold elevatorTop
  split_ifs <;> repeat' constructor

/-- The variables that `elevatorBottom` leaves as they were. -/
@[simp] theorem elevatorBottom_frame (s : Game) :
    (elevatorBottom s).hover_flag = s.hover_flag ∧ (elevatorBottom s).sc_flag = s.sc_flag ∧
    (elevatorBottom s).score = s.score ∧ (elevatorBottom s).temp_score = s.temp_score ∧
    (elevatorBottom s).score_string = s.score_string ∧
    (elevatorBottom s).time_string = s.time_string ∧
    (elevatorBottom s).level_string = s.level_string ∧
    (elevatorBottom s).score_display_flag = s.score_display_flag ∧
    (elevatorBottom s).lives = s.lives ∧ (elevatorBottom s).level = s.level ∧
    (elevatorBottom s).loading_time = s.loading_time ∧
    (elevatorBottom s).init_flag = s.init_flag ∧ (elevatorBottom s).pause = s.pause ∧
    (elevatorBottom s).jump = s.jump ∧ (elevatorBottom s).dir = s.dir ∧
    (elevatorBottom s).px = s.px ∧ (elevatorBottom s).pz = s.pz ∧ (elevatorBottom s).rx = s.rx ∧
    (elevatorBottom s).ry = s.ry ∧ (elevatorBottom s).hole = s.hole ∧
    (elevatorBottom s).tile = s.tile ∧ (elevatorBottom s).health = s.health ∧
    (elevatorBottom s).on_tile = s.on_tile ∧ (elevatorBottom s).coin_count = s.coin_count ∧
    (elevatorBottom s).timer = s.timer ∧ (elevatorBottom s).time_c = s.time_c ∧
    (elevatorBottom s).tower_view = s.tower_view ∧ (elevatorBottom s).top_view = s.top_view ∧
    (elevatorBottom s).follow_view = s.follow_view ∧
    (elevatorBottom s).helicopter_view = s.helicopter_view ∧
    (elevatorBottom s).adventure_view = s.adventure_view ∧
    (elevatorBottom s).iteration = s.iteration ∧ (elevatorBottom s).c_i = s.c_i ∧
    (elevatorBottom s).turn = s.turn ∧
    (elevatorBottom s).camera_rotation_angle = s.camera_rotation_angle ∧
    (elevatorBottom s).coins_x = s.coins_x ∧ (elevatorBottom s).coins_z = s.coins_z ∧
    (elevatorBottom s).fire_x = s.fire_x ∧ (elevatorBottom s).fire_z = s.fire_z ∧
    (elevatorBottom s).ttime = s.ttime ∧ (elevatorBottom s).level_c = s.level_c ∧
    (elevatorBottom s).xpos_o = s.xpos_o ∧ (elevatorBottom s).ypos_o = s.ypos_o ∧
    (elevatorBottom s).last_update_time = s.last_update_time ∧
    (elevatorBottom s).last_timer_update = s.last_timer_update ∧
    (elevatorBottom s).exited = s.exited := by
  unfold elevatorBottom
  split_ifs <;> repeat' constructor

/-- The variables that `elevatorMove` leaves as they were. -/
@[simp] theorem elevatorMove_frame (s : Game) :
    (elevatorMove s).hover_flag = s.hover_flag ∧ (elevatorMove s).sc_flag = s.sc_flag ∧
    (elevatorMove s).score = s.score ∧ (elevatorMove s).temp_score = s.temp_score ∧
    (elevatorMove s).score_string = s.score_string ∧
    (elevatorMove s).time_string = s.time_string ∧
    (elevatorMove s).level_string = s.level_string ∧
    (elevatorMove s).score_display_flag = s.score_display_flag ∧
    (elevatorMove s).lives = s.lives ∧ (elevatorMove s).level = s.level ∧
    (elevatorMove s).loading_time = s.loading_time ∧ (elevatorMove s).init_flag = s.init_flag ∧
    (elevatorMove s).pause = s.pause ∧ (elevatorMove s).jump = s.jump ∧
    (elevatorMove s).dir = s.dir ∧ (elevatorMove s).px = s.px ∧ (elevatorMove s).pz = s.pz ∧
    (elevatorMove s).rx = s.rx ∧ (elevatorMove s).ry = s.ry ∧ (elevatorMove s).hole = s.hole ∧
    (elevatorMove s).tile = s.tile ∧ (elevatorMove s).health = s.health ∧
    (elevatorMove s).on_tile = s.on_tile ∧ (elevatorMove s).coin_count = s.coin_count ∧
    (elevatorMove s).timer = s.timer ∧ (elevatorMove s).time_c = s.time_c ∧
    (elevatorMove s).tower_view = s.tower_view ∧ (elevatorMove s).top_view = s.top_view ∧
    (elevatorMove s).follow_view = s.follow_view ∧
    (elevatorMove s).helicopter_view = s.helicopter_view ∧
    (elevatorMove s).adventure_view = s.adventure_view ∧
    (elevatorMove s).iteration = s.iteration ∧ (elevatorMove s).c_i = s.c_i ∧
    (elevatorMove s).turn = s.turn ∧
    (elevatorMove s).camera_rotation_angle = s.camera_rotation_angle ∧
    (elevatorMove s).coins_x = s.coins_x ∧ (elevatorMove s).coins_z = s.coins_z ∧
    (elevatorMove s).fire_x = s.fire_x ∧ (elevatorMove s).fire_z = s.fire_z ∧
    (elevatorMove s).ttime = s.ttime ∧ (elevatorMove s).level_c = s.level_c ∧
    (elevatorMove s).xpos_o = s.xpos_o ∧ (elevatorMove s).ypos_o = s.ypos_o ∧
    (elevatorMove s).last_update_time = s.last_update_time ∧
    (elevatorMove s).last_timer_update = s.last_timer_update ∧ (elevatorMove s).exited = s.exited := by
  unfold elevatorMove
  split_ifs <;> repeat' constructor

/-- The variables that `elevatorStep` leaves as they were. -/
@[simp] theorem elevatorStep_frame (s : Game) :
    (elevatorStep s).hover_flag = s.hover_flag ∧ (elevatorStep s).sc_flag = s.sc_flag ∧
    (elevatorStep s).score = s.score ∧ (elevatorStep s).temp_score = s.temp_score ∧
    (elevatorStep s).score_string = s.score_string ∧
    (elevatorStep s).time_string = s.time_string ∧
    (elevatorStep s).level_string = s.level_string ∧
    (elevatorStep s).score_display_flag = s.score_display_flag ∧
    (elevatorStep s).lives = s.lives ∧ (elevatorStep s).level = s.level ∧
    (elevatorStep s).loading_time = s.loading_time ∧ (elevatorStep s).init_flag = s.init_flag ∧
    (elevatorStep s).pause = s.pause ∧ (elevatorStep s).jump = s.jump ∧
    (elevatorStep s).dir = s.dir ∧ (elevatorStep s).px = s.px ∧ (elevatorStep s).pz = s.pz ∧
    (elevatorStep s).rx = s.rx ∧ (elevatorStep s).ry = s.ry ∧ (elevatorStep s).hole = s.hole ∧
    (elevatorStep s).tile = s.tile ∧ (elevatorStep s).health = s.health ∧
    (elevatorStep s).on_tile = s.on_tile ∧ (elevatorStep s).coin_count = s.coin_count ∧
    (elevatorStep s).timer = s.timer ∧ (elevatorStep s).time_c = s.time_c ∧
    (elevatorStep s).tower_view = s.tower_view ∧ (elevatorStep s).top_view = s.top_view ∧
    (elevatorStep s).follow_view = s.follow_view ∧
    (elevatorStep s).helicopter_view = s.helicopter_view ∧
    (elevatorStep s).adventure_view = s.adventure_view ∧
    (elevatorStep s).iteration = s.iteration ∧ (elevatorStep s).c_i = s.c_i ∧
    (elevatorStep s).turn = s.turn ∧
    (elevatorStep s).camera_rotation_angle = s.camera_rotation_angle ∧
    (elevatorStep s).coins_x = s.coins_x ∧ (elevatorStep s).coins_z = s.coins_z ∧
    (elevatorStep s).fire_x = s.fire_x ∧ (elevatorStep s).fire_z = s.fire_z ∧
    (elevatorStep s).ttime = s.ttime ∧ (elevatorStep s).level_c = s.level_c ∧
    (elevatorStep s).xpos_o = s.xpos_o ∧ (elevatorStep s).ypos_o = s.ypos_o ∧
    (elevatorStep s).last_update_time = s.last_update_time ∧
    (elevatorStep s).last_timer_update = s.last_timer_update ∧ (elevatorStep s).exited = s.exited := by
  unfold elevatorStep
  split_ifs <;> simp

/-- The variables that `jumpKinematics` leaves as they were. -/
@[simp] theorem jumpKinematics_frame (s : Game) :
    (jumpKinematics s).hover_flag = s.hover_flag ∧ (jumpKinematics s).sc_flag = s.sc_flag ∧
    (jumpKinematics s).score = s.score ∧ (jumpKinematics s).temp_score = s.temp_score ∧
    (jumpKinematics s).score_string = s.score_string ∧
    (jumpKinematics s).time_string = s.time_string ∧
    (jumpKinematics s).level_string = s.level_string ∧
    (jumpKinematics s).score_display_flag = s.score_display_flag ∧
    (jumpKinematics s).lives = s.lives ∧ (jumpKinematics s).level = s.level ∧
    (jumpKinematics s).loading_time = s.loading_time ∧
    (jumpKinematics s).init_flag = s.init_flag ∧ (jumpKinematics s).pause = s.pause ∧
    (jumpKinematics s).dir = s.dir ∧ (jumpKinematics s).px = s.px ∧
    (jumpKinematics s).pz = s.pz ∧ (jumpKinematics s).hole = s.hole ∧
    (jumpKinematics s).tile = s.tile ∧ (jumpKinematics s).health = s.health ∧
    (jumpKinematics s).cy = s.cy ∧ (jumpKinematics s).b_m = s.b_m ∧
    (jumpKinematics s).on_tile = s.on_tile ∧ (jumpKinematics s).coin_count = s.coin_count ∧
    (jumpKinematics s).timer = s.timer ∧ (jumpKinematics s).time_c = s.time_c ∧
    (jumpKinematics s).tower_view = s.tower_view ∧ (jumpKinematics s).top_view = s.top_view ∧
    (jumpKinematics s).follow_view = s.follow_view ∧
    (jumpKinematics s).helicopter_view = s.helicopter_view ∧
    (jumpKinematics s).adventure_view = s.adventure_view ∧
    (jumpKinematics s).iteration = s.iteration ∧ (jumpKinematics s).c_i = s.c_i ∧
    (jumpKinematics s).turn = s.turn ∧
    (jumpKinematics s).camera_rotation_angle = s.camera_rotation_angle ∧
    (jumpKinematics s).coins_x = s.coins_x ∧ (jumpKinematics s).coins_z = s.coins_z ∧
    (jumpKinematics s).fire_x = s.fire_x ∧ (jumpKinematics s).fire_z = s.fire_z ∧
    (jumpKinematics s).level_c = s.level_c ∧ (jumpKinematics s).xpos_o = s.xpos_o ∧
    (jumpKinematics s).ypos_o = s.ypos_o ∧
    (jumpKinematics s).last_update_time = s.last_update_time ∧
    (jumpKinematics s).last_timer_update = s.last_timer_update ∧
    (jumpKinematics s).exited = s.exited := by
  repeat' constructor

/-- The variables that `jumpLand` leaves as they were. -/
@[simp] theorem jumpLand_frame (s : Game) :
    (jumpLand s).sc_flag = s.sc_flag ∧ (jumpLand s).score = s.score ∧
    (jumpLand s).temp_score = s.temp_score ∧ (jumpLand s).score_string = s.score_string ∧
    (jumpLand s).score_display_flag = s.score_display_flag ∧ (jumpLand s).lives = s.lives ∧
    (jumpLand s).level = s.level ∧ (jumpLand s).loading_time = s.loading_time ∧
    (jumpLand s).init_flag = s.init_flag ∧ (jumpLand s).pause = s.pause ∧
    (jumpLand s).jump = s.jump ∧ (jumpLand s).dir = s.dir ∧ (jumpLand s).ry = s.ry ∧
    (jumpLand s).hole = s.hole ∧ (jumpLand s).tile = s.tile ∧ (jumpLand s).health = s.health ∧
    (jumpLand s).cy = s.cy ∧ (jumpLand s).b_m = s.b_m ∧ (jumpLand s).coin_count = s.coin_count ∧
    (jumpLand s).timer = s.timer ∧ (jumpLand s).tower_view = s.tower_view ∧
    (jumpLand s).helicopter_view = s.helicopter_view ∧ (jumpLand s).iteration = s.iteration ∧
    (jumpLand s).turn = s.turn ∧ (jumpLand s).coins_x = s.coins_x ∧
    (jumpLand s).coins_z = s.coins_z ∧ (jumpLand s).fire_x = s.fire_x ∧
    (jumpLand s).fire_z = s.fire_z ∧ (jumpLand s).level_c = s.level_c ∧
    (jumpLand s).xpos_o = s.xpos_o ∧ (jumpLand s).ypos_o = s.ypos_o ∧
    (jumpLand s).last_update_time = s.last_update_time ∧
    (jumpLand s).last_timer_update = s.last_timer_update ∧ (jumpLand s).exited = s.exited := by
  unfold jumpLand
  split_ifs <;> repeat' constructor

/-- The variables that `jumpEnd` leaves as they were. -/
@[simp] theorem jumpEnd_frame (s : Game) :
    (jumpEnd s).sc_flag = s.sc_flag ∧ (jumpEnd s).score = s.score ∧
    (jumpEnd s).temp_score = s.temp_score ∧ (jumpEnd s).score_string = s.score_string ∧
    (jumpEnd s).score_display_flag = s.score_display_flag ∧ (jumpEnd s).lives = s.lives ∧
    (jumpEnd s).level = s.level ∧ (jumpEnd s).loading_time = s.loading_time ∧
    (jumpEnd s).init_flag = s.init_flag ∧ (jumpEnd s).pause = s.pause ∧ (jumpEnd s).dir = s.dir ∧
    (jumpEnd s).hole = s.hole ∧ (jumpEnd s).tile = s.tile ∧ (jumpEnd s).health = s.health ∧
    (jumpEnd s).cy = s.cy ∧ (jumpEnd s).b_m = s.b_m ∧ (jumpEnd s).coin_count = s.coin_count ∧
    (jumpEnd s).timer = s.timer ∧ (jumpEnd s).tower_view = s.tower_view ∧
    (jumpEnd s).helicopter_view = s.helicopter_view ∧ (jumpEnd s).iteration = s.iteration ∧
    (jumpEnd s).turn = s.turn ∧ (jumpEnd s).coins_x = s.coins_x ∧
    (jumpEnd s).coins_z = s.coins_z ∧ (jumpEnd s).fire_x = s.fire_x ∧
    (jumpEnd s).fire_z = s.fire_z ∧ (jumpEnd s).level_c = s.level_c ∧
    (jumpEnd s).xpos_o = s.xpos_o ∧ (jumpEnd s).ypos_o = s.ypos_o ∧
    (jumpEnd s).last_update_time = s.last_update_time ∧
    (jumpEnd s).last_timer_update = s.last_timer_update ∧ (jumpEnd s).exited = s.exited := by
  unfold jumpEnd
  split_ifs <;> simp

/-- The variables that `jumpBlock` leaves as they were. -/
@[simp] theorem jumpBlock_frame (s : Game) :
    (jumpBlock s).sc_flag = s.sc_flag ∧ (jumpBlock s).score = s.score ∧
    (jumpBlock s).temp_score = s.temp_score ∧ (jumpBlock s).score_string = s.score_string ∧
    (jumpBlock s).score_display_flag = s.score_display_flag ∧ (jumpBlock s).lives = s.lives ∧
    (jumpBlock s).level = s.level ∧ (jumpBlock s).loading_time = s.loading_time ∧
    (jumpBlock s).init_flag = s.init_flag ∧ (jumpBlock s).pause = s.pause ∧
    (jumpBlock s).dir = s.dir ∧ (jumpBlock s).hole = s.hole ∧ (jumpBlock s).tile = s.tile ∧
    (jumpBlock s).health = s.health ∧ (jumpBlock s).cy = s.cy ∧ (jumpBlock s).b_m = s.b_m ∧
    (jumpBlock s).coin_count = s.coin_count ∧ (jumpBlock s).timer = s.timer ∧
    (jumpBlock s).tower_view = s.tower_view ∧ (jumpBlock s).helicopter_view = s.helicopter_view ∧
    (jumpBlock s).iteration = s.iteration ∧ (jumpBlock s).turn = s.turn ∧
    (jumpBlock s).coins_x = s.coins_x ∧ (jumpBlock s).coins_z = s.coins_z ∧
    (jumpBlock s).fire_x = s.fire_x ∧ (jumpBlock s).fire_z = s.fire_z ∧
    (jumpBlock s).level_c = s.level_c ∧ (jumpBlock s).xpos_o = s.xpos_o ∧
    (jumpBlock s).ypos_o = s.ypos_o ∧ (jumpBlock s).last_update_time = s.last_update_time ∧
    (jumpBlock s).last_timer_update = s.last_timer_update ∧ (jumpBlock s).exited = s.exited := by
  unfold jumpBlock
  split_ifs <;> simp

/-- The variables that `fatalCheck` leaves as they were. -/
@[simp] theorem fatalCheck_frame (s : Game) :
    (fatalCheck s).sc_flag = s.sc_flag ∧ (fatalCheck s).score = s.score ∧
    (fatalCheck s).temp_score = s.temp_score ∧ (fatalCheck s).score_string = s.score_string ∧
    (fatalCheck s).score_display_flag = s.score_display_flag ∧ (fatalCheck s).level = s.level ∧
    (fatalCheck s).loading_time = s.loading_time ∧ (fatalCheck s).init_flag = s.init_flag ∧
    (fatalCheck s).pause = s.pause ∧ (fatalCheck s).jump = s.jump ∧ (fatalCheck s).dir = s.dir ∧
    (fatalCheck s).rx = s.rx ∧ (fatalCheck s).ry = s.ry ∧ (fatalCheck s).hole = s.hole ∧
    (fatalCheck s).tile = s.tile ∧ (fatalCheck s).cy = s.cy ∧ (fatalCheck s).b_m = s.b_m ∧
    (fatalCheck s).coin_count = s.coin_count ∧ (fatalCheck s).timer = s.timer ∧
    (fatalCheck s).tower_view = s.tower_view ∧
    (fatalCheck s).helicopter_view = s.helicopter_view ∧ (fatalCheck s).iteration = s.iteration ∧
    (fatalCheck s).turn = s.turn ∧ (fatalCheck s).coins_x = s.coins_x ∧
    (fatalCheck s).coins_z = s.coins_z ∧ (fatalCheck s).fire_x = s.fire_x ∧
    (fatalCheck s).fire_z = s.fire_z ∧ (fatalCheck s).ttime = s.ttime ∧
    (fatalCheck s).level_c = s.level_c ∧ (fatalCheck s).xpos_o = s.xpos_o ∧
    (fatalCheck s).ypos_o = s.ypos_o ∧ (fatalCheck s).last_update_time = s.last_update_time ∧
    (fatalCheck s).last_timer_update = s.last_timer_update ∧ (fatalCheck s).exited = s.exited := by
  unfold fatalCheck
  split_ifs <;> repeat' constructor

/-- The variables that `bounceBack` leaves as they were. -/
@[simp] theorem bounceBack_frame (s : Game) :
    (bounceBack s).sc_flag = s.sc_flag ∧ (bounceBack s).score = s.score ∧
    (bounceBack s).temp_score = s.temp_score ∧ (bounceBack s).score_string = s.score_string ∧
    (bounceBack s).score_display_flag = s.score_display_flag ∧ (bounceBack s).lives = s.lives ∧
    (bounceBack s).level = s.level ∧ (bounceBack s).loading_time = s.loading_time ∧
    (bounceBack s).init_flag = s.init_flag ∧ (bounceBack s).pause = s.pause ∧
    (bounceBack s).jump = s.jump ∧ (bounceBack s).dir = s.dir ∧ (bounceBack s).rx = s.rx ∧
    (bounceBack s).ry = s.ry ∧ (bounceBack s).hole = s.hole ∧ (bounceBack s).tile = s.tile ∧
    (bounceBack s).health = s.health ∧ (bounceBack s).cy = s.cy ∧ (bounceBack s).b_m = s.b_m ∧
    (bounceBack s).on_tile = s.on_tile ∧ (bounceBack s).coin_count = s.coin_count ∧
    (bounceBack s).timer = s.timer ∧ (bounceBack s).tower_view = s.tower_view ∧
    (bounceBack s).helicopter_view = s.helicopter_view ∧ (bounceBack s).iteration = s.iteration ∧
    (bounceBack s).turn = s.turn ∧ (bounceBack s).coins_x = s.coins_x ∧
    (bounceBack s).coins_z = s.coins_z ∧ (bounceBack s).fire_x = s.fire_x ∧
    (bounceBack s).fire_z = s.fire_z ∧ (bounceBack s).ttime = s.ttime ∧
    (bounceBack s).level_c = s.level_c ∧ (bounceBack s).xpos_o = s.xpos_o ∧
    (bounceBack s).ypos_o = s.ypos_o ∧ (bounceBack s).last_update_time = s.last_update_time ∧
    (bounceBack s).last_timer_update = s.last_timer_update ∧ (bounceBack s).exited = s.exited := by
  unfold bounceBack
  split_ifs <;> repeat' constructor

/-- The variables that `dropPenalty` leaves as they were. -/
@[simp] theorem dropPenalty_frame (s : Game) :
    (dropPenalty s).sc_flag = s.sc_flag ∧ (dropPenalty s).score = s.score ∧
    (dropPenalty s).temp_score = s.temp_score ∧ (dropPenalty s).score_string = s.score_string ∧
    (dropPenalty s).score_display_flag = s.score_display_flag ∧ (dropPenalty s).lives = s.lives ∧
    (dropPenalty s).level = s.level ∧ (dropPenalty s).loading_time = s.loading_time ∧
    (dropPenalty s).init_flag = s.init_flag ∧ (dropPenalty s).pause = s.pause ∧
    (dropPenalty s).jump = s.jump ∧ (dropPenalty s).dir = s.dir ∧ (dropPenalty s).px = s.px ∧
    (dropPenalty s).pz = s.pz ∧ (dropPenalty s).rx = s.rx ∧ (dropPenalty s).ry = s.ry ∧
    (dropPenalty s).hole = s.hole ∧ (dropPenalty s).tile = s.tile ∧ (dropPenalty s).cy = s.cy ∧
    (dropPenalty s).b_m = s.b_m ∧ (dropPenalty s).coin_count = s.coin_count ∧
    (dropPenalty s).timer = s.timer ∧ (dropPenalty s).tower_view = s.tower_view ∧
    (dropPenalty s).helicopter_view = s.helicopter_view ∧
    (dropPenalty s).iteration = s.iteration ∧ (dropPenalty s).turn = s.turn ∧
    (dropPenalty s).coins_x = s.coins_x ∧ (dropPenalty s).coins_z = s.coins_z ∧
    (dropPenalty s).fire_x = s.fire_x ∧ (dropPenalty s).fire_z = s.fire_z ∧
    (dropPenalty s).ttime = s.ttime ∧ (dropPenalty s).level_c = s.level_c ∧
    (dropPenalty s).xpos_o = s.xpos_o ∧ (dropPenalty s).ypos_o = s.ypos_o ∧
    (dropPenalty s).last_update_time = s.last_update_time ∧
    (dropPenalty s).last_timer_update = s.last_timer_update ∧ (dropPenalty s).exited = s.exited := by
  unfold dropPenalty
  split_ifs <;> repeat' constructor

/-- The variables that `tileLanding` leaves as they were. -/
@[simp] theorem tileLanding_frame (s : Game) :
    (tileLanding s).sc_flag = s.sc_flag ∧ (tileLanding s).score = s.score ∧
    (tileLanding s).temp_score = s.temp_score ∧ (tileLanding s).score_string = s.score_string ∧
    (tileLanding s).score_display_flag = s.score_display_flag ∧ (tileLanding s).lives = s.lives ∧
    (tileLanding s).level = s.level ∧ (tileLanding s).loading_time = s.loading_time ∧
    (tileLanding s).init_flag = s.init_flag ∧ (tileLanding s).pause = s.pause ∧
    (tileLanding s).jump = s.jump ∧ (tileLanding s).dir = s.dir ∧ (tileLanding s).rx = s.rx ∧
    (tileLanding s).ry = s.ry ∧ (tileLanding s).hole = s.hole ∧ (tileLanding s).tile = s.tile ∧
    (tileLanding s).cy = s.cy ∧ (tileLanding s).b_m = s.b_m ∧
    (tileLanding s).coin_count = s.coin_count ∧ (tileLanding s).timer = s.timer ∧
    (tileLanding s).tower_view = s.tower_view ∧
    (tileLanding s).helicopter_view = s.helicopter_view ∧
    (tileLanding s).iteration = s.iteration ∧ (tileLanding s).turn = s.turn ∧
    (tileLanding s).coins_x = s.coins_x ∧ (tileLanding s).coins_z = s.coins_z ∧
    (tileLanding s).fire_x = s.fire_x ∧ (tileLanding s).fire_z = s.fire_z ∧
    (tileLanding s).ttime = s.ttime ∧ (tileLanding s).level_c = s.level_c ∧
    (tileLanding s).xpos_o = s.xpos_o ∧ (tileLanding s).ypos_o = s.ypos_o ∧
    (tileLanding s).last_update_time = s.last_update_time ∧
    (tileLanding s).last_timer_update = s.last_timer_update ∧ (tileLanding s).exited = s.exited := by
  unfold tileLanding
  split_ifs <;> simp

/-- The variables that `jumpCancel` leaves as they were. -/
@[simp] theorem jumpCancel_frame (s : Game) :
    (jumpCancel s).sc_flag = s.sc_flag ∧ (jumpCancel s).score = s.score ∧
    (jumpCancel s).temp_score = s.temp_score ∧ (jumpCancel s).score_string = s.score_string ∧
    (jumpCancel s).score_display_flag = s.score_display_flag ∧ (jumpCancel s).lives = s.lives ∧
    (jumpCancel s).level = s.level ∧ (jumpCancel s).loading_time = s.loading_time ∧
    (jumpCancel s).init_flag = s.init_flag ∧ (jumpCancel s).pause = s.pause ∧
    (jumpCancel s).dir = s.dir ∧ (jumpCancel s).px = s.px ∧ (jumpCancel s).pz = s.pz ∧
    (jumpCancel s).rx = s.rx ∧ (jumpCancel s).hole = s.hole ∧ (jumpCancel s).tile = s.tile ∧
    (jumpCancel s).cy = s.cy ∧ (jumpCancel s).b_m = s.b_m ∧
    (jumpCancel s).coin_count = s.coin_count ∧ (jumpCancel s).timer = s.timer ∧
    (jumpCancel s).tower_view = s.tower_view ∧
    (jumpCancel s).helicopter_view = s.helicopter_view ∧ (jumpCancel s).iteration = s.iteration ∧
    (jumpCancel s).turn = s.turn ∧ (jumpCancel s).coins_x = s.coins_x ∧
    (jumpCancel s).coins_z = s.coins_z ∧ (jumpCancel s).fire_x = s.fire_x ∧
    (jumpCancel s).fire_z = s.fire_z ∧ (jumpCancel s).ttime = s.ttime ∧
    (jumpCancel s).level_c = s.level_c ∧ (jumpCancel s).xpos_o = s.xpos_o ∧
    (jumpCancel s).ypos_o = s.ypos_o ∧ (jumpCancel s).last_update_time = s.last_update_time ∧
    (jumpCancel s).last_timer_update = s.last_timer_update ∧ (jumpCancel s).exited = s.exited := by
  unfold jumpCancel
  split_ifs <;> repeat' constructor

/-- The variables that `collideNorth` leaves as they were. -/
@[simp] theorem collideNorth_frame (s : Game) :
    (collideNorth s).sc_flag = s.sc_flag ∧ (collideNorth s).score = s.score ∧
    (collideNorth s).temp_score = s.temp_score ∧ (collideNorth s).score_string = s.score_string ∧
    (collideNorth s).score_display_flag = s.score_display_flag ∧
    (collideNorth s).lives = s.lives ∧ (collideNorth s).level = s.level ∧
    (collideNorth s).loading_time = s.loading_time ∧ (collideNorth s).init_flag = s.init_flag ∧
    (collideNorth s).pause = s.pause ∧ (collideNorth s).dir = s.dir ∧
    (collideNorth s).px = s.px ∧ (collideNorth s).pz = s.pz ∧ (collideNorth s).hole = s.hole ∧
    (collideNorth s).tile = s.tile ∧ (collideNorth s).cy = s.cy ∧ (collideNorth s).b_m = s.b_m ∧
    (collideNorth s).coin_count = s.coin_count ∧ (collideNorth s).timer = s.timer ∧
    (collideNorth s).tower_view = s.tower_view ∧
    (collideNorth s).helicopter_view = s.helicopter_view ∧
    (collideNorth s).iteration = s.iteration ∧ (collideNorth s).turn = s.turn ∧
    (collideNorth s).coins_x = s.coins_x ∧ (collideNorth s).coins_z = s.coins_z ∧
    (collideNorth s).fire_x = s.fire_x ∧ (collideNorth s).fire_z = s.fire_z ∧
    (collideNorth s).level_c = s.level_c ∧ (collideNorth s).xpos_o = s.xpos_o ∧
    (collideNorth s).ypos_o = s.ypos_o ∧ (collideNorth s).last_update_time = s.last_update_time ∧
    (collideNorth s).last_timer_update = s.last_timer_update ∧ (collideNorth s).exited = s.exited := by
  unfold collideNorth
  split_ifs <;> simp

/-- The variables that `collideSouth` leaves as they were. -/
@[simp] theorem collideSouth_frame (s : Game) :
    (collideSouth s).sc_flag = s.sc_flag ∧ (collideSouth s).score = s.score ∧
    (collideSouth s).temp_score = s.temp_score ∧ (collideSouth s).score_string = s.score_string ∧
    (collideSouth s).score_display_flag = s.score_display_flag ∧
    (collideSouth s).lives = s.lives ∧ (collideSouth s).level = s.level ∧
    (collideSouth s).loading_time = s.loading_time ∧ (collideSouth s).init_flag = s.init_flag ∧
    (collideSouth s).pause = s.pause ∧ (collideSouth s).dir = s.dir ∧
    (collideSouth s).px = s.px ∧ (collideSouth s).pz = s.pz ∧ (collideSouth s).hole = s.hole ∧
    (collideSouth s).tile = s.tile ∧ (collideSouth s).cy = s.cy ∧ (collideSouth s).b_m = s.b_m ∧
    (collideSouth s).coin_count = s.coin_count ∧ (collideSouth s).timer = s.timer ∧
    (collideSouth s).tower_view = s.tower_view ∧
    (collideSouth s).helicopter_view = s.helicopter_view ∧
    (collideSouth s).iteration = s.iteration ∧ (collideSouth s).turn = s.turn ∧
    (collideSouth s).coins_x = s.coins_x ∧ (collideSouth s).coins_z = s.coins_z ∧
    (collideSouth s).fire_x = s.fire_x ∧ (collideSouth s).fire_z = s.fire_z ∧
    (collideSouth s).level_c = s.level_c ∧ (collideSouth s).xpos_o = s.xpos_o ∧
    (collideSouth s).ypos_o = s.ypos_o ∧ (collideSouth s).last_update_time = s.last_update_time ∧
    (collideSouth s).last_timer_update = s.last_timer_update ∧ (collideSouth s).exited = s.exited := by
  unfold collideSouth
  split_ifs <;> simp

/-- The variables that `collideWest` leaves as they were. -/
@[simp] theorem collideWest_frame (s : Game) :
    (collideWest s).sc_flag = s.sc_flag ∧ (collideWest s).score = s.score ∧
    (collideWest s).temp_score = s.temp_score ∧ (collideWest s).score_string = s.score_string ∧
    (collideWest s).score_display_flag = s.score_display_flag ∧ (collideWest s).lives = s.lives ∧
    (collideWest s).level = s.level ∧ (collideWest s).loading_time = s.loading_time ∧
    (collideWest s).init_flag = s.init_flag ∧ (collideWest s).pause = s.pause ∧
    (collideWest s).dir = s.dir ∧ (collideWest s).px = s.px ∧ (collideWest s).pz = s.pz ∧
    (collideWest s).hole = s.hole ∧ (collideWest s).tile = s.tile ∧ (collideWest s).cy = s.cy ∧
    (collideWest s).b_m = s.b_m ∧ (collideWest s).coin_count = s.coin_count ∧
    (collideWest s).timer = s.timer ∧ (collideWest s).tower_view = s.tower_view ∧
    (collideWest s).helicopter_view = s.helicopter_view ∧
    (collideWest s).iteration = s.iteration ∧ (collideWest s).turn = s.turn ∧
    (collideWest s).coins_x = s.coins_x ∧ (collideWest s).coins_z = s.coins_z ∧
    (collideWest s).fire_x = s.fire_x ∧ (collideWest s).fire_z = s.fire_z ∧
    (collideWest s).level_c = s.level_c ∧ (collideWest s).xpos_o = s.xpos_o ∧
    (collideWest s).ypos_o = s.ypos_o ∧ (collideWest s).last_update_time = s.last_update_time ∧
    (collideWest s).last_timer_update = s.last_timer_update ∧ (collideWest s).exited = s.exited := by
  unfold collideWest
  split_ifs <;> simp

/-- The variables that `collideEast` leaves as they were. -/
@[simp] theorem collideEast_frame (s : Game) :
    (collideEast s).sc_flag = s.sc_flag ∧ (collideEast s).score = s.score ∧
    (collideEast s).temp_score = s.temp_score ∧ (collideEast s).score_string = s.score_string ∧
    (collideEast s).score_display_flag = s.score_display_flag ∧ (collideEast s).lives = s.lives ∧
    (collideEast s).level = s.level ∧ (collideEast s).loading_time = s.loading_time ∧
    (collideEast s).init_flag = s.init_flag ∧ (collideEast s).pause = s.pause ∧
    (collideEast s).dir = s.dir ∧ (collideEast s).px = s.px ∧ (collideEast s).pz = s.pz ∧
    (collideEast s).hole = s.hole ∧ (collideEast s).tile = s.tile ∧ (collideEast s).cy = s.cy ∧
    (collideEast s).b_m = s.b_m ∧ (collideEast s).coin_count = s.coin_count ∧
    (collideEast s).timer = s.timer ∧ (collideEast s).tower_view = s.tower_view ∧
    (collideEast s).helicopter_view = s.helicopter_view ∧
    (collideEast s).iteration = s.iteration ∧ (collideEast s).turn = s.turn ∧
    (collideEast s).coins_x = s.coins_x ∧ (collideEast s).coins_z = s.coins_z ∧
    (collideEast s).fire_x = s.fire_x ∧ (collideEast s).fire_z = s.fire_z ∧
    (collideEast s).level_c = s.level_c ∧ (collideEast s).xpos_o = s.xpos_o ∧
    (collideEast s).ypos_o = s.ypos_o ∧ (collideEast s).last_update_time = s.last_update_time ∧
    (collideEast s).last_timer_update = s.last_timer_update ∧ (collideEast s).exited = s.exited := by
  unfold collideEast
  split_ifs <;> simp

/-- The variables that `tileCollision` leaves as they were. -/
@[simp] theorem tileCollision_frame (s : Game) :
    (tileCollision s).sc_flag = s.sc_flag ∧ (tileCollision s).score = s.score ∧
    (tileCollision s).temp_score = s.temp_score ∧
    (tileCollision s).score_string = s.score_string ∧
    (tileCollision s).score_display_flag = s.score_display_flag ∧
    (tileCollision s).lives = s.lives ∧ (tileCollision s).level = s.level ∧
    (tileCollision s).loading_time = s.loading_time ∧ (tileCollision s).init_flag = s.init_flag ∧
    (tileCollision s).pause = s.pause ∧ (tileCollision s).dir = s.dir ∧
    (tileCollision s).px = s.px ∧ (tileCollision s).pz = s.pz ∧ (tileCollision s).hole = s.hole ∧
    (tileCollision s).tile = s.tile ∧ (tileCollision s).cy = s.cy ∧
    (tileCollision s).b_m = s.b_m ∧ (tileCollision s).coin_count = s.coin_count ∧
    (tileCollision s).timer = s.timer ∧ (tileCollision s).tower_view = s.tower_view ∧
    (tileCollision s).helicopter_view = s.helicopter_view ∧
    (tileCollision s).iteration = s.iteration ∧ (tileCollision s).turn = s.turn ∧
    (tileCollision s).coins_x = s.coins_x ∧ (tileCollision s).coins_z = s.coins_z ∧
    (tileCollision s).fire_x = s.fire_x ∧ (tileCollision s).fire_z = s.fire_z ∧
    (tileCollision s).level_c = s.level_c ∧ (tileCollision s).xpos_o = s.xpos_o ∧
    (tileCollision s).ypos_o = s.ypos_o ∧
    (tileCollision s).last_update_time = s.last_update_time ∧
    (tileCollision s).last_timer_update = s.last_timer_update ∧
    (tileCollision s).exited = s.exited := by
  simp [tileCollision]

/-- The variables that `beforeJump` leaves as they were. -/
@[simp] theorem beforeJump_frame (s : Game) :
    (beforeJump s).hover_flag = s.hover_flag ∧ (beforeJump s).sc_flag = s.sc_flag ∧
    (beforeJump s).score = s.score ∧ (beforeJump s).score_display_flag = s.score_display_flag ∧
    (beforeJump s).lives = s.lives ∧ (beforeJump s).level = s.level ∧
    (beforeJump s).loading_time = s.loading_time ∧ (beforeJump s).init_flag = s.init_flag ∧
    (beforeJump s).pause = s.pause ∧ (beforeJump s).jump = s.jump ∧ (beforeJump s).dir = s.dir ∧
    (beforeJump s).rx = s.rx ∧ (beforeJump s).ry = s.ry ∧ (beforeJump s).hole = s.hole ∧
    (beforeJump s).tile = s.tile ∧ (beforeJump s).health = s.health ∧
    (beforeJump s).on_tile = s.on_tile ∧ (beforeJump s).coin_count = s.coin_count ∧
    (beforeJump s).timer = s.timer ∧ (beforeJump s).tower_view = s.tower_view ∧
    (beforeJump s).top_view = s.top_view ∧ (beforeJump s).follow_view = s.follow_view ∧
    (beforeJump s).helicopter_view = s.helicopter_view ∧
    (beforeJump s).adventure_view = s.adventure_view ∧ (beforeJump s).iteration = s.iteration ∧
    (beforeJump s).turn = s.turn ∧ (beforeJump s).coins_x = s.coins_x ∧
    (beforeJump s).coins_z = s.coins_z ∧ (beforeJump s).fire_x = s.fire_x ∧
    (beforeJump s).fire_z = s.fire_z ∧ (beforeJump s).ttime = s.ttime ∧
    (beforeJump s).level_c = s.level_c ∧ (beforeJump s).xpos_o = s.xpos_o ∧
    (beforeJump s).ypos_o = s.ypos_o ∧ (beforeJump s).last_update_time = s.last_update_time ∧
    (beforeJump s).last_timer_update = s.last_timer_update ∧ (beforeJump s).exited = s.exited := by
  simp [beforeJump]

/-- The variables that `beforeFatal` leaves as they were. -/
@[simp] theorem beforeFatal_frame (s : Game) :
    (beforeFatal s).sc_flag = s.sc_flag ∧ (beforeFatal s).score = s.score ∧
    (beforeFatal s).score_display_flag = s.score_display_flag ∧ (beforeFatal s).lives = s.lives ∧
    (beforeFatal s).level = s.level ∧ (beforeFatal s).loading_time = s.loading_time ∧
    (beforeFatal s).init_flag = s.init_flag ∧ (beforeFatal s).pause = s.pause ∧
    (beforeFatal s).dir = s.dir ∧ (beforeFatal s).hole = s.hole ∧ (beforeFatal s).tile = s.tile ∧
    (beforeFatal s).health = s.health ∧ (beforeFatal s).coin_count = s.coin_count ∧
    (beforeFatal s).timer = s.timer ∧ (beforeFatal s).tower_view = s.tower_view ∧
    (beforeFatal s).helicopter_view = s.helicopter_view ∧
    (beforeFatal s).iteration = s.iteration ∧ (beforeFatal s).turn = s.turn ∧
    (beforeFatal s).coins_x = s.coins_x ∧ (beforeFatal s).coins_z = s.coins_z ∧
    (beforeFatal s).fire_x = s.fire_x ∧ (beforeFatal s).fire_z = s.fire_z ∧
    (beforeFatal s).level_c = s.level_c ∧ (beforeFatal s).xpos_o = s.xpos_o ∧
    (beforeFatal s).ypos_o = s.ypos_o ∧ (beforeFatal s).last_update_time = s.last_update_time ∧
    (beforeFatal s).last_timer_update = s.last_timer_update ∧ (beforeFatal s).exited = s.exited := by
  simp [beforeFatal]

/-- The variables that `beforeCollision` leaves as they were. -/
@[simp] theorem beforeCollision_frame (s : Game) :
    (beforeCollision s).sc_flag = s.sc_flag ∧ (beforeCollision s).score = s.score ∧
    (beforeCollision s).score_display_flag = s.score_display_flag ∧
    (beforeCollision s).level = s.level ∧ (beforeCollision s).loading_time = s.loading_time ∧
    (beforeCollision s).init_flag = s.init_flag ∧ (beforeCollision s).pause = s.pause ∧
    (beforeCollision s).dir = s.dir ∧ (beforeCollision s).hole = s.hole ∧
    (beforeCollision s).tile = s.tile ∧ (beforeCollision s).coin_count = s.coin_count ∧
    (beforeCollision s).timer = s.timer ∧ (beforeCollision s).tower_view = s.tower_view ∧
    (beforeCollision s).helicopter_view = s.helicopter_view ∧
    (beforeCollision s).iteration = s.iteration ∧ (beforeCollision s).turn = s.turn ∧
    (beforeCollision s).coins_x = s.coins_x ∧ (beforeCollision s).coins_z = s.coins_z ∧
    (beforeCollision s).fire_x = s.fire_x ∧ (beforeCollision s).fire_z = s.fire_z ∧
    (beforeCollision s).level_c = s.level_c ∧ (beforeCollision s).xpos_o = s.xpos_o ∧
    (beforeCollision s).ypos_o = s.ypos_o ∧
    (beforeCollision s).last_update_time = s.last_update_time ∧
    (beforeCollision s).last_timer_update = s.last_timer_update ∧
    (beforeCollision s).exited = s.exited := by
  simp [beforeCollision]

/-- The variables that `gamescreen` leaves as they were. -/
@[simp] theorem gamescreen_frame (s : Game) :
    (gamescreen s).sc_flag = s.sc_flag ∧ (gamescreen s).score = s.score ∧
    (gamescreen s).score_display_flag = s.score_display_flag ∧ (gamescreen s).level = s.level ∧
    (gamescreen s).loading_time = s.loading_time ∧ (gamescreen s).init_flag = s.init_flag ∧
    (gamescreen s).pause = s.pause ∧ (gamescreen s).dir = s.dir ∧ (gamescreen s).hole = s.hole ∧
    (gamescreen s).tile = s.tile ∧ (gamescreen s).coin_count = s.coin_count ∧
    (gamescreen s).timer = s.timer ∧ (gamescreen s).tower_view = s.tower_view ∧
    (gamescreen s).helicopter_view = s.helicopter_view ∧ (gamescreen s).iteration = s.iteration ∧
    (gamescreen s).turn = s.turn ∧ (gamescreen s).coins_x = s.coins_x ∧
    (gamescreen s).coins_z = s.coins_z ∧ (gamescreen s).fire_x = s.fire_x ∧
    (gamescreen s).fire_z = s.fire_z ∧ (gamescreen s).level_c = s.level_c ∧
    (gamescreen s).xpos_o = s.xpos_o ∧ (gamescreen s).ypos_o = s.ypos_o ∧
    (gamescreen s).last_update_time = s.last_update_time ∧
    (gamescreen s).last_timer_update = s.last_timer_update ∧ (gamescreen s).exited = s.exited := by
  simp [gamescreen]

/-- The variables that `endCheck` leaves as they were. -/
@[simp] theorem endCheck_frame (s : Game) :
    (endCheck s).score = s.score ∧ (endCheck s).score_string = s.score_string ∧
    (endCheck s).score_display_flag = s.score_display_flag ∧ (endCheck s).level = s.level ∧
    (endCheck s).loading_time = s.loading_time ∧ (endCheck s).init_flag = s.init_flag ∧
    (endCheck s).pause = s.pause ∧ (endCheck s).jump = s.jump ∧ (endCheck s).px = s.px ∧
    (endCheck s).pz = s.pz ∧ (endCheck s).hole = s.hole ∧ (endCheck s).tile = s.tile ∧
    (endCheck s).coin_count = s.coin_count ∧ (endCheck s).timer = s.timer ∧
    (endCheck s).helicopter_view = s.helicopter_view ∧ (endCheck s).iteration = s.iteration ∧
    (endCheck s).turn = s.turn ∧ (endCheck s).coins_x = s.coins_x ∧
    (endCheck s).coins_z = s.coins_z ∧ (endCheck s).fire_x = s.fire_x ∧
    (endCheck s).fire_z = s.fire_z ∧ (endCheck s).level_c = s.level_c ∧
    (endCheck s).xpos_o = s.xpos_o ∧ (endCheck s).last_update_time = s.last_update_time ∧
    (endCheck s).last_timer_update = s.last_timer_update ∧ (endCheck s).exited = s.exited := by
  unfold endCheck
  split_ifs <;> repeat' constructor

/-- The variables that `pointerDir` leaves as they were. -/
@[simp] theorem pointerDir_frame (inp : Input) (s : Game) :
    (pointerDir inp s).hover_flag = s.hover_flag ∧ (pointerDir inp s).sc_flag = s.sc_flag ∧
    (pointerDir inp s).score = s.score ∧ (pointerDir inp s).score_string = s.score_string ∧
    (pointerDir inp s).score_display_flag = s.score_display_flag ∧
    (pointerDir inp s).lives = s.lives ∧ (pointerDir inp s).level = s.level ∧
    (pointerDir inp s).loading_time = s.loading_time ∧
    (pointerDir inp s).init_flag = s.init_flag ∧ (pointerDir inp s).pause = s.pause ∧
    (pointerDir inp s).jump = s.jump ∧ (pointerDir inp s).px = s.px ∧
    (pointerDir inp s).pz = s.pz ∧ (pointerDir inp s).hole = s.hole ∧
    (pointerDir inp s).tile = s.tile ∧ (pointerDir inp s).health = s.health ∧
    (pointerDir inp s).coin_count = s.coin_count ∧ (pointerDir inp s).timer = s.timer ∧
    (pointerDir inp s).tower_view = s.tower_view ∧ (pointerDir inp s).top_view = s.top_view ∧
    (pointerDir inp s).follow_view = s.follow_view ∧
    (pointerDir inp s).helicopter_view = s.helicopter_view ∧
    (pointerDir inp s).adventure_view = s.adventure_view ∧
    (pointerDir inp s).iteration = s.iteration ∧ (pointerDir inp s).turn = s.turn ∧
    (pointerDir inp s).coins_x = s.coins_x ∧ (pointerDir inp s).coins_z = s.coins_z ∧
    (pointerDir inp s).fire_x = s.fire_x ∧ (pointerDir inp s).fire_z = s.fire_z ∧
    (pointerDir inp s).level_c = s.level_c ∧
    (pointerDir inp s).last_update_time = s.last_update_time ∧
    (pointerDir inp s).last_timer_update = s.last_timer_update ∧
    (pointerDir inp s).exited = s.exited := by
  repeat' constructor

/-- The variables that `levelStart` leaves as they were. -/
@[simp] theorem levelStart_frame (s : Game) :
    (levelStart s).score = s.score ∧ (levelStart s).score_string = s.score_string ∧
    (levelStart s).score_display_flag = s.score_display_flag ∧ (levelStart s).level = s.level ∧
    (levelStart s).loading_time = s.loading_time ∧ (levelStart s).init_flag = s.init_flag ∧
    (levelStart s).pause = s.pause ∧ (levelStart s).jump = s.jump ∧ (levelStart s).dir = s.dir ∧
    (levelStart s).px = s.px ∧ (levelStart s).pz = s.pz ∧ (levelStart s).hole = s.hole ∧
    (levelStart s).tile = s.tile ∧ (levelStart s).health = s.health ∧
    (levelStart s).coin_count = s.coin_count ∧ (levelStart s).tower_view = s.tower_view ∧
    (levelStart s).top_view = s.top_view ∧ (levelStart s).follow_view = s.follow_view ∧
    (levelStart s).helicopter_view = s.helicopter_view ∧
    (levelStart s).adventure_view = s.adventure_view ∧ (levelStart s).iteration = s.iteration ∧
    (levelStart s).turn = s.turn ∧ (levelStart s).coins_x = s.coins_x ∧
    (levelStart s).coins_z = s.coins_z ∧ (levelStart s).fire_x = s.fire_x ∧
    (levelStart s).fire_z = s.fire_z ∧ (levelStart s).level_c = s.level_c ∧
    (levelStart s).last_update_time = s.last_update_time ∧
    (levelStart s).last_timer_update = s.last_timer_update ∧ (levelStart s).exited = s.exited := by
  unfold levelStart
  split_ifs <;> repeat' constructor

/-- The variables that `completionCheck` leaves as they were. -/
@[simp] theorem completionCheck_frame (s : Game) :
    (completionCheck s).score = s.score ∧ (completionCheck s).score_string = s.score_string ∧
    (completionCheck s).score_display_flag = s.score_display_flag ∧
    (completionCheck s).loading_time = s.loading_time ∧
    (completionCheck s).init_flag = s.init_flag ∧ (completionCheck s).pause = s.pause ∧
    (completionCheck s).jump = s.jump ∧ (completionCheck s).dir = s.dir ∧
    (completionCheck s).hole = s.hole ∧ (completionCheck s).tile = s.tile ∧
    (completionCheck s).health = s.health ∧ (completionCheck s).tower_view = s.tower_view ∧
    (completionCheck s).top_view = s.top_view ∧ (completionCheck s).follow_view = s.follow_view ∧
    (completionCheck s).helicopter_view = s.helicopter_view ∧
    (completionCheck s).adventure_view = s.adventure_view ∧
    (completionCheck s).iteration = s.iteration ∧ (completionCheck s).turn = s.turn ∧
    (completionCheck s).coins_x = s.coins_x ∧ (completionCheck s).coins_z = s.coins_z ∧
    (completionCheck s).fire_x = s.fire_x ∧ (completionCheck s).fire_z = s.fire_z ∧
    (completionCheck s).level_c = s.level_c ∧
    (completionCheck s).last_update_time = s.last_update_time ∧
    (completionCheck s).last_timer_update = s.last_timer_update ∧
    (completionCheck s).exited = s.exited := by
  unfold completionCheck
  split_ifs <;> simp

/-- The variables that `takeCoin` leaves as they were. -/
@[simp] theorem takeCoin_frame (s : Game) (i : Fin 5) :
    (takeCoin s i).hover_flag = s.hover_flag ∧ (takeCoin s i).sc_flag = s.sc_flag ∧
    (takeCoin s i).score_string = s.score_string ∧ (takeCoin s i).lives = s.lives ∧
    (takeCoin s i).level = s.level ∧ (takeCoin s i).loading_time = s.loading_time ∧
    (takeCoin s i).jump = s.jump ∧ (takeCoin s i).dir = s.dir ∧ (takeCoin s i).px = s.px ∧
    (takeCoin s i).pz = s.pz ∧ (takeCoin s i).health = s.health ∧
    (takeCoin s i).coin_count = s.coin_count ∧ (takeCoin s i).timer = s.timer ∧
    (takeCoin s i).tower_view = s.tower_view ∧ (takeCoin s i).top_view = s.top_view ∧
    (takeCoin s i).follow_view = s.follow_view ∧
    (takeCoin s i).helicopter_view = s.helicopter_view ∧
    (takeCoin s i).adventure_view = s.adventure_view ∧ (takeCoin s i).fire_x = s.fire_x ∧
    (takeCoin s i).fire_z = s.fire_z ∧ (takeCoin s i).exited = s.exited := by
  repeat' constructor

/-- The variables that `coinCheck` leaves as they were. -/
@[simp] theorem coinCheck_frame (s : Game) :
    (coinCheck s).hover_flag = s.hover_flag ∧ (coinCheck s).sc_flag = s.sc_flag ∧
    (coinCheck s).score_string = s.score_string ∧ (coinCheck s).lives = s.lives ∧
    (coinCheck s).level = s.level ∧ (coinCheck s).loading_time = s.loading_time ∧
    (coinCheck s).jump = s.jump ∧ (coinCheck s).dir = s.dir ∧ (coinCheck s).px = s.px ∧
    (coinCheck s).pz = s.pz ∧ (coinCheck s).health = s.health ∧ (coinCheck s).timer = s.timer ∧
    (coinCheck s).tower_view = s.tower_view ∧ (coinCheck s).top_view = s.top_view ∧
    (coinCheck s).follow_view = s.follow_view ∧
    (coinCheck s).helicopter_view = s.helicopter_view ∧
    (coinCheck s).adventure_view = s.adventure_view ∧ (coinCheck s).fire_x = s.fire_x ∧
    (coinCheck s).fire_z = s.fire_z ∧ (coinCheck s).exited = s.exited := by
  unfold coinCheck
  split_ifs <;> simp

/-- The variables that `fireCheck` leaves as they were. -/
@[simp] theorem fireCheck_frame (s : Game) :
    (fireCheck s).hover_flag = s.hover_flag ∧ (fireCheck s).sc_flag = s.sc_flag ∧
    (fireCheck s).score = s.score ∧ (fireCheck s).score_string = s.score_string ∧
    (fireCheck s).lives = s.lives ∧ (fireCheck s).level = s.level ∧
    (fireCheck s).loading_time = s.loading_time ∧ (fireCheck s).jump = s.jump ∧
    (fireCheck s).dir = s.dir ∧ (fireCheck s).px = s.px ∧ (fireCheck s).pz = s.pz ∧
    (fireCheck s).coin_count = s.coin_count ∧ (fireCheck s).timer = s.timer ∧
    (fireCheck s).tower_view = s.tower_view ∧ (fireCheck s).top_view = s.top_view ∧
    (fireCheck s).follow_view = s.follow_view ∧
    (fireCheck s).helicopter_view = s.helicopter_view ∧
    (fireCheck s).adventure_view = s.adventure_view ∧ (fireCheck s).coins_x = s.coins_x ∧
    (fireCheck s).coins_z = s.coins_z ∧ (fireCheck s).exited = s.exited := by
  unfold fireCheck
  split_ifs <;> repeat' constructor

/-- The variables that `beforeCompletion` leaves as they were. -/
@[simp] theorem beforeCompletion_frame (inp : Input) (s : Game) :
    (beforeCompletion inp s).score = s.score ∧
    (beforeCompletion inp s).score_display_flag = s.score_display_flag ∧
    (beforeCompletion inp s).level = s.level ∧
    (beforeCompletion inp s).loading_time = s.loading_time ∧
    (beforeCompletion inp s).init_flag = s.init_flag ∧ (beforeCompletion inp s).pause = s.pause ∧
    (beforeCompletion inp s).hole = s.hole ∧ (beforeCompletion inp s).tile = s.tile ∧
    (beforeCompletion inp s).coin_count = s.coin_count ∧
    (beforeCompletion inp s).timer = s.timer ∧
    (beforeCompletion inp s).helicopter_view = s.helicopter_view ∧
    (beforeCompletion inp s).iteration = s.iteration ∧ (beforeCompletion inp s).turn = s.turn ∧
    (beforeCompletion inp s).coins_x = s.coins_x ∧ (beforeCompletion inp s).coins_z = s.coins_z ∧
    (beforeCompletion inp s).fire_x = s.fire_x ∧ (beforeCompletion inp s).fire_z = s.fire_z ∧
    (beforeCompletion inp s).level_c = s.level_c ∧
    (beforeCompletion inp s).last_update_time = s.last_update_time ∧
    (beforeCompletion inp s).last_timer_update = s.last_timer_update ∧
    (beforeCompletion inp s).exited = s.exited := by
  simp [beforeCompletion]

/-- The variables that `beforeCoins` leaves as they were. -/
@[simp] theorem beforeCoins_frame (inp : Input) (s : Game) :
    (beforeCoins inp s).score = s.score ∧
    (beforeCoins inp s).score_display_flag = s.score_display_flag ∧
    (beforeCoins inp s).loading_time = s.loading_time ∧
    (beforeCoins inp s).init_flag = s.init_flag ∧ (beforeCoins inp s).pause = s.pause ∧
    (beforeCoins inp s).hole = s.hole ∧ (beforeCoins inp s).tile = s.tile ∧
    (beforeCoins inp s).helicopter_view = s.helicopter_view ∧
    (beforeCoins inp s).iteration = s.iteration ∧ (beforeCoins inp s).turn = s.turn ∧
    (beforeCoins inp s).coins_x = s.coins_x ∧ (beforeCoins inp s).coins_z = s.coins_z ∧
    (beforeCoins inp s).fire_x = s.fire_x ∧ (beforeCoins inp s).fire_z = s.fire_z ∧
    (beforeCoins inp s).level_c = s.level_c ∧
    (beforeCoins inp s).last_update_time = s.last_update_time ∧
    (beforeCoins inp s).last_timer_update = s.last_timer_update ∧
    (beforeCoins inp s).exited = s.exited := by
  simp [beforeCoins]

/-- The variables that `playTick` leaves as they were. -/
@[simp] theorem playTick_frame (inp : Input) (s : Game) :
    (playTick inp s).loading_time = s.loading_time ∧
    (playTick inp s).helicopter_view = s.helicopter_view ∧ (playTick inp s).exited = s.exited := by
  simp [playTick]

/-- The variables that `loadingTick` leaves as they were. -/
@[simp] theorem loadingTick_frame (s : Game) :
    (loadingTick s).sc_flag = s.sc_flag ∧ (loadingTick s).score = s.score ∧
    (loadingTick s).lives = s.lives ∧ (loadingTick s).loading_time = s.loading_time ∧
    (loadingTick s).dir = s.dir ∧ (loadingTick s).px = s.px ∧ (loadingTick s).pz = s.pz ∧
    (loadingTick s).coin_count = s.coin_count ∧ (loadingTick s).exited = s.exited := by
  repeat' constructor

/-- The variables that `coinReseed` leaves as they were. -/
@[simp] theorem coinReseed_frame (inp : Input) (s : Game) :
    (coinReseed inp s).hover_flag = s.hover_flag ∧ (coinReseed inp s).sc_flag = s.sc_flag ∧
    (coinReseed inp s).score = s.score ∧ (coinReseed inp s).temp_score = s.temp_score ∧
    (coinReseed inp s).score_string = s.score_string ∧
    (coinReseed inp s).time_string = s.time_string ∧
    (coinReseed inp s).level_string = s.level_string ∧
    (coinReseed inp s).score_display_flag = s.score_display_flag ∧
    (coinReseed inp s).lives = s.lives ∧ (coinReseed inp s).level = s.level ∧
    (coinReseed inp s).loading_time = s.loading_time ∧
    (coinReseed inp s).init_flag = s.init_flag ∧ (coinReseed inp s).pause = s.pause ∧
    (coinReseed inp s).jump = s.jump ∧ (coinReseed inp s).dir = s.dir ∧
    (coinReseed inp s).px = s.px ∧ (coinReseed inp s).pz = s.pz ∧ (coinReseed inp s).rx = s.rx ∧
    (coinReseed inp s).ry = s.ry ∧ (coinReseed inp s).health = s.health ∧
    (coinReseed inp s).cy = s.cy ∧ (coinReseed inp s).b_m = s.b_m ∧
    (coinReseed inp s).on_tile = s.on_tile ∧ (coinReseed inp s).coin_count = s.coin_count ∧
    (coinReseed inp s).timer = s.timer ∧ (coinReseed inp s).time_c = s.time_c ∧
    (coinReseed inp s).tower_view = s.tower_view ∧ (coinReseed inp s).top_view = s.top_view ∧
    (coinReseed inp s).follow_view = s.follow_view ∧
    (coinReseed inp s).helicopter_view = s.helicopter_view ∧
    (coinReseed inp s).adventure_view = s.adventure_view ∧
    (coinReseed inp s).iteration = s.iteration ∧ (coinReseed inp s).c_i = s.c_i ∧
    (coinReseed inp s).turn = s.turn ∧
    (coinReseed inp s).camera_rotation_angle = s.camera_rotation_angle ∧
    (coinReseed inp s).ttime = s.ttime ∧ (coinReseed inp s).xpos_o = s.xpos_o ∧
    (coinReseed inp s).ypos_o = s.ypos_o ∧
    (coinReseed inp s).last_timer_update = s.last_timer_update ∧
    (coinReseed inp s).exited = s.exited := by
  unfold coinReseed
  split_ifs <;> repeat' constructor

/-- The variables that `loadingAdvance` leaves as they were. -/
@[simp] theorem loadingAdvance_frame (s : Game) :
    (loadingAdvance s).hover_flag = s.hover_flag ∧ (loadingAdvance s).sc_flag = s.sc_flag ∧
    (loadingAdvance s).score = s.score ∧ (loadingAdvance s).temp_score = s.temp_score ∧
    (loadingAdvance s).score_string = s.score_string ∧
    (loadingAdvance s).time_string = s.time_string ∧
    (loadingAdvance s).level_string = s.level_string ∧
    (loadingAdvance s).score_display_flag = s.score_display_flag ∧
    (loadingAdvance s).lives = s.lives ∧ (loadingAdvance s).pause = s.pause ∧
    (loadingAdvance s).jump = s.jump ∧ (loadingAdvance s).dir = s.dir ∧
    (loadingAdvance s).px = s.px ∧ (loadingAdvance s).pz = s.pz ∧ (loadingAdvance s).rx = s.rx ∧
    (loadingAdvance s).ry = s.ry ∧ (loadingAdvance s).hole = s.hole ∧
    (loadingAdvance s).tile = s.tile ∧ (loadingAdvance s).health = s.health ∧
    (loadingAdvance s).b_m = s.b_m ∧ (loadingAdvance s).on_tile = s.on_tile ∧
    (loadingAdvance s).coin_count = s.coin_count ∧ (loadingAdvance s).time_c = s.time_c ∧
    (loadingAdvance s).tower_view = s.tower_view ∧ (loadingAdvance s).top_view = s.top_view ∧
    (loadingAdvance s).follow_view = s.follow_view ∧
    (loadingAdvance s).helicopter_view = s.helicopter_view ∧
    (loadingAdvance s).adventure_view = s.adventure_view ∧
    (loadingAdvance s).iteration = s.iteration ∧ (loadingAdvance s).c_i = s.c_i ∧
    (loadingAdvance s).turn = s.turn ∧
    (loadingAdvance s).camera_rotation_angle = s.camera_rotation_angle ∧
    (loadingAdvance s).coins_x = s.coins_x ∧ (loadingAdvance s).coins_z = s.coins_z ∧
    (loadingAdvance s).fire_x = s.fire_x ∧ (loadingAdvance s).fire_z = s.fire_z ∧
    (loadingAdvance s).ttime = s.ttime ∧ (loadingAdvance s).xpos_o = s.xpos_o ∧
    (loadingAdvance s).ypos_o = s.ypos_o ∧
    (loadingAdvance s).last_update_time = s.last_update_time ∧
    (loadingAdvance s).last_timer_update = s.last_timer_update ∧
    (loadingAdvance s).exited = s.exited := by
  unfold loadingAdvance
  split_ifs <;> repeat' constructor

/-- The variables that `initDone` leaves as they were. -/
@[simp] theorem initDone_frame (s : Game) :
    (initDone s).hover_flag = s.hover_flag ∧ (initDone s).sc_flag = s.sc_flag ∧
    (initDone s).score = s.score ∧ (initDone s).lives = s.lives ∧
    (initDone s).loading_time = s.loading_time ∧ (initDone s).dir = s.dir ∧
    (initDone s).px = s.px ∧ (initDone s).pz = s.pz ∧ (initDone s).health = s.health ∧
    (initDone s).coin_count = s.coin_count ∧ (initDone s).timer = s.timer ∧
    (initDone s).exited = s.exited := by
  unfold initDone
  split_ifs <;> repeat' constructor

/-- The variables that `playOrLoad` leaves as they were. -/
@[simp] theorem playOrLoad_frame (inp : Input) (s : Game) :
    (playOrLoad inp s).loading_time = s.loading_time ∧ (playOrLoad inp s).exited = s.exited := by
  unfold playOrLoad
  split_ifs <;> simp

/-- The variables that `gameStep` leaves as they were. -/
@[simp] theorem gameStep_frame (inp : Input) (s : Game) :
    (gameStep inp s).exited = s.exited := by
  simp [gameStep]

/-- The variables that `menuStep` leaves as they were. -/
@[simp] theorem menuStep_frame (inp : Input) (s : Game) :
    (menuStep inp s).sc_flag = s.sc_flag ∧ (menuStep inp s).temp_score = s.temp_score ∧
    (menuStep inp s).score_string = s.score_string ∧
    (menuStep inp s).time_string = s.time_string ∧
    (menuStep inp s).level_string = s.level_string ∧
    (menuStep inp s).score_display_flag = s.score_display_flag ∧
    (menuStep inp s).lives = s.lives ∧ (menuStep inp s).loading_time = s.loading_time ∧
    (menuStep inp s).pause = s.pause ∧ (menuStep inp s).rx = s.rx ∧ (menuStep inp s).ry = s.ry ∧
    (menuStep inp s).hole = s.hole ∧ (menuStep inp s).tile = s.tile ∧
    (menuStep inp s).health = s.health ∧ (menuStep inp s).cy = s.cy ∧
    (menuStep inp s).b_m = s.b_m ∧ (menuStep inp s).on_tile = s.on_tile ∧
    (menuStep inp s).coin_count = s.coin_count ∧ (menuStep inp s).timer = s.timer ∧
    (menuStep inp s).time_c = s.time_c ∧ (menuStep inp s).tower_view = s.tower_view ∧
    (menuStep inp s).top_view = s.top_view ∧ (menuStep inp s).follow_view = s.follow_view ∧
    (menuStep inp s).helicopter_view = s.helicopter_view ∧
    (menuStep inp s).adventure_view = s.adventure_view ∧
    (menuStep inp s).iteration = s.iteration ∧ (menuStep inp s).c_i = s.c_i ∧
    (menuStep inp s).turn = s.turn ∧
    (menuStep inp s).camera_rotation_angle = s.camera_rotation_angle ∧
    (menuStep inp s).coins_x = s.coins_x ∧ (menuStep inp s).coins_z = s.coins_z ∧
    (menuStep inp s).fire_x = s.fire_x ∧ (menuStep inp s).fire_z = s.fire_z ∧
    (menuStep inp s).ttime = s.ttime ∧ (menuStep inp s).level_c = s.level_c ∧
    (menuStep inp s).xpos_o = s.xpos_o ∧ (menuStep inp s).ypos_o = s.ypos_o ∧
    (menuStep inp s).last_update_time = s.last_update_time ∧
    (menuStep inp s).last_timer_update = s.last_timer_update ∧ (menuStep inp s).exited = s.exited := by
  repeat' constructor

/-- The variables that `controlsStep` leaves as they were. -/
@[simp] theorem controlsStep_frame (inp : Input) (s : Game) :
    (controlsStep inp s).sc_flag = s.sc_flag ∧ (controlsStep inp s).lives = s.lives ∧
    (controlsStep inp s).loading_time = s.loading_time ∧ (controlsStep inp s).pause = s.pause ∧
    (controlsStep inp s).health = s.health ∧ (controlsStep inp s).coin_count = s.coin_count ∧
    (controlsStep inp s).exited = s.exited := by
  repeat' constructor

/-- The variables that `endStep` leaves as they were. -/
@[simp] theorem endStep_frame (inp : Input) (s : Game) :
    (endStep inp s).sc_flag = s.sc_flag ∧ (endStep inp s).lives = s.lives ∧
    (endStep inp s).loading_time = s.loading_time ∧ (endStep inp s).health = s.health ∧
    (endStep inp s).coin_count = s.coin_count := by
  repeat' constructor

/-- The variables that `holeDraw` leaves as they were. -/
@[simp] theorem holeDraw_frame (inp : Input) (s : Game) (i : Fin 5) :
    (holeDraw inp s i).hover_flag = s.hover_flag ∧ (holeDraw inp s i).sc_flag = s.sc_flag ∧
    (holeDraw inp s i).score = s.score ∧ (holeDraw inp s i).temp_score = s.temp_score ∧
    (holeDraw inp s i).score_string = s.score_string ∧
    (holeDraw inp s i).time_string = s.time_string ∧
    (holeDraw inp s i).level_string = s.level_string ∧
    (holeDraw inp s i).score_display_flag = s.score_display_flag ∧
    (holeDraw inp s i).lives = s.lives ∧ (holeDraw inp s i).level = s.level ∧
    (holeDraw inp s i).loading_time = s.loading_time ∧
    (holeDraw inp s i).init_flag = s.init_flag ∧ (holeDraw inp s i).pause = s.pause ∧
    (holeDraw inp s i).jump = s.jump ∧ (holeDraw inp s i).dir = s.dir ∧
    (holeDraw inp s i).px = s.px ∧ (holeDraw inp s i).pz = s.pz ∧ (holeDraw inp s i).rx = s.rx ∧
    (holeDraw inp s i).ry = s.ry ∧ (holeDraw inp s i).health = s.health ∧
    (holeDraw inp s i).cy = s.cy ∧ (holeDraw inp s i).b_m = s.b_m ∧
    (holeDraw inp s i).on_tile = s.on_tile ∧ (holeDraw inp s i).coin_count = s.coin_count ∧
    (holeDraw inp s i).timer = s.timer ∧ (holeDraw inp s i).time_c = s.time_c ∧
    (holeDraw inp s i).tower_view = s.tower_view ∧ (holeDraw inp s i).top_view = s.top_view ∧
    (holeDraw inp s i).follow_view = s.follow_view ∧
    (holeDraw inp s i).helicopter_view = s.helicopter_view ∧
    (holeDraw inp s i).adventure_view = s.adventure_view ∧
    (holeDraw inp s i).iteration = s.iteration ∧ (holeDraw inp s i).c_i = s.c_i ∧
    (holeDraw inp s i).turn = s.turn ∧
    (holeDraw inp s i).camera_rotation_angle = s.camera_rotation_angle ∧
    (holeDraw inp s i).coins_x = s.coins_x ∧ (holeDraw inp s i).coins_z = s.coins_z ∧
    (holeDraw inp s i).ttime = s.ttime ∧ (holeDraw inp s i).level_c = s.level_c ∧
    (holeDraw inp s i).xpos_o = s.xpos_o ∧ (holeDraw inp s i).ypos_o = s.ypos_o ∧
    (holeDraw inp s i).last_timer_update = s.last_timer_update ∧
    (holeDraw inp s i).exited = s.exited := by
  repeat' constructor

/-- The variables that `tileDraw` leaves as they were. -/
@[simp] theorem tileDraw_frame (inp : Input) (s : Game) (i : Fin 5) :
    (tileDraw inp s i).hover_flag = s.hover_flag ∧ (tileDraw inp s i).sc_flag = s.sc_flag ∧
    (tileDraw inp s i).score = s.score ∧ (tileDraw inp s i).temp_score = s.temp_score ∧
    (tileDraw inp s i).score_string = s.score_string ∧
    (tileDraw inp s i).time_string = s.time_string ∧
    (tileDraw inp s i).level_string = s.level_string ∧
    (tileDraw inp s i).score_display_flag = s.score_display_flag ∧
    (tileDraw inp s i).lives = s.lives ∧ (tileDraw inp s i).level = s.level ∧
    (tileDraw inp s i).loading_time = s.loading_time ∧
    (tileDraw inp s i).init_flag = s.init_flag ∧ (tileDraw inp s i).pause = s.pause ∧
    (tileDraw inp s i).jump = s.jump ∧ (tileDraw inp s i).dir = s.dir ∧
    (tileDraw inp s i).px = s.px ∧ (tileDraw inp s i).pz = s.pz ∧ (tileDraw inp s i).rx = s.rx ∧
    (tileDraw inp s i).ry = s.ry ∧ (tileDraw inp s i).hole = s.hole ∧
    (tileDraw inp s i).health = s.health ∧ (tileDraw inp s i).cy = s.cy ∧
    (tileDraw inp s i).b_m = s.b_m ∧ (tileDraw inp s i).on_tile = s.on_tile ∧
    (tileDraw inp s i).coin_count = s.coin_count ∧ (tileDraw inp s i).timer = s.timer ∧
    (tileDraw inp s i).time_c = s.time_c ∧ (tileDraw inp s i).tower_view = s.tower_view ∧
    (tileDraw inp s i).top_view = s.top_view ∧ (tileDraw inp s i).follow_view = s.follow_view ∧
    (tileDraw inp s i).helicopter_view = s.helicopter_view ∧
    (tileDraw inp s i).adventure_view = s.adventure_view ∧
    (tileDraw inp s i).iteration = s.iteration ∧ (tileDraw inp s i).c_i = s.c_i ∧
    (tileDraw inp s i).turn = s.turn ∧
    (tileDraw inp s i).camera_rotation_angle = s.camera_rotation_angle ∧
    (tileDraw inp s i).coins_x = s.coins_x ∧ (tileDraw inp s i).coins_z = s.coins_z ∧
    (tileDraw inp s i).ttime = s.ttime ∧ (tileDraw inp s i).level_c = s.level_c ∧
    (tileDraw inp s i).xpos_o = s.xpos_o ∧ (tileDraw inp s i).ypos_o = s.ypos_o ∧
    (tileDraw inp s i).last_timer_update = s.last_timer_update ∧
    (tileDraw inp s i).exited = s.exited := by
  unfold tileDraw
  split_ifs <;> repeat' constructor

/-- The variables that `fireDraw` leaves as they were. -/
@[simp] theorem fireDraw_frame (inp : Input) (s : Game) (i : Fin 5) :
    (fireDraw inp s i).hover_flag = s.hover_flag ∧ (fireDraw inp s i).sc_flag = s.sc_flag ∧
    (fireDraw inp s i).score = s.score ∧ (fireDraw inp s i).temp_score = s.temp_score ∧
    (fireDraw inp s i).score_string = s.score_string ∧
    (fireDraw inp s i).time_string = s.time_string ∧
    (fireDraw inp s i).level_string = s.level_string ∧
    (fireDraw inp s i).score_display_flag = s.score_display_flag ∧
    (fireDraw inp s i).lives = s.lives ∧ (fireDraw inp s i).level = s.level ∧
    (fireDraw inp s i).loading_time = s.loading_time ∧
    (fireDraw inp s i).init_flag = s.init_flag ∧ (fireDraw inp s i).pause = s.pause ∧
    (fireDraw inp s i).jump = s.jump ∧ (fireDraw inp s i).dir = s.dir ∧
    (fireDraw inp s i).px = s.px ∧ (fireDraw inp s i).pz = s.pz ∧ (fireDraw inp s i).rx = s.rx ∧
    (fireDraw inp s i).ry = s.ry ∧ (fireDraw inp s i).hole = s.hole ∧
    (fireDraw inp s i).health = s.health ∧ (fireDraw inp s i).cy = s.cy ∧
    (fireDraw inp s i).b_m = s.b_m ∧ (fireDraw inp s i).on_tile = s.on_tile ∧
    (fireDraw inp s i).coin_count = s.coin_count ∧ (fireDraw inp s i).timer = s.timer ∧
    (fireDraw inp s i).time_c = s.time_c ∧ (fireDraw inp s i).tower_view = s.tower_view ∧
    (fireDraw inp s i).top_view = s.top_view ∧ (fireDraw inp s i).follow_view = s.follow_view ∧
    (fireDraw inp s i).helicopter_view = s.helicopter_view ∧
    (fireDraw inp s i).adventure_view = s.adventure_view ∧
    (fireDraw inp s i).iteration = s.iteration ∧ (fireDraw inp s i).c_i = s.c_i ∧
    (fireDraw inp s i).turn = s.turn ∧
    (fireDraw inp s i).camera_rotation_angle = s.camera_rotation_angle ∧
    (fireDraw inp s i).coins_x = s.coins_x ∧ (fireDraw inp s i).coins_z = s.coins_z ∧
    (fireDraw inp s i).ttime = s.ttime ∧ (fireDraw inp s i).level_c = s.level_c ∧
    (fireDraw inp s i).xpos_o = s.xpos_o ∧ (fireDraw inp s i).ypos_o = s.ypos_o ∧
    (fireDraw inp s i).last_timer_update = s.last_timer_update ∧
    (fireDraw inp s i).exited = s.exited := by
  unfold fireDraw
  dsimp only
  split_ifs <;> repeat' constructor

/-- The variables that `hazardSlot` leaves as they were. -/
@[simp] theorem hazardSlot_frame (inp : Input) (s : Game) (i : Fin 5) :
    (hazardSlot inp s i).hover_flag = s.hover_flag ∧ (hazardSlot inp s i).sc_flag = s.sc_flag ∧
    (hazardSlot inp s i).score = s.score ∧ (hazardSlot inp s i).temp_score = s.temp_score ∧
    (hazardSlot inp s i).score_string = s.score_string ∧
    (hazardSlot inp s i).time_string = s.time_string ∧
    (hazardSlot inp s i).level_string = s.level_string ∧
    (hazardSlot inp s i).score_display_flag = s.score_display_flag ∧
    (hazardSlot inp s i).lives = s.lives ∧ (hazardSlot inp s i).level = s.level ∧
    (hazardSlot inp s i).loading_time = s.loading_time ∧
    (hazardSlot inp s i).init_flag = s.init_flag ∧ (hazardSlot inp s i).pause = s.pause ∧
    (hazardSlot inp s i).jump = s.jump ∧ (hazardSlot inp s i).dir = s.dir ∧
    (hazardSlot inp s i).px = s.px ∧ (hazardSlot inp s i).pz = s.pz ∧
    (hazardSlot inp s i).rx = s.rx ∧ (hazardSlot inp s i).ry = s.ry ∧
    (hazardSlot inp s i).health = s.health ∧ (hazardSlot inp s i).cy = s.cy ∧
    (hazardSlot inp s i).b_m = s.b_m ∧ (hazardSlot inp s i).on_tile = s.on_tile ∧
    (hazardSlot inp s i).coin_count = s.coin_count ∧ (hazardSlot inp s i).timer = s.timer ∧
    (hazardSlot inp s i).time_c = s.time_c ∧ (hazardSlot inp s i).tower_view = s.tower_view ∧
    (hazardSlot inp s i).top_view = s.top_view ∧
    (hazardSlot inp s i).follow_view = s.follow_view ∧
    (hazardSlot inp s i).helicopter_view = s.helicopter_view ∧
    (hazardSlot inp s i).adventure_view = s.adventure_view ∧
    (hazardSlot inp s i).iteration = s.iteration ∧ (hazardSlot inp s i).c_i = s.c_i ∧
    (hazardSlot inp s i).turn = s.turn ∧
    (hazardSlot inp s i).camera_rotation_angle = s.camera_rotation_angle ∧
    (hazardSlot inp s i).coins_x = s.coins_x ∧ (hazardSlot inp s i).coins_z = s.coins_z ∧
    (hazardSlot inp s i).ttime = s.ttime ∧ (hazardSlot inp s i).level_c = s.level_c ∧
    (hazardSlot inp s i).xpos_o = s.xpos_o ∧ (hazardSlot inp s i).ypos_o = s.ypos_o ∧
    (hazardSlot inp s i).last_timer_update = s.last_timer_update ∧
    (hazardSlot inp s i).exited = s.exited := by
  simp [hazardSlot]

/-- The variables that `hazardReseed` leaves as they were. -/
@[simp] theorem hazardReseed_frame (inp : Input) (s : Game) :
    (hazardReseed inp s).hover_flag = s.hover_flag ∧ (hazardReseed inp s).sc_flag = s.sc_flag ∧
    (hazardReseed inp s).score = s.score ∧ (hazardReseed inp s).temp_score = s.temp_score ∧
    (hazardReseed inp s).score_string = s.score_string ∧
    (hazardReseed inp s).time_string = s.time_string ∧
    (hazardReseed inp s).level_string = s.level_string ∧
    (hazardReseed inp s).score_display_flag = s.score_display_flag ∧
    (hazardReseed inp s).lives = s.lives ∧ (hazardReseed inp s).level = s.level ∧
    (hazardReseed inp s).loading_time = s.loading_time ∧
    (hazardReseed inp s).init_flag = s.init_flag ∧ (hazardReseed inp s).pause = s.pause ∧
    (hazardReseed inp s).jump = s.jump ∧ (hazardReseed inp s).dir = s.dir ∧
    (hazardReseed inp s).px = s.px ∧ (hazardReseed inp s).pz = s.pz ∧
    (hazardReseed inp s).rx = s.rx ∧ (hazardReseed inp s).ry = s.ry ∧
    (hazardReseed inp s).health = s.health ∧ (hazardReseed inp s).cy = s.cy ∧
    (hazardReseed inp s).b_m = s.b_m ∧ (hazardReseed inp s).on_tile = s.on_tile ∧
    (hazardReseed inp s).coin_count = s.coin_count ∧ (hazardReseed inp s).timer = s.timer ∧
    (hazardReseed inp s).time_c = s.time_c ∧ (hazardReseed inp s).tower_view = s.tower_view ∧
    (hazardReseed inp s).top_view = s.top_view ∧
    (hazardReseed inp s).follow_view = s.follow_view ∧
    (hazardReseed inp s).helicopter_view = s.helicopter_view ∧
    (hazardReseed inp s).adventure_view = s.adventure_view ∧
    (hazardReseed inp s).iteration = s.iteration ∧ (hazardReseed inp s).c_i = s.c_i ∧
    (hazardReseed inp s).turn = s.turn ∧
    (hazardReseed inp s).camera_rotation_angle = s.camera_rotation_angle ∧
    (hazardReseed inp s).coins_x = s.coins_x ∧ (hazardReseed inp s).coins_z = s.coins_z ∧
    (hazardReseed inp s).ttime = s.ttime ∧ (hazardReseed inp s).level_c = s.level_c ∧
    (hazardReseed inp s).xpos_o = s.xpos_o ∧ (hazardReseed inp s).ypos_o = s.ypos_o ∧
    (hazardReseed inp s).last_timer_update = s.last_timer_update ∧
    (hazardReseed inp s).exited = s.exited := by
  unfold hazardReseed
  split_ifs <;> simp

/-- The variables that `timerStep` leaves as they were. -/
@[simp] theorem timerStep_frame (inp : Input) (s : Game) :
    (timerStep inp s).hover_flag = s.hover_flag ∧ (timerStep inp s).sc_flag = s.sc_flag ∧
    (timerStep inp s).score = s.score ∧ (timerStep inp s).lives = s.lives ∧
    (timerStep inp s).level = s.level ∧ (timerStep inp s).loading_time = s.loading_time ∧
    (timerStep inp s).init_flag = s.init_flag ∧ (timerStep inp s).pause = s.pause ∧
    (timerStep inp s).px = s.px ∧ (timerStep inp s).pz = s.pz ∧
    (timerStep inp s).health = s.health ∧ (timerStep inp s).coin_count = s.coin_count ∧
    (timerStep inp s).exited = s.exited := by
  unfold timerStep
  split_ifs <;> repeat' constructor

/-- The variables that `quit` leaves as they were. -/
@[simp] theorem quit_frame (s : Game) :
    (quit s).init_flag = s.init_flag ∧ (quit s).dir = s.dir ∧ (quit s).rx = s.rx ∧
    (quit s).ry = s.ry ∧ (quit s).hole = s.hole ∧ (quit s).tile = s.tile ∧
    (quit s).health = s.health ∧ (quit s).cy = s.cy ∧ (quit s).b_m = s.b_m ∧
    (quit s).on_tile = s.on_tile ∧ (quit s).coin_count = s.coin_count ∧
    (quit s).timer = s.timer ∧ (quit s).coins_x = s.coins_x ∧ (quit s).coins_z = s.coins_z ∧
    (quit s).fire_x = s.fire_x ∧ (quit s).fire_z = s.fire_z ∧ (quit s).ttime = s.ttime ∧
    (quit s).level_c = s.level_c ∧ (quit s).last_update_time = s.last_update_time ∧
    (quit s).last_timer_update = s.last_timer_update := by
  repeat' constructor

/-- The variables that `newGameKey` leaves as they were. -/
@[simp] theorem newGameKey_frame (s : Game) :
    (newGameKey s).init_flag = s.init_flag ∧ (newGameKey s).rx = s.rx ∧
    (newGameKey s).ry = s.ry ∧ (newGameKey s).hole = s.hole ∧ (newGameKey s).tile = s.tile ∧
    (newGameKey s).health = s.health ∧ (newGameKey s).cy = s.cy ∧ (newGameKey s).b_m = s.b_m ∧
    (newGameKey s).on_tile = s.on_tile ∧ (newGameKey s).coin_count = s.coin_count ∧
    (newGameKey s).timer = s.timer ∧ (newGameKey s).coins_x = s.coins_x ∧
    (newGameKey s).coins_z = s.coins_z ∧ (newGameKey s).fire_x = s.fire_x ∧
    (newGameKey s).fire_z = s.fire_z ∧ (newGameKey s).ttime = s.ttime ∧
    (newGameKey s).level_c = s.level_c ∧ (newGameKey s).last_update_time = s.last_update_time ∧
    (newGameKey s).last_timer_update = s.last_timer_update := by
  repeat' constructor

/-- The variables that `newGameClick` leaves as they were. -/
@[simp] theorem newGameClick_frame (s : Game) :
    (newGameClick s).init_flag = s.init_flag ∧ (newGameClick s).rx = s.rx ∧
    (newGameClick s).ry = s.ry ∧ (newGameClick s).hole = s.hole ∧
    (newGameClick s).tile = s.tile ∧ (newGameClick s).health = s.health ∧
    (newGameClick s).cy = s.cy ∧ (newGameClick s).b_m = s.b_m ∧
    (newGameClick s).on_tile = s.on_tile ∧ (newGameClick s).coin_count = s.coin_count ∧
    (newGameClick s).timer = s.timer ∧ (newGameClick s).coins_x = s.coins_x ∧
    (newGameClick s).coins_z = s.coins_z ∧ (newGameClick s).fire_x = s.fire_x ∧
    (newGameClick s).fire_z = s.fire_z ∧ (newGameClick s).ttime = s.ttime ∧
    (newGameClick s).level_c = s.level_c ∧
    (newGameClick s).last_update_time = s.last_update_time ∧
    (newGameClick s).last_timer_update = s.last_timer_update := by
  repeat' constructor

/-- The variables that `keyPress` leaves as they were. -/
@[simp] theorem keyPress_frame (k : Key) (s : Game) :
    (keyPress k s).init_flag = s.init_flag ∧ (keyPress k s).rx = s.rx ∧
    (keyPress k s).ry = s.ry ∧ (keyPress k s).hole = s.hole ∧ (keyPress k s).tile = s.tile ∧
    (keyPress k s).health = s.health ∧ (keyPress k s).cy = s.cy ∧ (keyPress k s).b_m = s.b_m ∧
    (keyPress k s).on_tile = s.on_tile ∧ (keyPress k s).coin_count = s.coin_count ∧
    (keyPress k s).timer = s.timer ∧ (keyPress k s).coins_x = s.coins_x ∧
    (keyPress k s).coins_z = s.coins_z ∧ (keyPress k s).fire_x = s.fire_x ∧
    (keyPress k s).fire_z = s.fire_z ∧ (keyPress k s).ttime = s.ttime ∧
    (keyPress k s).level_c = s.level_c ∧ (keyPress k s).last_update_time = s.last_update_time ∧
    (keyPress k s).last_timer_update = s.last_timer_update := by
  cases k <;> unfold keyPress <;> dsimp only <;> (try split_ifs) <;> simp

/-- The variables that `keyRelease` leaves as they were. -/
@[simp] theorem keyRelease_frame (k : Key) (s : Game) :
    (keyRelease k s).init_flag = s.init_flag ∧ (keyRelease k s).rx = s.rx ∧
    (keyRelease k s).ry = s.ry ∧ (keyRelease k s).hole = s.hole ∧
    (keyRelease k s).tile = s.tile ∧ (keyRelease k s).health = s.health ∧
    (keyRelease k s).cy = s.cy ∧ (keyRelease k s).b_m = s.b_m ∧
    (keyRelease k s).on_tile = s.on_tile ∧ (keyRelease k s).coin_count = s.coin_count ∧
    (keyRelease k s).timer = s.timer ∧ (keyRelease k s).coins_x = s.coins_x ∧
    (keyRelease k s).coins_z = s.coins_z ∧ (keyRelease k s).fire_x = s.fire_x ∧
    (keyRelease k s).fire_z = s.fire_z ∧ (keyRelease k s).ttime = s.ttime ∧
    (keyRelease k s).level_c = s.level_c ∧
    (keyRelease k s).last_update_time = s.last_update_time ∧
    (keyRelease k s).last_timer_update = s.last_timer_update := by
  cases k <;> simp [keyRelease]

/-- The variables that `keyboard` leaves as they were. -/
@[simp] theorem keyboard_frame (k : Key) (a : Action) (s : Game) :
    (keyboard k a s).init_flag = s.init_flag ∧ (keyboard k a s).rx = s.rx ∧
    (keyboard k a s).ry = s.ry ∧ (keyboard k a s).hole = s.hole ∧
    (keyboard k a s).tile = s.tile ∧ (keyboard k a s).health = s.health ∧
    (keyboard k a s).cy = s.cy ∧ (keyboard k a s).b_m = s.b_m ∧
    (keyboard k a s).on_tile = s.on_tile ∧ (keyboard k a s).coin_count = s.coin_count ∧
    (keyboard k a s).timer = s.timer ∧ (keyboard k a s).coins_x = s.coins_x ∧
    (keyboard k a s).coins_z = s.coins_z ∧ (keyboard k a s).fire_x = s.fire_x ∧
    (keyboard k a s).fire_z = s.fire_z ∧ (keyboard k a s).ttime = s.ttime ∧
    (keyboard k a s).level_c = s.level_c ∧
    (keyboard k a s).last_update_time = s.last_update_time ∧
    (keyboard k a s).last_timer_update = s.last_timer_update := by
  cases a <;> simp [keyboard]

/-- The variables that `leftRelease` leaves as they were. -/
@[simp] theorem leftRelease_frame (s : Game) :
    (leftRelease s).init_flag = s.init_flag ∧ (leftRelease s).rx = s.rx ∧
    (leftRelease s).ry = s.ry ∧ (leftRelease s).hole = s.hole ∧ (leftRelease s).tile = s.tile ∧
    (leftRelease s).health = s.health ∧ (leftRelease s).cy = s.cy ∧ (leftRelease s).b_m = s.b_m ∧
    (leftRelease s).on_tile = s.on_tile ∧ (leftRelease s).coin_count = s.coin_count ∧
    (leftRelease s).timer = s.timer ∧ (leftRelease s).coins_x = s.coins_x ∧
    (leftRelease s).coins_z = s.coins_z ∧ (leftRelease s).fire_x = s.fire_x ∧
    (leftRelease s).fire_z = s.fire_z ∧ (leftRelease s).ttime = s.ttime ∧
    (leftRelease s).level_c = s.level_c ∧ (leftRelease s).last_update_time = s.last_update_time ∧
    (leftRelease s).last_timer_update = s.last_timer_update := by
  unfold leftRelease
  dsimp only
  split_ifs <;> simp

/-- The variables that `mouseButton` leaves as they were. -/
@[simp] theorem mouseButton_frame (b : Button) (a : Action) (s : Game) :
    (mouseButton b a s).init_flag = s.init_flag ∧ (mouseButton b a s).rx = s.rx ∧
    (mouseButton b a s).ry = s.ry ∧ (mouseButton b a s).hole = s.hole ∧
    (mouseButton b a s).tile = s.tile ∧ (mouseButton b a s).health = s.health ∧
    (mouseButton b a s).cy = s.cy ∧ (mouseButton b a s).b_m = s.b_m ∧
    (mouseButton b a s).on_tile = s.on_tile ∧ (mouseButton b a s).coin_count = s.coin_count ∧
    (mouseButton b a s).timer = s.timer ∧ (mouseButton b a s).coins_x = s.coins_x ∧
    (mouseButton b a s).coins_z = s.coins_z ∧ (mouseButton b a s).fire_x = s.fire_x ∧
    (mouseButton b a s).fire_z = s.fire_z ∧ (mouseButton b a s).ttime = s.ttime ∧
    (mouseButton b a s).level_c = s.level_c ∧
    (mouseButton b a s).last_update_time = s.last_update_time ∧
    (mouseButton b a s).last_timer_update = s.last_timer_update := by
  cases b <;> cases a <;> simp [mouseButton]

/-- The variables that `handleEvent` leaves as they were. -/
@[simp] theorem handleEvent_frame (s : Game) (e : Event) :
    (handleEvent s e).init_flag = s.init_flag ∧ (handleEvent s e).rx = s.rx ∧
    (handleEvent s e).ry = s.ry ∧ (handleEvent s e).hole = s.hole ∧
    (handleEvent s e).tile = s.tile ∧ (handleEvent s e).health = s.health ∧
    (handleEvent s e).cy = s.cy ∧ (handleEvent s e).b_m = s.b_m ∧
    (handleEvent s e).on_tile = s.on_tile ∧ (handleEvent s e).coin_count = s.coin_count ∧
    (handleEvent s e).timer = s.timer ∧ (handleEvent s e).coins_x = s.coins_x ∧
    (handleEvent s e).coins_z = s.coins_z ∧ (handleEvent s e).fire_x = s.fire_x ∧
    (handleEvent s e).fire_z = s.fire_z ∧ (handleEvent s e).ttime = s.ttime ∧
    (handleEvent s e).level_c = s.level_c ∧
    (handleEvent s e).last_update_time = s.last_update_time ∧
    (handleEvent s e).last_timer_update = s.last_timer_update := by
  unfold handleEvent
  split_ifs
  · simp
  · cases e <;> simp

/-- The variables that no event callback assigns are left alone by a poll. -/
theorem pollEvents_frame (es : List Event) :
    ∀ s : Game, (pollEvents es s).health = s.health ∧ (pollEvents es s).timer = s.timer ∧
      (pollEvents es s).coin_count = s.coin_count ∧ (pollEvents es s).cy = s.cy ∧
      (pollEvents es s).b_m = s.b_m ∧ (pollEvents es s).init_flag = s.init_flag ∧
      (pollEvents es s).ttime = s.ttime ∧ (pollEvents es s).rx = s.rx ∧
      (pollEvents es s).ry = s.ry ∧ (pollEvents es s).on_tile = s.on_tile ∧
      (pollEvents es s).hole = s.hole ∧ (pollEvents es s).tile = s.tile ∧
      (pollEvents es s).coins_x = s.coins_x ∧ (pollEvents es s).coins_z = s.coins_z ∧
      (pollEvents es s).fire_x = s.fire_x ∧ (pollEvents es s).fire_z = s.fire_z ∧
      (pollEvents es s).level_c = s.level_c ∧
      (pollEvents es s).last_update_time = s.last_update_time ∧
      (pollEvents es s).last_timer_update = s.last_timer_update := by
  induction es with
  | nil => intro s; simp [pollEvents]
  | cons e rest ih =>
    intro s
    have h := ih (handleEvent s e)
    simp only [pollEvents, List.foldl_cons] at h ⊢
    simpa using h

/-! ## `float` arithmetic: evaluation and bounds -/

/-- The power of two is the power of two. -/
theorem pow2_eq (e : ℤ) : pow2 e = (2 : ℚ) ^ e := by
  unfold pow2
  split_ifs with h
  · obtain ⟨n, rfl⟩ := Int.eq_ofNat_of_zero_le h
    simp
  · have hn : 0 ≤ -e := by omega
    obtain ⟨n, hn'⟩ := Int.eq_ofNat_of_zero_le hn
    have he : e = -(n : ℤ) := by omega
    rw [he]
    simp

/-- The magnitude is the absolute value. -/
theorem magnitude_eq (x : ℚ) : magnitude x = |x| := by
  unfold magnitude
  conv_rhs => rw [← Rat.num_div_den x]
  rw [abs_div, Nat.abs_cast, Nat.cast_natAbs, Int.cast_abs]

/-- The floor of a fraction. -/
theorem qfloor_eq (x : ℚ) : qfloor x = ⌊x⌋ := Rat.floor_def.symm

/-- The binary exponent of a positive rational is determined by the binade it lies in. -/
theorem log_eq_of_bounds (a : ℚ) (e : ℤ) (hlo : (2 : ℚ) ^ e ≤ a) (hhi : a < 2 ^ (e + 1)) :
    Int.log 2 a = e := by
  have hapos : 0 < a := lt_of_lt_of_le (by positivity) hlo
  apply le_antisymm
  · have := (Int.lt_zpow_iff_log_lt (R := ℚ) (b := 2) (by norm_num) (x := e + 1) hapos).mp
      (by exact_mod_cast hhi)
    omega
  · exact (Int.zpow_le_iff_le_log (R := ℚ) (b := 2) (by norm_num) hapos).mp
      (by exact_mod_cast hlo)

/-- The binary exponent is the integer logarithm of the absolute value. -/
theorem binade_eq (x : ℚ) (hx : x ≠ 0) : binade x = Int.log 2 |x| := by
  have hpos : 0 < |x| := abs_pos.mpr hx
  unfold binade
  rw [magnitude_eq, qfloor_eq, qfloor_eq]
  split_ifs with h
  · -- 1 ≤ |x|
    have hf1 : (1 : ℤ) ≤ ⌊|x|⌋ := Int.le_floor.mpr (by exact_mod_cast h)
    obtain ⟨n, hn⟩ := Int.eq_ofNat_of_zero_le (by omega : (0 : ℤ) ≤ ⌊|x|⌋)
    have hn0 : n ≠ 0 := by omega
    have h1 : (n : ℚ) ≤ |x| := by
      have := Int.floor_le |x|
      rw [hn] at this
      exact_mod_cast this
    have h2 : |x| < (n : ℚ) + 1 := by
      have := Int.lt_floor_add_one |x|
      rw [hn] at this
      exact_mod_cast this
    have a1 : ((2 : ℚ) ^ (Nat.log2 n)) ≤ (n : ℚ) := by exact_mod_cast Nat.log2_self_le hn0
    have a2 : (n : ℚ) + 1 ≤ (2 : ℚ) ^ (Nat.log2 n + 1) := by
      exact_mod_cast (Nat.lt_log2_self (n := n))
    rw [hn, Int.toNat_natCast]
    refine (log_eq_of_bounds _ _ ?_ ?_).symm
    · rw [zpow_natCast]
      exact a1.trans h1
    · have e : ((Nat.log2 n : ℕ) : ℤ) + 1 = ((Nat.log2 n + 1 : ℕ) : ℤ) := by push_cast; rfl
      rw [e, zpow_natCast]
      exact lt_of_lt_of_le h2 a2
  · -- |x| < 1
    have hlt : |x| < 1 := not_le.mp h
    have hinv : 1 < |x|⁻¹ := (one_lt_inv₀ hpos).mpr hlt
    have hc : -⌊-|x|⁻¹⌋ = ⌈|x|⁻¹⌉ := by rw [Int.floor_neg, neg_neg]
    rw [hc]
    have hc2 : (2 : ℤ) ≤ ⌈|x|⁻¹⌉ := by
      have : (1 : ℤ) < ⌈|x|⁻¹⌉ := Int.lt_ceil.mpr (by exact_mod_cast hinv)
      omega
    obtain ⟨c, hcn⟩ := Int.eq_ofNat_of_zero_le (by omega : (0 : ℤ) ≤ ⌈|x|⁻¹⌉)
    have hc3 : 2 ≤ c := by omega
    have h1 : |x|⁻¹ ≤ (c : ℚ) := by
      have := Int.le_ceil |x|⁻¹
      rw [hcn] at this
      exact_mod_cast this
    have h2 : (c : ℚ) - 1 < |x|⁻¹ := by
      have := Int.ceil_lt_add_one |x|⁻¹
      rw [hcn] at this
      have : (c : ℚ) < |x|⁻¹ + 1 := by exact_mod_cast this
      linarith
    have hc0 : c - 1 ≠ 0 := by omega
    have a1 : ((2 : ℚ) ^ (Nat.log2 (c - 1))) ≤ (c : ℚ) - 1 := by
      have := Nat.log2_self_le hc0
      have h' : ((2 ^ Nat.log2 (c - 1) : ℕ) : ℚ) ≤ ((c - 1 : ℕ) : ℚ) := by exact_mod_cast this
      rw [Nat.cast_sub (by omega : 1 ≤ c)] at h'
      exact_mod_cast h'
    have a2 : (c : ℚ) ≤ (2 : ℚ) ^ (Nat.log2 (c - 1) + 1) := by
      have := Nat.lt_log2_self (n := c - 1)
      have h' : c ≤ 2 ^ (Nat.log2 (c - 1) + 1) := by omega
      exact_mod_cast h'
    rw [hcn, Int.toNat_natCast]
    have p1 : (0 : ℚ) < 2 ^ (Nat.log2 (c - 1) + 1) := by positivity
    have p2 : (0 : ℚ) < 2 ^ (Nat.log2 (c - 1)) := by positivity
    refine (log_eq_of_bounds _ _ ?_ ?_).symm
    · rw [zpow_neg, zpow_natCast]
      exact (inv_le_comm₀ p1 hpos).mpr (h1.trans a2)
    · have e : -((Nat.log2 (c - 1) + 1 : ℕ) : ℤ) + 1 = -((Nat.log2 (c - 1) : ℕ) : ℤ) := by
        push_cast; ring
      rw [e, zpow_neg, zpow_natCast]
      exact (lt_inv_comm₀ hpos p2).mpr (lt_of_le_of_lt a1 h2)

/-- Rounding to the nearest integer, by the floor. -/
theorem roundHalfEven_def (x : ℚ) :
    roundHalfEven x =
      if x - ⌊x⌋ < 1 / 2 then ⌊x⌋
      else if x - ⌊x⌋ > 1 / 2 then ⌊x⌋ + 1
      else if ⌊x⌋ % 2 = 0 then ⌊x⌋ else ⌊x⌋ + 1 := by
  unfold roundHalfEven
  rw [qfloor_eq]

/-- Rounding to `p` bits, by the integer logarithm. -/
theorem roundBinary_def (p : ℕ) (x : ℚ) :
    roundBinary p x =
      if x = 0 then 0
      else
        (roundHalfEven (x / 2 ^ (Int.log 2 |x| + 1 - (p : ℤ))) : ℚ) *
          2 ^ (Int.log 2 |x| + 1 - (p : ℤ)) := by
  unfold roundBinary
  split_ifs with h
  · rfl
  · rw [pow2_eq, binade_eq x h]

/-- A rational less than half a unit away from an integer rounds to it. -/
theorem roundHalfEven_eq (x : ℚ) (m : ℤ) (h1 : (m : ℚ) - 1 / 2 < x) (h2 : x < m + 1 / 2) :
    roundHalfEven x = m := by
  rw [roundHalfEven_def]
  rcases le_or_lt (m : ℚ) x with h | h
  · have hf : ⌊x⌋ = m := Int.floor_eq_iff.mpr ⟨h, by linarith⟩
    rw [hf, if_pos (by linarith)]
  · have hf : ⌊x⌋ = m - 1 := Int.floor_eq_iff.mpr ⟨by push_cast; linarith, by push_cast; linarith⟩
    rw [hf, if_neg (by push_cast; linarith), if_pos (by push_cast; linarith)]
    ring

/-- A rational half-way between two integers rounds to the even one. -/
theorem roundHalfEven_eq_tie (x : ℚ) (m : ℤ) (hm : m % 2 = 0)
    (h : x = m + 1 / 2 ∨ x = m - 1 / 2) : roundHalfEven x = m := by
  rw [roundHalfEven_def]
  rcases h with h | h
  · have hf : ⌊x⌋ = m := Int.floor_eq_iff.mpr ⟨by rw [h]; linarith, by rw [h]; linarith⟩
    rw [hf, if_neg (by rw [h]; norm_num), if_neg (by rw [h]; norm_num), if_pos hm]
  · have hf : ⌊x⌋ = m - 1 :=
      Int.floor_eq_iff.mpr ⟨by rw [h]; push_cast; linarith, by rw [h]; push_cast; linarith⟩
    rw [hf, if_neg (by rw [h]; push_cast; norm_num), if_neg (by rw [h]; push_cast; norm_num),
      if_neg (by omega)]
    ring

/-- Rounding to the nearest integer moves by at most one half. -/
theorem roundHalfEven_abs_sub_le (x : ℚ) : |(roundHalfEven x : ℚ) - x| ≤ 1 / 2 := by
  have h1 := Int.floor_le x
  have h2 := Int.lt_floor_add_one x
  rw [roundHalfEven_def]
  split_ifs with a b c
  · rw [abs_le]; constructor <;> linarith
  · rw [abs_le]; constructor <;> push_cast <;> linarith
  · rw [abs_le]; constructor <;> linarith
  · rw [abs_le]; constructor <;> push_cast <;> linarith

/-- Evaluation of a rounding: `x` lies in the binade of `2 ^ e`, and `y` is a
multiple of the unit of that binade less than half a unit away from `x`. -/
theorem roundBinary_eq (p : ℕ) (x y a : ℚ) (e m : ℤ) (ha : |x| = a) (hlo : (2 : ℚ) ^ e ≤ a)
    (hhi : a < 2 ^ (e + 1)) (hy : y = m * 2 ^ (e + 1 - (p : ℤ)))
    (h1 : y - 2 ^ (e + 1 - (p : ℤ)) / 2 < x) (h2 : x < y + 2 ^ (e + 1 - (p : ℤ)) / 2) :
    roundBinary p x = y := by
  have hapos : 0 < |x| := by rw [ha]; exact lt_of_lt_of_le (by positivity) hlo
  have hx0 : x ≠ 0 := abs_pos.mp hapos
  have hlog : Int.log 2 |x| = e := log_eq_of_bounds _ _ (by rw [ha]; exact hlo) (by rw [ha]; exact hhi)
  have hu : (0 : ℚ) < 2 ^ (e + 1 - (p : ℤ)) := by positivity
  rw [roundBinary_def]
  rw [if_neg hx0, hlog, roundHalfEven_eq _ m, hy]
  · rw [lt_div_iff₀ hu]
    rw [hy] at h1
    linarith
  · rw [div_lt_iff₀ hu]
    rw [hy] at h2
    linarith

/-- Evaluation of a rounding at a tie: `x` is half a unit away from `y`, whose
multiple of the unit is even. -/
theorem roundBinary_eq_tie (p : ℕ) (x y a : ℚ) (e m : ℤ) (ha : |x| = a) (hlo : (2 : ℚ) ^ e ≤ a)
    (hhi : a < 2 ^ (e + 1)) (hy : y = m * 2 ^ (e + 1 - (p : ℤ))) (hm : m % 2 = 0)
    (h : x = y + 2 ^ (e + 1 - (p : ℤ)) / 2 ∨ x = y - 2 ^ (e + 1 - (p : ℤ)) / 2) :
    roundBinary p x = y := by
  have hapos : 0 < |x| := by rw [ha]; exact lt_of_lt_of_le (by positivity) hlo
  have hx0 : x ≠ 0 := abs_pos.mp hapos
  have hlog : Int.log 2 |x| = e := log_eq_of_bounds _ _ (by rw [ha]; exact hlo) (by rw [ha]; exact hhi)
  have hu : (0 : ℚ) < 2 ^ (e + 1 - (p : ℤ)) := by positivity
  rw [roundBinary_def]
  rw [if_neg hx0, hlog, roundHalfEven_eq_tie _ m hm, hy]
  rcases h with h | h
  · left
    rw [h, hy]
    field_simp
    ring
  · right
    rw [h, hy]
    field_simp
    ring

/-- The relative error of a rounding to `p` bits is at most `2 ^ (-p)`. -/
theorem roundBinary_abs_sub_le (p : ℕ) (x : ℚ) :
    |roundBinary p x - x| ≤ |x| * 2 ^ (-(p : ℤ)) := by
  rw [roundBinary_def]
  split_ifs with h0
  · rw [h0]; simp
  · have hapos : 0 < |x| := abs_pos.mpr h0
    have hu : (0 : ℚ) < 2 ^ (Int.log 2 |x| + 1 - (p : ℤ)) := by positivity
    have hle : ((2 : ℕ) : ℚ) ^ Int.log 2 |x| ≤ |x| := Int.zpow_log_le_self (by norm_num) hapos
    have hr := roundHalfEven_abs_sub_le (x / 2 ^ (Int.log 2 |x| + 1 - (p : ℤ)))
    have e1 : (roundHalfEven (x / 2 ^ (Int.log 2 |x| + 1 - (p : ℤ))) : ℚ) *
        2 ^ (Int.log 2 |x| + 1 - (p : ℤ)) - x =
        ((roundHalfEven (x / 2 ^ (Int.log 2 |x| + 1 - (p : ℤ))) : ℚ) -
          x / 2 ^ (Int.log 2 |x| + 1 - (p : ℤ))) * 2 ^ (Int.log 2 |x| + 1 - (p : ℤ)) := by
      field_simp
    have e2 : (2 : ℚ) ^ (Int.log 2 |x| + 1 - (p : ℤ)) =
        2 ^ Int.log 2 |x| * 2 * 2 ^ (-(p : ℤ)) := by
      rw [sub_eq_add_neg, zpow_add₀ (by norm_num), zpow_add₀ (by norm_num), zpow_one]
    rw [e1, abs_mul, abs_of_pos hu]
    have hpp : (0 : ℚ) < 2 ^ (-(p : ℤ)) := by positivity
    have hle' : (2 : ℚ) ^ Int.log 2 |x| ≤ |x| := by exact_mod_cast hle
    calc |(roundHalfEven (x / 2 ^ (Int.log 2 |x| + 1 - (p : ℤ))) : ℚ) -
          x / 2 ^ (Int.log 2 |x| + 1 - (p : ℤ))| * 2 ^ (Int.log 2 |x| + 1 - (p : ℤ))
        ≤ 1 / 2 * 2 ^ (Int.log 2 |x| + 1 - (p : ℤ)) :=
          mul_le_mul_of_nonneg_right hr hu.le
      _ = 2 ^ Int.log 2 |x| * 2 ^ (-(p : ℤ)) := by rw [e2]; ring
      _ ≤ |x| * 2 ^ (-(p : ℤ)) := mul_le_mul_of_nonneg_right hle' hpp.le

/-- Rounding keeps a non-negative value non-negative. -/
theorem roundBinary_nonneg (p : ℕ) (x : ℚ) (hx : 0 ≤ x) : 0 ≤ roundBinary p x := by
  rw [roundBinary_def]
  split_ifs with h0
  · exact le_refl _
  · have hu : (0 : ℚ) < 2 ^ (Int.log 2 |x| + 1 - (p : ℤ)) := by positivity
    have hq : 0 ≤ x / 2 ^ (Int.log 2 |x| + 1 - (p : ℤ)) := div_nonneg hx hu.le
    have hfl : (0 : ℤ) ≤ ⌊x / 2 ^ (Int.log 2 |x| + 1 - (p : ℤ))⌋ := Int.floor_nonneg.mpr hq
    have hr : (0 : ℤ) ≤ roundHalfEven (x / 2 ^ (Int.log 2 |x| + 1 - (p : ℤ))) := by
      rw [roundHalfEven_def]
      split_ifs <;> omega
    exact mul_nonneg (by exact_mod_cast hr) hu.le

/-- The literal `0.1` as a `double`. -/
theorem toDouble_tenth : toDouble 0.1 = 3602879701896397 / 36028797018963968 :=
  roundBinary_eq 53 _ _ (1 / 10) (-4) 7205759403792794 (by norm_num [abs_of_pos]) (by norm_num)
    (by norm_num) (by norm_num) (by norm_num) (by norm_num)

/-- The literal `0.01` as a `double`. -/
theorem toDouble_hundredth : toDouble 0.01 = 5764607523034235 / 576460752303423488 :=
  roundBinary_eq 53 _ _ (1 / 100) (-7) 5764607523034235 (by norm_num [abs_of_pos]) (by norm_num)
    (by norm_num) (by norm_num) (by norm_num) (by norm_num)

/-- Evaluation of `x += d`, by its two roundings. -/
theorem floatAdd_eq (x d c s y : ℚ) (hc : toDouble d = c) (hs : roundBinary 53 (x + c) = s)
    (hy : roundBinary 24 s = y) : floatAdd x d = y := by
  unfold floatAdd
  rw [hc]
  unfold toFloat toDouble
  rw [hs, hy]

/-- Evaluation of `x -= d`, by its two roundings. -/
theorem floatSub_eq (x d c s y : ℚ) (hc : toDouble d = c) (hs : roundBinary 53 (x - c) = s)
    (hy : roundBinary 24 s = y) : floatSub x d = y := by
  unfold floatSub
  rw [hc]
  unfold toFloat toDouble
  rw [hs, hy]

/-- The two roundings of a `float` update change the exact result `z` by at
most `|z| / 2 ^ 23`. -/
theorem toFloat_toDouble_abs_sub_le (z : ℚ) : |toFloat (toDouble z) - z| ≤ |z| / 2 ^ 23 := by
  have h1 := roundBinary_abs_sub_le 53 z
  have h2 := roundBinary_abs_sub_le 24 (roundBinary 53 z)
  have h3 : |roundBinary 53 z| ≤ |z| + |z| * 2 ^ (-(53 : ℤ)) := by
    have := abs_sub_abs_le_abs_sub (roundBinary 53 z) z
    push_cast at h1
    linarith
  have hz := abs_nonneg z
  unfold toFloat toDouble
  have e : roundBinary 24 (roundBinary 53 z) - z =
      (roundBinary 24 (roundBinary 53 z) - roundBinary 53 z) + (roundBinary 53 z - z) := by ring
  rw [e]
  refine (abs_add _ _).trans ?_
  push_cast at h1 h2
  have c1 : (2 : ℚ) ^ (-(53 : ℤ)) = 1 / 9007199254740992 := by norm_num
  have c2 : (2 : ℚ) ^ (-(24 : ℤ)) = 1 / 16777216 := by norm_num
  rw [c1] at h1 h3
  rw [c2] at h2
  have h4 : |roundBinary 53 z| * (1 / 16777216) ≤
      (|z| + |z| * (1 / 9007199254740992)) * (1 / 16777216) :=
    mul_le_mul_of_nonneg_right h3 (by norm_num)
  norm_num at h1 h2 h4 ⊢
  linarith

/-- The update `x += d` of a non-negative `float` by a positive literal leaves
it non-negative. -/
theorem floatAdd_nonneg (x d : ℚ) (hx : 0 ≤ x) (hd : 0 ≤ d) : 0 ≤ floatAdd x d := by
  unfold floatAdd toFloat toDouble
  exact roundBinary_nonneg _ _ (roundBinary_nonneg _ _
    (add_nonneg hx (roundBinary_nonneg _ _ hd)))

/-! ## The `float` clocks, value by value -/

theorem tenths_succ (k : Nat) : tenths (k + 1) = floatAdd (tenths k) 0.1 := rfl

theorem hundredths_succ (k : Nat) : hundredths (k + 1) = floatAdd (hundredths k) 0.01 := rfl

/-- The `float` clock that starts at 0 and is advanced by 0.1, over its first
25 additions: each value is computed from the one before by the two roundings
of the addition. Its values after 1, 5, 20, 21 and 25 additions, its distance
from the exact multiple of 0.1 over the first 21, and its values against the
bounds 2.1 and 20 of the program. -/
theorem tenths_values_1 :
    tenths 25 = 10485759 / 4194304 ∧ (∀ k ≤ 25, 0 ≤ tenths k ∧ tenths k ≤ 20) ∧
    tenths 1 = 13421773 / 134217728 ∧ tenths 5 = 1 / 2 ∧ tenths 20 = 8388609 / 4194304 ∧
    tenths 21 = 8808039 / 4194304 ∧
    (∀ k ≤ 21, |tenths k - (k : ℚ) / 10| ≤ 1 / 1000000) ∧
    (∀ k ≤ 20, tenths k ≤ 2.1) := by
  have h0 : tenths 0 = 0 := rfl
  have h1 : tenths 1 = 13421773 / 134217728 := by
    rw [show (1 : Nat) = 0 + 1 from rfl, tenths_succ, h0]
    exact floatAdd_eq _ _ _ (3602879701896397 / 36028797018963968) _ toDouble_tenth
      (roundBinary_eq 53 _ _ (3602879701896397 / 36028797018963968) (-4) (7205759403792794) (by norm_num [abs_of_pos]) (by norm_num) (by norm_num)
        (by norm_num) (by norm_num) (by norm_num))
      (roundBinary_eq 24 _ _ (3602879701896397 / 36028797018963968) (-4) (13421773) (by norm_num [abs_of_pos]) (by norm_num) (by norm_num)
        (by norm_num) (by norm_num) (by norm_num))
  have h2 : tenths 2 = 13421773 / 67108864 := by
    rw [show (2 : Nat) = 1 + 1 from rfl, tenths_succ, h1]
    exact floatAdd_eq _ _ _ (7205759457479885 / 36028797018963968) _ toDouble_tenth
      (roundBinary_eq 53 _ _ (7205759457479885 / 36028797018963968) (-3) (7205759457479885) (by norm_num [abs_of_pos]) (by norm_num) (by norm_num)
        (by norm_num) (by norm_num) (by norm_num))
      (roundBinary_eq 24 _ _ (7205759457479885 / 36028797018963968) (-3) (13421773) (by norm_num [abs_of_pos]) (by norm_num) (by norm_num)
        (by norm_num) (by norm_num) (by norm_num))
  have h3 : tenths 3 = 5033165 / 16777216 := by
    rw [show (3 : Nat) = 2 + 1 from rfl, tenths_succ, h2]
    exact floatAdd_eq _ _ _ (2702159803265843 / 9007199254740992) _ toDouble_tenth
      (roundBinary_eq_tie 53 _ _ (10808639213063373 / 36028797018963968) (-2) (5404319606531686) (by norm_num [abs_of_pos]) (by norm_num) (by norm_num)
        (by norm_num) (by decide) (Or.inl (by norm_num)))
      (roundBinary_eq 24 _ _ (2702159803265843 / 9007199254740992) (-2) (10066330) (by norm_num [abs_of_pos]) (by norm_num) (by norm_num)
        (by norm_num) (by norm_num) (by norm_num))
  have h4 : tenths 4 = 13421773 / 33554432 := by
    rw [show (4 : Nat) = 3 + 1 from rfl, tenths_succ, h3]
    exact floatAdd_eq _ _ _ (3602879809270579 / 9007199254740992) _ toDouble_tenth
      (roundBinary_eq_tie 53 _ _ (14411519237082317 / 36028797018963968) (-2) (7205759618541158) (by norm_num [abs_of_pos]) (by norm_num) (by norm_num)
        (by norm_num) (by decide) (Or.inl (by norm_num)))
      (roundBinary_eq 24 _ _ (3602879809270579 / 9007199254740992) (-2) (13421773) (by norm_num [abs_of_pos]) (by norm_num) (by norm_num)
        (by norm_num) (by norm_num) (by norm_num))
  have h5 : tenths 5 = 1 / 2 := by
    rw [show (5 : Nat) = 4 + 1 from rfl, tenths_succ, h4]
    exact floatAdd_eq _ _ _ (4503599681057587 / 9007199254740992) _ toDouble_tenth
      (roundBinary_eq 53 _ _ (18014398724230349 / 36028797018963968) (-1) (4503599681057587) (by norm_num [abs_of_pos]) (by norm_num) (by norm_num)
        (by norm_num) (by norm_num) (by norm_num))
      (roundBinary_eq 24 _ _ (4503599681057587 / 9007199254740992) (-1) (8388608) (by norm_num [abs_of_pos]) (by norm_num) (by norm_num)
        (by norm_num) (by norm_num) (by norm_num))
  have h6 : tenths 6 = 5033165 / 8388608 := by
    rw [show (6 : Nat) = 5 + 1 from rfl, tenths_succ, h5]
    exact floatAdd_eq _ _ _ (5404319552844595 / 9007199254740992) _ toDouble_tenth
      (roundBinary_eq 53 _ _ (21617278211378381 / 36028797018963968) (-1) (5404319552844595) (by norm_num [abs_of_pos]) (by norm_num) (by norm_num)
        (by norm_num) (by norm_num) (by norm_num))
      (roundBinary_eq 24 _ _ (5404319552844595 / 9007199254740992) (-1) (10066330) (by norm_num [abs_of_pos]) (by norm_num) (by norm_num)
        (by norm_num) (by norm_num) (by norm_num))
  have h7 : tenths 7 = 2936013 / 4194304 := by
    rw [show (7 : Nat) = 6 + 1 from rfl, tenths_succ, h6]
    exact floatAdd_eq _ _ _ (6305039693067059 / 9007199254740992) _ toDouble_tenth
      (roundBinary_eq 53 _ _ (25220158772268237 / 36028797018963968) (-1) (6305039693067059) (by norm_num [abs_of_pos]) (by norm_num) (by norm_num)
        (by norm_num) (by norm_num) (by norm_num))
      (roundBinary_eq 24 _ _ (6305039693067059 / 9007199254740992) (-1) (11744052) (by norm_num [abs_of_pos]) (by norm_num) (by norm_num)
        (by norm_num) (by norm_num) (by norm_num))
  have h8 : tenths 8 = 6710887 / 8388608 := by
    rw [show (8 : Nat) = 7 + 1 from rfl, tenths_succ, h7]
    exact floatAdd_eq _ _ _ (7205759833289523 / 9007199254740992) _ toDouble_tenth
      (roundBinary_eq 53 _ _ (28823039333158093 / 36028797018963968) (-1) (7205759833289523) (by norm_num [abs_of_pos]) (by norm_num) (by norm_num)
        (by norm_num) (by norm_num) (by norm_num))
      (roundBinary_eq 24 _ _ (7205759833289523 / 9007199254740992) (-1) (13421774) (by norm_num [abs_of_pos]) (by norm_num) (by norm_num)
        (by norm_num) (by norm_num) (by norm_num))
  have h9 : tenths 9 = 1887437 / 2097152 := by
    rw [show (9 : Nat) = 8 + 1 from rfl, tenths_succ, h8]
    exact floatAdd_eq _ _ _ (8106479973511987 / 9007199254740992) _ toDouble_tenth
      (roundBinary_eq 53 _ _ (32425919894047949 / 36028797018963968) (-1) (8106479973511987) (by norm_num [abs_of_pos]) (by norm_num) (by norm_num)
        (by norm_num) (by norm_num) (by norm_num))
      (roundBinary_eq 24 _ _ (8106479973511987 / 9007199254740992) (-1) (15099496) (by norm_num [abs_of_pos]) (by norm_num) (by norm_num)
        (by norm_num) (by norm_num) (by norm_num))
  have h10 : tenths 10 = 8388609 / 8388608 := by
    rw [show (10 : Nat) = 9 + 1 from rfl, tenths_succ, h9]
    exact floatAdd_eq _ _ _ (2251800028433613 / 2251799813685248) _ toDouble_tenth
      (roundBinary_eq 53 _ _ (36028800454937805 / 36028797018963968) (0) (4503600056867226) (by norm_num [abs_of_pos]) (by norm_num) (by norm_num)
        (by norm_num) (by norm_num) (by norm_num))
      (roundBinary_eq 24 _ _ (2251800028433613 / 2251799813685248) (0) (8388609) (by norm_num [abs_of_pos]) (by norm_num) (by norm_num)
        (by norm_num) (by norm_num) (by norm_num))
  have h11 : tenths 11 = 4613735 / 4194304 := by
    rw [show (11 : Nat) = 10 + 1 from rfl, tenths_succ, h10]
    exact floatAdd_eq _ _ _ (2476980063489229 / 2251799813685248) _ toDouble_tenth
      (roundBinary_eq 53 _ _ (39631681015827661 / 36028797018963968) (0) (4953960126978458) (by norm_num [abs_of_pos]) (by norm_num) (by norm_num)
        (by norm_num) (by norm_num) (by norm_num))
      (roundBinary_eq 24 _ _ (2476980063489229 / 2251799813685248) (0) (9227470) (by norm_num [abs_of_pos]) (by norm_num) (by norm_num)
        (by norm_num) (by norm_num) (by norm_num))
  have h12 : tenths 12 = 10066331 / 8388608 := by
    rw [show (12 : Nat) = 11 + 1 from rfl, tenths_succ, h11]
    exact floatAdd_eq _ _ _ (2702160098544845 / 2251799813685248) _ toDouble_tenth
      (roundBinary_eq 53 _ _ (43234561576717517 / 36028797018963968) (0) (5404320197089690) (by norm_num [abs_of_pos]) (by norm_num) (by norm_num)
        (by norm_num) (by norm_num) (by norm_num))
      (roundBinary_eq 24 _ _ (2702160098544845 / 2251799813685248) (0) (10066331) (by norm_num [abs_of_pos]) (by norm_num) (by norm_num)
        (by norm_num) (by norm_num) (by norm_num))
  have h13 : tenths 13 = 1363149 / 1048576 := by
    rw [show (13 : Nat) = 12 + 1 from rfl, tenths_succ, h12]
    exact floatAdd_eq _ _ _ (2927340133600461 / 2251799813685248) _ toDouble_tenth
      (roundBinary_eq 53 _ _ (46837442137607373 / 36028797018963968) (0) (5854680267200922) (by norm_num [abs_of_pos]) (by norm_num) (by norm_num)
        (by norm_num) (by norm_num) (by norm_num))
      (roundBinary_eq 24 _ _ (2927340133600461 / 2251799813685248) (0) (10905192) (by norm_num [abs_of_pos]) (by norm_num) (by norm_num)
        (by norm_num) (by norm_num) (by norm_num))
  have h14 : tenths 14 = 11744053 / 8388608 := by
    rw [show (14 : Nat) = 13 + 1 from rfl, tenths_succ, h13]
    exact floatAdd_eq _ _ _ (3152520168656077 / 2251799813685248) _ toDouble_tenth
      (roundBinary_eq 53 _ _ (50440322698497229 / 36028797018963968) (0) (6305040337312154) (by norm_num [abs_of_pos]) (by norm_num) (by norm_num)
        (by norm_num) (by norm_num) (by norm_num))
      (roundBinary_eq 24 _ _ (3152520168656077 / 2251799813685248) (0) (11744053) (by norm_num [abs_of_pos]) (by norm_num) (by norm_num)
        (by norm_num) (by norm_num) (by norm_num))
  have h15 : tenths 15 = 6291457 / 4194304 := by
    rw [show (15 : Nat) = 14 + 1 from rfl, tenths_succ, h14]
    exact floatAdd_eq _ _ _ (3377700203711693 / 2251799813685248) _ toDouble_tenth
      (roundBinary_eq 53 _ _ (54043203259387085 / 36028797018963968) (0) (6755400407423386) (by norm_num [abs_of_pos]) (by norm_num) (by norm_num)
        (by norm_num) (by norm_num) (by norm_num))
      (roundBinary_eq 24 _ _ (3377700203711693 / 2251799813685248) (0) (12582914) (by norm_num [abs_of_pos]) (by norm_num) (by norm_num)
        (by norm_num) (by norm_num) (by norm_num))
  have h16 : tenths 16 = 13421775 / 8388608 := by
    rw [show (16 : Nat) = 15 + 1 from rfl, tenths_succ, h15]
    exact floatAdd_eq _ _ _ (3602880238767309 / 2251799813685248) _ toDouble_tenth
      (roundBinary_eq 53 _ _ (57646083820276941 / 36028797018963968) (0) (7205760477534618) (by norm_num [abs_of_pos]) (by norm_num) (by norm_num)
        (by norm_num) (by norm_num) (by norm_num))
      (roundBinary_eq 24 _ _ (3602880238767309 / 2251799813685248) (0) (13421775) (by norm_num [abs_of_pos]) (by norm_num) (by norm_num)
        (by norm_num) (by norm_num) (by norm_num))
  have h17 : tenths 17 = 3565159 / 2097152 := by
    rw [show (17 : Nat) = 16 + 1 from rfl, tenths_succ, h16]
    exact floatAdd_eq _ _ _ (3828060273822925 / 2251799813685248) _ toDouble_tenth
      (roundBinary_eq 53 _ _ (61248964381166797 / 36028797018963968) (0) (7656120547645850) (by norm_num [abs_of_pos]) (by norm_num) (by norm_num)
        (by norm_num) (by norm_num) (by norm_num))
      (roundBinary_eq 24 _ _ (3828060273822925 / 2251799813685248) (0) (14260636) (by norm_num [abs_of_pos]) (by norm_num) (by norm_num)
        (by norm_num) (by norm_num) (by norm_num))
  have h18 : tenths 18 = 15099497 / 8388608 := by
    rw [show (18 : Nat) = 17 + 1 from rfl, tenths_succ, h17]
    exact floatAdd_eq _ _ _ (4053240308878541 / 2251799813685248) _ toDouble_tenth
      (roundBinary_eq 53 _ _ (64851844942056653 / 36028797018963968) (0) (8106480617757082) (by norm_num [abs_of_pos]) (by norm_num) (by norm_num)
        (by norm_num) (by norm_num) (by norm_num))
      (roundBinary_eq 24 _ _ (4053240308878541 / 2251799813685248) (0) (15099497) (by norm_num [abs_of_pos]) (by norm_num) (by norm_num)
        (by norm_num) (by norm_num) (by norm_num))
  have h19 : tenths 19 = 7969179 / 4194304 := by
    rw [show (19 : Nat) = 18 + 1 from rfl, tenths_succ, h18]
    exact floatAdd_eq _ _ _ (4278420343934157 / 2251799813685248) _ toDouble_tenth
      (roundBinary_eq 53 _ _ (68454725502946509 / 36028797018963968) (0) (8556840687868314) (by norm_num [abs_of_pos]) (by norm_num) (by norm_num)
        (by norm_num) (by norm_num) (by norm_num))
      (roundBinary_eq 24 _ _ (4278420343934157 / 2251799813685248) (0) (15938358) (by norm_num [abs_of_pos]) (by norm_num) (by norm_num)
        (by norm_num) (by norm_num) (by norm_num))
  have h20 : tenths 20 = 8388609 / 4194304 := by
    rw [show (20 : Nat) = 19 + 1 from rfl, tenths_succ, h19]
    exact floatAdd_eq _ _ _ (4503600378989773 / 2251799813685248) _ toDouble_tenth
      (roundBinary_eq 53 _ _ (72057606063836365 / 36028797018963968) (1) (4503600378989773) (by norm_num [abs_of_pos]) (by norm_num) (by norm_num)
        (by norm_num) (by norm_num) (by norm_num))
      (roundBinary_eq 24 _ _ (4503600378989773 / 2251799813685248) (1) (8388609) (by norm_num [abs_of_pos]) (by norm_num) (by norm_num)
        (by norm_num) (by norm_num) (by norm_num))
  have h21 : tenths 21 = 8808039 / 4194304 := by
    rw [show (21 : Nat) = 20 + 1 from rfl, tenths_succ, h20]
    exact floatAdd_eq _ _ _ (4728780145609933 / 2251799813685248) _ toDouble_tenth
      (roundBinary_eq 53 _ _ (75660482329758925 / 36028797018963968) (1) (4728780145609933) (by norm_num [abs_of_pos]) (by norm_num) (by norm_num)
        (by norm_num) (by norm_num) (by norm_num))
      (roundBinary_eq 24 _ _ (4728780145609933 / 2251799813685248) (1) (8808039) (by norm_num [abs_of_pos]) (by norm_num) (by norm_num)
        (by norm_num) (by norm_num) (by norm_num))
  have h22 : tenths 22 = 9227469 / 4194304 := by
    rw [show (22 : Nat) = 21 + 1 from rfl, tenths_succ, h21]
    exact floatAdd_eq _ _ _ (4953959912230093 / 2251799813685248) _ toDouble_tenth
      (roundBinary_eq 53 _ _ (79263358595681485 / 36028797018963968) (1) (4953959912230093) (by norm_num [abs_of_pos]) (by norm_num) (by norm_num)
        (by norm_num) (by norm_num) (by norm_num))
      (roundBinary_eq 24 _ _ (4953959912230093 / 2251799813685248) (1) (9227469) (by norm_num [abs_of_pos]) (by norm_num) (by norm_num)
        (by norm_num) (by norm_num) (by norm_num))
  have h23 : tenths 23 = 9646899 / 4194304 := by
    rw [show (23 : Nat) = 22 + 1 from rfl, tenths_succ, h22]
    exact floatAdd_eq _ _ _ (5179139678850253 / 2251799813685248) _ toDouble_tenth
      (roundBinary_eq 53 _ _ (82866234861604045 / 36028797018963968) (1) (5179139678850253) (by norm_num [abs_of_pos]) (by norm_num) (by norm_num)
        (by norm_num) (by norm_num) (by norm_num))
      (roundBinary_eq 24 _ _ (5179139678850253 / 2251799813685248) (1) (9646899) (by norm_num [abs_of_pos]) (by norm_num) (by norm_num)
        (by norm_num) (by norm_num) (by norm_num))
  have h24 : tenths 24 = 10066329 / 4194304 := by
    rw [show (24 : Nat) = 23 + 1 from rfl, tenths_succ, h23]
    exact floatAdd_eq _ _ _ (5404319445470413 / 2251799813685248) _ toDouble_tenth
      (roundBinary_eq 53 _ _ (86469111127526605 / 36028797018963968) (1) (5404319445470413) (by norm_num [abs_of_pos]) (by norm_num) (by norm_num)
        (by norm_num) (by norm_num) (by norm_num))
      (roundBinary_eq 24 _ _ (5404319445470413 / 2251799813685248) (1) (10066329) (by norm_num [abs_of_pos]) (by norm_num) (by norm_num)
        (by norm_num) (by norm_num) (by norm_num))
  have h25 : tenths 25 = 10485759 / 4194304 := by
    rw [show (25 : Nat) = 24 + 1 from rfl, tenths_succ, h24]
    exact floatAdd_eq _ _ _ (5629499212090573 / 2251799813685248) _ toDouble_tenth
      (roundBinary_eq 53 _ _ (90071987393449165 / 36028797018963968) (1) (5629499212090573) (by norm_num [abs_of_pos]) (by norm_num) (by norm_num)
        (by norm_num) (by norm_num) (by norm_num))
      (roundBinary_eq 24 _ _ (5629499212090573 / 2251799813685248) (1) (10485759) (by norm_num [abs_of_pos]) (by norm_num) (by norm_num)
        (by norm_num) (by norm_num) (by norm_num))
  have b0 : 0 ≤ tenths 0 ∧ tenths 0 ≤ 20 := by rw [h0]; norm_num
  have b1 : 0 ≤ tenths 1 ∧ tenths 1 ≤ 20 := by rw [h1]; norm_num
  have b2 : 0 ≤ tenths 2 ∧ tenths 2 ≤ 20 := by rw [h2]; norm_num
  have b3 : 0 ≤ tenths 3 ∧ tenths 3 ≤ 20 := by rw [h3]; norm_num
  have b4 : 0 ≤ tenths 4 ∧ tenths 4 ≤ 20 := by rw [h4]; norm_num
  have b5 : 0 ≤ tenths 5 ∧ tenths 5 ≤ 20 := by rw [h5]; norm_num
  have b6 : 0 ≤ tenths 6 ∧ tenths 6 ≤ 20 := by rw [h6]; norm_num
  have b7 : 0 ≤ tenths 7 ∧ tenths 7 ≤ 20 := by rw [h7]; norm_num
  have b8 : 0 ≤ tenths 8 ∧ tenths 8 ≤ 20 := by rw [h8]; norm_num
  have b9 : 0 ≤ tenths 9 ∧ tenths 9 ≤ 20 := by rw [h9]; norm_num
  have b10 : 0 ≤ tenths 10 ∧ tenths 10 ≤ 20 := by rw [h10]; norm_num
  have b11 : 0 ≤ tenths 11 ∧ tenths 11 ≤ 20 := by rw [h11]; norm_num
  have b12 : 0 ≤ tenths 12 ∧ tenths 12 ≤ 20 := by rw [h12]; norm_num
  have b13 : 0 ≤ tenths 13 ∧ tenths 13 ≤ 20 := by rw [h13]; norm_num
  have b14 : 0 ≤ tenths 14 ∧ tenths 14 ≤ 20 := by rw [h14]; norm_num
  have b15 : 0 ≤ tenths 15 ∧ tenths 15 ≤ 20 := by rw [h15]; norm_num
  have b16 : 0 ≤ tenths 16 ∧ tenths 16 ≤ 20 := by rw [h16]; norm_num
  have b17 : 0 ≤ tenths 17 ∧ tenths 17 ≤ 20 := by rw [h17]; norm_num
  have b18 : 0 ≤ tenths 18 ∧ tenths 18 ≤ 20 := by rw [h18]; norm_num
  have b19 : 0 ≤ tenths 19 ∧ tenths 19 ≤ 20 := by rw [h19]; norm_num
  have b20 : 0 ≤ tenths 20 ∧ tenths 20 ≤ 20 := by rw [h20]; norm_num
  have b21 : 0 ≤ tenths 21 ∧ tenths 21 ≤ 20 := by rw [h21]; norm_num
  have b22 : 0 ≤ tenths 22 ∧ tenths 22 ≤ 20 := by rw [h22]; norm_num
  have b23 : 0 ≤ tenths 23 ∧ tenths 23 ≤ 20 := by rw [h23]; norm_num
  have b24 : 0 ≤ tenths 24 ∧ tenths 24 ≤ 20 := by rw [h24]; norm_num
  have b25 : 0 ≤ tenths 25 ∧ tenths 25 ≤ 20 := by rw [h25]; norm_num
  have n0 : |tenths 0 - ((0 : ℕ) : ℚ) / 10| ≤ 1 / 1000000 := by
    rw [h0]; norm_num [abs_le]
  have n1 : |tenths 1 - ((1 : ℕ) : ℚ) / 10| ≤ 1 / 1000000 := by
    rw [h1]; norm_num [abs_le]
  have n2 : |tenths 2 - ((2 : ℕ) : ℚ) / 10| ≤ 1 / 1000000 := by
    rw [h2]; norm_num [abs_le]
  have n3 : |tenths 3 - ((3 : ℕ) : ℚ) / 10| ≤ 1 / 1000000 := by
    rw [h3]; norm_num [abs_le]
  have n4 : |tenths 4 - ((4 : ℕ) : ℚ) / 10| ≤ 1 / 1000000 := by
    rw [h4]; norm_num [abs_le]
  have n5 : |tenths 5 - ((5 : ℕ) : ℚ) / 10| ≤ 1 / 1000000 := by
    rw [h5]; norm_num [abs_le]
  have n6 : |tenths 6 - ((6 : ℕ) : ℚ) / 10| ≤ 1 / 1000000 := by
    rw [h6]; norm_num [abs_le]
  have n7 : |tenths 7 - ((7 : ℕ) : ℚ) / 10| ≤ 1 / 1000000 := by
    rw [h7]; norm_num [abs_le]
  have n8 : |tenths 8 - ((8 : ℕ) : ℚ) / 10| ≤ 1 / 1000000 := by
    rw [h8]; norm_num [abs_le]
  have n9 : |tenths 9 - ((9 : ℕ) : ℚ) / 10| ≤ 1 / 1000000 := by
    rw [h9]; norm_num [abs_le]
  have n10 : |tenths 10 - ((10 : ℕ) : ℚ) / 10| ≤ 1 / 1000000 := by
    rw [h10]; norm_num [abs_le]
  have n11 : |tenths 11 - ((11 : ℕ) : ℚ) / 10| ≤ 1 / 1000000 := by
    rw [h11]; norm_num [abs_le]
  have n12 : |tenths 12 - ((12 : ℕ) : ℚ) / 10| ≤ 1 / 1000000 := by
    rw [h12]; norm_num [abs_le]
  have n13 : |tenths 13 - ((13 : ℕ) : ℚ) / 10| ≤ 1 / 1000000 := by
    rw [h13]; norm_num [abs_le]
  have n14 : |tenths 14 - ((14 : ℕ) : ℚ) / 10| ≤ 1 / 1000000 := by
    rw [h14]; norm_num [abs_le]
  have n15 : |tenths 15 - ((15 : ℕ) : ℚ) / 10| ≤ 1 / 1000000 := by
    rw [h15]; norm_num [abs_le]
  have n16 : |tenths 16 - ((16 : ℕ) : ℚ) / 10| ≤ 1 / 1000000 := by
    rw [h16]; norm_num [abs_le]
  have n17 : |tenths 17 - ((17 : ℕ) : ℚ) / 10| ≤ 1 / 1000000 := by
    rw [h17]; norm_num [abs_le]
  have n18 : |tenths 18 - ((18 : ℕ) : ℚ) / 10| ≤ 1 / 1000000 := by
    rw [h18]; norm_num [abs_le]
  have n19 : |tenths 19 - ((19 : ℕ) : ℚ) / 10| ≤ 1 / 1000000 := by
    rw [h19]; norm_num [abs_le]
  have n20 : |tenths 20 - ((20 : ℕ) : ℚ) / 10| ≤ 1 / 1000000 := by
    rw [h20]; norm_num [abs_le]
  have n21 : |tenths 21 - ((21 : ℕ) : ℚ) / 10| ≤ 1 / 1000000 := by
    rw [h21]; norm_num [abs_le]
  have j0 : tenths 0 ≤ 2.1 := by rw [h0]; norm_num
  have j1 : tenths 1 ≤ 2.1 := by rw [h1]; norm_num
  have j2 : tenths 2 ≤ 2.1 := by rw [h2]; norm_num
  have j3 : tenths 3 ≤ 2.1 := by rw [h3]; norm_num
  have j4 : tenths 4 ≤ 2.1 := by rw [h4]; norm_num
  have j5 : tenths 5 ≤ 2.1 := by rw [h5]; norm_num
  have j6 : tenths 6 ≤ 2.1 := by rw [h6]; norm_num
  have j7 : tenths 7 ≤ 2.1 := by rw [h7]; norm_num
  have j8 : tenths 8 ≤ 2.1 := by rw [h8]; norm_num
  have j9 : tenths 9 ≤ 2.1 := by rw [h9]; norm_num
  have j10 : tenths 10 ≤ 2.1 := by rw [h10]; norm_num
  have j11 : tenths 11 ≤ 2.1 := by rw [h11]; norm_num
  have j12 : tenths 12 ≤ 2.1 := by rw [h12]; norm_num
  have j13 : tenths 13 ≤ 2.1 := by rw [h13]; norm_num
  have j14 : tenths 14 ≤ 2.1 := by rw [h14]; norm_num
  have j15 : tenths 15 ≤ 2.1 := by rw [h15]; norm_num
  have j16 : tenths 16 ≤ 2.1 := by rw [h16]; norm_num
  have j17 : tenths 17 ≤ 2.1 := by rw [h17]; norm_num
  have j18 : tenths 18 ≤ 2.1 := by rw [h18]; norm_num
  have j19 : tenths 19 ≤ 2.1 := by rw [h19]; norm_num
  have j20 : tenths 20 ≤ 2.1 := by rw [h20]; norm_num
  refine ⟨h25, ?_, h1, h5, h20, h21, ?_, ?_⟩
  · intro k hk
    interval_cases k
    exacts [
      b0, b1, b2, b3, b4, b5, b6, b7, b8, b9, b10, b11, b12, b13, b14, b15, b16, b17, b18, b19,
      b20, b21, b22, b23, b24, b25]
  · intro k hk
    interval_cases k
    exacts [
      n0, n1, n2, n3, n4, n5, n6, n7, n8, n9, n10, n11, n12, n13, n14, n15, n16, n17, n18, n19,
      n20, n21]
  · intro k hk
    interval_cases k
    exacts [
      j0, j1, j2, j3, j4, j5, j6, j7, j8, j9, j10, j11, j12, j13, j14, j15, j16, j17, j18, j19,
      j20]

/-- The clock over its second 25 additions. -/
theorem tenths_values_2 :
    tenths 50 = 10485755 / 2097152 ∧ (∀ k ≤ 50, 0 ≤ tenths k ∧ tenths k ≤ 20) := by
  have h25 : tenths 25 = 10485759 / 4194304 := tenths_values_1.1
  have h26 : tenths 26 = 10905189 / 4194304 := by
    rw [show (26 : Nat) = 25 + 1 from rfl, tenths_succ, h25]
    exact floatAdd_eq _ _ _ (5854678978710733 / 2251799813685248) _ toDouble_tenth
      (roundBinary_eq 53 _ _ (93674863659371725 / 36028797018963968) (1) (5854678978710733) (by norm_num [abs_of_pos]) (by norm_num) (by norm_num)
        (by norm_num) (by norm_num) (by norm_num))
      (roundBinary_eq 24 _ _ (5854678978710733 / 2251799813685248) (1) (10905189) (by norm_num [abs_of_pos]) (by norm_num) (by norm_num)
        (by norm_num) (by norm_num) (by norm_num))
  have h27 : tenths 27 = 11324619 / 4194304 := by
    rw [show (27 : Nat) = 26 + 1 from rfl, tenths_succ, h26]
    exact floatAdd_eq _ _ _ (6079858745330893 / 2251799813685248) _ toDouble_tenth
      (roundBinary_eq 53 _ _ (97277739925294285 / 36028797018963968) (1) (6079858745330893) (by norm_num [abs_of_pos]) (by norm_num) (by norm_num)
        (by norm_num) (by norm_num) (by norm_num))
      (roundBinary_eq 24 _ _ (6079858745330893 / 2251799813685248) (1) (11324619) (by norm_num [abs_of_pos]) (by norm_num) (by norm_num)
        (by norm_num) (by norm_num) (by norm_num))
  have h28 : tenths 28 = 11744049 / 4194304 := by
    rw [show (28 : Nat) = 27 + 1 from rfl, tenths_succ, h27]
    exact floatAdd_eq _ _ _ (6305038511951053 / 2251799813685248) _ toDouble_tenth
      (roundBinary_eq 53 _ _ (100880616191216845 / 36028797018963968) (1) (6305038511951053) (by norm_num [abs_of_pos]) (by norm_num) (by norm_num)
        (by norm_num) (by norm_num) (by norm_num))
      (roundBinary_eq 24 _ _ (6305038511951053 / 2251799813685248) (1) (11744049) (by norm_num [abs_of_pos]) (by norm_num) (by norm_num)
        (by norm_num) (by norm_num) (by norm_num))
  have h29 : tenths 29 = 12163479 / 4194304 := by
    rw [show (29 : Nat) = 28 + 1 from rfl, tenths_succ, h28]
    exact floatAdd_eq _ _ _ (6530218278571213 / 2251799813685248) _ toDouble_tenth
      (roundBinary_eq 53 _ _ (104483492457139405 / 36028797018963968) (1) (6530218278571213) (by norm_num [abs_of_pos]) (by norm_num) (by norm_num)
        (by norm_num) (by norm_num) (by norm_num))
      (roundBinary_eq 24 _ _ (6530218278571213 / 2251799813685248) (1) (12163479) (by norm_num [abs_of_pos]) (by norm_num) (by norm_num)
        (by norm_num) (by norm_num) (by norm_num))
  have h30 : tenths 30 = 12582909 / 4194304 := by
    rw [show (30 : Nat) = 29 + 1 from rfl, tenths_succ, h29]
    exact floatAdd_eq _ _ _ (6755398045191373 / 2251799813685248) _ toDouble_tenth
      (roundBinary_eq 53 _ _ (108086368723061965 / 36028797018963968) (1) (6755398045191373) (by norm_num [abs_of_pos]) (by norm_num) (by norm_num)
        (by norm_num) (by norm_num) (by norm_num))
      (roundBinary_eq 24 _ _ (6755398045191373 / 2251799813685248) (1) (12582909) (by norm_num [abs_of_pos]) (by norm_num) (by norm_num)
        (by norm_num) (by norm_num) (by norm_num))
  have h31 : tenths 31 = 13002339 / 4194304 := by
    rw [show (31 : Nat) = 30 + 1 from rfl, tenths_succ, h30]
    exact floatAdd_eq _ _ _ (6980577811811533 / 2251799813685248) _ toDouble_tenth
      (roundBinary_eq 53 _ _ (111689244988984525 / 36028797018963968) (1) (6980577811811533) (by norm_num [abs_of_pos]) (by norm_num) (by norm_num)
        (by norm_num) (by norm_num) (by norm_num))
      (roundBinary_eq 24 _ _ (6980577811811533 / 2251799813685248) (1) (13002339) (by norm_num [abs_of_pos]) (by norm_num) (by norm_num)
        (by norm_num) (by norm_num) (by norm_num))
  have h32 : tenths 32 = 13421769 / 4194304 := by
    rw [show (32 : Nat) = 31 + 1 from rfl, tenths_succ, h31]
    exact floatAdd_eq _ _ _ (7205757578431693 / 2251799813685248) _ toDouble_tenth
      (roundBinary_eq 53 _ _ (115292121254907085 / 36028797018963968) (1) (7205757578431693) (by norm_num [abs_of_pos]) (by norm_num) (by norm_num)
        (by norm_num) (by norm_num) (by norm_num))
      (roundBinary_eq 24 _ _ (7205757578431693 / 2251799813685248) (1) (13421769) (by norm_num [abs_of_pos]) (by norm_num) (by norm_num)
        (by norm_num) (by norm_num) (by norm_num))
  have h33 : tenths 33 = 13841199 / 4194304 := by
    rw [show (33 : Nat) = 32 + 1 from rfl, tenths_succ, h32]
    exact floatAdd_eq _ _ _ (7430937345051853 / 2251799813685248) _ toDouble_tenth
      (roundBinary_eq 53 _ _ (118894997520829645 / 36028797018963968) (1) (7430937345051853) (by norm_num [abs_of_pos]) (by norm_num) (by norm_num)
        (by norm_num) (by norm_num) (by norm_num))
      (roundBinary_eq 24 _ _ (7430937345051853 / 2251799813685248) (1) (13841199) (by norm_num [abs_of_pos]) (by norm_num) (by norm_num)
        (by norm_num) (by norm_num) (by norm_num))
  have h34 : tenths 34 = 14260629 / 4194304 := by
    rw [show (34 : Nat) = 33 + 1 from rfl, tenths_succ, h33]
    exact floatAdd_eq _ _ _ (7656117111672013 / 2251799813685248) _ toDouble_tenth
      (roundBinary_eq 53 _ _ (122497873786752205 / 36028797018963968) (1) (7656117111672013) (by norm_num [abs_of_pos]) (by norm_num) (by norm_num)
        (by norm_num) (by norm_num) (by norm_num))
      (roundBinary_eq 24 _ _ (7656117111672013 / 2251799813685248) (1) (14260629) (by norm_num [abs_of_pos]) (by norm_num) (by norm_num)
        (by norm_num) (by norm_num) (by norm_num))
  have h35 : tenths 35 = 14680059 / 4194304 := by
    rw [show (35 : Nat) = 34 + 1 from rfl, tenths_succ, h34]
    exact floatAdd_eq _ _ _ (7881296878292173 / 2251799813685248) _ toDouble_tenth
      (roundBinary_eq 53 _ _ (126100750052674765 / 36028797018963968) (1) (7881296878292173) (by norm_num [abs_of_pos]) (by norm_num) (by norm_num)
        (by norm_num) (by norm_num) (by norm_num))
      (roundBinary_eq 24 _ _ (7881296878292173 / 2251799813685248) (1) (14680059) (by norm_num [abs_of_pos]) (by norm_num) (by norm_num)
        (by norm_num) (by norm_num) (by norm_num))
  have h36 : tenths 36 = 15099489 / 4194304 := by
    rw [show (36 : Nat) = 35 + 1 from rfl, tenths_succ, h35]
    exact floatAdd_eq _ _ _ (8106476644912333 / 2251799813685248) _ toDouble_tenth
      (roundBinary_eq 53 _ _ (129703626318597325 / 36028797018963968) (1) (8106476644912333) (by norm_num [abs_of_pos]) (by norm_num) (by norm_num)
        (by norm_num) (by norm_num) (by norm_num))
      (roundBinary_eq 24 _ _ (8106476644912333 / 2251799813685248) (1) (15099489) (by norm_num [abs_of_pos]) (by norm_num) (by norm_num)
        (by norm_num) (by norm_num) (by norm_num))
  have h37 : tenths 37 = 15518919 / 4194304 := by
    rw [show (37 : Nat) = 36 + 1 from rfl, tenths_succ, h36]
    exact floatAdd_eq _ _ _ (8331656411532493 / 2251799813685248) _ toDouble_tenth
      (roundBinary_eq 53 _ _ (133306502584519885 / 36028797018963968) (1) (8331656411532493) (by norm_num [abs_of_pos]) (by norm_num) (by norm_num)
        (by norm_num) (by norm_num) (by norm_num))
      (roundBinary_eq 24 _ _ (8331656411532493 / 2251799813685248) (1) (15518919) (by norm_num [abs_of_pos]) (by norm_num) (by norm_num)
        (by norm_num) (by norm_num) (by norm_num))
  have h38 : tenths 38 = 15938349 / 4194304 := by
    rw [show (38 : Nat) = 37 + 1 from rfl, tenths_succ, h37]
    exact floatAdd_eq _ _ _ (8556836178152653 / 2251799813685248) _ toDouble_tenth
      (roundBinary_eq 53 _ _ (136909378850442445 / 36028797018963968) (1) (8556836178152653) (by norm_num [abs_of_pos]) (by norm_num) (by norm_num)
        (by norm_num) (by norm_num) (by norm_num))
      (roundBinary_eq 24 _ _ (8556836178152653 / 2251799813685248) (1) (15938349) (by norm_num [abs_of_pos]) (by norm_num) (by norm_num)
        (by norm_num) (by norm_num) (by norm_num))
  have h39 : tenths 39 = 16357779 / 4194304 := by
    rw [show (39 : Nat) = 38 + 1 from rfl, tenths_succ, h38]
    exact floatAdd_eq _ _ _ (8782015944772813 / 2251799813685248) _ toDouble_tenth
      (roundBinary_eq 53 _ _ (140512255116365005 / 36028797018963968) (1) (8782015944772813) (by norm_num [abs_of_pos]) (by norm_num) (by norm_num)
        (by norm_num) (by norm_num) (by norm_num))
      (roundBinary_eq 24 _ _ (8782015944772813 / 2251799813685248) (1) (16357779) (by norm_num [abs_of_pos]) (by norm_num) (by norm_num)
        (by norm_num) (by norm_num) (by norm_num))
  have h40 : tenths 40 = 16777209 / 4194304 := by
    rw [show (40 : Nat) = 39 + 1 from rfl, tenths_succ, h39]
    exact floatAdd_eq _ _ _ (9007195711392973 / 2251799813685248) _ toDouble_tenth
      (roundBinary_eq 53 _ _ (144115131382287565 / 36028797018963968) (1) (9007195711392973) (by norm_num [abs_of_pos]) (by norm_num) (by norm_num)
        (by norm_num) (by norm_num) (by norm_num))
      (roundBinary_eq 24 _ _ (9007195711392973 / 2251799813685248) (1) (16777209) (by norm_num [abs_of_pos]) (by norm_num) (by norm_num)
        (by norm_num) (by norm_num) (by norm_num))
  have h41 : tenths 41 = 537395 / 131072 := by
    rw [show (41 : Nat) = 40 + 1 from rfl, tenths_succ, h40]
    exact floatAdd_eq _ _ _ (2308093869503283 / 562949953421312) _ toDouble_tenth
      (roundBinary_eq 53 _ _ (147718007648210125 / 36028797018963968) (2) (4616187739006566) (by norm_num [abs_of_pos]) (by norm_num) (by norm_num)
        (by norm_num) (by norm_num) (by norm_num))
      (roundBinary_eq 24 _ _ (2308093869503283 / 562949953421312) (2) (8598320) (by norm_num [abs_of_pos]) (by norm_num) (by norm_num)
        (by norm_num) (by norm_num) (by norm_num))
  have h42 : tenths 42 = 8808035 / 2097152 := by
    rw [show (42 : Nat) = 41 + 1 from rfl, tenths_succ, h41]
    exact floatAdd_eq _ _ _ (2364388945376051 / 562949953421312) _ toDouble_tenth
      (roundBinary_eq 53 _ _ (151320892504067277 / 36028797018963968) (2) (4728777890752102) (by norm_num [abs_of_pos]) (by norm_num) (by norm_num)
        (by norm_num) (by norm_num) (by norm_num))
      (roundBinary_eq 24 _ _ (2364388945376051 / 562949953421312) (2) (8808035) (by norm_num [abs_of_pos]) (by norm_num) (by norm_num)
        (by norm_num) (by norm_num) (by norm_num))
  have h43 : tenths 43 = 4508875 / 1048576 := by
    rw [show (43 : Nat) = 42 + 1 from rfl, tenths_succ, h42]
    exact floatAdd_eq _ _ _ (2420683887031091 / 562949953421312) _ toDouble_tenth
      (roundBinary_eq 53 _ _ (154923768769989837 / 36028797018963968) (2) (4841367774062182) (by norm_num [abs_of_pos]) (by norm_num) (by norm_num)
        (by norm_num) (by norm_num) (by norm_num))
      (roundBinary_eq 24 _ _ (2420683887031091 / 562949953421312) (2) (9017750) (by norm_num [abs_of_pos]) (by norm_num) (by norm_num)
        (by norm_num) (by norm_num) (by norm_num))
  have h44 : tenths 44 = 9227465 / 2097152 := by
    rw [show (44 : Nat) = 43 + 1 from rfl, tenths_succ, h43]
    exact floatAdd_eq _ _ _ (2476978828686131 / 562949953421312) _ toDouble_tenth
      (roundBinary_eq 53 _ _ (158526645035912397 / 36028797018963968) (2) (4953957657372262) (by norm_num [abs_of_pos]) (by norm_num) (by norm_num)
        (by norm_num) (by norm_num) (by norm_num))
      (roundBinary_eq 24 _ _ (2476978828686131 / 562949953421312) (2) (9227465) (by norm_num [abs_of_pos]) (by norm_num) (by norm_num)
        (by norm_num) (by norm_num) (by norm_num))
  have h45 : tenths 45 = 2359295 / 524288 := by
    rw [show (45 : Nat) = 44 + 1 from rfl, tenths_succ, h44]
    exact floatAdd_eq _ _ _ (2533273770341171 / 562949953421312) _ toDouble_tenth
      (roundBinary_eq 53 _ _ (162129521301834957 / 36028797018963968) (2) (5066547540682342) (by norm_num [abs_of_pos]) (by norm_num) (by norm_num)
        (by norm_num) (by norm_num) (by norm_num))
      (roundBinary_eq 24 _ _ (2533273770341171 / 562949953421312) (2) (9437180) (by norm_num [abs_of_pos]) (by norm_num) (by norm_num)
        (by norm_num) (by norm_num) (by norm_num))
  have h46 : tenths 46 = 9646895 / 2097152 := by
    rw [show (46 : Nat) = 45 + 1 from rfl, tenths_succ, h45]
    exact floatAdd_eq _ _ _ (2589568711996211 / 562949953421312) _ toDouble_tenth
      (roundBinary_eq 53 _ _ (165732397567757517 / 36028797018963968) (2) (5179137423992422) (by norm_num [abs_of_pos]) (by norm_num) (by norm_num)
        (by norm_num) (by norm_num) (by norm_num))
      (roundBinary_eq 24 _ _ (2589568711996211 / 562949953421312) (2) (9646895) (by norm_num [abs_of_pos]) (by norm_num) (by norm_num)
        (by norm_num) (by norm_num) (by norm_num))
  have h47 : tenths 47 = 4928305 / 1048576 := by
    rw [show (47 : Nat) = 46 + 1 from rfl, tenths_succ, h46]
    exact floatAdd_eq _ _ _ (2645863653651251 / 562949953421312) _ toDouble_tenth
      (roundBinary_eq 53 _ _ (169335273833680077 / 36028797018963968) (2) (5291727307302502) (by norm_num [abs_of_pos]) (by norm_num) (by norm_num)
        (by norm_num) (by norm_num) (by norm_num))
      (roundBinary_eq 24 _ _ (2645863653651251 / 562949953421312) (2) (9856610) (by norm_num [abs_of_pos]) (by norm_num) (by norm_num)
        (by norm_num) (by norm_num) (by norm_num))
  have h48 : tenths 48 = 10066325 / 2097152 := by
    rw [show (48 : Nat) = 47 + 1 from rfl, tenths_succ, h47]
    exact floatAdd_eq _ _ _ (2702158595306291 / 562949953421312) _ toDouble_tenth
      (roundBinary_eq 53 _ _ (172938150099602637 / 36028797018963968) (2) (5404317190612582) (by norm_num [abs_of_pos]) (by norm_num) (by norm_num)
        (by norm_num) (by norm_num) (by norm_num))
      (roundBinary_eq 24 _ _ (2702158595306291 / 562949953421312) (2) (10066325) (by norm_num [abs_of_pos]) (by norm_num) (by norm_num)
        (by norm_num) (by norm_num) (by norm_num))
  have h49 : tenths 49 = 1284505 / 262144 := by
    rw [show (49 : Nat) = 48 + 1 from rfl, tenths_succ, h48]
    exact floatAdd_eq _ _ _ (2758453536961331 / 562949953421312) _ toDouble_tenth
      (roundBinary_eq 53 _ _ (176541026365525197 / 36028797018963968) (2) (5516907073922662) (by norm_num [abs_of_pos]) (by norm_num) (by norm_num)
        (by norm_num) (by norm_num) (by norm_num))
      (roundBinary_eq 24 _ _ (2758453536961331 / 562949953421312) (2) (10276040) (by norm_num [abs_of_pos]) (by norm_num) (by norm_num)
        (by norm_num) (by norm_num) (by norm_num))
  have h50 : tenths 50 = 10485755 / 2097152 := by
    rw [show (50 : Nat) = 49 + 1 from rfl, tenths_succ, h49]
    exact floatAdd_eq _ _ _ (2814748478616371 / 562949953421312) _ toDouble_tenth
      (roundBinary_eq 53 _ _ (180143902631447757 / 36028797018963968) (2) (5629496957232742) (by norm_num [abs_of_pos]) (by norm_num) (by norm_num)
        (by norm_num) (by norm_num) (by norm_num))
      (roundBinary_eq 24 _ _ (2814748478616371 / 562949953421312) (2) (10485755) (by norm_num [abs_of_pos]) (by norm_num) (by norm_num)
        (by norm_num) (by norm_num) (by norm_num))
  have b26 : 0 ≤ tenths 26 ∧ tenths 26 ≤ 20 := by rw [h26]; norm_num
  have b27 : 0 ≤ tenths 27 ∧ tenths 27 ≤ 20 := by rw [h27]; norm_num
  have b28 : 0 ≤ tenths 28 ∧ tenths 28 ≤ 20 := by rw [h28]; norm_num
  have b29 : 0 ≤ tenths 29 ∧ tenths 29 ≤ 20 := by rw [h29]; norm_num
  have b30 : 0 ≤ tenths 30 ∧ tenths 30 ≤ 20 := by rw [h30]; norm_num
  have b31 : 0 ≤ tenths 31 ∧ tenths 31 ≤ 20 := by rw [h31]; norm_num
  have b32 : 0 ≤ tenths 32 ∧ tenths 32 ≤ 20 := by rw [h32]; norm_num
  have b33 : 0 ≤ tenths 33 ∧ tenths 33 ≤ 20 := by rw [h33]; norm_num
  have b34 : 0 ≤ tenths 34 ∧ tenths 34 ≤ 20 := by rw [h34]; norm_num
  have b35 : 0 ≤ tenths 35 ∧ tenths 35 ≤ 20 := by rw [h35]; norm_num
  have b36 : 0 ≤ tenths 36 ∧ tenths 36 ≤ 20 := by rw [h36]; norm_num
  have b37 : 0 ≤ tenths 37 ∧ tenths 37 ≤ 20 := by rw [h37]; norm_num
  have b38 : 0 ≤ tenths 38 ∧ tenths 38 ≤ 20 := by rw [h38]; norm_num
  have b39 : 0 ≤ tenths 39 ∧ tenths 39 ≤ 20 := by rw [h39]; norm_num
  have b40 : 0 ≤ tenths 40 ∧ tenths 40 ≤ 20 := by rw [h40]; norm_num
  have b41 : 0 ≤ tenths 41 ∧ tenths 41 ≤ 20 := by rw [h41]; norm_num
  have b42 : 0 ≤ tenths 42 ∧ tenths 42 ≤ 20 := by rw [h42]; norm_num
  have b43 : 0 ≤ tenths 43 ∧ tenths 43 ≤ 20 := by rw [h43]; norm_num
  have b44 : 0 ≤ tenths 44 ∧ tenths 44 ≤ 20 := by rw [h44]; norm_num
  have b45 : 0 ≤ tenths 45 ∧ tenths 45 ≤ 20 := by rw [h45]; norm_num
  have b46 : 0 ≤ tenths 46 ∧ tenths 46 ≤ 20 := by rw [h46]; norm_num
  have b47 : 0 ≤ tenths 47 ∧ tenths 47 ≤ 20 := by rw [h47]; norm_num
  have b48 : 0 ≤ tenths 48 ∧ tenths 48 ≤ 20 := by rw [h48]; norm_num
  have b49 : 0 ≤ tenths 49 ∧ tenths 49 ≤ 20 := by rw [h49]; norm_num
  have b50 : 0 ≤ tenths 50 ∧ tenths 50 ≤ 20 := by rw [h50]; norm_num
  refine ⟨h50, ?_⟩
  intro k hk
  by_cases hlo : k ≤ 25
  · exact tenths_values_1.2.1 k hlo
  · have hlo2 : 25 < k := not_le.mp hlo
    interval_cases k
    exacts [
      b26, b27, b28, b29, b30, b31, b32, b33, b34, b35, b36, b37, b38, b39, b40, b41, b42, b43,
      b44, b45, b46, b47, b48, b49, b50]

/-- The clock over its third 25 additions. -/
theorem tenths_values_3 :
    tenths 75 = 7864315 / 1048576 ∧ (∀ k ≤ 75, 0 ≤ tenths k ∧ tenths k ≤ 20) := by
  have h50 : tenths 50 = 10485755 / 2097152 := tenths_values_2.1
  have h51 : tenths 51 = 5347735 / 1048576 := by
    rw [show (51 : Nat) = 50 + 1 from rfl, tenths_succ, h50]
    exact floatAdd_eq _ _ _ (2871043420271411 / 562949953421312) _ toDouble_tenth
      (roundBinary_eq 53 _ _ (183746778897370317 / 36028797018963968) (2) (5742086840542822) (by norm_num [abs_of_pos]) (by norm_num) (by norm_num)
        (by norm_num) (by norm_num) (by norm_num))
      (roundBinary_eq 24 _ _ (2871043420271411 / 562949953421312) (2) (10695470) (by norm_num [abs_of_pos]) (by norm_num) (by norm_num)
        (by norm_num) (by norm_num) (by norm_num))
  have h52 : tenths 52 = 10905185 / 2097152 := by
    rw [show (52 : Nat) = 51 + 1 from rfl, tenths_succ, h51]
    exact floatAdd_eq _ _ _ (2927338361926451 / 562949953421312) _ toDouble_tenth
      (roundBinary_eq 53 _ _ (187349655163292877 / 36028797018963968) (2) (5854676723852902) (by norm_num [abs_of_pos]) (by norm_num) (by norm_num)
        (by norm_num) (by norm_num) (by norm_num))
      (roundBinary_eq 24 _ _ (2927338361926451 / 562949953421312) (2) (10905185) (by norm_num [abs_of_pos]) (by norm_num) (by norm_num)
        (by norm_num) (by norm_num) (by norm_num))
  have h53 : tenths 53 = 2778725 / 524288 := by
    rw [show (53 : Nat) = 52 + 1 from rfl, tenths_succ, h52]
    exact floatAdd_eq _ _ _ (2983633303581491 / 562949953421312) _ toDouble_tenth
      (roundBinary_eq 53 _ _ (190952531429215437 / 36028797018963968) (2) (5967266607162982) (by norm_num [abs_of_pos]) (by norm_num) (by norm_num)
        (by norm_num) (by norm_num) (by norm_num))
      (roundBinary_eq 24 _ _ (2983633303581491 / 562949953421312) (2) (11114900) (by norm_num [abs_of_pos]) (by norm_num) (by norm_num)
        (by norm_num) (by norm_num) (by norm_num))
  have h54 : tenths 54 = 11324615 / 2097152 := by
    rw [show (54 : Nat) = 53 + 1 from rfl, tenths_succ, h53]
    exact floatAdd_eq _ _ _ (3039928245236531 / 562949953421312) _ toDouble_tenth
      (roundBinary_eq 53 _ _ (194555407695137997 / 36028797018963968) (2) (6079856490473062) (by norm_num [abs_of_pos]) (by norm_num) (by norm_num)
        (by norm_num) (by norm_num) (by norm_num))
      (roundBinary_eq 24 _ _ (3039928245236531 / 562949953421312) (2) (11324615) (by norm_num [abs_of_pos]) (by norm_num) (by norm_num)
        (by norm_num) (by norm_num) (by norm_num))
  have h55 : tenths 55 = 5767165 / 1048576 := by
    rw [show (55 : Nat) = 54 + 1 from rfl, tenths_succ, h54]
    exact floatAdd_eq _ _ _ (3096223186891571 / 562949953421312) _ toDouble_tenth
      (roundBinary_eq 53 _ _ (198158283961060557 / 36028797018963968) (2) (6192446373783142) (by norm_num [abs_of_pos]) (by norm_num) (by norm_num)
        (by norm_num) (by norm_num) (by norm_num))
      (roundBinary_eq 24 _ _ (3096223186891571 / 562949953421312) (2) (11534330) (by norm_num [abs_of_pos]) (by norm_num) (by norm_num)
        (by norm_num) (by norm_num) (by norm_num))
  have h56 : tenths 56 = 11744045 / 2097152 := by
    rw [show (56 : Nat) = 55 + 1 from rfl, tenths_succ, h55]
    exact floatAdd_eq _ _ _ (3152518128546611 / 562949953421312) _ toDouble_tenth
      (roundBinary_eq 53 _ _ (201761160226983117 / 36028797018963968) (2) (6305036257093222) (by norm_num [abs_of_pos]) (by norm_num) (by norm_num)
        (by norm_num) (by norm_num) (by norm_num))
      (roundBinary_eq 24 _ _ (3152518128546611 / 562949953421312) (2) (11744045) (by norm_num [abs_of_pos]) (by norm_num) (by norm_num)
        (by norm_num) (by norm_num) (by norm_num))
  have h57 : tenths 57 = 373555 / 65536 := by
    rw [show (57 : Nat) = 56 + 1 from rfl, tenths_succ, h56]
    exact floatAdd_eq _ _ _ (3208813070201651 / 562949953421312) _ toDouble_tenth
      (roundBinary_eq 53 _ _ (205364036492905677 / 36028797018963968) (2) (6417626140403302) (by norm_num [abs_of_pos]) (by norm_num) (by norm_num)
        (by norm_num) (by norm_num) (by norm_num))
      (roundBinary_eq 24 _ _ (3208813070201651 / 562949953421312) (2) (11953760) (by norm_num [abs_of_pos]) (by norm_num) (by norm_num)
        (by norm_num) (by norm_num) (by norm_num))
  have h58 : tenths 58 = 12163475 / 2097152 := by
    rw [show (58 : Nat) = 57 + 1 from rfl, tenths_succ, h57]
    exact floatAdd_eq _ _ _ (3265108011856691 / 562949953421312) _ toDouble_tenth
      (roundBinary_eq 53 _ _ (208966912758828237 / 36028797018963968) (2) (6530216023713382) (by norm_num [abs_of_pos]) (by norm_num) (by norm_num)
        (by norm_num) (by norm_num) (by norm_num))
      (roundBinary_eq 24 _ _ (3265108011856691 / 562949953421312) (2) (12163475) (by norm_num [abs_of_pos]) (by norm_num) (by norm_num)
        (by norm_num) (by norm_num) (by norm_num))
  have h59 : tenths 59 = 6186595 / 1048576 := by
    rw [show (59 : Nat) = 58 + 1 from rfl, tenths_succ, h58]
    exact floatAdd_eq _ _ _ (3321402953511731 / 562949953421312) _ toDouble_tenth
      (roundBinary_eq 53 _ _ (212569789024750797 / 36028797018963968) (2) (6642805907023462) (by norm_num [abs_of_pos]) (by norm_num) (by norm_num)
        (by norm_num) (by norm_num) (by norm_num))
      (roundBinary_eq 24 _ _ (3321402953511731 / 562949953421312) (2) (12373190) (by norm_num [abs_of_pos]) (by norm_num) (by norm_num)
        (by norm_num) (by norm_num) (by norm_num))
  have h60 : tenths 60 = 12582905 / 2097152 := by
    rw [show (60 : Nat) = 59 + 1 from rfl, tenths_succ, h59]
    exact floatAdd_eq _ _ _ (3377697895166771 / 562949953421312) _ toDouble_tenth
      (roundBinary_eq 53 _ _ (216172665290673357 / 36028797018963968) (2) (6755395790333542) (by norm_num [abs_of_pos]) (by norm_num) (by norm_num)
        (by norm_num) (by norm_num) (by norm_num))
      (roundBinary_eq 24 _ _ (3377697895166771 / 562949953421312) (2) (12582905) (by norm_num [abs_of_pos]) (by norm_num) (by norm_num)
        (by norm_num) (by norm_num) (by norm_num))
  have h61 : tenths 61 = 3198155 / 524288 := by
    rw [show (61 : Nat) = 60 + 1 from rfl, tenths_succ, h60]
    exact floatAdd_eq _ _ _ (3433992836821811 / 562949953421312) _ toDouble_tenth
      (roundBinary_eq 53 _ _ (219775541556595917 / 36028797018963968) (2) (6867985673643622) (by norm_num [abs_of_pos]) (by norm_num) (by norm_num)
        (by norm_num) (by norm_num) (by norm_num))
      (roundBinary_eq 24 _ _ (3433992836821811 / 562949953421312) (2) (12792620) (by norm_num [abs_of_pos]) (by norm_num) (by norm_num)
        (by norm_num) (by norm_num) (by norm_num))
  have h62 : tenths 62 = 13002335 / 2097152 := by
    rw [show (62 : Nat) = 61 + 1 from rfl, tenths_succ, h61]
    exact floatAdd_eq _ _ _ (3490287778476851 / 562949953421312) _ toDouble_tenth
      (roundBinary_eq 53 _ _ (223378417822518477 / 36028797018963968) (2) (6980575556953702) (by norm_num [abs_of_pos]) (by norm_num) (by norm_num)
        (by norm_num) (by norm_num) (by norm_num))
      (roundBinary_eq 24 _ _ (3490287778476851 / 562949953421312) (2) (13002335) (by norm_num [abs_of_pos]) (by norm_num) (by norm_num)
        (by norm_num) (by norm_num) (by norm_num))
  have h63 : tenths 63 = 6606025 / 1048576 := by
    rw [show (63 : Nat) = 62 + 1 from rfl, tenths_succ, h62]
    exact floatAdd_eq _ _ _ (3546582720131891 / 562949953421312) _ toDouble_tenth
      (roundBinary_eq 53 _ _ (226981294088441037 / 36028797018963968) (2) (7093165440263782) (by norm_num [abs_of_pos]) (by norm_num) (by norm_num)
        (by norm_num) (by norm_num) (by norm_num))
      (roundBinary_eq 24 _ _ (3546582720131891 / 562949953421312) (2) (13212050) (by norm_num [abs_of_pos]) (by norm_num) (by norm_num)
        (by norm_num) (by norm_num) (by norm_num))
  have h64 : tenths 64 = 13421765 / 2097152 := by
    rw [show (64 : Nat) = 63 + 1 from rfl, tenths_succ, h63]
    exact floatAdd_eq _ _ _ (3602877661786931 / 562949953421312) _ toDouble_tenth
      (roundBinary_eq 53 _ _ (230584170354363597 / 36028797018963968) (2) (7205755323573862) (by norm_num [abs_of_pos]) (by norm_num) (by norm_num)
        (by norm_num) (by norm_num) (by norm_num))
      (roundBinary_eq 24 _ _ (3602877661786931 / 562949953421312) (2) (13421765) (by norm_num [abs_of_pos]) (by norm_num) (by norm_num)
        (by norm_num) (by norm_num) (by norm_num))
  have h65 : tenths 65 = 1703935 / 262144 := by
    rw [show (65 : Nat) = 64 + 1 from rfl, tenths_succ, h64]
    exact floatAdd_eq _ _ _ (3659172603441971 / 562949953421312) _ toDouble_tenth
      (roundBinary_eq 53 _ _ (234187046620286157 / 36028797018963968) (2) (7318345206883942) (by norm_num [abs_of_pos]) (by norm_num) (by norm_num)
        (by norm_num) (by norm_num) (by norm_num))
      (roundBinary_eq 24 _ _ (3659172603441971 / 562949953421312) (2) (13631480) (by norm_num [abs_of_pos]) (by norm_num) (by norm_num)
        (by norm_num) (by norm_num) (by norm_num))
  have h66 : tenths 66 = 13841195 / 2097152 := by
    rw [show (66 : Nat) = 65 + 1 from rfl, tenths_succ, h65]
    exact floatAdd_eq _ _ _ (3715467545097011 / 562949953421312) _ toDouble_tenth
      (roundBinary_eq 53 _ _ (237789922886208717 / 36028797018963968) (2) (7430935090194022) (by norm_num [abs_of_pos]) (by norm_num) (by norm_num)
        (by norm_num) (by norm_num) (by norm_num))
      (roundBinary_eq 24 _ _ (3715467545097011 / 562949953421312) (2) (13841195) (by norm_num [abs_of_pos]) (by norm_num) (by norm_num)
        (by norm_num) (by norm_num) (by norm_num))
  have h67 : tenths 67 = 7025455 / 1048576 := by
    rw [show (67 : Nat) = 66 + 1 from rfl, tenths_succ, h66]
    exact floatAdd_eq _ _ _ (3771762486752051 / 562949953421312) _ toDouble_tenth
      (roundBinary_eq 53 _ _ (241392799152131277 / 36028797018963968) (2) (7543524973504102) (by norm_num [abs_of_pos]) (by norm_num) (by norm_num)
        (by norm_num) (by norm_num) (by norm_num))
      (roundBinary_eq 24 _ _ (3771762486752051 / 562949953421312) (2) (14050910) (by norm_num [abs_of_pos]) (by norm_num) (by norm_num)
        (by norm_num) (by norm_num) (by norm_num))
  have h68 : tenths 68 = 14260625 / 2097152 := by
    rw [show (68 : Nat) = 67 + 1 from rfl, tenths_succ, h67]
    exact floatAdd_eq _ _ _ (3828057428407091 / 562949953421312) _ toDouble_tenth
      (roundBinary_eq 53 _ _ (244995675418053837 / 36028797018963968) (2) (7656114856814182) (by norm_num [abs_of_pos]) (by norm_num) (by norm_num)
        (by norm_num) (by norm_num) (by norm_num))
      (roundBinary_eq 24 _ _ (3828057428407091 / 562949953421312) (2) (14260625) (by norm_num [abs_of_pos]) (by norm_num) (by norm_num)
        (by norm_num) (by norm_num) (by norm_num))
  have h69 : tenths 69 = 3617585 / 524288 := by
    rw [show (69 : Nat) = 68 + 1 from rfl, tenths_succ, h68]
    exact floatAdd_eq _ _ _ (3884352370062131 / 562949953421312) _ toDouble_tenth
      (roundBinary_eq 53 _ _ (248598551683976397 / 36028797018963968) (2) (7768704740124262) (by norm_num [abs_of_pos]) (by norm_num) (by norm_num)
        (by norm_num) (by norm_num) (by norm_num))
      (roundBinary_eq 24 _ _ (3884352370062131 / 562949953421312) (2) (14470340) (by norm_num [abs_of_pos]) (by norm_num) (by norm_num)
        (by norm_num) (by norm_num) (by norm_num))
  have h70 : tenths 70 = 14680055 / 2097152 := by
    rw [show (70 : Nat) = 69 + 1 from rfl, tenths_succ, h69]
    exact floatAdd_eq _ _ _ (3940647311717171 / 562949953421312) _ toDouble_tenth
      (roundBinary_eq 53 _ _ (252201427949898957 / 36028797018963968) (2) (7881294623434342) (by norm_num [abs_of_pos]) (by norm_num) (by norm_num)
        (by norm_num) (by norm_num) (by norm_num))
      (roundBinary_eq 24 _ _ (3940647311717171 / 562949953421312) (2) (14680055) (by norm_num [abs_of_pos]) (by norm_num) (by norm_num)
        (by norm_num) (by norm_num) (by norm_num))
  have h71 : tenths 71 = 7444885 / 1048576 := by
    rw [show (71 : Nat) = 70 + 1 from rfl, tenths_succ, h70]
    exact floatAdd_eq _ _ _ (3996942253372211 / 562949953421312) _ toDouble_tenth
      (roundBinary_eq 53 _ _ (255804304215821517 / 36028797018963968) (2) (7993884506744422) (by norm_num [abs_of_pos]) (by norm_num) (by norm_num)
        (by norm_num) (by norm_num) (by norm_num))
      (roundBinary_eq 24 _ _ (3996942253372211 / 562949953421312) (2) (14889770) (by norm_num [abs_of_pos]) (by norm_num) (by norm_num)
        (by norm_num) (by norm_num) (by norm_num))
  have h72 : tenths 72 = 15099485 / 2097152 := by
    rw [show (72 : Nat) = 71 + 1 from rfl, tenths_succ, h71]
    exact floatAdd_eq _ _ _ (4053237195027251 / 562949953421312) _ toDouble_tenth
      (roundBinary_eq 53 _ _ (259407180481744077 / 36028797018963968) (2) (8106474390054502) (by norm_num [abs_of_pos]) (by norm_num) (by norm_num)
        (by norm_num) (by norm_num) (by norm_num))
      (roundBinary_eq 24 _ _ (4053237195027251 / 562949953421312) (2) (15099485) (by norm_num [abs_of_pos]) (by norm_num) (by norm_num)
        (by norm_num) (by norm_num) (by norm_num))
  have h73 : tenths 73 = 956825 / 131072 := by
    rw [show (73 : Nat) = 72 + 1 from rfl, tenths_succ, h72]
    exact floatAdd_eq _ _ _ (4109532136682291 / 562949953421312) _ toDouble_tenth
      (roundBinary_eq 53 _ _ (263010056747666637 / 36028797018963968) (2) (8219064273364582) (by norm_num [abs_of_pos]) (by norm_num) (by norm_num)
        (by norm_num) (by norm_num) (by norm_num))
      (roundBinary_eq 24 _ _ (4109532136682291 / 562949953421312) (2) (15309200) (by norm_num [abs_of_pos]) (by norm_num) (by norm_num)
        (by norm_num) (by norm_num) (by norm_num))
  have h74 : tenths 74 = 15518915 / 2097152 := by
    rw [show (74 : Nat) = 73 + 1 from rfl, tenths_succ, h73]
    exact floatAdd_eq _ _ _ (4165827078337331 / 562949953421312) _ toDouble_tenth
      (roundBinary_eq 53 _ _ (266612933013589197 / 36028797018963968) (2) (8331654156674662) (by norm_num [abs_of_pos]) (by norm_num) (by norm_num)
        (by norm_num) (by norm_num) (by norm_num))
      (roundBinary_eq 24 _ _ (4165827078337331 / 562949953421312) (2) (15518915) (by norm_num [abs_of_pos]) (by norm_num) (by norm_num)
        (by norm_num) (by norm_num) (by norm_num))
  have h75 : tenths 75 = 7864315 / 1048576 := by
    rw [show (75 : Nat) = 74 + 1 from rfl, tenths_succ, h74]
    exact floatAdd_eq _ _ _ (4222122019992371 / 562949953421312) _ toDouble_tenth
      (roundBinary_eq 53 _ _ (270215809279511757 / 36028797018963968) (2) (8444244039984742) (by norm_num [abs_of_pos]) (by norm_num) (by norm_num)
        (by norm_num) (by norm_num) (by norm_num))
      (roundBinary_eq 24 _ _ (4222122019992371 / 562949953421312) (2) (15728630) (by norm_num [abs_of_pos]) (by norm_num) (by norm_num)
        (by norm_num) (by norm_num) (by norm_num))
  have b51 : 0 ≤ tenths 51 ∧ tenths 51 ≤ 20 := by rw [h51]; norm_num
  have b52 : 0 ≤ tenths 52 ∧ tenths 52 ≤ 20 := by rw [h52]; norm_num
  have b53 : 0 ≤ tenths 53 ∧ tenths 53 ≤ 20 := by rw [h53]; norm_num
  have b54 : 0 ≤ tenths 54 ∧ tenths 54 ≤ 20 := by rw [h54]; norm_num
  have b55 : 0 ≤ tenths 55 ∧ tenths 55 ≤ 20 := by rw [h55]; norm_num
  have b56 : 0 ≤ tenths 56 ∧ tenths 56 ≤ 20 := by rw [h56]; norm_num
  have b57 : 0 ≤ tenths 57 ∧ tenths 57 ≤ 20 := by rw [h57]; norm_num
  have b58 : 0 ≤ tenths 58 ∧ tenths 58 ≤ 20 := by rw [h58]; norm_num
  have b59 : 0 ≤ tenths 59 ∧ tenths 59 ≤ 20 := by rw [h59]; norm_num
  have b60 : 0 ≤ tenths 60 ∧ tenths 60 ≤ 20 := by rw [h60]; norm_num
  have b61 : 0 ≤ tenths 61 ∧ tenths 61 ≤ 20 := by rw [h61]; norm_num
  have b62 : 0 ≤ tenths 62 ∧ tenths 62 ≤ 20 := by rw [h62]; norm_num
  have b63 : 0 ≤ tenths 63 ∧ tenths 63 ≤ 20 := by rw [h63]; norm_num
  have b64 : 0 ≤ tenths 64 ∧ tenths 64 ≤ 20 := by rw [h64]; norm_num
  have b65 : 0 ≤ tenths 65 ∧ tenths 65 ≤ 20 := by rw [h65]; norm_num
  have b66 : 0 ≤ tenths 66 ∧ tenths 66 ≤ 20 := by rw [h66]; norm_num
  have b67 : 0 ≤ tenths 67 ∧ tenths 67 ≤ 20 := by rw [h67]; norm_num
  have b68 : 0 ≤ tenths 68 ∧ tenths 68 ≤ 20 := by rw [h68]; norm_num
  have b69 : 0 ≤ tenths 69 ∧ tenths 69 ≤ 20 := by rw [h69]; norm_num
  have b70 : 0 ≤ tenths 70 ∧ tenths 70 ≤ 20 := by rw [h70]; norm_num
  have b71 : 0 ≤ tenths 71 ∧ tenths 71 ≤ 20 := by rw [h71]; norm_num
  have b72 : 0 ≤ tenths 72 ∧ tenths 72 ≤ 20 := by rw [h72]; norm_num
  have b73 : 0 ≤ tenths 73 ∧ tenths 73 ≤ 20 := by rw [h73]; norm_num
  have b74 : 0 ≤ tenths 74 ∧ tenths 74 ≤ 20 := by rw [h74]; norm_num
  have b75 : 0 ≤ tenths 75 ∧ tenths 75 ≤ 20 := by rw [h75]; norm_num
  refine ⟨h75, ?_⟩
  intro k hk
  by_cases hlo : k ≤ 50
  · exact tenths_values_2.2 k hlo
  · have hlo2 : 50 < k := not_le.mp hlo
    interval_cases k
    exacts [
      b51, b52, b53, b54, b55, b56, b57, b58, b59, b60, b61, b62, b63, b64, b65, b66, b67, b68,
      b69, b70, b71, b72, b73, b74, b75]

/-- The clock over its fourth 25 additions. -/
theorem tenths_values_4 :
    tenths 100 = 5242881 / 524288 ∧ (∀ k ≤ 100, 0 ≤ tenths k ∧ tenths k ≤ 20) := by
  have h75 : tenths 75 = 7864315 / 1048576 := tenths_values_3.1
  have h76 : tenths 76 = 15938345 / 2097152 := by
    rw [show (76 : Nat) = 75 + 1 from rfl, tenths_succ, h75]
    exact floatAdd_eq _ _ _ (4278416961647411 / 562949953421312) _ toDouble_tenth
      (roundBinary_eq 53 _ _ (273818685545434317 / 36028797018963968) (2) (8556833923294822) (by norm_num [abs_of_pos]) (by norm_num) (by norm_num)
        (by norm_num) (by norm_num) (by norm_num))
      (roundBinary_eq 24 _ _ (4278416961647411 / 562949953421312) (2) (15938345) (by norm_num [abs_of_pos]) (by norm_num) (by norm_num)
        (by norm_num) (by norm_num) (by norm_num))
  have h77 : tenths 77 = 4037015 / 524288 := by
    rw [show (77 : Nat) = 76 + 1 from rfl, tenths_succ, h76]
    exact floatAdd_eq _ _ _ (4334711903302451 / 562949953421312) _ toDouble_tenth
      (roundBinary_eq 53 _ _ (277421561811356877 / 36028797018963968) (2) (8669423806604902) (by norm_num [abs_of_pos]) (by norm_num) (by norm_num)
        (by norm_num) (by norm_num) (by norm_num))
      (roundBinary_eq 24 _ _ (4334711903302451 / 562949953421312) (2) (16148060) (by norm_num [abs_of_pos]) (by norm_num) (by norm_num)
        (by norm_num) (by norm_num) (by norm_num))
  have h78 : tenths 78 = 16357775 / 2097152 := by
    rw [show (78 : Nat) = 77 + 1 from rfl, tenths_succ, h77]
    exact floatAdd_eq _ _ _ (4391006844957491 / 562949953421312) _ toDouble_tenth
      (roundBinary_eq 53 _ _ (281024438077279437 / 36028797018963968) (2) (8782013689914982) (by norm_num [abs_of_pos]) (by norm_num) (by norm_num)
        (by norm_num) (by norm_num) (by norm_num))
      (roundBinary_eq 24 _ _ (4391006844957491 / 562949953421312) (2) (16357775) (by norm_num [abs_of_pos]) (by norm_num) (by norm_num)
        (by norm_num) (by norm_num) (by norm_num))
  have h79 : tenths 79 = 8283745 / 1048576 := by
    rw [show (79 : Nat) = 78 + 1 from rfl, tenths_succ, h78]
    exact floatAdd_eq _ _ _ (4447301786612531 / 562949953421312) _ toDouble_tenth
      (roundBinary_eq 53 _ _ (284627314343201997 / 36028797018963968) (2) (8894603573225062) (by norm_num [abs_of_pos]) (by norm_num) (by norm_num)
        (by norm_num) (by norm_num) (by norm_num))
      (roundBinary_eq 24 _ _ (4447301786612531 / 562949953421312) (2) (16567490) (by norm_num [abs_of_pos]) (by norm_num) (by norm_num)
        (by norm_num) (by norm_num) (by norm_num))
  have h80 : tenths 80 = 16777205 / 2097152 := by
    rw [show (80 : Nat) = 79 + 1 from rfl, tenths_succ, h79]
    exact floatAdd_eq _ _ _ (4503596728267571 / 562949953421312) _ toDouble_tenth
      (roundBinary_eq 53 _ _ (288230190609124557 / 36028797018963968) (2) (9007193456535142) (by norm_num [abs_of_pos]) (by norm_num) (by norm_num)
        (by norm_num) (by norm_num) (by norm_num))
      (roundBinary_eq 24 _ _ (4503596728267571 / 562949953421312) (2) (16777205) (by norm_num [abs_of_pos]) (by norm_num) (by norm_num)
        (by norm_num) (by norm_num) (by norm_num))
  have h81 : tenths 81 = 2123365 / 262144 := by
    rw [show (81 : Nat) = 80 + 1 from rfl, tenths_succ, h80]
    exact floatAdd_eq _ _ _ (4559891669922611 / 562949953421312) _ toDouble_tenth
      (roundBinary_eq 53 _ _ (291833066875047117 / 36028797018963968) (3) (4559891669922611) (by norm_num [abs_of_pos]) (by norm_num) (by norm_num)
        (by norm_num) (by norm_num) (by norm_num))
      (roundBinary_eq 24 _ _ (4559891669922611 / 562949953421312) (3) (8493460) (by norm_num [abs_of_pos]) (by norm_num) (by norm_num)
        (by norm_num) (by norm_num) (by norm_num))
  have h82 : tenths 82 = 4299159 / 524288 := by
    rw [show (82 : Nat) = 81 + 1 from rfl, tenths_succ, h81]
    exact floatAdd_eq _ _ _ (4616186611577651 / 562949953421312) _ toDouble_tenth
      (roundBinary_eq 53 _ _ (295435943140969677 / 36028797018963968) (3) (4616186611577651) (by norm_num [abs_of_pos]) (by norm_num) (by norm_num)
        (by norm_num) (by norm_num) (by norm_num))
      (roundBinary_eq 24 _ _ (4616186611577651 / 562949953421312) (3) (8598318) (by norm_num [abs_of_pos]) (by norm_num) (by norm_num)
        (by norm_num) (by norm_num) (by norm_num))
  have h83 : tenths 83 = 1087897 / 131072 := by
    rw [show (83 : Nat) = 82 + 1 from rfl, tenths_succ, h82]
    exact floatAdd_eq _ _ _ (4672481821668147 / 562949953421312) _ toDouble_tenth
      (roundBinary_eq 53 _ _ (299038836586761421 / 36028797018963968) (3) (4672481821668147) (by norm_num [abs_of_pos]) (by norm_num) (by norm_num)
        (by norm_num) (by norm_num) (by norm_num))
      (roundBinary_eq 24 _ _ (4672481821668147 / 562949953421312) (3) (8703176) (by norm_num [abs_of_pos]) (by norm_num) (by norm_num)
        (by norm_num) (by norm_num) (by norm_num))
  have h84 : tenths 84 = 4404017 / 524288 := by
    rw [show (84 : Nat) = 83 + 1 from rfl, tenths_succ, h83]
    exact floatAdd_eq _ _ _ (4728777031758643 / 562949953421312) _ toDouble_tenth
      (roundBinary_eq 53 _ _ (302641730032553165 / 36028797018963968) (3) (4728777031758643) (by norm_num [abs_of_pos]) (by norm_num) (by norm_num)
        (by norm_num) (by norm_num) (by norm_num))
      (roundBinary_eq 24 _ _ (4728777031758643 / 562949953421312) (3) (8808034) (by norm_num [abs_of_pos]) (by norm_num) (by norm_num)
        (by norm_num) (by norm_num) (by norm_num))
  have h85 : tenths 85 = 2228223 / 262144 := by
    rw [show (85 : Nat) = 84 + 1 from rfl, tenths_succ, h84]
    exact floatAdd_eq _ _ _ (4785072241849139 / 562949953421312) _ toDouble_tenth
      (roundBinary_eq 53 _ _ (306244623478344909 / 36028797018963968) (3) (4785072241849139) (by norm_num [abs_of_pos]) (by norm_num) (by norm_num)
        (by norm_num) (by norm_num) (by norm_num))
      (roundBinary_eq 24 _ _ (4785072241849139 / 562949953421312) (3) (8912892) (by norm_num [abs_of_pos]) (by norm_num) (by norm_num)
        (by norm_num) (by norm_num) (by norm_num))
  have h86 : tenths 86 = 4508875 / 524288 := by
    rw [show (86 : Nat) = 85 + 1 from rfl, tenths_succ, h85]
    exact floatAdd_eq _ _ _ (4841367451939635 / 562949953421312) _ toDouble_tenth
      (roundBinary_eq 53 _ _ (309847516924136653 / 36028797018963968) (3) (4841367451939635) (by norm_num [abs_of_pos]) (by norm_num) (by norm_num)
        (by norm_num) (by norm_num) (by norm_num))
      (roundBinary_eq 24 _ _ (4841367451939635 / 562949953421312) (3) (9017750) (by norm_num [abs_of_pos]) (by norm_num) (by norm_num)
        (by norm_num) (by norm_num) (by norm_num))
  have h87 : tenths 87 = 570163 / 65536 := by
    rw [show (87 : Nat) = 86 + 1 from rfl, tenths_succ, h86]
    exact floatAdd_eq _ _ _ (4897662662030131 / 562949953421312) _ toDouble_tenth
      (roundBinary_eq 53 _ _ (313450410369928397 / 36028797018963968) (3) (4897662662030131) (by norm_num [abs_of_pos]) (by norm_num) (by norm_num)
        (by norm_num) (by norm_num) (by norm_num))
      (roundBinary_eq 24 _ _ (4897662662030131 / 562949953421312) (3) (9122608) (by norm_num [abs_of_pos]) (by norm_num) (by norm_num)
        (by norm_num) (by norm_num) (by norm_num))
  have h88 : tenths 88 = 4613733 / 524288 := by
    rw [show (88 : Nat) = 87 + 1 from rfl, tenths_succ, h87]
    exact floatAdd_eq _ _ _ (4953957872120627 / 562949953421312) _ toDouble_tenth
      (roundBinary_eq 53 _ _ (317053303815720141 / 36028797018963968) (3) (4953957872120627) (by norm_num [abs_of_pos]) (by norm_num) (by norm_num)
        (by norm_num) (by norm_num) (by norm_num))
      (roundBinary_eq 24 _ _ (4953957872120627 / 562949953421312) (3) (9227466) (by norm_num [abs_of_pos]) (by norm_num) (by norm_num)
        (by norm_num) (by norm_num) (by norm_num))
  have h89 : tenths 89 = 2333081 / 262144 := by
    rw [show (89 : Nat) = 88 + 1 from rfl, tenths_succ, h88]
    exact floatAdd_eq _ _ _ (5010253082211123 / 562949953421312) _ toDouble_tenth
      (roundBinary_eq 53 _ _ (320656197261511885 / 36028797018963968) (3) (5010253082211123) (by norm_num [abs_of_pos]) (by norm_num) (by norm_num)
        (by norm_num) (by norm_num) (by norm_num))
      (roundBinary_eq 24 _ _ (5010253082211123 / 562949953421312) (3) (9332324) (by norm_num [abs_of_pos]) (by norm_num) (by norm_num)
        (by norm_num) (by norm_num) (by norm_num))
  have h90 : tenths 90 = 4718591 / 524288 := by
    rw [show (90 : Nat) = 89 + 1 from rfl, tenths_succ, h89]
    exact floatAdd_eq _ _ _ (5066548292301619 / 562949953421312) _ toDouble_tenth
      (roundBinary_eq 53 _ _ (324259090707303629 / 36028797018963968) (3) (5066548292301619) (by norm_num [abs_of_pos]) (by norm_num) (by norm_num)
        (by norm_num) (by norm_num) (by norm_num))
      (roundBinary_eq 24 _ _ (5066548292301619 / 562949953421312) (3) (9437182) (by norm_num [abs_of_pos]) (by norm_num) (by norm_num)
        (by norm_num) (by norm_num) (by norm_num))
  have h91 : tenths 91 = 1192755 / 131072 := by
    rw [show (91 : Nat) = 90 + 1 from rfl, tenths_succ, h90]
    exact floatAdd_eq _ _ _ (5122843502392115 / 562949953421312) _ toDouble_tenth
      (roundBinary_eq 53 _ _ (327861984153095373 / 36028797018963968) (3) (5122843502392115) (by norm_num [abs_of_pos]) (by norm_num) (by norm_num)
        (by norm_num) (by norm_num) (by norm_num))
      (roundBinary_eq 24 _ _ (5122843502392115 / 562949953421312) (3) (9542040) (by norm_num [abs_of_pos]) (by norm_num) (by norm_num)
        (by norm_num) (by norm_num) (by norm_num))
  have h92 : tenths 92 = 4823449 / 524288 := by
    rw [show (92 : Nat) = 91 + 1 from rfl, tenths_succ, h91]
    exact floatAdd_eq _ _ _ (5179138712482611 / 562949953421312) _ toDouble_tenth
      (roundBinary_eq 53 _ _ (331464877598887117 / 36028797018963968) (3) (5179138712482611) (by norm_num [abs_of_pos]) (by norm_num) (by norm_num)
        (by norm_num) (by norm_num) (by norm_num))
      (roundBinary_eq 24 _ _ (5179138712482611 / 562949953421312) (3) (9646898) (by norm_num [abs_of_pos]) (by norm_num) (by norm_num)
        (by norm_num) (by norm_num) (by norm_num))
  have h93 : tenths 93 = 2437939 / 262144 := by
    rw [show (93 : Nat) = 92 + 1 from rfl, tenths_succ, h92]
    exact floatAdd_eq _ _ _ (5235433922573107 / 562949953421312) _ toDouble_tenth
      (roundBinary_eq 53 _ _ (335067771044678861 / 36028797018963968) (3) (5235433922573107) (by norm_num [abs_of_pos]) (by norm_num) (by norm_num)
        (by norm_num) (by norm_num) (by norm_num))
      (roundBinary_eq 24 _ _ (5235433922573107 / 562949953421312) (3) (9751756) (by norm_num [abs_of_pos]) (by norm_num) (by norm_num)
        (by norm_num) (by norm_num) (by norm_num))
  have h94 : tenths 94 = 4928307 / 524288 := by
    rw [show (94 : Nat) = 93 + 1 from rfl, tenths_succ, h93]
    exact floatAdd_eq _ _ _ (5291729132663603 / 562949953421312) _ toDouble_tenth
      (roundBinary_eq 53 _ _ (338670664490470605 / 36028797018963968) (3) (5291729132663603) (by norm_num [abs_of_pos]) (by norm_num) (by norm_num)
        (by norm_num) (by norm_num) (by norm_num))
      (roundBinary_eq 24 _ _ (5291729132663603 / 562949953421312) (3) (9856614) (by norm_num [abs_of_pos]) (by norm_num) (by norm_num)
        (by norm_num) (by norm_num) (by norm_num))
  have h95 : tenths 95 = 19 / 2 := by
    rw [show (95 : Nat) = 94 + 1 from rfl, tenths_succ, h94]
    exact floatAdd_eq _ _ _ (5348024342754099 / 562949953421312) _ toDouble_tenth
      (roundBinary_eq 53 _ _ (342273557936262349 / 36028797018963968) (3) (5348024342754099) (by norm_num [abs_of_pos]) (by norm_num) (by norm_num)
        (by norm_num) (by norm_num) (by norm_num))
      (roundBinary_eq 24 _ _ (5348024342754099 / 562949953421312) (3) (9961472) (by norm_num [abs_of_pos]) (by norm_num) (by norm_num)
        (by norm_num) (by norm_num) (by norm_num))
  have h96 : tenths 96 = 5033165 / 524288 := by
    rw [show (96 : Nat) = 95 + 1 from rfl, tenths_succ, h95]
    exact floatAdd_eq _ _ _ (5404319552844595 / 562949953421312) _ toDouble_tenth
      (roundBinary_eq 53 _ _ (345876451382054093 / 36028797018963968) (3) (5404319552844595) (by norm_num [abs_of_pos]) (by norm_num) (by norm_num)
        (by norm_num) (by norm_num) (by norm_num))
      (roundBinary_eq 24 _ _ (5404319552844595 / 562949953421312) (3) (10066330) (by norm_num [abs_of_pos]) (by norm_num) (by norm_num)
        (by norm_num) (by norm_num) (by norm_num))
  have h97 : tenths 97 = 2542797 / 262144 := by
    rw [show (97 : Nat) = 96 + 1 from rfl, tenths_succ, h96]
    exact floatAdd_eq _ _ _ (5460614762935091 / 562949953421312) _ toDouble_tenth
      (roundBinary_eq 53 _ _ (349479344827845837 / 36028797018963968) (3) (5460614762935091) (by norm_num [abs_of_pos]) (by norm_num) (by norm_num)
        (by norm_num) (by norm_num) (by norm_num))
      (roundBinary_eq 24 _ _ (5460614762935091 / 562949953421312) (3) (10171188) (by norm_num [abs_of_pos]) (by norm_num) (by norm_num)
        (by norm_num) (by norm_num) (by norm_num))
  have h98 : tenths 98 = 5138023 / 524288 := by
    rw [show (98 : Nat) = 97 + 1 from rfl, tenths_succ, h97]
    exact floatAdd_eq _ _ _ (5516909973025587 / 562949953421312) _ toDouble_tenth
      (roundBinary_eq 53 _ _ (353082238273637581 / 36028797018963968) (3) (5516909973025587) (by norm_num [abs_of_pos]) (by norm_num) (by norm_num)
        (by norm_num) (by norm_num) (by norm_num))
      (roundBinary_eq 24 _ _ (5516909973025587 / 562949953421312) (3) (10276046) (by norm_num [abs_of_pos]) (by norm_num) (by norm_num)
        (by norm_num) (by norm_num) (by norm_num))
  have h99 : tenths 99 = 1297613 / 131072 := by
    rw [show (99 : Nat) = 98 + 1 from rfl, tenths_succ, h98]
    exact floatAdd_eq _ _ _ (5573205183116083 / 562949953421312) _ toDouble_tenth
      (roundBinary_eq 53 _ _ (356685131719429325 / 36028797018963968) (3) (5573205183116083) (by norm_num [abs_of_pos]) (by norm_num) (by norm_num)
        (by norm_num) (by norm_num) (by norm_num))
      (roundBinary_eq 24 _ _ (5573205183116083 / 562949953421312) (3) (10380904) (by norm_num [abs_of_pos]) (by norm_num) (by norm_num)
        (by norm_num) (by norm_num) (by norm_num))
  have h100 : tenths 100 = 5242881 / 524288 := by
    rw [show (100 : Nat) = 99 + 1 from rfl, tenths_succ, h99]
    exact floatAdd_eq _ _ _ (5629500393206579 / 562949953421312) _ toDouble_tenth
      (roundBinary_eq 53 _ _ (360288025165221069 / 36028797018963968) (3) (5629500393206579) (by norm_num [abs_of_pos]) (by norm_num) (by norm_num)
        (by norm_num) (by norm_num) (by norm_num))
      (roundBinary_eq 24 _ _ (5629500393206579 / 562949953421312) (3) (10485762) (by norm_num [abs_of_pos]) (by norm_num) (by norm_num)
        (by norm_num) (by norm_num) (by norm_num))
  have b76 : 0 ≤ tenths 76 ∧ tenths 76 ≤ 20 := by rw [h76]; norm_num
  have b77 : 0 ≤ tenths 77 ∧ tenths 77 ≤ 20 := by rw [h77]; norm_num
  have b78 : 0 ≤ tenths 78 ∧ tenths 78 ≤ 20 := by rw [h78]; norm_num
  have b79 : 0 ≤ tenths 79 ∧ tenths 79 ≤ 20 := by rw [h79]; norm_num
  have b80 : 0 ≤ tenths 80 ∧ tenths 80 ≤ 20 := by rw [h80]; norm_num
  have b81 : 0 ≤ tenths 81 ∧ tenths 81 ≤ 20 := by rw [h81]; norm_num
  have b82 : 0 ≤ tenths 82 ∧ tenths 82 ≤ 20 := by rw [h82]; norm_num
  have b83 : 0 ≤ tenths 83 ∧ tenths 83 ≤ 20 := by rw [h83]; norm_num
  have b84 : 0 ≤ tenths 84 ∧ tenths 84 ≤ 20 := by rw [h84]; norm_num
  have b85 : 0 ≤ tenths 85 ∧ tenths 85 ≤ 20 := by rw [h85]; norm_num
  have b86 : 0 ≤ tenths 86 ∧ tenths 86 ≤ 20 := by rw [h86]; norm_num
  have b87 : 0 ≤ tenths 87 ∧ tenths 87 ≤ 20 := by rw [h87]; norm_num
  have b88 : 0 ≤ tenths 88 ∧ tenths 88 ≤ 20 := by rw [h88]; norm_num
  have b89 : 0 ≤ tenths 89 ∧ tenths 89 ≤ 20 := by rw [h89]; norm_num
  have b90 : 0 ≤ tenths 90 ∧ tenths 90 ≤ 20 := by rw [h90]; norm_num
  have b91 : 0 ≤ tenths 91 ∧ tenths 91 ≤ 20 := by rw [h91]; norm_num
  have b92 : 0 ≤ tenths 92 ∧ tenths 92 ≤ 20 := by rw [h92]; norm_num
  have b93 : 0 ≤ tenths 93 ∧ tenths 93 ≤ 20 := by rw [h93]; norm_num
  have b94 : 0 ≤ tenths 94 ∧ tenths 94 ≤ 20 := by rw [h94]; norm_num
  have b95 : 0 ≤ tenths 95 ∧ tenths 95 ≤ 20 := by rw [h95]; norm_num
  have b96 : 0 ≤ tenths 96 ∧ tenths 96 ≤ 20 := by rw [h96]; norm_num
  have b97 : 0 ≤ tenths 97 ∧ tenths 97 ≤ 20 := by rw [h97]; norm_num
  have b98 : 0 ≤ tenths 98 ∧ tenths 98 ≤ 20 := by rw [h98]; norm_num
  have b99 : 0 ≤ tenths 99 ∧ tenths 99 ≤ 20 := by rw [h99]; norm_num
  have b100 : 0 ≤ tenths 100 ∧ tenths 100 ≤ 20 := by rw [h100]; norm_num
  refine ⟨h100, ?_⟩
  intro k hk
  by_cases hlo : k ≤ 75
  · exact tenths_values_3.2 k hlo
  · have hlo2 : 75 < k := not_le.mp hlo
    interval_cases k
    exacts [
      b76, b77, b78, b79, b80, b81, b82, b83, b84, b85, b86, b87, b88, b89, b90, b91, b92, b93,
      b94, b95, b96, b97, b98, b99, b100]

/-- The clock over its fifth 25 additions. -/
theorem tenths_values_5 :
    tenths 125 = 3276803 / 262144 ∧ (∀ k ≤ 125, 0 ≤ tenths k ∧ tenths k ≤ 20) := by
  have h100 : tenths 100 = 5242881 / 524288 := tenths_values_4.1
  have h101 : tenths 101 = 2647655 / 262144 := by
    rw [show (101 : Nat) = 100 + 1 from rfl, tenths_succ, h100]
    exact floatAdd_eq _ _ _ (5685795603297075 / 562949953421312) _ toDouble_tenth
      (roundBinary_eq 53 _ _ (363890918611012813 / 36028797018963968) (3) (5685795603297075) (by norm_num [abs_of_pos]) (by norm_num) (by norm_num)
        (by norm_num) (by norm_num) (by norm_num))
      (roundBinary_eq 24 _ _ (5685795603297075 / 562949953421312) (3) (10590620) (by norm_num [abs_of_pos]) (by norm_num) (by norm_num)
        (by norm_num) (by norm_num) (by norm_num))
  have h102 : tenths 102 = 5347739 / 524288 := by
    rw [show (102 : Nat) = 101 + 1 from rfl, tenths_succ, h101]
    exact floatAdd_eq _ _ _ (5742090813387571 / 562949953421312) _ toDouble_tenth
      (roundBinary_eq 53 _ _ (367493812056804557 / 36028797018963968) (3) (5742090813387571) (by norm_num [abs_of_pos]) (by norm_num) (by norm_num)
        (by norm_num) (by norm_num) (by norm_num))
      (roundBinary_eq 24 _ _ (5742090813387571 / 562949953421312) (3) (10695478) (by norm_num [abs_of_pos]) (by norm_num) (by norm_num)
        (by norm_num) (by norm_num) (by norm_num))
  have h103 : tenths 103 = 675021 / 65536 := by
    rw [show (103 : Nat) = 102 + 1 from rfl, tenths_succ, h102]
    exact floatAdd_eq _ _ _ (5798386023478067 / 562949953421312) _ toDouble_tenth
      (roundBinary_eq 53 _ _ (371096705502596301 / 36028797018963968) (3) (5798386023478067) (by norm_num [abs_of_pos]) (by norm_num) (by norm_num)
        (by norm_num) (by norm_num) (by norm_num))
      (roundBinary_eq 24 _ _ (5798386023478067 / 562949953421312) (3) (10800336) (by norm_num [abs_of_pos]) (by norm_num) (by norm_num)
        (by norm_num) (by norm_num) (by norm_num))
  have h104 : tenths 104 = 5452597 / 524288 := by
    rw [show (104 : Nat) = 103 + 1 from rfl, tenths_succ, h103]
    exact floatAdd_eq _ _ _ (5854681233568563 / 562949953421312) _ toDouble_tenth
      (roundBinary_eq 53 _ _ (374699598948388045 / 36028797018963968) (3) (5854681233568563) (by norm_num [abs_of_pos]) (by norm_num) (by norm_num)
        (by norm_num) (by norm_num) (by norm_num))
      (roundBinary_eq 24 _ _ (5854681233568563 / 562949953421312) (3) (10905194) (by norm_num [abs_of_pos]) (by norm_num) (by norm_num)
        (by norm_num) (by norm_num) (by norm_num))
  have h105 : tenths 105 = 2752513 / 262144 := by
    rw [show (105 : Nat) = 104 + 1 from rfl, tenths_succ, h104]
    exact floatAdd_eq _ _ _ (5910976443659059 / 562949953421312) _ toDouble_tenth
      (roundBinary_eq 53 _ _ (378302492394179789 / 36028797018963968) (3) (5910976443659059) (by norm_num [abs_of_pos]) (by norm_num) (by norm_num)
        (by norm_num) (by norm_num) (by norm_num))
      (roundBinary_eq 24 _ _ (5910976443659059 / 562949953421312) (3) (11010052) (by norm_num [abs_of_pos]) (by norm_num) (by norm_num)
        (by norm_num) (by norm_num) (by norm_num))
  have h106 : tenths 106 = 5557455 / 524288 := by
    rw [show (106 : Nat) = 105 + 1 from rfl, tenths_succ, h105]
    exact floatAdd_eq _ _ _ (5967271653749555 / 562949953421312) _ toDouble_tenth
      (roundBinary_eq 53 _ _ (381905385839971533 / 36028797018963968) (3) (5967271653749555) (by norm_num [abs_of_pos]) (by norm_num) (by norm_num)
        (by norm_num) (by norm_num) (by norm_num))
      (roundBinary_eq 24 _ _ (5967271653749555 / 562949953421312) (3) (11114910) (by norm_num [abs_of_pos]) (by norm_num) (by norm_num)
        (by norm_num) (by norm_num) (by norm_num))
  have h107 : tenths 107 = 1402471 / 131072 := by
    rw [show (107 : Nat) = 106 + 1 from rfl, tenths_succ, h106]
    exact floatAdd_eq _ _ _ (6023566863840051 / 562949953421312) _ toDouble_tenth
      (roundBinary_eq 53 _ _ (385508279285763277 / 36028797018963968) (3) (6023566863840051) (by norm_num [abs_of_pos]) (by norm_num) (by norm_num)
        (by norm_num) (by norm_num) (by norm_num))
      (roundBinary_eq 24 _ _ (6023566863840051 / 562949953421312) (3) (11219768) (by norm_num [abs_of_pos]) (by norm_num) (by norm_num)
        (by norm_num) (by norm_num) (by norm_num))
  have h108 : tenths 108 = 5662313 / 524288 := by
    rw [show (108 : Nat) = 107 + 1 from rfl, tenths_succ, h107]
    exact floatAdd_eq _ _ _ (6079862073930547 / 562949953421312) _ toDouble_tenth
      (roundBinary_eq 53 _ _ (389111172731555021 / 36028797018963968) (3) (6079862073930547) (by norm_num [abs_of_pos]) (by norm_num) (by norm_num)
        (by norm_num) (by norm_num) (by norm_num))
      (roundBinary_eq 24 _ _ (6079862073930547 / 562949953421312) (3) (11324626) (by norm_num [abs_of_pos]) (by norm_num) (by norm_num)
        (by norm_num) (by norm_num) (by norm_num))
  have h109 : tenths 109 = 2857371 / 262144 := by
    rw [show (109 : Nat) = 108 + 1 from rfl, tenths_succ, h108]
    exact floatAdd_eq _ _ _ (6136157284021043 / 562949953421312) _ toDouble_tenth
      (roundBinary_eq 53 _ _ (392714066177346765 / 36028797018963968) (3) (6136157284021043) (by norm_num [abs_of_pos]) (by norm_num) (by norm_num)
        (by norm_num) (by norm_num) (by norm_num))
      (roundBinary_eq 24 _ _ (6136157284021043 / 562949953421312) (3) (11429484) (by norm_num [abs_of_pos]) (by norm_num) (by norm_num)
        (by norm_num) (by norm_num) (by norm_num))
  have h110 : tenths 110 = 5767171 / 524288 := by
    rw [show (110 : Nat) = 109 + 1 from rfl, tenths_succ, h109]
    exact floatAdd_eq _ _ _ (6192452494111539 / 562949953421312) _ toDouble_tenth
      (roundBinary_eq 53 _ _ (396316959623138509 / 36028797018963968) (3) (6192452494111539) (by norm_num [abs_of_pos]) (by norm_num) (by norm_num)
        (by norm_num) (by norm_num) (by norm_num))
      (roundBinary_eq 24 _ _ (6192452494111539 / 562949953421312) (3) (11534342) (by norm_num [abs_of_pos]) (by norm_num) (by norm_num)
        (by norm_num) (by norm_num) (by norm_num))
  have h111 : tenths 111 = 363725 / 32768 := by
    rw [show (111 : Nat) = 110 + 1 from rfl, tenths_succ, h110]
    exact floatAdd_eq _ _ _ (6248747704202035 / 562949953421312) _ toDouble_tenth
      (roundBinary_eq 53 _ _ (399919853068930253 / 36028797018963968) (3) (6248747704202035) (by norm_num [abs_of_pos]) (by norm_num) (by norm_num)
        (by norm_num) (by norm_num) (by norm_num))
      (roundBinary_eq 24 _ _ (6248747704202035 / 562949953421312) (3) (11639200) (by norm_num [abs_of_pos]) (by norm_num) (by norm_num)
        (by norm_num) (by norm_num) (by norm_num))
  have h112 : tenths 112 = 5872029 / 524288 := by
    rw [show (112 : Nat) = 111 + 1 from rfl, tenths_succ, h111]
    exact floatAdd_eq _ _ _ (6305042914292531 / 562949953421312) _ toDouble_tenth
      (roundBinary_eq 53 _ _ (403522746514721997 / 36028797018963968) (3) (6305042914292531) (by norm_num [abs_of_pos]) (by norm_num) (by norm_num)
        (by norm_num) (by norm_num) (by norm_num))
      (roundBinary_eq 24 _ _ (6305042914292531 / 562949953421312) (3) (11744058) (by norm_num [abs_of_pos]) (by norm_num) (by norm_num)
        (by norm_num) (by norm_num) (by norm_num))
  have h113 : tenths 113 = 2962229 / 262144 := by
    rw [show (113 : Nat) = 112 + 1 from rfl, tenths_succ, h112]
    exact floatAdd_eq _ _ _ (6361338124383027 / 562949953421312) _ toDouble_tenth
      (roundBinary_eq 53 _ _ (407125639960513741 / 36028797018963968) (3) (6361338124383027) (by norm_num [abs_of_pos]) (by norm_num) (by norm_num)
        (by norm_num) (by norm_num) (by norm_num))
      (roundBinary_eq 24 _ _ (6361338124383027 / 562949953421312) (3) (11848916) (by norm_num [abs_of_pos]) (by norm_num) (by norm_num)
        (by norm_num) (by norm_num) (by norm_num))
  have h114 : tenths 114 = 5976887 / 524288 := by
    rw [show (114 : Nat) = 113 + 1 from rfl, tenths_succ, h113]
    exact floatAdd_eq _ _ _ (6417633334473523 / 562949953421312) _ toDouble_tenth
      (roundBinary_eq 53 _ _ (410728533406305485 / 36028797018963968) (3) (6417633334473523) (by norm_num [abs_of_pos]) (by norm_num) (by norm_num)
        (by norm_num) (by norm_num) (by norm_num))
      (roundBinary_eq 24 _ _ (6417633334473523 / 562949953421312) (3) (11953774) (by norm_num [abs_of_pos]) (by norm_num) (by norm_num)
        (by norm_num) (by norm_num) (by norm_num))
  have h115 : tenths 115 = 1507329 / 131072 := by
    rw [show (115 : Nat) = 114 + 1 from rfl, tenths_succ, h114]
    exact floatAdd_eq _ _ _ (6473928544564019 / 562949953421312) _ toDouble_tenth
      (roundBinary_eq 53 _ _ (414331426852097229 / 36028797018963968) (3) (6473928544564019) (by norm_num [abs_of_pos]) (by norm_num) (by norm_num)
        (by norm_num) (by norm_num) (by norm_num))
      (roundBinary_eq 24 _ _ (6473928544564019 / 562949953421312) (3) (12058632) (by norm_num [abs_of_pos]) (by norm_num) (by norm_num)
        (by norm_num) (by norm_num) (by norm_num))
  have h116 : tenths 116 = 6081745 / 524288 := by
    rw [show (116 : Nat) = 115 + 1 from rfl, tenths_succ, h115]
    exact floatAdd_eq _ _ _ (6530223754654515 / 562949953421312) _ toDouble_tenth
      (roundBinary_eq 53 _ _ (417934320297888973 / 36028797018963968) (3) (6530223754654515) (by norm_num [abs_of_pos]) (by norm_num) (by norm_num)
        (by norm_num) (by norm_num) (by norm_num))
      (roundBinary_eq 24 _ _ (6530223754654515 / 562949953421312) (3) (12163490) (by norm_num [abs_of_pos]) (by norm_num) (by norm_num)
        (by norm_num) (by norm_num) (by norm_num))
  have h117 : tenths 117 = 3067087 / 262144 := by
    rw [show (117 : Nat) = 116 + 1 from rfl, tenths_succ, h116]
    exact floatAdd_eq _ _ _ (6586518964745011 / 562949953421312) _ toDouble_tenth
      (roundBinary_eq 53 _ _ (421537213743680717 / 36028797018963968) (3) (6586518964745011) (by norm_num [abs_of_pos]) (by norm_num) (by norm_num)
        (by norm_num) (by norm_num) (by norm_num))
      (roundBinary_eq 24 _ _ (6586518964745011 / 562949953421312) (3) (12268348) (by norm_num [abs_of_pos]) (by norm_num) (by norm_num)
        (by norm_num) (by norm_num) (by norm_num))
  have h118 : tenths 118 = 6186603 / 524288 := by
    rw [show (118 : Nat) = 117 + 1 from rfl, tenths_succ, h117]
    exact floatAdd_eq _ _ _ (6642814174835507 / 562949953421312) _ toDouble_tenth
      (roundBinary_eq 53 _ _ (425140107189472461 / 36028797018963968) (3) (6642814174835507) (by norm_num [abs_of_pos]) (by norm_num) (by norm_num)
        (by norm_num) (by norm_num) (by norm_num))
      (roundBinary_eq 24 _ _ (6642814174835507 / 562949953421312) (3) (12373206) (by norm_num [abs_of_pos]) (by norm_num) (by norm_num)
        (by norm_num) (by norm_num) (by norm_num))
  have h119 : tenths 119 = 779879 / 65536 := by
    rw [show (119 : Nat) = 118 + 1 from rfl, tenths_succ, h118]
    exact floatAdd_eq _ _ _ (6699109384926003 / 562949953421312) _ toDouble_tenth
      (roundBinary_eq 53 _ _ (428743000635264205 / 36028797018963968) (3) (6699109384926003) (by norm_num [abs_of_pos]) (by norm_num) (by norm_num)
        (by norm_num) (by norm_num) (by norm_num))
      (roundBinary_eq 24 _ _ (6699109384926003 / 562949953421312) (3) (12478064) (by norm_num [abs_of_pos]) (by norm_num) (by norm_num)
        (by norm_num) (by norm_num) (by norm_num))
  have h120 : tenths 120 = 6291461 / 524288 := by
    rw [show (120 : Nat) = 119 + 1 from rfl, tenths_succ, h119]
    exact floatAdd_eq _ _ _ (6755404595016499 / 562949953421312) _ toDouble_tenth
      (roundBinary_eq 53 _ _ (432345894081055949 / 36028797018963968) (3) (6755404595016499) (by norm_num [abs_of_pos]) (by norm_num) (by norm_num)
        (by norm_num) (by norm_num) (by norm_num))
      (roundBinary_eq 24 _ _ (6755404595016499 / 562949953421312) (3) (12582922) (by norm_num [abs_of_pos]) (by norm_num) (by norm_num)
        (by norm_num) (by norm_num) (by norm_num))
  have h121 : tenths 121 = 3171945 / 262144 := by
    rw [show (121 : Nat) = 120 + 1 from rfl, tenths_succ, h120]
    exact floatAdd_eq _ _ _ (6811699805106995 / 562949953421312) _ toDouble_tenth
      (roundBinary_eq 53 _ _ (435948787526847693 / 36028797018963968) (3) (6811699805106995) (by norm_num [abs_of_pos]) (by norm_num) (by norm_num)
        (by norm_num) (by norm_num) (by norm_num))
      (roundBinary_eq 24 _ _ (6811699805106995 / 562949953421312) (3) (12687780) (by norm_num [abs_of_pos]) (by norm_num) (by norm_num)
        (by norm_num) (by norm_num) (by norm_num))
  have h122 : tenths 122 = 6396319 / 524288 := by
    rw [show (122 : Nat) = 121 + 1 from rfl, tenths_succ, h121]
    exact floatAdd_eq _ _ _ (6867995015197491 / 562949953421312) _ toDouble_tenth
      (roundBinary_eq 53 _ _ (439551680972639437 / 36028797018963968) (3) (6867995015197491) (by norm_num [abs_of_pos]) (by norm_num) (by norm_num)
        (by norm_num) (by norm_num) (by norm_num))
      (roundBinary_eq 24 _ _ (6867995015197491 / 562949953421312) (3) (12792638) (by norm_num [abs_of_pos]) (by norm_num) (by norm_num)
        (by norm_num) (by norm_num) (by norm_num))
  have h123 : tenths 123 = 1612187 / 131072 := by
    rw [show (123 : Nat) = 122 + 1 from rfl, tenths_succ, h122]
    exact floatAdd_eq _ _ _ (6924290225287987 / 562949953421312) _ toDouble_tenth
      (roundBinary_eq 53 _ _ (443154574418431181 / 36028797018963968) (3) (6924290225287987) (by norm_num [abs_of_pos]) (by norm_num) (by norm_num)
        (by norm_num) (by norm_num) (by norm_num))
      (roundBinary_eq 24 _ _ (6924290225287987 / 562949953421312) (3) (12897496) (by norm_num [abs_of_pos]) (by norm_num) (by norm_num)
        (by norm_num) (by norm_num) (by norm_num))
  have h124 : tenths 124 = 6501177 / 524288 := by
    rw [show (124 : Nat) = 123 + 1 from rfl, tenths_succ, h123]
    exact floatAdd_eq _ _ _ (6980585435378483 / 562949953421312) _ toDouble_tenth
      (roundBinary_eq 53 _ _ (446757467864222925 / 36028797018963968) (3) (6980585435378483) (by norm_num [abs_of_pos]) (by norm_num) (by norm_num)
        (by norm_num) (by norm_num) (by norm_num))
      (roundBinary_eq 24 _ _ (6980585435378483 / 562949953421312) (3) (13002354) (by norm_num [abs_of_pos]) (by norm_num) (by norm_num)
        (by norm_num) (by norm_num) (by norm_num))
  have h125 : tenths 125 = 3276803 / 262144 := by
    rw [show (125 : Nat) = 124 + 1 from rfl, tenths_succ, h124]
    exact floatAdd_eq _ _ _ (7036880645468979 / 562949953421312) _ toDouble_tenth
      (roundBinary_eq 53 _ _ (450360361310014669 / 36028797018963968) (3) (7036880645468979) (by norm_num [abs_of_pos]) (by norm_num) (by norm_num)
        (by norm_num) (by norm_num) (by norm_num))
      (roundBinary_eq 24 _ _ (7036880645468979 / 562949953421312) (3) (13107212) (by norm_num [abs_of_pos]) (by norm_num) (by norm_num)
        (by norm_num) (by norm_num) (by norm_num))
  have b101 : 0 ≤ tenths 101 ∧ tenths 101 ≤ 20 := by rw [h101]; norm_num
  have b102 : 0 ≤ tenths 102 ∧ tenths 102 ≤ 20 := by rw [h102]; norm_num
  have b103 : 0 ≤ tenths 103 ∧ tenths 103 ≤ 20 := by rw [h103]; norm_num
  have b104 : 0 ≤ tenths 104 ∧ tenths 104 ≤ 20 := by rw [h104]; norm_num
  have b105 : 0 ≤ tenths 105 ∧ tenths 105 ≤ 20 := by rw [h105]; norm_num
  have b106 : 0 ≤ tenths 106 ∧ tenths 106 ≤ 20 := by rw [h106]; norm_num
  have b107 : 0 ≤ tenths 107 ∧ tenths 107 ≤ 20 := by rw [h107]; norm_num
  have b108 : 0 ≤ tenths 108 ∧ tenths 108 ≤ 20 := by rw [h108]; norm_num
  have b109 : 0 ≤ tenths 109 ∧ tenths 109 ≤ 20 := by rw [h109]; norm_num
  have b110 : 0 ≤ tenths 110 ∧ tenths 110 ≤ 20 := by rw [h110]; norm_num
  have b111 : 0 ≤ tenths 111 ∧ tenths 111 ≤ 20 := by rw [h111]; norm_num
  have b112 : 0 ≤ tenths 112 ∧ tenths 112 ≤ 20 := by rw [h112]; norm_num
  have b113 : 0 ≤ tenths 113 ∧ tenths 113 ≤ 20 := by rw [h113]; norm_num
  have b114 : 0 ≤ tenths 114 ∧ tenths 114 ≤ 20 := by rw [h114]; norm_num
  have b115 : 0 ≤ tenths 115 ∧ tenths 115 ≤ 20 := by rw [h115]; norm_num
  have b116 : 0 ≤ tenths 116 ∧ tenths 116 ≤ 20 := by rw [h116]; norm_num
  have b117 : 0 ≤ tenths 117 ∧ tenths 117 ≤ 20 := by rw [h117]; norm_num
  have b118 : 0 ≤ tenths 118 ∧ tenths 118 ≤ 20 := by rw [h118]; norm_num
  have b119 : 0 ≤ tenths 119 ∧ tenths 119 ≤ 20 := by rw [h119]; norm_num
  have b120 : 0 ≤ tenths 120 ∧ tenths 120 ≤ 20 := by rw [h120]; norm_num
  have b121 : 0 ≤ tenths 121 ∧ tenths 121 ≤ 20 := by rw [h121]; norm_num
  have b122 : 0 ≤ tenths 122 ∧ tenths 122 ≤ 20 := by rw [h122]; norm_num
  have b123 : 0 ≤ tenths 123 ∧ tenths 123 ≤ 20 := by rw [h123]; norm_num
  have b124 : 0 ≤ tenths 124 ∧ tenths 124 ≤ 20 := by rw [h124]; norm_num
  have b125 : 0 ≤ tenths 125 ∧ tenths 125 ≤ 20 := by rw [h125]; norm_num
  refine ⟨h125, ?_⟩
  intro k hk
  by_cases hlo : k ≤ 100
  · exact tenths_values_4.2 k hlo
  · have hlo2 : 100 < k := not_le.mp hlo
    interval_cases k
    exacts [
      b101, b102, b103, b104, b105, b106, b107, b108, b109, b110, b111, b112, b113, b114, b115,
      b116, b117, b118, b119, b120, b121, b122, b123, b124, b125]

/-- The clock over its sixth 25 additions. -/
theorem tenths_values_6 :
    tenths 150 = 7864331 / 524288 ∧ (∀ k ≤ 150, 0 ≤ tenths k ∧ tenths k ≤ 20) := by
  have h125 : tenths 125 = 3276803 / 262144 := tenths_values_5.1
  have h126 : tenths 126 = 6606035 / 524288 := by
    rw [show (126 : Nat) = 125 + 1 from rfl, tenths_succ, h125]
    exact floatAdd_eq _ _ _ (7093175855559475 / 562949953421312) _ toDouble_tenth
      (roundBinary_eq 53 _ _ (453963254755806413 / 36028797018963968) (3) (7093175855559475) (by norm_num [abs_of_pos]) (by norm_num) (by norm_num)
        (by norm_num) (by norm_num) (by norm_num))
      (roundBinary_eq 24 _ _ (7093175855559475 / 562949953421312) (3) (13212070) (by norm_num [abs_of_pos]) (by norm_num) (by norm_num)
        (by norm_num) (by norm_num) (by norm_num))
  have h127 : tenths 127 = 208077 / 16384 := by
    rw [show (127 : Nat) = 126 + 1 from rfl, tenths_succ, h126]
    exact floatAdd_eq _ _ _ (7149471065649971 / 562949953421312) _ toDouble_tenth
      (roundBinary_eq 53 _ _ (457566148201598157 / 36028797018963968) (3) (7149471065649971) (by norm_num [abs_of_pos]) (by norm_num) (by norm_num)
        (by norm_num) (by norm_num) (by norm_num))
      (roundBinary_eq 24 _ _ (7149471065649971 / 562949953421312) (3) (13316928) (by norm_num [abs_of_pos]) (by norm_num) (by norm_num)
        (by norm_num) (by norm_num) (by norm_num))
  have h128 : tenths 128 = 6710893 / 524288 := by
    rw [show (128 : Nat) = 127 + 1 from rfl, tenths_succ, h127]
    exact floatAdd_eq _ _ _ (7205766275740467 / 562949953421312) _ toDouble_tenth
      (roundBinary_eq 53 _ _ (461169041647389901 / 36028797018963968) (3) (7205766275740467) (by norm_num [abs_of_pos]) (by norm_num) (by norm_num)
        (by norm_num) (by norm_num) (by norm_num))
      (roundBinary_eq 24 _ _ (7205766275740467 / 562949953421312) (3) (13421786) (by norm_num [abs_of_pos]) (by norm_num) (by norm_num)
        (by norm_num) (by norm_num) (by norm_num))
  have h129 : tenths 129 = 3381661 / 262144 := by
    rw [show (129 : Nat) = 128 + 1 from rfl, tenths_succ, h128]
    exact floatAdd_eq _ _ _ (7262061485830963 / 562949953421312) _ toDouble_tenth
      (roundBinary_eq 53 _ _ (464771935093181645 / 36028797018963968) (3) (7262061485830963) (by norm_num [abs_of_pos]) (by norm_num) (by norm_num)
        (by norm_num) (by norm_num) (by norm_num))
      (roundBinary_eq 24 _ _ (7262061485830963 / 562949953421312) (3) (13526644) (by norm_num [abs_of_pos]) (by norm_num) (by norm_num)
        (by norm_num) (by norm_num) (by norm_num))
  have h130 : tenths 130 = 6815751 / 524288 := by
    rw [show (130 : Nat) = 129 + 1 from rfl, tenths_succ, h129]
    exact floatAdd_eq _ _ _ (7318356695921459 / 562949953421312) _ toDouble_tenth
      (roundBinary_eq 53 _ _ (468374828538973389 / 36028797018963968) (3) (7318356695921459) (by norm_num [abs_of_pos]) (by norm_num) (by norm_num)
        (by norm_num) (by norm_num) (by norm_num))
      (roundBinary_eq 24 _ _ (7318356695921459 / 562949953421312) (3) (13631502) (by norm_num [abs_of_pos]) (by norm_num) (by norm_num)
        (by norm_num) (by norm_num) (by norm_num))
  have h131 : tenths 131 = 1717045 / 131072 := by
    rw [show (131 : Nat) = 130 + 1 from rfl, tenths_succ, h130]
    exact floatAdd_eq _ _ _ (7374651906011955 / 562949953421312) _ toDouble_tenth
      (roundBinary_eq 53 _ _ (471977721984765133 / 36028797018963968) (3) (7374651906011955) (by norm_num [abs_of_pos]) (by norm_num) (by norm_num)
        (by norm_num) (by norm_num) (by norm_num))
      (roundBinary_eq 24 _ _ (7374651906011955 / 562949953421312) (3) (13736360) (by norm_num [abs_of_pos]) (by norm_num) (by norm_num)
        (by norm_num) (by norm_num) (by norm_num))
  have h132 : tenths 132 = 6920609 / 524288 := by
    rw [show (132 : Nat) = 131 + 1 from rfl, tenths_succ, h131]
    exact floatAdd_eq _ _ _ (7430947116102451 / 562949953421312) _ toDouble_tenth
      (roundBinary_eq 53 _ _ (475580615430556877 / 36028797018963968) (3) (7430947116102451) (by norm_num [abs_of_pos]) (by norm_num) (by norm_num)
        (by norm_num) (by norm_num) (by norm_num))
      (roundBinary_eq 24 _ _ (7430947116102451 / 562949953421312) (3) (13841218) (by norm_num [abs_of_pos]) (by norm_num) (by norm_num)
        (by norm_num) (by norm_num) (by norm_num))
  have h133 : tenths 133 = 3486519 / 262144 := by
    rw [show (133 : Nat) = 132 + 1 from rfl, tenths_succ, h132]
    exact floatAdd_eq _ _ _ (7487242326192947 / 562949953421312) _ toDouble_tenth
      (roundBinary_eq 53 _ _ (479183508876348621 / 36028797018963968) (3) (7487242326192947) (by norm_num [abs_of_pos]) (by norm_num) (by norm_num)
        (by norm_num) (by norm_num) (by norm_num))
      (roundBinary_eq 24 _ _ (7487242326192947 / 562949953421312) (3) (13946076) (by norm_num [abs_of_pos]) (by norm_num) (by norm_num)
        (by norm_num) (by norm_num) (by norm_num))
  have h134 : tenths 134 = 7025467 / 524288 := by
    rw [show (134 : Nat) = 133 + 1 from rfl, tenths_succ, h133]
    exact floatAdd_eq _ _ _ (7543537536283443 / 562949953421312) _ toDouble_tenth
      (roundBinary_eq 53 _ _ (482786402322140365 / 36028797018963968) (3) (7543537536283443) (by norm_num [abs_of_pos]) (by norm_num) (by norm_num)
        (by norm_num) (by norm_num) (by norm_num))
      (roundBinary_eq 24 _ _ (7543537536283443 / 562949953421312) (3) (14050934) (by norm_num [abs_of_pos]) (by norm_num) (by norm_num)
        (by norm_num) (by norm_num) (by norm_num))
  have h135 : tenths 135 = 884737 / 65536 := by
    rw [show (135 : Nat) = 134 + 1 from rfl, tenths_succ, h134]
    exact floatAdd_eq _ _ _ (7599832746373939 / 562949953421312) _ toDouble_tenth
      (roundBinary_eq 53 _ _ (486389295767932109 / 36028797018963968) (3) (7599832746373939) (by norm_num [abs_of_pos]) (by norm_num) (by norm_num)
        (by norm_num) (by norm_num) (by norm_num))
      (roundBinary_eq 24 _ _ (7599832746373939 / 562949953421312) (3) (14155792) (by norm_num [abs_of_pos]) (by norm_num) (by norm_num)
        (by norm_num) (by norm_num) (by norm_num))
  have h136 : tenths 136 = 7130325 / 524288 := by
    rw [show (136 : Nat) = 135 + 1 from rfl, tenths_succ, h135]
    exact floatAdd_eq _ _ _ (7656127956464435 / 562949953421312) _ toDouble_tenth
      (roundBinary_eq 53 _ _ (489992189213723853 / 36028797018963968) (3) (7656127956464435) (by norm_num [abs_of_pos]) (by norm_num) (by norm_num)
        (by norm_num) (by norm_num) (by norm_num))
      (roundBinary_eq 24 _ _ (7656127956464435 / 562949953421312) (3) (14260650) (by norm_num [abs_of_pos]) (by norm_num) (by norm_num)
        (by norm_num) (by norm_num) (by norm_num))
  have h137 : tenths 137 = 3591377 / 262144 := by
    rw [show (137 : Nat) = 136 + 1 from rfl, tenths_succ, h136]
    exact floatAdd_eq _ _ _ (7712423166554931 / 562949953421312) _ toDouble_tenth
      (roundBinary_eq 53 _ _ (493595082659515597 / 36028797018963968) (3) (7712423166554931) (by norm_num [abs_of_pos]) (by norm_num) (by norm_num)
        (by norm_num) (by norm_num) (by norm_num))
      (roundBinary_eq 24 _ _ (7712423166554931 / 562949953421312) (3) (14365508) (by norm_num [abs_of_pos]) (by norm_num) (by norm_num)
        (by norm_num) (by norm_num) (by norm_num))
  have h138 : tenths 138 = 7235183 / 524288 := by
    rw [show (138 : Nat) = 137 + 1 from rfl, tenths_succ, h137]
    exact floatAdd_eq _ _ _ (7768718376645427 / 562949953421312) _ toDouble_tenth
      (roundBinary_eq 53 _ _ (497197976105307341 / 36028797018963968) (3) (7768718376645427) (by norm_num [abs_of_pos]) (by norm_num) (by norm_num)
        (by norm_num) (by norm_num) (by norm_num))
      (roundBinary_eq 24 _ _ (7768718376645427 / 562949953421312) (3) (14470366) (by norm_num [abs_of_pos]) (by norm_num) (by norm_num)
        (by norm_num) (by norm_num) (by norm_num))
  have h139 : tenths 139 = 1821903 / 131072 := by
    rw [show (139 : Nat) = 138 + 1 from rfl, tenths_succ, h138]
    exact floatAdd_eq _ _ _ (7825013586735923 / 562949953421312) _ toDouble_tenth
      (roundBinary_eq 53 _ _ (500800869551099085 / 36028797018963968) (3) (7825013586735923) (by norm_num [abs_of_pos]) (by norm_num) (by norm_num)
        (by norm_num) (by norm_num) (by norm_num))
      (roundBinary_eq 24 _ _ (7825013586735923 / 562949953421312) (3) (14575224) (by norm_num [abs_of_pos]) (by norm_num) (by norm_num)
        (by norm_num) (by norm_num) (by norm_num))
  have h140 : tenths 140 = 7340041 / 524288 := by
    rw [show (140 : Nat) = 139 + 1 from rfl, tenths_succ, h139]
    exact floatAdd_eq _ _ _ (7881308796826419 / 562949953421312) _ toDouble_tenth
      (roundBinary_eq 53 _ _ (504403762996890829 / 36028797018963968) (3) (7881308796826419) (by norm_num [abs_of_pos]) (by norm_num) (by norm_num)
        (by norm_num) (by norm_num) (by norm_num))
      (roundBinary_eq 24 _ _ (7881308796826419 / 562949953421312) (3) (14680082) (by norm_num [abs_of_pos]) (by norm_num) (by norm_num)
        (by norm_num) (by norm_num) (by norm_num))
  have h141 : tenths 141 = 3696235 / 262144 := by
    rw [show (141 : Nat) = 140 + 1 from rfl, tenths_succ, h140]
    exact floatAdd_eq _ _ _ (7937604006916915 / 562949953421312) _ toDouble_tenth
      (roundBinary_eq 53 _ _ (508006656442682573 / 36028797018963968) (3) (7937604006916915) (by norm_num [abs_of_pos]) (by norm_num) (by norm_num)
        (by norm_num) (by norm_num) (by norm_num))
      (roundBinary_eq 24 _ _ (7937604006916915 / 562949953421312) (3) (14784940) (by norm_num [abs_of_pos]) (by norm_num) (by norm_num)
        (by norm_num) (by norm_num) (by norm_num))
  have h142 : tenths 142 = 7444899 / 524288 := by
    rw [show (142 : Nat) = 141 + 1 from rfl, tenths_succ, h141]
    exact floatAdd_eq _ _ _ (7993899217007411 / 562949953421312) _ toDouble_tenth
      (roundBinary_eq 53 _ _ (511609549888474317 / 36028797018963968) (3) (7993899217007411) (by norm_num [abs_of_pos]) (by norm_num) (by norm_num)
        (by norm_num) (by norm_num) (by norm_num))
      (roundBinary_eq 24 _ _ (7993899217007411 / 562949953421312) (3) (14889798) (by norm_num [abs_of_pos]) (by norm_num) (by norm_num)
        (by norm_num) (by norm_num) (by norm_num))
  have h143 : tenths 143 = 468583 / 32768 := by
    rw [show (143 : Nat) = 142 + 1 from rfl, tenths_succ, h142]
    exact floatAdd_eq _ _ _ (8050194427097907 / 562949953421312) _ toDouble_tenth
      (roundBinary_eq 53 _ _ (515212443334266061 / 36028797018963968) (3) (8050194427097907) (by norm_num [abs_of_pos]) (by norm_num) (by norm_num)
        (by norm_num) (by norm_num) (by norm_num))
      (roundBinary_eq 24 _ _ (8050194427097907 / 562949953421312) (3) (14994656) (by norm_num [abs_of_pos]) (by norm_num) (by norm_num)
        (by norm_num) (by norm_num) (by norm_num))
  have h144 : tenths 144 = 7549757 / 524288 := by
    rw [show (144 : Nat) = 143 + 1 from rfl, tenths_succ, h143]
    exact floatAdd_eq _ _ _ (8106489637188403 / 562949953421312) _ toDouble_tenth
      (roundBinary_eq 53 _ _ (518815336780057805 / 36028797018963968) (3) (8106489637188403) (by norm_num [abs_of_pos]) (by norm_num) (by norm_num)
        (by norm_num) (by norm_num) (by norm_num))
      (roundBinary_eq 24 _ _ (8106489637188403 / 562949953421312) (3) (15099514) (by norm_num [abs_of_pos]) (by norm_num) (by norm_num)
        (by norm_num) (by norm_num) (by norm_num))
  have h145 : tenths 145 = 3801093 / 262144 := by
    rw [show (145 : Nat) = 144 + 1 from rfl, tenths_succ, h144]
    exact floatAdd_eq _ _ _ (8162784847278899 / 562949953421312) _ toDouble_tenth
      (roundBinary_eq 53 _ _ (522418230225849549 / 36028797018963968) (3) (8162784847278899) (by norm_num [abs_of_pos]) (by norm_num) (by norm_num)
        (by norm_num) (by norm_num) (by norm_num))
      (roundBinary_eq 24 _ _ (8162784847278899 / 562949953421312) (3) (15204372) (by norm_num [abs_of_pos]) (by norm_num) (by norm_num)
        (by norm_num) (by norm_num) (by norm_num))
  have h146 : tenths 146 = 7654615 / 524288 := by
    rw [show (146 : Nat) = 145 + 1 from rfl, tenths_succ, h145]
    exact floatAdd_eq _ _ _ (8219080057369395 / 562949953421312) _ toDouble_tenth
      (roundBinary_eq 53 _ _ (526021123671641293 / 36028797018963968) (3) (8219080057369395) (by norm_num [abs_of_pos]) (by norm_num) (by norm_num)
        (by norm_num) (by norm_num) (by norm_num))
      (roundBinary_eq 24 _ _ (8219080057369395 / 562949953421312) (3) (15309230) (by norm_num [abs_of_pos]) (by norm_num) (by norm_num)
        (by norm_num) (by norm_num) (by norm_num))
  have h147 : tenths 147 = 1926761 / 131072 := by
    rw [show (147 : Nat) = 146 + 1 from rfl, tenths_succ, h146]
    exact floatAdd_eq _ _ _ (8275375267459891 / 562949953421312) _ toDouble_tenth
      (roundBinary_eq 53 _ _ (529624017117433037 / 36028797018963968) (3) (8275375267459891) (by norm_num [abs_of_pos]) (by norm_num) (by norm_num)
        (by norm_num) (by norm_num) (by norm_num))
      (roundBinary_eq 24 _ _ (8275375267459891 / 562949953421312) (3) (15414088) (by norm_num [abs_of_pos]) (by norm_num) (by norm_num)
        (by norm_num) (by norm_num) (by norm_num))
  have h148 : tenths 148 = 7759473 / 524288 := by
    rw [show (148 : Nat) = 147 + 1 from rfl, tenths_succ, h147]
    exact floatAdd_eq _ _ _ (8331670477550387 / 562949953421312) _ toDouble_tenth
      (roundBinary_eq 53 _ _ (533226910563224781 / 36028797018963968) (3) (8331670477550387) (by norm_num [abs_of_pos]) (by norm_num) (by norm_num)
        (by norm_num) (by norm_num) (by norm_num))
      (roundBinary_eq 24 _ _ (8331670477550387 / 562949953421312) (3) (15518946) (by norm_num [abs_of_pos]) (by norm_num) (by norm_num)
        (by norm_num) (by norm_num) (by norm_num))
  have h149 : tenths 149 = 3905951 / 262144 := by
    rw [show (149 : Nat) = 148 + 1 from rfl, tenths_succ, h148]
    exact floatAdd_eq _ _ _ (8387965687640883 / 562949953421312) _ toDouble_tenth
      (roundBinary_eq 53 _ _ (536829804009016525 / 36028797018963968) (3) (8387965687640883) (by norm_num [abs_of_pos]) (by norm_num) (by norm_num)
        (by norm_num) (by norm_num) (by norm_num))
      (roundBinary_eq 24 _ _ (8387965687640883 / 562949953421312) (3) (15623804) (by norm_num [abs_of_pos]) (by norm_num) (by norm_num)
        (by norm_num) (by norm_num) (by norm_num))
  have h150 : tenths 150 = 7864331 / 524288 := by
    rw [show (150 : Nat) = 149 + 1 from rfl, tenths_succ, h149]
    exact floatAdd_eq _ _ _ (8444260897731379 / 562949953421312) _ toDouble_tenth
      (roundBinary_eq 53 _ _ (540432697454808269 / 36028797018963968) (3) (8444260897731379) (by norm_num [abs_of_pos]) (by norm_num) (by norm_num)
        (by norm_num) (by norm_num) (by norm_num))
      (roundBinary_eq 24 _ _ (8444260897731379 / 562949953421312) (3) (15728662) (by norm_num [abs_of_pos]) (by norm_num) (by norm_num)
        (by norm_num) (by norm_num) (by norm_num))
  have b126 : 0 ≤ tenths 126 ∧ tenths 126 ≤ 20 := by rw [h126]; norm_num
  have b127 : 0 ≤ tenths 127 ∧ tenths 127 ≤ 20 := by rw [h127]; norm_num
  have b128 : 0 ≤ tenths 128 ∧ tenths 128 ≤ 20 := by rw [h128]; norm_num
  have b129 : 0 ≤ tenths 129 ∧ tenths 129 ≤ 20 := by rw [h129]; norm_num
  have b130 : 0 ≤ tenths 130 ∧ tenths 130 ≤ 20 := by rw [h130]; norm_num
  have b131 : 0 ≤ tenths 131 ∧ tenths 131 ≤ 20 := by rw [h131]; norm_num
  have b132 : 0 ≤ tenths 132 ∧ tenths 132 ≤ 20 := by rw [h132]; norm_num
  have b133 : 0 ≤ tenths 133 ∧ tenths 133 ≤ 20 := by rw [h133]; norm_num
  have b134 : 0 ≤ tenths 134 ∧ tenths 134 ≤ 20 := by rw [h134]; norm_num
  have b135 : 0 ≤ tenths 135 ∧ tenths 135 ≤ 20 := by rw [h135]; norm_num
  have b136 : 0 ≤ tenths 136 ∧ tenths 136 ≤ 20 := by rw [h136]; norm_num
  have b137 : 0 ≤ tenths 137 ∧ tenths 137 ≤ 20 := by rw [h137]; norm_num
  have b138 : 0 ≤ tenths 138 ∧ tenths 138 ≤ 20 := by rw [h138]; norm_num
  have b139 : 0 ≤ tenths 139 ∧ tenths 139 ≤ 20 := by rw [h139]; norm_num
  have b140 : 0 ≤ tenths 140 ∧ tenths 140 ≤ 20 := by rw [h140]; norm_num
  have b141 : 0 ≤ tenths 141 ∧ tenths 141 ≤ 20 := by rw [h141]; norm_num
  have b142 : 0 ≤ tenths 142 ∧ tenths 142 ≤ 20 := by rw [h142]; norm_num
  have b143 : 0 ≤ tenths 143 ∧ tenths 143 ≤ 20 := by rw [h143]; norm_num
  have b144 : 0 ≤ tenths 144 ∧ tenths 144 ≤ 20 := by rw [h144]; norm_num
  have b145 : 0 ≤ tenths 145 ∧ tenths 145 ≤ 20 := by rw [h145]; norm_num
  have b146 : 0 ≤ tenths 146 ∧ tenths 146 ≤ 20 := by rw [h146]; norm_num
  have b147 : 0 ≤ tenths 147 ∧ tenths 147 ≤ 20 := by rw [h147]; norm_num
  have b148 : 0 ≤ tenths 148 ∧ tenths 148 ≤ 20 := by rw [h148]; norm_num
  have b149 : 0 ≤ tenths 149 ∧ tenths 149 ≤ 20 := by rw [h149]; norm_num
  have b150 : 0 ≤ tenths 150 ∧ tenths 150 ≤ 20 := by rw [h150]; norm_num
  refine ⟨h150, ?_⟩
  intro k hk
  by_cases hlo : k ≤ 125
  · exact tenths_values_5.2 k hlo
  · have hlo2 : 125 < k := not_le.mp hlo
    interval_cases k
    exacts [
      b126, b127, b128, b129, b130, b131, b132, b133, b134, b135, b136, b137, b138, b139, b140,
      b141, b142, b143, b144, b145, b146, b147, b148, b149, b150]

/-- The clock over its seventh 25 additions. -/
theorem tenths_values_7 :
    tenths 175 = 573441 / 32768 ∧ (∀ k ≤ 175, 0 ≤ tenths k ∧ tenths k ≤ 20) := by
  have h150 : tenths 150 = 7864331 / 524288 := tenths_values_6.1
  have h151 : tenths 151 = 989595 / 65536 := by
    rw [show (151 : Nat) = 150 + 1 from rfl, tenths_succ, h150]
    exact floatAdd_eq _ _ _ (8500556107821875 / 562949953421312) _ toDouble_tenth
      (roundBinary_eq 53 _ _ (544035590900600013 / 36028797018963968) (3) (8500556107821875) (by norm_num [abs_of_pos]) (by norm_num) (by norm_num)
        (by norm_num) (by norm_num) (by norm_num))
      (roundBinary_eq 24 _ _ (8500556107821875 / 562949953421312) (3) (15833520) (by norm_num [abs_of_pos]) (by norm_num) (by norm_num)
        (by norm_num) (by norm_num) (by norm_num))
  have h152 : tenths 152 = 7969189 / 524288 := by
    rw [show (152 : Nat) = 151 + 1 from rfl, tenths_succ, h151]
    exact floatAdd_eq _ _ _ (8556851317912371 / 562949953421312) _ toDouble_tenth
      (roundBinary_eq 53 _ _ (547638484346391757 / 36028797018963968) (3) (8556851317912371) (by norm_num [abs_of_pos]) (by norm_num) (by norm_num)
        (by norm_num) (by norm_num) (by norm_num))
      (roundBinary_eq 24 _ _ (8556851317912371 / 562949953421312) (3) (15938378) (by norm_num [abs_of_pos]) (by norm_num) (by norm_num)
        (by norm_num) (by norm_num) (by norm_num))
  have h153 : tenths 153 = 4010809 / 262144 := by
    rw [show (153 : Nat) = 152 + 1 from rfl, tenths_succ, h152]
    exact floatAdd_eq _ _ _ (8613146528002867 / 562949953421312) _ toDouble_tenth
      (roundBinary_eq 53 _ _ (551241377792183501 / 36028797018963968) (3) (8613146528002867) (by norm_num [abs_of_pos]) (by norm_num) (by norm_num)
        (by norm_num) (by norm_num) (by norm_num))
      (roundBinary_eq 24 _ _ (8613146528002867 / 562949953421312) (3) (16043236) (by norm_num [abs_of_pos]) (by norm_num) (by norm_num)
        (by norm_num) (by norm_num) (by norm_num))
  have h154 : tenths 154 = 8074047 / 524288 := by
    rw [show (154 : Nat) = 153 + 1 from rfl, tenths_succ, h153]
    exact floatAdd_eq _ _ _ (8669441738093363 / 562949953421312) _ toDouble_tenth
      (roundBinary_eq 53 _ _ (554844271237975245 / 36028797018963968) (3) (8669441738093363) (by norm_num [abs_of_pos]) (by norm_num) (by norm_num)
        (by norm_num) (by norm_num) (by norm_num))
      (roundBinary_eq 24 _ _ (8669441738093363 / 562949953421312) (3) (16148094) (by norm_num [abs_of_pos]) (by norm_num) (by norm_num)
        (by norm_num) (by norm_num) (by norm_num))
  have h155 : tenths 155 = 2031619 / 131072 := by
    rw [show (155 : Nat) = 154 + 1 from rfl, tenths_succ, h154]
    exact floatAdd_eq _ _ _ (8725736948183859 / 562949953421312) _ toDouble_tenth
      (roundBinary_eq 53 _ _ (558447164683766989 / 36028797018963968) (3) (8725736948183859) (by norm_num [abs_of_pos]) (by norm_num) (by norm_num)
        (by norm_num) (by norm_num) (by norm_num))
      (roundBinary_eq 24 _ _ (8725736948183859 / 562949953421312) (3) (16252952) (by norm_num [abs_of_pos]) (by norm_num) (by norm_num)
        (by norm_num) (by norm_num) (by norm_num))
  have h156 : tenths 156 = 8178905 / 524288 := by
    rw [show (156 : Nat) = 155 + 1 from rfl, tenths_succ, h155]
    exact floatAdd_eq _ _ _ (8782032158274355 / 562949953421312) _ toDouble_tenth
      (roundBinary_eq 53 _ _ (562050058129558733 / 36028797018963968) (3) (8782032158274355) (by norm_num [abs_of_pos]) (by norm_num) (by norm_num)
        (by norm_num) (by norm_num) (by norm_num))
      (roundBinary_eq 24 _ _ (8782032158274355 / 562949953421312) (3) (16357810) (by norm_num [abs_of_pos]) (by norm_num) (by norm_num)
        (by norm_num) (by norm_num) (by norm_num))
  have h157 : tenths 157 = 4115667 / 262144 := by
    rw [show (157 : Nat) = 156 + 1 from rfl, tenths_succ, h156]
    exact floatAdd_eq _ _ _ (8838327368364851 / 562949953421312) _ toDouble_tenth
      (roundBinary_eq 53 _ _ (565652951575350477 / 36028797018963968) (3) (8838327368364851) (by norm_num [abs_of_pos]) (by norm_num) (by norm_num)
        (by norm_num) (by norm_num) (by norm_num))
      (roundBinary_eq 24 _ _ (8838327368364851 / 562949953421312) (3) (16462668) (by norm_num [abs_of_pos]) (by norm_num) (by norm_num)
        (by norm_num) (by norm_num) (by norm_num))
  have h158 : tenths 158 = 8283763 / 524288 := by
    rw [show (158 : Nat) = 157 + 1 from rfl, tenths_succ, h157]
    exact floatAdd_eq _ _ _ (8894622578455347 / 562949953421312) _ toDouble_tenth
      (roundBinary_eq 53 _ _ (569255845021142221 / 36028797018963968) (3) (8894622578455347) (by norm_num [abs_of_pos]) (by norm_num) (by norm_num)
        (by norm_num) (by norm_num) (by norm_num))
      (roundBinary_eq 24 _ _ (8894622578455347 / 562949953421312) (3) (16567526) (by norm_num [abs_of_pos]) (by norm_num) (by norm_num)
        (by norm_num) (by norm_num) (by norm_num))
  have h159 : tenths 159 = 130253 / 8192 := by
    rw [show (159 : Nat) = 158 + 1 from rfl, tenths_succ, h158]
    exact floatAdd_eq _ _ _ (8950917788545843 / 562949953421312) _ toDouble_tenth
      (roundBinary_eq 53 _ _ (572858738466933965 / 36028797018963968) (3) (8950917788545843) (by norm_num [abs_of_pos]) (by norm_num) (by norm_num)
        (by norm_num) (by norm_num) (by norm_num))
      (roundBinary_eq 24 _ _ (8950917788545843 / 562949953421312) (3) (16672384) (by norm_num [abs_of_pos]) (by norm_num) (by norm_num)
        (by norm_num) (by norm_num) (by norm_num))
  have h160 : tenths 160 = 8388621 / 524288 := by
    rw [show (160 : Nat) = 159 + 1 from rfl, tenths_succ, h159]
    exact floatAdd_eq _ _ _ (2251803249659085 / 140737488355328) _ toDouble_tenth
      (roundBinary_eq 53 _ _ (576461631912725709 / 36028797018963968) (4) (4503606499318170) (by norm_num [abs_of_pos]) (by norm_num) (by norm_num)
        (by norm_num) (by norm_num) (by norm_num))
      (roundBinary_eq 24 _ _ (2251803249659085 / 140737488355328) (4) (8388621) (by norm_num [abs_of_pos]) (by norm_num) (by norm_num)
        (by norm_num) (by norm_num) (by norm_num))
  have h161 : tenths 161 = 4220525 / 262144 := by
    rw [show (161 : Nat) = 160 + 1 from rfl, tenths_succ, h160]
    exact floatAdd_eq _ _ _ (2265877052181709 / 140737488355328) _ toDouble_tenth
      (roundBinary_eq 53 _ _ (580064525358517453 / 36028797018963968) (4) (4531754104363418) (by norm_num [abs_of_pos]) (by norm_num) (by norm_num)
        (by norm_num) (by norm_num) (by norm_num))
      (roundBinary_eq 24 _ _ (2265877052181709 / 140737488355328) (4) (8441050) (by norm_num [abs_of_pos]) (by norm_num) (by norm_num)
        (by norm_num) (by norm_num) (by norm_num))
  have h162 : tenths 162 = 8493479 / 524288 := by
    rw [show (162 : Nat) = 161 + 1 from rfl, tenths_succ, h161]
    exact floatAdd_eq _ _ _ (2279950854704333 / 140737488355328) _ toDouble_tenth
      (roundBinary_eq 53 _ _ (583667418804309197 / 36028797018963968) (4) (4559901709408666) (by norm_num [abs_of_pos]) (by norm_num) (by norm_num)
        (by norm_num) (by norm_num) (by norm_num))
      (roundBinary_eq 24 _ _ (2279950854704333 / 140737488355328) (4) (8493479) (by norm_num [abs_of_pos]) (by norm_num) (by norm_num)
        (by norm_num) (by norm_num) (by norm_num))
  have h163 : tenths 163 = 2136477 / 131072 := by
    rw [show (163 : Nat) = 162 + 1 from rfl, tenths_succ, h162]
    exact floatAdd_eq _ _ _ (2294024657226957 / 140737488355328) _ toDouble_tenth
      (roundBinary_eq 53 _ _ (587270312250100941 / 36028797018963968) (4) (4588049314453914) (by norm_num [abs_of_pos]) (by norm_num) (by norm_num)
        (by norm_num) (by norm_num) (by norm_num))
      (roundBinary_eq 24 _ _ (2294024657226957 / 140737488355328) (4) (8545908) (by norm_num [abs_of_pos]) (by norm_num) (by norm_num)
        (by norm_num) (by norm_num) (by norm_num))
  have h164 : tenths 164 = 8598337 / 524288 := by
    rw [show (164 : Nat) = 163 + 1 from rfl, tenths_succ, h163]
    exact floatAdd_eq _ _ _ (2308098459749581 / 140737488355328) _ toDouble_tenth
      (roundBinary_eq 53 _ _ (590873205695892685 / 36028797018963968) (4) (4616196919499162) (by norm_num [abs_of_pos]) (by norm_num) (by norm_num)
        (by norm_num) (by norm_num) (by norm_num))
      (roundBinary_eq 24 _ _ (2308098459749581 / 140737488355328) (4) (8598337) (by norm_num [abs_of_pos]) (by norm_num) (by norm_num)
        (by norm_num) (by norm_num) (by norm_num))
  have h165 : tenths 165 = 4325383 / 262144 := by
    rw [show (165 : Nat) = 164 + 1 from rfl, tenths_succ, h164]
    exact floatAdd_eq _ _ _ (2322172262272205 / 140737488355328) _ toDouble_tenth
      (roundBinary_eq 53 _ _ (594476099141684429 / 36028797018963968) (4) (4644344524544410) (by norm_num [abs_of_pos]) (by norm_num) (by norm_num)
        (by norm_num) (by norm_num) (by norm_num))
      (roundBinary_eq 24 _ _ (2322172262272205 / 140737488355328) (4) (8650766) (by norm_num [abs_of_pos]) (by norm_num) (by norm_num)
        (by norm_num) (by norm_num) (by norm_num))
  have h166 : tenths 166 = 8703195 / 524288 := by
    rw [show (166 : Nat) = 165 + 1 from rfl, tenths_succ, h165]
    exact floatAdd_eq _ _ _ (2336246064794829 / 140737488355328) _ toDouble_tenth
      (roundBinary_eq 53 _ _ (598078992587476173 / 36028797018963968) (4) (4672492129589658) (by norm_num [abs_of_pos]) (by norm_num) (by norm_num)
        (by norm_num) (by norm_num) (by norm_num))
      (roundBinary_eq 24 _ _ (2336246064794829 / 140737488355328) (4) (8703195) (by norm_num [abs_of_pos]) (by norm_num) (by norm_num)
        (by norm_num) (by norm_num) (by norm_num))
  have h167 : tenths 167 = 1094453 / 65536 := by
    rw [show (167 : Nat) = 166 + 1 from rfl, tenths_succ, h166]
    exact floatAdd_eq _ _ _ (2350319867317453 / 140737488355328) _ toDouble_tenth
      (roundBinary_eq 53 _ _ (601681886033267917 / 36028797018963968) (4) (4700639734634906) (by norm_num [abs_of_pos]) (by norm_num) (by norm_num)
        (by norm_num) (by norm_num) (by norm_num))
      (roundBinary_eq 24 _ _ (2350319867317453 / 140737488355328) (4) (8755624) (by norm_num [abs_of_pos]) (by norm_num) (by norm_num)
        (by norm_num) (by norm_num) (by norm_num))
  have h168 : tenths 168 = 8808053 / 524288 := by
    rw [show (168 : Nat) = 167 + 1 from rfl, tenths_succ, h167]
    exact floatAdd_eq _ _ _ (2364393669840077 / 140737488355328) _ toDouble_tenth
      (roundBinary_eq 53 _ _ (605284779479059661 / 36028797018963968) (4) (4728787339680154) (by norm_num [abs_of_pos]) (by norm_num) (by norm_num)
        (by norm_num) (by norm_num) (by norm_num))
      (roundBinary_eq 24 _ _ (2364393669840077 / 140737488355328) (4) (8808053) (by norm_num [abs_of_pos]) (by norm_num) (by norm_num)
        (by norm_num) (by norm_num) (by norm_num))
  have h169 : tenths 169 = 4430241 / 262144 := by
    rw [show (169 : Nat) = 168 + 1 from rfl, tenths_succ, h168]
    exact floatAdd_eq _ _ _ (2378467472362701 / 140737488355328) _ toDouble_tenth
      (roundBinary_eq 53 _ _ (608887672924851405 / 36028797018963968) (4) (4756934944725402) (by norm_num [abs_of_pos]) (by norm_num) (by norm_num)
        (by norm_num) (by norm_num) (by norm_num))
      (roundBinary_eq 24 _ _ (2378467472362701 / 140737488355328) (4) (8860482) (by norm_num [abs_of_pos]) (by norm_num) (by norm_num)
        (by norm_num) (by norm_num) (by norm_num))
  have h170 : tenths 170 = 8912911 / 524288 := by
    rw [show (170 : Nat) = 169 + 1 from rfl, tenths_succ, h169]
    exact floatAdd_eq _ _ _ (2392541274885325 / 140737488355328) _ toDouble_tenth
      (roundBinary_eq 53 _ _ (612490566370643149 / 36028797018963968) (4) (4785082549770650) (by norm_num [abs_of_pos]) (by norm_num) (by norm_num)
        (by norm_num) (by norm_num) (by norm_num))
      (roundBinary_eq 24 _ _ (2392541274885325 / 140737488355328) (4) (8912911) (by norm_num [abs_of_pos]) (by norm_num) (by norm_num)
        (by norm_num) (by norm_num) (by norm_num))
  have h171 : tenths 171 = 2241335 / 131072 := by
    rw [show (171 : Nat) = 170 + 1 from rfl, tenths_succ, h170]
    exact floatAdd_eq _ _ _ (2406615077407949 / 140737488355328) _ toDouble_tenth
      (roundBinary_eq 53 _ _ (616093459816434893 / 36028797018963968) (4) (4813230154815898) (by norm_num [abs_of_pos]) (by norm_num) (by norm_num)
        (by norm_num) (by norm_num) (by norm_num))
      (roundBinary_eq 24 _ _ (2406615077407949 / 140737488355328) (4) (8965340) (by norm_num [abs_of_pos]) (by norm_num) (by norm_num)
        (by norm_num) (by norm_num) (by norm_num))
  have h172 : tenths 172 = 9017769 / 524288 := by
    rw [show (172 : Nat) = 171 + 1 from rfl, tenths_succ, h171]
    exact floatAdd_eq _ _ _ (2420688879930573 / 140737488355328) _ toDouble_tenth
      (roundBinary_eq 53 _ _ (619696353262226637 / 36028797018963968) (4) (4841377759861146) (by norm_num [abs_of_pos]) (by norm_num) (by norm_num)
        (by norm_num) (by norm_num) (by norm_num))
      (roundBinary_eq 24 _ _ (2420688879930573 / 140737488355328) (4) (9017769) (by norm_num [abs_of_pos]) (by norm_num) (by norm_num)
        (by norm_num) (by norm_num) (by norm_num))
  have h173 : tenths 173 = 4535099 / 262144 := by
    rw [show (173 : Nat) = 172 + 1 from rfl, tenths_succ, h172]
    exact floatAdd_eq _ _ _ (2434762682453197 / 140737488355328) _ toDouble_tenth
      (roundBinary_eq 53 _ _ (623299246708018381 / 36028797018963968) (4) (4869525364906394) (by norm_num [abs_of_pos]) (by norm_num) (by norm_num)
        (by norm_num) (by norm_num) (by norm_num))
      (roundBinary_eq 24 _ _ (2434762682453197 / 140737488355328) (4) (9070198) (by norm_num [abs_of_pos]) (by norm_num) (by norm_num)
        (by norm_num) (by norm_num) (by norm_num))
  have h174 : tenths 174 = 9122627 / 524288 := by
    rw [show (174 : Nat) = 173 + 1 from rfl, tenths_succ, h173]
    exact floatAdd_eq _ _ _ (2448836484975821 / 140737488355328) _ toDouble_tenth
      (roundBinary_eq 53 _ _ (626902140153810125 / 36028797018963968) (4) (4897672969951642) (by norm_num [abs_of_pos]) (by norm_num) (by norm_num)
        (by norm_num) (by norm_num) (by norm_num))
      (roundBinary_eq 24 _ _ (2448836484975821 / 140737488355328) (4) (9122627) (by norm_num [abs_of_pos]) (by norm_num) (by norm_num)
        (by norm_num) (by norm_num) (by norm_num))
  have h175 : tenths 175 = 573441 / 32768 := by
    rw [show (175 : Nat) = 174 + 1 from rfl, tenths_succ, h174]
    exact floatAdd_eq _ _ _ (2462910287498445 / 140737488355328) _ toDouble_tenth
      (roundBinary_eq 53 _ _ (630505033599601869 / 36028797018963968) (4) (4925820574996890) (by norm_num [abs_of_pos]) (by norm_num) (by norm_num)
        (by norm_num) (by norm_num) (by norm_num))
      (roundBinary_eq 24 _ _ (2462910287498445 / 140737488355328) (4) (9175056) (by norm_num [abs_of_pos]) (by norm_num) (by norm_num)
        (by norm_num) (by norm_num) (by norm_num))
  have b151 : 0 ≤ tenths 151 ∧ tenths 151 ≤ 20 := by rw [h151]; norm_num
  have b152 : 0 ≤ tenths 152 ∧ tenths 152 ≤ 20 := by rw [h152]; norm_num
  have b153 : 0 ≤ tenths 153 ∧ tenths 153 ≤ 20 := by rw [h153]; norm_num
  have b154 : 0 ≤ tenths 154 ∧ tenths 154 ≤ 20 := by rw [h154]; norm_num
  have b155 : 0 ≤ tenths 155 ∧ tenths 155 ≤ 20 := by rw [h155]; norm_num
  have b156 : 0 ≤ tenths 156 ∧ tenths 156 ≤ 20 := by rw [h156]; norm_num
  have b157 : 0 ≤ tenths 157 ∧ tenths 157 ≤ 20 := by rw [h157]; norm_num
  have b158 : 0 ≤ tenths 158 ∧ tenths 158 ≤ 20 := by rw [h158]; norm_num
  have b159 : 0 ≤ tenths 159 ∧ tenths 159 ≤ 20 := by rw [h159]; norm_num
  have b160 : 0 ≤ tenths 160 ∧ tenths 160 ≤ 20 := by rw [h160]; norm_num
  have b161 : 0 ≤ tenths 161 ∧ tenths 161 ≤ 20 := by rw [h161]; norm_num
  have b162 : 0 ≤ tenths 162 ∧ tenths 162 ≤ 20 := by rw [h162]; norm_num
  have b163 : 0 ≤ tenths 163 ∧ tenths 163 ≤ 20 := by rw [h163]; norm_num
  have b164 : 0 ≤ tenths 164 ∧ tenths 164 ≤ 20 := by rw [h164]; norm_num
  have b165 : 0 ≤ tenths 165 ∧ tenths 165 ≤ 20 := by rw [h165]; norm_num
  have b166 : 0 ≤ tenths 166 ∧ tenths 166 ≤ 20 := by rw [h166]; norm_num
  have b167 : 0 ≤ tenths 167 ∧ tenths 167 ≤ 20 := by rw [h167]; norm_num
  have b168 : 0 ≤ tenths 168 ∧ tenths 168 ≤ 20 := by rw [h168]; norm_num
  have b169 : 0 ≤ tenths 169 ∧ tenths 169 ≤ 20 := by rw [h169]; norm_num
  have b170 : 0 ≤ tenths 170 ∧ tenths 170 ≤ 20 := by rw [h170]; norm_num
  have b171 : 0 ≤ tenths 171 ∧ tenths 171 ≤ 20 := by rw [h171]; norm_num
  have b172 : 0 ≤ tenths 172 ∧ tenths 172 ≤ 20 := by rw [h172]; norm_num
  have b173 : 0 ≤ tenths 173 ∧ tenths 173 ≤ 20 := by rw [h173]; norm_num
  have b174 : 0 ≤ tenths 174 ∧ tenths 174 ≤ 20 := by rw [h174]; norm_num
  have b175 : 0 ≤ tenths 175 ∧ tenths 175 ≤ 20 := by rw [h175]; norm_num
  refine ⟨h175, ?_⟩
  intro k hk
  by_cases hlo : k ≤ 150
  · exact tenths_values_6.2 k hlo
  · have hlo2 : 150 < k := not_le.mp hlo
    interval_cases k
    exacts [
      b151, b152, b153, b154, b155, b156, b157, b158, b159, b160, b161, b162, b163, b164, b165,
      b166, b167, b168, b169, b170, b171, b172, b173, b174, b175]

/-- The clock over its eighth 25 additions. -/
theorem tenths_values_8 :
    tenths 200 = 10485781 / 524288 ∧ (∀ k ≤ 199, 0 ≤ tenths k ∧ tenths k ≤ 20) := by
  have h175 : tenths 175 = 573441 / 32768 := tenths_values_7.1
  have h176 : tenths 176 = 9227485 / 524288 := by
    rw [show (176 : Nat) = 175 + 1 from rfl, tenths_succ, h175]
    exact floatAdd_eq _ _ _ (2476984090021069 / 140737488355328) _ toDouble_tenth
      (roundBinary_eq 53 _ _ (634107927045393613 / 36028797018963968) (4) (4953968180042138) (by norm_num [abs_of_pos]) (by norm_num) (by norm_num)
        (by norm_num) (by norm_num) (by norm_num))
      (roundBinary_eq 24 _ _ (2476984090021069 / 140737488355328) (4) (9227485) (by norm_num [abs_of_pos]) (by norm_num) (by norm_num)
        (by norm_num) (by norm_num) (by norm_num))
  have h177 : tenths 177 = 4639957 / 262144 := by
    rw [show (177 : Nat) = 176 + 1 from rfl, tenths_succ, h176]
    exact floatAdd_eq _ _ _ (2491057892543693 / 140737488355328) _ toDouble_tenth
      (roundBinary_eq 53 _ _ (637710820491185357 / 36028797018963968) (4) (4982115785087386) (by norm_num [abs_of_pos]) (by norm_num) (by norm_num)
        (by norm_num) (by norm_num) (by norm_num))
      (roundBinary_eq 24 _ _ (2491057892543693 / 140737488355328) (4) (9279914) (by norm_num [abs_of_pos]) (by norm_num) (by norm_num)
        (by norm_num) (by norm_num) (by norm_num))
  have h178 : tenths 178 = 9332343 / 524288 := by
    rw [show (178 : Nat) = 177 + 1 from rfl, tenths_succ, h177]
    exact floatAdd_eq _ _ _ (2505131695066317 / 140737488355328) _ toDouble_tenth
      (roundBinary_eq 53 _ _ (641313713936977101 / 36028797018963968) (4) (5010263390132634) (by norm_num [abs_of_pos]) (by norm_num) (by norm_num)
        (by norm_num) (by norm_num) (by norm_num))
      (roundBinary_eq 24 _ _ (2505131695066317 / 140737488355328) (4) (9332343) (by norm_num [abs_of_pos]) (by norm_num) (by norm_num)
        (by norm_num) (by norm_num) (by norm_num))
  have h179 : tenths 179 = 2346193 / 131072 := by
    rw [show (179 : Nat) = 178 + 1 from rfl, tenths_succ, h178]
    exact floatAdd_eq _ _ _ (2519205497588941 / 140737488355328) _ toDouble_tenth
      (roundBinary_eq 53 _ _ (644916607382768845 / 36028797018963968) (4) (5038410995177882) (by norm_num [abs_of_pos]) (by norm_num) (by norm_num)
        (by norm_num) (by norm_num) (by norm_num))
      (roundBinary_eq 24 _ _ (2519205497588941 / 140737488355328) (4) (9384772) (by norm_num [abs_of_pos]) (by norm_num) (by norm_num)
        (by norm_num) (by norm_num) (by norm_num))
  have h180 : tenths 180 = 9437201 / 524288 := by
    rw [show (180 : Nat) = 179 + 1 from rfl, tenths_succ, h179]
    exact floatAdd_eq _ _ _ (2533279300111565 / 140737488355328) _ toDouble_tenth
      (roundBinary_eq 53 _ _ (648519500828560589 / 36028797018963968) (4) (5066558600223130) (by norm_num [abs_of_pos]) (by norm_num) (by norm_num)
        (by norm_num) (by norm_num) (by norm_num))
      (roundBinary_eq 24 _ _ (2533279300111565 / 140737488355328) (4) (9437201) (by norm_num [abs_of_pos]) (by norm_num) (by norm_num)
        (by norm_num) (by norm_num) (by norm_num))
  have h181 : tenths 181 = 4744815 / 262144 := by
    rw [show (181 : Nat) = 180 + 1 from rfl, tenths_succ, h180]
    exact floatAdd_eq _ _ _ (2547353102634189 / 140737488355328) _ toDouble_tenth
      (roundBinary_eq 53 _ _ (652122394274352333 / 36028797018963968) (4) (5094706205268378) (by norm_num [abs_of_pos]) (by norm_num) (by norm_num)
        (by norm_num) (by norm_num) (by norm_num))
      (roundBinary_eq 24 _ _ (2547353102634189 / 140737488355328) (4) (9489630) (by norm_num [abs_of_pos]) (by norm_num) (by norm_num)
        (by norm_num) (by norm_num) (by norm_num))
  have h182 : tenths 182 = 9542059 / 524288 := by
    rw [show (182 : Nat) = 181 + 1 from rfl, tenths_succ, h181]
    exact floatAdd_eq _ _ _ (2561426905156813 / 140737488355328) _ toDouble_tenth
      (roundBinary_eq 53 _ _ (655725287720144077 / 36028797018963968) (4) (5122853810313626) (by norm_num [abs_of_pos]) (by norm_num) (by norm_num)
        (by norm_num) (by norm_num) (by norm_num))
      (roundBinary_eq 24 _ _ (2561426905156813 / 140737488355328) (4) (9542059) (by norm_num [abs_of_pos]) (by norm_num) (by norm_num)
        (by norm_num) (by norm_num) (by norm_num))
  have h183 : tenths 183 = 1199311 / 65536 := by
    rw [show (183 : Nat) = 182 + 1 from rfl, tenths_succ, h182]
    exact floatAdd_eq _ _ _ (2575500707679437 / 140737488355328) _ toDouble_tenth
      (roundBinary_eq 53 _ _ (659328181165935821 / 36028797018963968) (4) (5151001415358874) (by norm_num [abs_of_pos]) (by norm_num) (by norm_num)
        (by norm_num) (by norm_num) (by norm_num))
      (roundBinary_eq 24 _ _ (2575500707679437 / 140737488355328) (4) (9594488) (by norm_num [abs_of_pos]) (by norm_num) (by norm_num)
        (by norm_num) (by norm_num) (by norm_num))
  have h184 : tenths 184 = 9646917 / 524288 := by
    rw [show (184 : Nat) = 183 + 1 from rfl, tenths_succ, h183]
    exact floatAdd_eq _ _ _ (2589574510202061 / 140737488355328) _ toDouble_tenth
      (roundBinary_eq 53 _ _ (662931074611727565 / 36028797018963968) (4) (5179149020404122) (by norm_num [abs_of_pos]) (by norm_num) (by norm_num)
        (by norm_num) (by norm_num) (by norm_num))
      (roundBinary_eq 24 _ _ (2589574510202061 / 140737488355328) (4) (9646917) (by norm_num [abs_of_pos]) (by norm_num) (by norm_num)
        (by norm_num) (by norm_num) (by norm_num))
  have h185 : tenths 185 = 4849673 / 262144 := by
    rw [show (185 : Nat) = 184 + 1 from rfl, tenths_succ, h184]
    exact floatAdd_eq _ _ _ (2603648312724685 / 140737488355328) _ toDouble_tenth
      (roundBinary_eq 53 _ _ (666533968057519309 / 36028797018963968) (4) (5207296625449370) (by norm_num [abs_of_pos]) (by norm_num) (by norm_num)
        (by norm_num) (by norm_num) (by norm_num))
      (roundBinary_eq 24 _ _ (2603648312724685 / 140737488355328) (4) (9699346) (by norm_num [abs_of_pos]) (by norm_num) (by norm_num)
        (by norm_num) (by norm_num) (by norm_num))
  have h186 : tenths 186 = 9751775 / 524288 := by
    rw [show (186 : Nat) = 185 + 1 from rfl, tenths_succ, h185]
    exact floatAdd_eq _ _ _ (2617722115247309 / 140737488355328) _ toDouble_tenth
      (roundBinary_eq 53 _ _ (670136861503311053 / 36028797018963968) (4) (5235444230494618) (by norm_num [abs_of_pos]) (by norm_num) (by norm_num)
        (by norm_num) (by norm_num) (by norm_num))
      (roundBinary_eq 24 _ _ (2617722115247309 / 140737488355328) (4) (9751775) (by norm_num [abs_of_pos]) (by norm_num) (by norm_num)
        (by norm_num) (by norm_num) (by norm_num))
  have h187 : tenths 187 = 2451051 / 131072 := by
    rw [show (187 : Nat) = 186 + 1 from rfl, tenths_succ, h186]
    exact floatAdd_eq _ _ _ (2631795917769933 / 140737488355328) _ toDouble_tenth
      (roundBinary_eq 53 _ _ (673739754949102797 / 36028797018963968) (4) (5263591835539866) (by norm_num [abs_of_pos]) (by norm_num) (by norm_num)
        (by norm_num) (by norm_num) (by norm_num))
      (roundBinary_eq 24 _ _ (2631795917769933 / 140737488355328) (4) (9804204) (by norm_num [abs_of_pos]) (by norm_num) (by norm_num)
        (by norm_num) (by norm_num) (by norm_num))
  have h188 : tenths 188 = 9856633 / 524288 := by
    rw [show (188 : Nat) = 187 + 1 from rfl, tenths_succ, h187]
    exact floatAdd_eq _ _ _ (2645869720292557 / 140737488355328) _ toDouble_tenth
      (roundBinary_eq 53 _ _ (677342648394894541 / 36028797018963968) (4) (5291739440585114) (by norm_num [abs_of_pos]) (by norm_num) (by norm_num)
        (by norm_num) (by norm_num) (by norm_num))
      (roundBinary_eq 24 _ _ (2645869720292557 / 140737488355328) (4) (9856633) (by norm_num [abs_of_pos]) (by norm_num) (by norm_num)
        (by norm_num) (by norm_num) (by norm_num))
  have h189 : tenths 189 = 4954531 / 262144 := by
    rw [show (189 : Nat) = 188 + 1 from rfl, tenths_succ, h188]
    exact floatAdd_eq _ _ _ (2659943522815181 / 140737488355328) _ toDouble_tenth
      (roundBinary_eq 53 _ _ (680945541840686285 / 36028797018963968) (4) (5319887045630362) (by norm_num [abs_of_pos]) (by norm_num) (by norm_num)
        (by norm_num) (by norm_num) (by norm_num))
      (roundBinary_eq 24 _ _ (2659943522815181 / 140737488355328) (4) (9909062) (by norm_num [abs_of_pos]) (by norm_num) (by norm_num)
        (by norm_num) (by norm_num) (by norm_num))
  have h190 : tenths 190 = 9961491 / 524288 := by
    rw [show (190 : Nat) = 189 + 1 from rfl, tenths_succ, h189]
    exact floatAdd_eq _ _ _ (2674017325337805 / 140737488355328) _ toDouble_tenth
      (roundBinary_eq 53 _ _ (684548435286478029 / 36028797018963968) (4) (5348034650675610) (by norm_num [abs_of_pos]) (by norm_num) (by norm_num)
        (by norm_num) (by norm_num) (by norm_num))
      (roundBinary_eq 24 _ _ (2674017325337805 / 140737488355328) (4) (9961491) (by norm_num [abs_of_pos]) (by norm_num) (by norm_num)
        (by norm_num) (by norm_num) (by norm_num))
  have h191 : tenths 191 = 312935 / 16384 := by
    rw [show (191 : Nat) = 190 + 1 from rfl, tenths_succ, h190]
    exact floatAdd_eq _ _ _ (2688091127860429 / 140737488355328) _ toDouble_tenth
      (roundBinary_eq 53 _ _ (688151328732269773 / 36028797018963968) (4) (5376182255720858) (by norm_num [abs_of_pos]) (by norm_num) (by norm_num)
        (by norm_num) (by norm_num) (by norm_num))
      (roundBinary_eq 24 _ _ (2688091127860429 / 140737488355328) (4) (10013920) (by norm_num [abs_of_pos]) (by norm_num) (by norm_num)
        (by norm_num) (by norm_num) (by norm_num))
  have h192 : tenths 192 = 10066349 / 524288 := by
    rw [show (192 : Nat) = 191 + 1 from rfl, tenths_succ, h191]
    exact floatAdd_eq _ _ _ (2702164930383053 / 140737488355328) _ toDouble_tenth
      (roundBinary_eq 53 _ _ (691754222178061517 / 36028797018963968) (4) (5404329860766106) (by norm_num [abs_of_pos]) (by norm_num) (by norm_num)
        (by norm_num) (by norm_num) (by norm_num))
      (roundBinary_eq 24 _ _ (2702164930383053 / 140737488355328) (4) (10066349) (by norm_num [abs_of_pos]) (by norm_num) (by norm_num)
        (by norm_num) (by norm_num) (by norm_num))
  have h193 : tenths 193 = 5059389 / 262144 := by
    rw [show (193 : Nat) = 192 + 1 from rfl, tenths_succ, h192]
    exact floatAdd_eq _ _ _ (2716238732905677 / 140737488355328) _ toDouble_tenth
      (roundBinary_eq 53 _ _ (695357115623853261 / 36028797018963968) (4) (5432477465811354) (by norm_num [abs_of_pos]) (by norm_num) (by norm_num)
        (by norm_num) (by norm_num) (by norm_num))
      (roundBinary_eq 24 _ _ (2716238732905677 / 140737488355328) (4) (10118778) (by norm_num [abs_of_pos]) (by norm_num) (by norm_num)
        (by norm_num) (by norm_num) (by norm_num))
  have h194 : tenths 194 = 10171207 / 524288 := by
    rw [show (194 : Nat) = 193 + 1 from rfl, tenths_succ, h193]
    exact floatAdd_eq _ _ _ (2730312535428301 / 140737488355328) _ toDouble_tenth
      (roundBinary_eq 53 _ _ (698960009069645005 / 36028797018963968) (4) (5460625070856602) (by norm_num [abs_of_pos]) (by norm_num) (by norm_num)
        (by norm_num) (by norm_num) (by norm_num))
      (roundBinary_eq 24 _ _ (2730312535428301 / 140737488355328) (4) (10171207) (by norm_num [abs_of_pos]) (by norm_num) (by norm_num)
        (by norm_num) (by norm_num) (by norm_num))
  have h195 : tenths 195 = 2555909 / 131072 := by
    rw [show (195 : Nat) = 194 + 1 from rfl, tenths_succ, h194]
    exact floatAdd_eq _ _ _ (2744386337950925 / 140737488355328) _ toDouble_tenth
      (roundBinary_eq 53 _ _ (702562902515436749 / 36028797018963968) (4) (5488772675901850) (by norm_num [abs_of_pos]) (by norm_num) (by norm_num)
        (by norm_num) (by norm_num) (by norm_num))
      (roundBinary_eq 24 _ _ (2744386337950925 / 140737488355328) (4) (10223636) (by norm_num [abs_of_pos]) (by norm_num) (by norm_num)
        (by norm_num) (by norm_num) (by norm_num))
  have h196 : tenths 196 = 10276065 / 524288 := by
    rw [show (196 : Nat) = 195 + 1 from rfl, tenths_succ, h195]
    exact floatAdd_eq _ _ _ (2758460140473549 / 140737488355328) _ toDouble_tenth
      (roundBinary_eq 53 _ _ (706165795961228493 / 36028797018963968) (4) (5516920280947098) (by norm_num [abs_of_pos]) (by norm_num) (by norm_num)
        (by norm_num) (by norm_num) (by norm_num))
      (roundBinary_eq 24 _ _ (2758460140473549 / 140737488355328) (4) (10276065) (by norm_num [abs_of_pos]) (by norm_num) (by norm_num)
        (by norm_num) (by norm_num) (by norm_num))
  have h197 : tenths 197 = 5164247 / 262144 := by
    rw [show (197 : Nat) = 196 + 1 from rfl, tenths_succ, h196]
    exact floatAdd_eq _ _ _ (2772533942996173 / 140737488355328) _ toDouble_tenth
      (roundBinary_eq 53 _ _ (709768689407020237 / 36028797018963968) (4) (5545067885992346) (by norm_num [abs_of_pos]) (by norm_num) (by norm_num)
        (by norm_num) (by norm_num) (by norm_num))
      (roundBinary_eq 24 _ _ (2772533942996173 / 140737488355328) (4) (10328494) (by norm_num [abs_of_pos]) (by norm_num) (by norm_num)
        (by norm_num) (by norm_num) (by norm_num))
  have h198 : tenths 198 = 10380923 / 524288 := by
    rw [show (198 : Nat) = 197 + 1 from rfl, tenths_succ, h197]
    exact floatAdd_eq _ _ _ (2786607745518797 / 140737488355328) _ toDouble_tenth
      (roundBinary_eq 53 _ _ (713371582852811981 / 36028797018963968) (4) (5573215491037594) (by norm_num [abs_of_pos]) (by norm_num) (by norm_num)
        (by norm_num) (by norm_num) (by norm_num))
      (roundBinary_eq 24 _ _ (2786607745518797 / 140737488355328) (4) (10380923) (by norm_num [abs_of_pos]) (by norm_num) (by norm_num)
        (by norm_num) (by norm_num) (by norm_num))
  have h199 : tenths 199 = 1304169 / 65536 := by
    rw [show (199 : Nat) = 198 + 1 from rfl, tenths_succ, h198]
    exact floatAdd_eq _ _ _ (2800681548041421 / 140737488355328) _ toDouble_tenth
      (roundBinary_eq 53 _ _ (716974476298603725 / 36028797018963968) (4) (5601363096082842) (by norm_num [abs_of_pos]) (by norm_num) (by norm_num)
        (by norm_num) (by norm_num) (by norm_num))
      (roundBinary_eq 24 _ _ (2800681548041421 / 140737488355328) (4) (10433352) (by norm_num [abs_of_pos]) (by norm_num) (by norm_num)
        (by norm_num) (by norm_num) (by norm_num))
  have h200 : tenths 200 = 10485781 / 524288 := by
    rw [show (200 : Nat) = 199 + 1 from rfl, tenths_succ, h199]
    exact floatAdd_eq _ _ _ (2814755350564045 / 140737488355328) _ toDouble_tenth
      (roundBinary_eq 53 _ _ (720577369744395469 / 36028797018963968) (4) (5629510701128090) (by norm_num [abs_of_pos]) (by norm_num) (by norm_num)
        (by norm_num) (by norm_num) (by norm_num))
      (roundBinary_eq 24 _ _ (2814755350564045 / 140737488355328) (4) (10485781) (by norm_num [abs_of_pos]) (by norm_num) (by norm_num)
        (by norm_num) (by norm_num) (by norm_num))
  have b176 : 0 ≤ tenths 176 ∧ tenths 176 ≤ 20 := by rw [h176]; norm_num
  have b177 : 0 ≤ tenths 177 ∧ tenths 177 ≤ 20 := by rw [h177]; norm_num
  have b178 : 0 ≤ tenths 178 ∧ tenths 178 ≤ 20 := by rw [h178]; norm_num
  have b179 : 0 ≤ tenths 179 ∧ tenths 179 ≤ 20 := by rw [h179]; norm_num
  have b180 : 0 ≤ tenths 180 ∧ tenths 180 ≤ 20 := by rw [h180]; norm_num
  have b181 : 0 ≤ tenths 181 ∧ tenths 181 ≤ 20 := by rw [h181]; norm_num
  have b182 : 0 ≤ tenths 182 ∧ tenths 182 ≤ 20 := by rw [h182]; norm_num
  have b183 : 0 ≤ tenths 183 ∧ tenths 183 ≤ 20 := by rw [h183]; norm_num
  have b184 : 0 ≤ tenths 184 ∧ tenths 184 ≤ 20 := by rw [h184]; norm_num
  have b185 : 0 ≤ tenths 185 ∧ tenths 185 ≤ 20 := by rw [h185]; norm_num
  have b186 : 0 ≤ tenths 186 ∧ tenths 186 ≤ 20 := by rw [h186]; norm_num
  have b187 : 0 ≤ tenths 187 ∧ tenths 187 ≤ 20 := by rw [h187]; norm_num
  have b188 : 0 ≤ tenths 188 ∧ tenths 188 ≤ 20 := by rw [h188]; norm_num
  have b189 : 0 ≤ tenths 189 ∧ tenths 189 ≤ 20 := by rw [h189]; norm_num
  have b190 : 0 ≤ tenths 190 ∧ tenths 190 ≤ 20 := by rw [h190]; norm_num
  have b191 : 0 ≤ tenths 191 ∧ tenths 191 ≤ 20 := by rw [h191]; norm_num
  have b192 : 0 ≤ tenths 192 ∧ tenths 192 ≤ 20 := by rw [h192]; norm_num
  have b193 : 0 ≤ tenths 193 ∧ tenths 193 ≤ 20 := by rw [h193]; norm_num
  have b194 : 0 ≤ tenths 194 ∧ tenths 194 ≤ 20 := by rw [h194]; norm_num
  have b195 : 0 ≤ tenths 195 ∧ tenths 195 ≤ 20 := by rw [h195]; norm_num
  have b196 : 0 ≤ tenths 196 ∧ tenths 196 ≤ 20 := by rw [h196]; norm_num
  have b197 : 0 ≤ tenths 197 ∧ tenths 197 ≤ 20 := by rw [h197]; norm_num
  have b198 : 0 ≤ tenths 198 ∧ tenths 198 ≤ 20 := by rw [h198]; norm_num
  have b199 : 0 ≤ tenths 199 ∧ tenths 199 ≤ 20 := by rw [h199]; norm_num
  refine ⟨h200, ?_⟩
  intro k hk
  by_cases hlo : k ≤ 175
  · exact tenths_values_7.2 k hlo
  · have hlo2 : 175 < k := not_le.mp hlo
    interval_cases k
    exacts [
      b176, b177, b178, b179, b180, b181, b182, b183, b184, b185, b186, b187, b188, b189, b190,
      b191, b192, b193, b194, b195, b196, b197, b198, b199]

/-- The `float` height that starts at 0 and is raised by 0.01, over its first 25
additions: each value is computed from the one before by the two roundings of
the addition. -/
theorem hundredths_values_1 :
    hundredths 25 = 4194305 / 16777216 ∧ (∀ k ≤ 25, 0 ≤ hundredths k ∧ hundredths k < 0.5) ∧
    hundredths 1 = 5368709 / 536870912 := by
  have h0 : hundredths 0 = 0 := rfl
  have h1 : hundredths 1 = 5368709 / 536870912 := by
    rw [show (1 : Nat) = 0 + 1 from rfl, hundredths_succ, h0]
    exact floatAdd_eq _ _ _ (5764607523034235 / 576460752303423488) _ toDouble_hundredth
      (roundBinary_eq 53 _ _ (5764607523034235 / 576460752303423488) (-7) (5764607523034235) (by norm_num [abs_of_pos]) (by norm_num) (by norm_num)
        (by norm_num) (by norm_num) (by norm_num))
      (roundBinary_eq 24 _ _ (5764607523034235 / 576460752303423488) (-7) (10737418) (by norm_num [abs_of_pos]) (by norm_num) (by norm_num)
        (by norm_num) (by norm_num) (by norm_num))
  have h2 : hundredths 2 = 5368709 / 268435456 := by
    rw [show (2 : Nat) = 1 + 1 from rfl, hundredths_succ, h1]
    exact floatAdd_eq _ _ _ (2882303729304863 / 144115188075855872) _ toDouble_hundredth
      (roundBinary_eq_tie 53 _ _ (11529214917219451 / 576460752303423488) (-6) (5764607458609726) (by norm_num [abs_of_pos]) (by norm_num) (by norm_num)
        (by norm_num) (by decide) (Or.inr (by norm_num)))
      (roundBinary_eq 24 _ _ (2882303729304863 / 144115188075855872) (-6) (10737418) (by norm_num [abs_of_pos]) (by norm_num) (by norm_num)
        (by norm_num) (by norm_num) (by norm_num))
  have h3 : hundredths 3 = 16106127 / 536870912 := by
    rw [show (3 : Nat) = 2 + 1 from rfl, hundredths_succ, h2]
    exact floatAdd_eq _ _ _ (4323455577851167 / 144115188075855872) _ toDouble_hundredth
      (roundBinary_eq_tie 53 _ _ (17293822311404667 / 576460752303423488) (-6) (8646911155702334) (by norm_num [abs_of_pos]) (by norm_num) (by norm_num)
        (by norm_num) (by decide) (Or.inr (by norm_num)))
      (roundBinary_eq 24 _ _ (4323455577851167 / 144115188075855872) (-6) (16106127) (by norm_num [abs_of_pos]) (by norm_num) (by norm_num)
        (by norm_num) (by norm_num) (by norm_num))
  have h4 : hundredths 4 = 5368709 / 134217728 := by
    rw [show (4 : Nat) = 3 + 1 from rfl, hundredths_succ, h3]
    exact floatAdd_eq _ _ _ (5764607426397471 / 144115188075855872) _ toDouble_hundredth
      (roundBinary_eq 53 _ _ (23058429705589883 / 576460752303423488) (-5) (5764607426397471) (by norm_num [abs_of_pos]) (by norm_num) (by norm_num)
        (by norm_num) (by norm_num) (by norm_num))
      (roundBinary_eq 24 _ _ (5764607426397471 / 144115188075855872) (-5) (10737418) (by norm_num [abs_of_pos]) (by norm_num) (by norm_num)
        (by norm_num) (by norm_num) (by norm_num))
  have h5 : hundredths 5 = 13421773 / 268435456 := by
    rw [show (5 : Nat) = 4 + 1 from rfl, hundredths_succ, h4]
    exact floatAdd_eq _ _ _ (7205759274943775 / 144115188075855872) _ toDouble_hundredth
      (roundBinary_eq 53 _ _ (28823037099775099 / 576460752303423488) (-5) (7205759274943775) (by norm_num [abs_of_pos]) (by norm_num) (by norm_num)
        (by norm_num) (by norm_num) (by norm_num))
      (roundBinary_eq 24 _ _ (7205759274943775 / 144115188075855872) (-5) (13421773) (by norm_num [abs_of_pos]) (by norm_num) (by norm_num)
        (by norm_num) (by norm_num) (by norm_num))
  have h6 : hundredths 6 = 1006633 / 16777216 := by
    rw [show (6 : Nat) = 5 + 1 from rfl, hundredths_succ, h5]
    exact floatAdd_eq _ _ _ (8646911391925535 / 144115188075855872) _ toDouble_hundredth
      (roundBinary_eq 53 _ _ (34587645567702139 / 576460752303423488) (-5) (8646911391925535) (by norm_num [abs_of_pos]) (by norm_num) (by norm_num)
        (by norm_num) (by norm_num) (by norm_num))
      (roundBinary_eq 24 _ _ (8646911391925535 / 144115188075855872) (-5) (16106128) (by norm_num [abs_of_pos]) (by norm_num) (by norm_num)
        (by norm_num) (by norm_num) (by norm_num))
  have h7 : hundredths 7 = 9395241 / 134217728 := by
    rw [show (7 : Nat) = 6 + 1 from rfl, hundredths_succ, h6]
    exact floatAdd_eq _ _ _ (5044031754453647 / 72057594037927936) _ toDouble_hundredth
      (roundBinary_eq 53 _ _ (40352254035629179 / 576460752303423488) (-4) (5044031754453647) (by norm_num [abs_of_pos]) (by norm_num) (by norm_num)
        (by norm_num) (by norm_num) (by norm_num))
      (roundBinary_eq 24 _ _ (5044031754453647 / 72057594037927936) (-4) (9395241) (by norm_num [abs_of_pos]) (by norm_num) (by norm_num)
        (by norm_num) (by norm_num) (by norm_num))
  have h8 : hundredths 8 = 5368709 / 67108864 := by
    rw [show (8 : Nat) = 7 + 1 from rfl, hundredths_succ, h7]
    exact floatAdd_eq _ _ _ (5764607544509071 / 72057594037927936) _ toDouble_hundredth
      (roundBinary_eq 53 _ _ (46116860356072571 / 576460752303423488) (-4) (5764607544509071) (by norm_num [abs_of_pos]) (by norm_num) (by norm_num)
        (by norm_num) (by norm_num) (by norm_num))
      (roundBinary_eq 24 _ _ (5764607544509071 / 72057594037927936) (-4) (10737418) (by norm_num [abs_of_pos]) (by norm_num) (by norm_num)
        (by norm_num) (by norm_num) (by norm_num))
  have h9 : hundredths 9 = 12079595 / 134217728 := by
    rw [show (9 : Nat) = 8 + 1 from rfl, hundredths_succ, h8]
    exact floatAdd_eq _ _ _ (6485183334564495 / 72057594037927936) _ toDouble_hundredth
      (roundBinary_eq 53 _ _ (51881466676515963 / 576460752303423488) (-4) (6485183334564495) (by norm_num [abs_of_pos]) (by norm_num) (by norm_num)
        (by norm_num) (by norm_num) (by norm_num))
      (roundBinary_eq 24 _ _ (6485183334564495 / 72057594037927936) (-4) (12079595) (by norm_num [abs_of_pos]) (by norm_num) (by norm_num)
        (by norm_num) (by norm_num) (by norm_num))
  have h10 : hundredths 10 = 3355443 / 33554432 := by
    rw [show (10 : Nat) = 9 + 1 from rfl, hundredths_succ, h9]
    exact floatAdd_eq _ _ _ (7205759124619919 / 72057594037927936) _ toDouble_hundredth
      (roundBinary_eq 53 _ _ (57646072996959355 / 576460752303423488) (-4) (7205759124619919) (by norm_num [abs_of_pos]) (by norm_num) (by norm_num)
        (by norm_num) (by norm_num) (by norm_num))
      (roundBinary_eq 24 _ _ (7205759124619919 / 72057594037927936) (-4) (13421772) (by norm_num [abs_of_pos]) (by norm_num) (by norm_num)
        (by norm_num) (by norm_num) (by norm_num))
  have h11 : hundredths 11 = 14763949 / 134217728 := by
    rw [show (11 : Nat) = 10 + 1 from rfl, hundredths_succ, h10]
    exact floatAdd_eq _ _ _ (7926334914675343 / 72057594037927936) _ toDouble_hundredth
      (roundBinary_eq 53 _ _ (63410679317402747 / 576460752303423488) (-4) (7926334914675343) (by norm_num [abs_of_pos]) (by norm_num) (by norm_num)
        (by norm_num) (by norm_num) (by norm_num))
      (roundBinary_eq 24 _ _ (7926334914675343 / 72057594037927936) (-4) (14763949) (by norm_num [abs_of_pos]) (by norm_num) (by norm_num)
        (by norm_num) (by norm_num) (by norm_num))
  have h12 : hundredths 12 = 8053063 / 67108864 := by
    rw [show (12 : Nat) = 11 + 1 from rfl, hundredths_succ, h11]
    exact floatAdd_eq _ _ _ (8646910704730767 / 72057594037927936) _ toDouble_hundredth
      (roundBinary_eq 53 _ _ (69175285637846139 / 576460752303423488) (-4) (8646910704730767) (by norm_num [abs_of_pos]) (by norm_num) (by norm_num)
        (by norm_num) (by norm_num) (by norm_num))
      (roundBinary_eq 24 _ _ (8646910704730767 / 72057594037927936) (-4) (16106126) (by norm_num [abs_of_pos]) (by norm_num) (by norm_num)
        (by norm_num) (by norm_num) (by norm_num))
  have h13 : hundredths 13 = 1090519 / 8388608 := by
    rw [show (13 : Nat) = 12 + 1 from rfl, hundredths_succ, h12]
    exact floatAdd_eq _ _ _ (585467905924137 / 4503599627370496) _ toDouble_hundredth
      (roundBinary_eq 53 _ _ (74939891958289531 / 576460752303423488) (-3) (4683743247393096) (by norm_num [abs_of_pos]) (by norm_num) (by norm_num)
        (by norm_num) (by norm_num) (by norm_num))
      (roundBinary_eq 24 _ _ (585467905924137 / 4503599627370496) (-3) (8724152) (by norm_num [abs_of_pos]) (by norm_num) (by norm_num)
        (by norm_num) (by norm_num) (by norm_num))
  have h14 : hundredths 14 = 9395241 / 67108864 := by
    rw [show (14 : Nat) = 13 + 1 from rfl, hundredths_succ, h13]
    exact floatAdd_eq _ _ _ (630503926357033 / 4503599627370496) _ toDouble_hundredth
      (roundBinary_eq 53 _ _ (80704502573700219 / 576460752303423488) (-3) (5044031410856264) (by norm_num [abs_of_pos]) (by norm_num) (by norm_num)
        (by norm_num) (by norm_num) (by norm_num))
      (roundBinary_eq 24 _ _ (630503926357033 / 4503599627370496) (-3) (9395241) (by norm_num [abs_of_pos]) (by norm_num) (by norm_num)
        (by norm_num) (by norm_num) (by norm_num))
  have h15 : hundredths 15 = 5033165 / 33554432 := by
    rw [show (15 : Nat) = 14 + 1 from rfl, hundredths_succ, h14]
    exact floatAdd_eq _ _ _ (675539946789929 / 4503599627370496) _ toDouble_hundredth
      (roundBinary_eq 53 _ _ (86469113189110907 / 576460752303423488) (-3) (5404319574319432) (by norm_num [abs_of_pos]) (by norm_num) (by norm_num)
        (by norm_num) (by norm_num) (by norm_num))
      (roundBinary_eq 24 _ _ (675539946789929 / 4503599627370496) (-3) (10066330) (by norm_num [abs_of_pos]) (by norm_num) (by norm_num)
        (by norm_num) (by norm_num) (by norm_num))
  have h16 : hundredths 16 = 10737419 / 67108864 := by
    rw [show (16 : Nat) = 15 + 1 from rfl, hundredths_succ, h15]
    exact floatAdd_eq _ _ _ (720575967222825 / 4503599627370496) _ toDouble_hundredth
      (roundBinary_eq 53 _ _ (92233723804521595 / 576460752303423488) (-3) (5764607737782600) (by norm_num [abs_of_pos]) (by norm_num) (by norm_num)
        (by norm_num) (by norm_num) (by norm_num))
      (roundBinary_eq 24 _ _ (720575967222825 / 4503599627370496) (-3) (10737419) (by norm_num [abs_of_pos]) (by norm_num) (by norm_num)
        (by norm_num) (by norm_num) (by norm_num))
  have h17 : hundredths 17 = 2852127 / 16777216 := by
    rw [show (17 : Nat) = 16 + 1 from rfl, hundredths_succ, h16]
    exact floatAdd_eq _ _ _ (765611987655721 / 4503599627370496) _ toDouble_hundredth
      (roundBinary_eq 53 _ _ (97998334419932283 / 576460752303423488) (-3) (6124895901245768) (by norm_num [abs_of_pos]) (by norm_num) (by norm_num)
        (by norm_num) (by norm_num) (by norm_num))
      (roundBinary_eq 24 _ _ (765611987655721 / 4503599627370496) (-3) (11408508) (by norm_num [abs_of_pos]) (by norm_num) (by norm_num)
        (by norm_num) (by norm_num) (by norm_num))
  have h18 : hundredths 18 = 12079597 / 67108864 := by
    rw [show (18 : Nat) = 17 + 1 from rfl, hundredths_succ, h17]
    exact floatAdd_eq _ _ _ (810648008088617 / 4503599627370496) _ toDouble_hundredth
      (roundBinary_eq 53 _ _ (103762945035342971 / 576460752303423488) (-3) (6485184064708936) (by norm_num [abs_of_pos]) (by norm_num) (by norm_num)
        (by norm_num) (by norm_num) (by norm_num))
      (roundBinary_eq 24 _ _ (810648008088617 / 4503599627370496) (-3) (12079597) (by norm_num [abs_of_pos]) (by norm_num) (by norm_num)
        (by norm_num) (by norm_num) (by norm_num))
  have h19 : hundredths 19 = 6375343 / 33554432 := by
    rw [show (19 : Nat) = 18 + 1 from rfl, hundredths_succ, h18]
    exact floatAdd_eq _ _ _ (855684028521513 / 4503599627370496) _ toDouble_hundredth
      (roundBinary_eq 53 _ _ (109527555650753659 / 576460752303423488) (-3) (6845472228172104) (by norm_num [abs_of_pos]) (by norm_num) (by norm_num)
        (by norm_num) (by norm_num) (by norm_num))
      (roundBinary_eq 24 _ _ (855684028521513 / 4503599627370496) (-3) (12750686) (by norm_num [abs_of_pos]) (by norm_num) (by norm_num)
        (by norm_num) (by norm_num) (by norm_num))
  have h20 : hundredths 20 = 13421775 / 67108864 := by
    rw [show (20 : Nat) = 19 + 1 from rfl, hundredths_succ, h19]
    exact floatAdd_eq _ _ _ (900720048954409 / 4503599627370496) _ toDouble_hundredth
      (roundBinary_eq 53 _ _ (115292166266164347 / 576460752303423488) (-3) (7205760391635272) (by norm_num [abs_of_pos]) (by norm_num) (by norm_num)
        (by norm_num) (by norm_num) (by norm_num))
      (roundBinary_eq 24 _ _ (900720048954409 / 4503599627370496) (-3) (13421775) (by norm_num [abs_of_pos]) (by norm_num) (by norm_num)
        (by norm_num) (by norm_num) (by norm_num))
  have h21 : hundredths 21 = 220201 / 1048576 := by
    rw [show (21 : Nat) = 20 + 1 from rfl, hundredths_succ, h20]
    exact floatAdd_eq _ _ _ (945756069387305 / 4503599627370496) _ toDouble_hundredth
      (roundBinary_eq 53 _ _ (121056776881575035 / 576460752303423488) (-3) (7566048555098440) (by norm_num [abs_of_pos]) (by norm_num) (by norm_num)
        (by norm_num) (by norm_num) (by norm_num))
      (roundBinary_eq 24 _ _ (945756069387305 / 4503599627370496) (-3) (14092864) (by norm_num [abs_of_pos]) (by norm_num) (by norm_num)
        (by norm_num) (by norm_num) (by norm_num))
  have h22 : hundredths 22 = 14763953 / 67108864 := by
    rw [show (22 : Nat) = 21 + 1 from rfl, hundredths_succ, h21]
    exact floatAdd_eq _ _ _ (990792089820201 / 4503599627370496) _ toDouble_hundredth
      (roundBinary_eq 53 _ _ (126821387496985723 / 576460752303423488) (-3) (7926336718561608) (by norm_num [abs_of_pos]) (by norm_num) (by norm_num)
        (by norm_num) (by norm_num) (by norm_num))
      (roundBinary_eq 24 _ _ (990792089820201 / 4503599627370496) (-3) (14763953) (by norm_num [abs_of_pos]) (by norm_num) (by norm_num)
        (by norm_num) (by norm_num) (by norm_num))
  have h23 : hundredths 23 = 7717521 / 33554432 := by
    rw [show (23 : Nat) = 22 + 1 from rfl, hundredths_succ, h22]
    exact floatAdd_eq _ _ _ (1035828110253097 / 4503599627370496) _ toDouble_hundredth
      (roundBinary_eq 53 _ _ (132585998112396411 / 576460752303423488) (-3) (8286624882024776) (by norm_num [abs_of_pos]) (by norm_num) (by norm_num)
        (by norm_num) (by norm_num) (by norm_num))
      (roundBinary_eq 24 _ _ (1035828110253097 / 4503599627370496) (-3) (15435042) (by norm_num [abs_of_pos]) (by norm_num) (by norm_num)
        (by norm_num) (by norm_num) (by norm_num))
  have h24 : hundredths 24 = 16106131 / 67108864 := by
    rw [show (24 : Nat) = 23 + 1 from rfl, hundredths_succ, h23]
    exact floatAdd_eq _ _ _ (1080864130685993 / 4503599627370496) _ toDouble_hundredth
      (roundBinary_eq 53 _ _ (138350608727807099 / 576460752303423488) (-3) (8646913045487944) (by norm_num [abs_of_pos]) (by norm_num) (by norm_num)
        (by norm_num) (by norm_num) (by norm_num))
      (roundBinary_eq 24 _ _ (1080864130685993 / 4503599627370496) (-3) (16106131) (by norm_num [abs_of_pos]) (by norm_num) (by norm_num)
        (by norm_num) (by norm_num) (by norm_num))
  have h25 : hundredths 25 = 4194305 / 16777216 := by
    rw [show (25 : Nat) = 24 + 1 from rfl, hundredths_succ, h24]
    exact floatAdd_eq _ _ _ (1125900151118889 / 4503599627370496) _ toDouble_hundredth
      (roundBinary_eq 53 _ _ (144115219343217787 / 576460752303423488) (-2) (4503600604475556) (by norm_num [abs_of_pos]) (by norm_num) (by norm_num)
        (by norm_num) (by norm_num) (by norm_num))
      (roundBinary_eq 24 _ _ (1125900151118889 / 4503599627370496) (-2) (8388610) (by norm_num [abs_of_pos]) (by norm_num) (by norm_num)
        (by norm_num) (by norm_num) (by norm_num))
  have b0 : 0 ≤ hundredths 0 ∧ hundredths 0 < 0.5 := by rw [h0]; norm_num
  have b1 : 0 ≤ hundredths 1 ∧ hundredths 1 < 0.5 := by rw [h1]; norm_num
  have b2 : 0 ≤ hundredths 2 ∧ hundredths 2 < 0.5 := by rw [h2]; norm_num
  have b3 : 0 ≤ hundredths 3 ∧ hundredths 3 < 0.5 := by rw [h3]; norm_num
  have b4 : 0 ≤ hundredths 4 ∧ hundredths 4 < 0.5 := by rw [h4]; norm_num
  have b5 : 0 ≤ hundredths 5 ∧ hundredths 5 < 0.5 := by rw [h5]; norm_num
  have b6 : 0 ≤ hundredths 6 ∧ hundredths 6 < 0.5 := by rw [h6]; norm_num
  have b7 : 0 ≤ hundredths 7 ∧ hundredths 7 < 0.5 := by rw [h7]; norm_num
  have b8 : 0 ≤ hundredths 8 ∧ hundredths 8 < 0.5 := by rw [h8]; norm_num
  have b9 : 0 ≤ hundredths 9 ∧ hundredths 9 < 0.5 := by rw [h9]; norm_num
  have b10 : 0 ≤ hundredths 10 ∧ hundredths 10 < 0.5 := by rw [h10]; norm_num
  have b11 : 0 ≤ hundredths 11 ∧ hundredths 11 < 0.5 := by rw [h11]; norm_num
  have b12 : 0 ≤ hundredths 12 ∧ hundredths 12 < 0.5 := by rw [h12]; norm_num
  have b13 : 0 ≤ hundredths 13 ∧ hundredths 13 < 0.5 := by rw [h13]; norm_num
  have b14 : 0 ≤ hundredths 14 ∧ hundredths 14 < 0.5 := by rw [h14]; norm_num
  have b15 : 0 ≤ hundredths 15 ∧ hundredths 15 < 0.5 := by rw [h15]; norm_num
  have b16 : 0 ≤ hundredths 16 ∧ hundredths 16 < 0.5 := by rw [h16]; norm_num
  have b17 : 0 ≤ hundredths 17 ∧ hundredths 17 < 0.5 := by rw [h17]; norm_num
  have b18 : 0 ≤ hundredths 18 ∧ hundredths 18 < 0.5 := by rw [h18]; norm_num
  have b19 : 0 ≤ hundredths 19 ∧ hundredths 19 < 0.5 := by rw [h19]; norm_num
  have b20 : 0 ≤ hundredths 20 ∧ hundredths 20 < 0.5 := by rw [h20]; norm_num
  have b21 : 0 ≤ hundredths 21 ∧ hundredths 21 < 0.5 := by rw [h21]; norm_num
  have b22 : 0 ≤ hundredths 22 ∧ hundredths 22 < 0.5 := by rw [h22]; norm_num
  have b23 : 0 ≤ hundredths 23 ∧ hundredths 23 < 0.5 := by rw [h23]; norm_num
  have b24 : 0 ≤ hundredths 24 ∧ hundredths 24 < 0.5 := by rw [h24]; norm_num
  have b25 : 0 ≤ hundredths 25 ∧ hundredths 25 < 0.5 := by rw [h25]; norm_num
  refine ⟨h25, ?_, h1⟩
  intro k hk
  interval_cases k
  exacts [
    b0, b1, b2, b3, b4, b5, b6, b7, b8, b9, b10, b11, b12, b13, b14, b15, b16, b17, b18, b19,
    b20, b21, b22, b23, b24, b25]

/-- The height over its next 26 additions: below 0.5 after 50, above after 51. -/
theorem hundredths_values_2 :
    hundredths 50 = 8388605 / 16777216 ∧ (∀ k ≤ 50, 0 ≤ hundredths k ∧ hundredths k < 0.5) ∧
    hundredths 51 = 8556377 / 16777216 := by
  have h25 : hundredths 25 = 4194305 / 16777216 := hundredths_values_1.1
  have h26 : hundredths 26 = 4362077 / 16777216 := by
    rw [show (26 : Nat) = 25 + 1 from rfl, hundredths_succ, h25]
    exact floatAdd_eq _ _ _ (1170936171551785 / 4503599627370496) _ toDouble_hundredth
      (roundBinary_eq 53 _ _ (149879829958628475 / 576460752303423488) (-2) (4683744686207140) (by norm_num [abs_of_pos]) (by norm_num) (by norm_num)
        (by norm_num) (by norm_num) (by norm_num))
      (roundBinary_eq 24 _ _ (1170936171551785 / 4503599627370496) (-2) (8724154) (by norm_num [abs_of_pos]) (by norm_num) (by norm_num)
        (by norm_num) (by norm_num) (by norm_num))
  have h27 : hundredths 27 = 4529849 / 16777216 := by
    rw [show (27 : Nat) = 26 + 1 from rfl, hundredths_succ, h26]
    exact floatAdd_eq _ _ _ (1215972124875817 / 4503599627370496) _ toDouble_hundredth
      (roundBinary_eq 53 _ _ (155644431984104571 / 576460752303423488) (-2) (4863888499503268) (by norm_num [abs_of_pos]) (by norm_num) (by norm_num)
        (by norm_num) (by norm_num) (by norm_num))
      (roundBinary_eq 24 _ _ (1215972124875817 / 4503599627370496) (-2) (9059698) (by norm_num [abs_of_pos]) (by norm_num) (by norm_num)
        (by norm_num) (by norm_num) (by norm_num))
  have h28 : hundredths 28 = 4697621 / 16777216 := by
    rw [show (28 : Nat) = 27 + 1 from rfl, hundredths_succ, h27]
    exact floatAdd_eq _ _ _ (1261008078199849 / 4503599627370496) _ toDouble_hundredth
      (roundBinary_eq 53 _ _ (161409034009580667 / 576460752303423488) (-2) (5044032312799396) (by norm_num [abs_of_pos]) (by norm_num) (by norm_num)
        (by norm_num) (by norm_num) (by norm_num))
      (roundBinary_eq 24 _ _ (1261008078199849 / 4503599627370496) (-2) (9395242) (by norm_num [abs_of_pos]) (by norm_num) (by norm_num)
        (by norm_num) (by norm_num) (by norm_num))
  have h29 : hundredths 29 = 4865393 / 16777216 := by
    rw [show (29 : Nat) = 28 + 1 from rfl, hundredths_succ, h28]
    exact floatAdd_eq _ _ _ (1306044031523881 / 4503599627370496) _ toDouble_hundredth
      (roundBinary_eq 53 _ _ (167173636035056763 / 576460752303423488) (-2) (5224176126095524) (by norm_num [abs_of_pos]) (by norm_num) (by norm_num)
        (by norm_num) (by norm_num) (by norm_num))
      (roundBinary_eq 24 _ _ (1306044031523881 / 4503599627370496) (-2) (9730786) (by norm_num [abs_of_pos]) (by norm_num) (by norm_num)
        (by norm_num) (by norm_num) (by norm_num))
  have h30 : hundredths 30 = 5033165 / 16777216 := by
    rw [show (30 : Nat) = 29 + 1 from rfl, hundredths_succ, h29]
    exact floatAdd_eq _ _ _ (1351079984847913 / 4503599627370496) _ toDouble_hundredth
      (roundBinary_eq 53 _ _ (172938238060532859 / 576460752303423488) (-2) (5404319939391652) (by norm_num [abs_of_pos]) (by norm_num) (by norm_num)
        (by norm_num) (by norm_num) (by norm_num))
      (roundBinary_eq 24 _ _ (1351079984847913 / 4503599627370496) (-2) (10066330) (by norm_num [abs_of_pos]) (by norm_num) (by norm_num)
        (by norm_num) (by norm_num) (by norm_num))
  have h31 : hundredths 31 = 5200937 / 16777216 := by
    rw [show (31 : Nat) = 30 + 1 from rfl, hundredths_succ, h30]
    exact floatAdd_eq _ _ _ (1396115938171945 / 4503599627370496) _ toDouble_hundredth
      (roundBinary_eq 53 _ _ (178702840086008955 / 576460752303423488) (-2) (5584463752687780) (by norm_num [abs_of_pos]) (by norm_num) (by norm_num)
        (by norm_num) (by norm_num) (by norm_num))
      (roundBinary_eq 24 _ _ (1396115938171945 / 4503599627370496) (-2) (10401874) (by norm_num [abs_of_pos]) (by norm_num) (by norm_num)
        (by norm_num) (by norm_num) (by norm_num))
  have h32 : hundredths 32 = 5368709 / 16777216 := by
    rw [show (32 : Nat) = 31 + 1 from rfl, hundredths_succ, h31]
    exact floatAdd_eq _ _ _ (1441151891495977 / 4503599627370496) _ toDouble_hundredth
      (roundBinary_eq 53 _ _ (184467442111485051 / 576460752303423488) (-2) (5764607565983908) (by norm_num [abs_of_pos]) (by norm_num) (by norm_num)
        (by norm_num) (by norm_num) (by norm_num))
      (roundBinary_eq 24 _ _ (1441151891495977 / 4503599627370496) (-2) (10737418) (by norm_num [abs_of_pos]) (by norm_num) (by norm_num)
        (by norm_num) (by norm_num) (by norm_num))
  have h33 : hundredths 33 = 5536481 / 16777216 := by
    rw [show (33 : Nat) = 32 + 1 from rfl, hundredths_succ, h32]
    exact floatAdd_eq _ _ _ (1486187844820009 / 4503599627370496) _ toDouble_hundredth
      (roundBinary_eq 53 _ _ (190232044136961147 / 576460752303423488) (-2) (5944751379280036) (by norm_num [abs_of_pos]) (by norm_num) (by norm_num)
        (by norm_num) (by norm_num) (by norm_num))
      (roundBinary_eq 24 _ _ (1486187844820009 / 4503599627370496) (-2) (11072962) (by norm_num [abs_of_pos]) (by norm_num) (by norm_num)
        (by norm_num) (by norm_num) (by norm_num))
  have h34 : hundredths 34 = 5704253 / 16777216 := by
    rw [show (34 : Nat) = 33 + 1 from rfl, hundredths_succ, h33]
    exact floatAdd_eq _ _ _ (1531223798144041 / 4503599627370496) _ toDouble_hundredth
      (roundBinary_eq 53 _ _ (195996646162437243 / 576460752303423488) (-2) (6124895192576164) (by norm_num [abs_of_pos]) (by norm_num) (by norm_num)
        (by norm_num) (by norm_num) (by norm_num))
      (roundBinary_eq 24 _ _ (1531223798144041 / 4503599627370496) (-2) (11408506) (by norm_num [abs_of_pos]) (by norm_num) (by norm_num)
        (by norm_num) (by norm_num) (by norm_num))
  have h35 : hundredths 35 = 5872025 / 16777216 := by
    rw [show (35 : Nat) = 34 + 1 from rfl, hundredths_succ, h34]
    exact floatAdd_eq _ _ _ (1576259751468073 / 4503599627370496) _ toDouble_hundredth
      (roundBinary_eq 53 _ _ (201761248187913339 / 576460752303423488) (-2) (6305039005872292) (by norm_num [abs_of_pos]) (by norm_num) (by norm_num)
        (by norm_num) (by norm_num) (by norm_num))
      (roundBinary_eq 24 _ _ (1576259751468073 / 4503599627370496) (-2) (11744050) (by norm_num [abs_of_pos]) (by norm_num) (by norm_num)
        (by norm_num) (by norm_num) (by norm_num))
  have h36 : hundredths 36 = 6039797 / 16777216 := by
    rw [show (36 : Nat) = 35 + 1 from rfl, hundredths_succ, h35]
    exact floatAdd_eq _ _ _ (1621295704792105 / 4503599627370496) _ toDouble_hundredth
      (roundBinary_eq 53 _ _ (207525850213389435 / 576460752303423488) (-2) (6485182819168420) (by norm_num [abs_of_pos]) (by norm_num) (by norm_num)
        (by norm_num) (by norm_num) (by norm_num))
      (roundBinary_eq 24 _ _ (1621295704792105 / 4503599627370496) (-2) (12079594) (by norm_num [abs_of_pos]) (by norm_num) (by norm_num)
        (by norm_num) (by norm_num) (by norm_num))
  have h37 : hundredths 37 = 6207569 / 16777216 := by
    rw [show (37 : Nat) = 36 + 1 from rfl, hundredths_succ, h36]
    exact floatAdd_eq _ _ _ (1666331658116137 / 4503599627370496) _ toDouble_hundredth
      (roundBinary_eq 53 _ _ (213290452238865531 / 576460752303423488) (-2) (6665326632464548) (by norm_num [abs_of_pos]) (by norm_num) (by norm_num)
        (by norm_num) (by norm_num) (by norm_num))
      (roundBinary_eq 24 _ _ (1666331658116137 / 4503599627370496) (-2) (12415138) (by norm_num [abs_of_pos]) (by norm_num) (by norm_num)
        (by norm_num) (by norm_num) (by norm_num))
  have h38 : hundredths 38 = 6375341 / 16777216 := by
    rw [show (38 : Nat) = 37 + 1 from rfl, hundredths_succ, h37]
    exact floatAdd_eq _ _ _ (1711367611440169 / 4503599627370496) _ toDouble_hundredth
      (roundBinary_eq 53 _ _ (219055054264341627 / 576460752303423488) (-2) (6845470445760676) (by norm_num [abs_of_pos]) (by norm_num) (by norm_num)
        (by norm_num) (by norm_num) (by norm_num))
      (roundBinary_eq 24 _ _ (1711367611440169 / 4503599627370496) (-2) (12750682) (by norm_num [abs_of_pos]) (by norm_num) (by norm_num)
        (by norm_num) (by norm_num) (by norm_num))
  have h39 : hundredths 39 = 6543113 / 16777216 := by
    rw [show (39 : Nat) = 38 + 1 from rfl, hundredths_succ, h38]
    exact floatAdd_eq _ _ _ (1756403564764201 / 4503599627370496) _ toDouble_hundredth
      (roundBinary_eq 53 _ _ (224819656289817723 / 576460752303423488) (-2) (7025614259056804) (by norm_num [abs_of_pos]) (by norm_num) (by norm_num)
        (by norm_num) (by norm_num) (by norm_num))
      (roundBinary_eq 24 _ _ (1756403564764201 / 4503599627370496) (-2) (13086226) (by norm_num [abs_of_pos]) (by norm_num) (by norm_num)
        (by norm_num) (by norm_num) (by norm_num))
  have h40 : hundredths 40 = 6710885 / 16777216 := by
    rw [show (40 : Nat) = 39 + 1 from rfl, hundredths_succ, h39]
    exact floatAdd_eq _ _ _ (1801439518088233 / 4503599627370496) _ toDouble_hundredth
      (roundBinary_eq 53 _ _ (230584258315293819 / 576460752303423488) (-2) (7205758072352932) (by norm_num [abs_of_pos]) (by norm_num) (by norm_num)
        (by norm_num) (by norm_num) (by norm_num))
      (roundBinary_eq 24 _ _ (1801439518088233 / 4503599627370496) (-2) (13421770) (by norm_num [abs_of_pos]) (by norm_num) (by norm_num)
        (by norm_num) (by norm_num) (by norm_num))
  have h41 : hundredths 41 = 6878657 / 16777216 := by
    rw [show (41 : Nat) = 40 + 1 from rfl, hundredths_succ, h40]
    exact floatAdd_eq _ _ _ (1846475471412265 / 4503599627370496) _ toDouble_hundredth
      (roundBinary_eq 53 _ _ (236348860340769915 / 576460752303423488) (-2) (7385901885649060) (by norm_num [abs_of_pos]) (by norm_num) (by norm_num)
        (by norm_num) (by norm_num) (by norm_num))
      (roundBinary_eq 24 _ _ (1846475471412265 / 4503599627370496) (-2) (13757314) (by norm_num [abs_of_pos]) (by norm_num) (by norm_num)
        (by norm_num) (by norm_num) (by norm_num))
  have h42 : hundredths 42 = 7046429 / 16777216 := by
    rw [show (42 : Nat) = 41 + 1 from rfl, hundredths_succ, h41]
    exact floatAdd_eq _ _ _ (1891511424736297 / 4503599627370496) _ toDouble_hundredth
      (roundBinary_eq 53 _ _ (242113462366246011 / 576460752303423488) (-2) (7566045698945188) (by norm_num [abs_of_pos]) (by norm_num) (by norm_num)
        (by norm_num) (by norm_num) (by norm_num))
      (roundBinary_eq 24 _ _ (1891511424736297 / 4503599627370496) (-2) (14092858) (by norm_num [abs_of_pos]) (by norm_num) (by norm_num)
        (by norm_num) (by norm_num) (by norm_num))
  have h43 : hundredths 43 = 7214201 / 16777216 := by
    rw [show (43 : Nat) = 42 + 1 from rfl, hundredths_succ, h42]
    exact floatAdd_eq _ _ _ (1936547378060329 / 4503599627370496) _ toDouble_hundredth
      (roundBinary_eq 53 _ _ (247878064391722107 / 576460752303423488) (-2) (7746189512241316) (by norm_num [abs_of_pos]) (by norm_num) (by norm_num)
        (by norm_num) (by norm_num) (by norm_num))
      (roundBinary_eq 24 _ _ (1936547378060329 / 4503599627370496) (-2) (14428402) (by norm_num [abs_of_pos]) (by norm_num) (by norm_num)
        (by norm_num) (by norm_num) (by norm_num))
  have h44 : hundredths 44 = 7381973 / 16777216 := by
    rw [show (44 : Nat) = 43 + 1 from rfl, hundredths_succ, h43]
    exact floatAdd_eq _ _ _ (1981583331384361 / 4503599627370496) _ toDouble_hundredth
      (roundBinary_eq 53 _ _ (253642666417198203 / 576460752303423488) (-2) (7926333325537444) (by norm_num [abs_of_pos]) (by norm_num) (by norm_num)
        (by norm_num) (by norm_num) (by norm_num))
      (roundBinary_eq 24 _ _ (1981583331384361 / 4503599627370496) (-2) (14763946) (by norm_num [abs_of_pos]) (by norm_num) (by norm_num)
        (by norm_num) (by norm_num) (by norm_num))
  have h45 : hundredths 45 = 7549745 / 16777216 := by
    rw [show (45 : Nat) = 44 + 1 from rfl, hundredths_succ, h44]
    exact floatAdd_eq _ _ _ (2026619284708393 / 4503599627370496) _ toDouble_hundredth
      (roundBinary_eq 53 _ _ (259407268442674299 / 576460752303423488) (-2) (8106477138833572) (by norm_num [abs_of_pos]) (by norm_num) (by norm_num)
        (by norm_num) (by norm_num) (by norm_num))
      (roundBinary_eq 24 _ _ (2026619284708393 / 4503599627370496) (-2) (15099490) (by norm_num [abs_of_pos]) (by norm_num) (by norm_num)
        (by norm_num) (by norm_num) (by norm_num))
  have h46 : hundredths 46 = 7717517 / 16777216 := by
    rw [show (46 : Nat) = 45 + 1 from rfl, hundredths_succ, h45]
    exact floatAdd_eq _ _ _ (2071655238032425 / 4503599627370496) _ toDouble_hundredth
      (roundBinary_eq 53 _ _ (265171870468150395 / 576460752303423488) (-2) (8286620952129700) (by norm_num [abs_of_pos]) (by norm_num) (by norm_num)
        (by norm_num) (by norm_num) (by norm_num))
      (roundBinary_eq 24 _ _ (2071655238032425 / 4503599627370496) (-2) (15435034) (by norm_num [abs_of_pos]) (by norm_num) (by norm_num)
        (by norm_num) (by norm_num) (by norm_num))
  have h47 : hundredths 47 = 7885289 / 16777216 := by
    rw [show (47 : Nat) = 46 + 1 from rfl, hundredths_succ, h46]
    exact floatAdd_eq _ _ _ (2116691191356457 / 4503599627370496) _ toDouble_hundredth
      (roundBinary_eq 53 _ _ (270936472493626491 / 576460752303423488) (-2) (8466764765425828) (by norm_num [abs_of_pos]) (by norm_num) (by norm_num)
        (by norm_num) (by norm_num) (by norm_num))
      (roundBinary_eq 24 _ _ (2116691191356457 / 4503599627370496) (-2) (15770578) (by norm_num [abs_of_pos]) (by norm_num) (by norm_num)
        (by norm_num) (by norm_num) (by norm_num))
  have h48 : hundredths 48 = 8053061 / 16777216 := by
    rw [show (48 : Nat) = 47 + 1 from rfl, hundredths_succ, h47]
    exact floatAdd_eq _ _ _ (2161727144680489 / 4503599627370496) _ toDouble_hundredth
      (roundBinary_eq 53 _ _ (276701074519102587 / 576460752303423488) (-2) (8646908578721956) (by norm_num [abs_of_pos]) (by norm_num) (by norm_num)
        (by norm_num) (by norm_num) (by norm_num))
      (roundBinary_eq 24 _ _ (2161727144680489 / 4503599627370496) (-2) (16106122) (by norm_num [abs_of_pos]) (by norm_num) (by norm_num)
        (by norm_num) (by norm_num) (by norm_num))
  have h49 : hundredths 49 = 8220833 / 16777216 := by
    rw [show (49 : Nat) = 48 + 1 from rfl, hundredths_succ, h48]
    exact floatAdd_eq _ _ _ (2206763098004521 / 4503599627370496) _ toDouble_hundredth
      (roundBinary_eq 53 _ _ (282465676544578683 / 576460752303423488) (-2) (8827052392018084) (by norm_num [abs_of_pos]) (by norm_num) (by norm_num)
        (by norm_num) (by norm_num) (by norm_num))
      (roundBinary_eq 24 _ _ (2206763098004521 / 4503599627370496) (-2) (16441666) (by norm_num [abs_of_pos]) (by norm_num) (by norm_num)
        (by norm_num) (by norm_num) (by norm_num))
  have h50 : hundredths 50 = 8388605 / 16777216 := by
    rw [show (50 : Nat) = 49 + 1 from rfl, hundredths_succ, h49]
    exact floatAdd_eq _ _ _ (2251799051328553 / 4503599627370496) _ toDouble_hundredth
      (roundBinary_eq 53 _ _ (288230278570054779 / 576460752303423488) (-2) (9007196205314212) (by norm_num [abs_of_pos]) (by norm_num) (by norm_num)
        (by norm_num) (by norm_num) (by norm_num))
      (roundBinary_eq 24 _ _ (2251799051328553 / 4503599627370496) (-2) (16777210) (by norm_num [abs_of_pos]) (by norm_num) (by norm_num)
        (by norm_num) (by norm_num) (by norm_num))
  have h51 : hundredths 51 = 8556377 / 16777216 := by
    rw [show (51 : Nat) = 50 + 1 from rfl, hundredths_succ, h50]
    exact floatAdd_eq _ _ _ (2296835004652585 / 4503599627370496) _ toDouble_hundredth
      (roundBinary_eq 53 _ _ (293994880595530875 / 576460752303423488) (-1) (4593670009305170) (by norm_num [abs_of_pos]) (by norm_num) (by norm_num)
        (by norm_num) (by norm_num) (by norm_num))
      (roundBinary_eq 24 _ _ (2296835004652585 / 4503599627370496) (-1) (8556377) (by norm_num [abs_of_pos]) (by norm_num) (by norm_num)
        (by norm_num) (by norm_num) (by norm_num))
  have b26 : 0 ≤ hundredths 26 ∧ hundredths 26 < 0.5 := by rw [h26]; norm_num
  have b27 : 0 ≤ hundredths 27 ∧ hundredths 27 < 0.5 := by rw [h27]; norm_num
  have b28 : 0 ≤ hundredths 28 ∧ hundredths 28 < 0.5 := by rw [h28]; norm_num
  have b29 : 0 ≤ hundredths 29 ∧ hundredths 29 < 0.5 := by rw [h29]; norm_num
  have b30 : 0 ≤ hundredths 30 ∧ hundredths 30 < 0.5 := by rw [h30]; norm_num
  have b31 : 0 ≤ hundredths 31 ∧ hundredths 31 < 0.5 := by rw [h31]; norm_num
  have b32 : 0 ≤ hundredths 32 ∧ hundredths 32 < 0.5 := by rw [h32]; norm_num
  have b33 : 0 ≤ hundredths 33 ∧ hundredths 33 < 0.5 := by rw [h33]; norm_num
  have b34 : 0 ≤ hundredths 34 ∧ hundredths 34 < 0.5 := by rw [h34]; norm_num
  have b35 : 0 ≤ hundredths 35 ∧ hundredths 35 < 0.5 := by rw [h35]; norm_num
  have b36 : 0 ≤ hundredths 36 ∧ hundredths 36 < 0.5 := by rw [h36]; norm_num
  have b37 : 0 ≤ hundredths 37 ∧ hundredths 37 < 0.5 := by rw [h37]; norm_num
  have b38 : 0 ≤ hundredths 38 ∧ hundredths 38 < 0.5 := by rw [h38]; norm_num
  have b39 : 0 ≤ hundredths 39 ∧ hundredths 39 < 0.5 := by rw [h39]; norm_num
  have b40 : 0 ≤ hundredths 40 ∧ hundredths 40 < 0.5 := by rw [h40]; norm_num
  have b41 : 0 ≤ hundredths 41 ∧ hundredths 41 < 0.5 := by rw [h41]; norm_num
  have b42 : 0 ≤ hundredths 42 ∧ hundredths 42 < 0.5 := by rw [h42]; norm_num
  have b43 : 0 ≤ hundredths 43 ∧ hundredths 43 < 0.5 := by rw [h43]; norm_num
  have b44 : 0 ≤ hundredths 44 ∧ hundredths 44 < 0.5 := by rw [h44]; norm_num
  have b45 : 0 ≤ hundredths 45 ∧ hundredths 45 < 0.5 := by rw [h45]; norm_num
  have b46 : 0 ≤ hundredths 46 ∧ hundredths 46 < 0.5 := by rw [h46]; norm_num
  have b47 : 0 ≤ hundredths 47 ∧ hundredths 47 < 0.5 := by rw [h47]; norm_num
  have b48 : 0 ≤ hundredths 48 ∧ hundredths 48 < 0.5 := by rw [h48]; norm_num
  have b49 : 0 ≤ hundredths 49 ∧ hundredths 49 < 0.5 := by rw [h49]; norm_num
  have b50 : 0 ≤ hundredths 50 ∧ hundredths 50 < 0.5 := by rw [h50]; norm_num
  refine ⟨h50, ?_, h51⟩
  intro k hk
  by_cases hlo : k ≤ 25
  · exact hundredths_values_1.2.1 k hlo
  · have hlo2 : 25 < k := not_le.mp hlo
    interval_cases k
    exacts [
      b26, b27, b28, b29, b30, b31, b32, b33, b34, b35, b36, b37, b38, b39, b40, b41, b42, b43,
      b44, b45, b46, b47, b48, b49, b50]

/-- The first step down, from the height reached after 51 steps up. -/
theorem floatSub_after_rise : floatSub (8556377 / 16777216) 0.01 = 8388605 / 16777216 :=
  floatSub_eq _ _ _ (2251798965429207 / 4503599627370496) _ toDouble_hundredth
    (roundBinary_eq 53 _ _ (288230267574938501 / 576460752303423488) (-2) (9007195861716828) (by norm_num [abs_of_pos]) (by norm_num) (by norm_num)
      (by norm_num) (by norm_num) (by norm_num))
    (roundBinary_eq 24 _ _ (2251798965429207 / 4503599627370496) (-2) (16777210) (by norm_num [abs_of_pos]) (by norm_num) (by norm_num)
      (by norm_num) (by norm_num) (by norm_num))

/-- One step up from the height 0.3. -/
theorem floatAdd_three_tenths : floatAdd (3 / 10) 0.01 = 5200937 / 16777216 :=
  floatAdd_eq _ _ _ (5584463537939415 / 18014398509481984) _ toDouble_hundredth
    (roundBinary_eq 53 _ _ (893514166070306407 / 2882303761517117440) (-2) (5584463537939415) (by norm_num [abs_of_pos]) (by norm_num) (by norm_num)
      (by norm_num) (by norm_num) (by norm_num))
    (roundBinary_eq 24 _ _ (5584463537939415 / 18014398509481984) (-2) (10401874) (by norm_num [abs_of_pos]) (by norm_num) (by norm_num)
      (by norm_num) (by norm_num) (by norm_num))

/-- One step up from the height 0.2. -/
theorem floatAdd_two_tenths : floatAdd (1 / 5) 0.01 = 14092861 / 67108864 :=
  floatAdd_eq _ _ _ (7566047373982433 / 36028797018963968) _ toDouble_hundredth
    (roundBinary_eq 53 _ _ (605283789918594663 / 2882303761517117440) (-3) (7566047373982433) (by norm_num [abs_of_pos]) (by norm_num) (by norm_num)
      (by norm_num) (by norm_num) (by norm_num))
    (roundBinary_eq 24 _ _ (7566047373982433 / 36028797018963968) (-3) (14092861) (by norm_num [abs_of_pos]) (by norm_num) (by norm_num)
      (by norm_num) (by norm_num) (by norm_num))

/-! ## What the clocks pass, and when -/

theorem tenths_at_1 : tenths 1 = 13421773 / 134217728 := tenths_values_1.2.2.1

theorem tenths_at_5 : tenths 5 = 1 / 2 := tenths_values_1.2.2.2.1

theorem tenths_at_20 : tenths 20 = 8388609 / 4194304 := tenths_values_1.2.2.2.2.1

theorem tenths_at_21 : tenths 21 = 8808039 / 4194304 := tenths_values_1.2.2.2.2.2.1

/-- During a jump the `float` clock is within 1e-6 of the exact multiple of 0.1. -/
theorem tenths_near (k : Nat) (hk : k ≤ 21) : |tenths k - (k : ℚ) / 10| ≤ 1 / 1000000 :=
  tenths_values_1.2.2.2.2.2.2.1 k hk

/-- The first 200 values of the clock are within the loading interval. -/
theorem tenths_loading (k : Nat) (hk : k ≤ 199) : 0 ≤ tenths k ∧ tenths k ≤ 20 :=
  tenths_values_8.2 k hk

/-- After 200 additions the clock has passed 20. -/
theorem tenths_past_loading : 20 < tenths 200 := by
  rw [tenths_values_8.1]
  norm_num

/-- The first 20 values of the clock after 0 do not exceed 2.1. -/
theorem tenths_in_jump (k : Nat) (hk : k ≤ 20) : tenths k ≤ 2.1 :=
  tenths_values_1.2.2.2.2.2.2.2 k hk

/-- The clock does not exceed 2.1 at the first 20 ticks of a jump. -/
theorem tenths_jump (k : Nat) (hk : k ≤ 19) : floatAdd (tenths k) 0.1 ≤ 2.1 := by
  rw [← tenths_succ]
  exact tenths_in_jump (k + 1) (by omega)

/-- The 21st value of the clock exceeds 2.1. -/
theorem tenths_past_jump : floatAdd (tenths 20) 0.1 > 2.1 := by
  rw [← tenths_succ, tenths_at_21]
  norm_num

theorem hundredths_at_1 : hundredths 1 = 5368709 / 536870912 := hundredths_values_1.2.2

theorem hundredths_at_50 : hundredths 50 = 8388605 / 16777216 := hundredths_values_2.1

theorem hundredths_at_51 : hundredths 51 = 8556377 / 16777216 := hundredths_values_2.2.2

/-- For 50 steps from rest the elevator stays below 0.5. -/
theorem hundredths_rising (k : Nat) (hk : k ≤ 50) : 0 ≤ hundredths k ∧ hundredths k < 0.5 :=
  hundredths_values_2.2.1 k hk

/-- The 51st step takes the elevator past 0.5. -/
theorem hundredths_past_top : (0.5 : ℚ) < hundredths 51 := by
  rw [hundredths_at_51]
  norm_num
/-! ## How the steps of a Play tick act -/

/-- Without a queued step the auto-advance does nothing. -/
theorem autoAdvance_idle (s : Game) (h : s.c_i = 0) : autoAdvance s = s := by
  unfold autoAdvance
  rw [if_neg (not_not.mpr h)]

/-- A grounded player passes the jump block unchanged. -/
theorem jumpBlock_grounded (s : Game) (h : s.jump = false) : jumpBlock s = s := by
  unfold jumpBlock
  simp [h]

/-- The jump block of an airborne player. -/
theorem jumpBlock_airborne (s : Game) (h : s.jump = true) :
    jumpBlock s = jumpEnd (jumpKinematics s) := by
  unfold jumpBlock
  simp [h]

/-- The fatal condition depends on the position, the holes and the health only. -/
theorem fatal_congr (s t : Game) (hx : s.px = t.px) (hz : s.pz = t.pz) (hh : s.hole = t.hole)
    (he : s.health = t.health) : fatal s ↔ fatal t := by
  unfold fatal
  rw [hx, hz, hh, he]

/-- Elevator tiles are read from `tile` only. -/
theorem isTile_congr (s t : Game) (i : Int) (h : s.tile = t.tile) : isTile s i ↔ isTile t i := by
  unfold isTile
  rw [h]

/-- After the fatal check the player is inside the grid. -/
theorem fatalCheck_in_grid (m : Game) :
    0 ≤ (fatalCheck m).px ∧ (fatalCheck m).px ≤ 9 ∧ 0 ≤ (fatalCheck m).pz ∧ (fatalCheck m).pz ≤ 9 := by
  unfold fatalCheck
  split_ifs with h
  · simp
  · unfold fatal at h
    push_neg at h
    obtain ⟨h1, h2, h3, h4, -⟩ := h
    exact ⟨h1, h2, h4, h3⟩

/-- The step back moves the player by at most one cell. -/
theorem bounceBack_near (m : Game) :
    m.px - 1 ≤ (bounceBack m).px ∧ (bounceBack m).px ≤ m.px + 1 ∧
      m.pz - 1 ≤ (bounceBack m).pz ∧ (bounceBack m).pz ≤ m.pz + 1 := by
  unfold bounceBack
  split_ifs <;> (try dsimp only) <;> omega

/-- The elevator-tile logic moves the player by at most one cell. -/
theorem tileLanding_near (m : Game) :
    m.px - 1 ≤ (tileLanding m).px ∧ (tileLanding m).px ≤ m.px + 1 ∧
      m.pz - 1 ≤ (tileLanding m).pz ∧ (tileLanding m).pz ≤ m.pz + 1 := by
  unfold tileLanding
  split_ifs
  · have := bounceBack_near { m with health := m.health - 5 }
    exact this
  · have e1 : ({ dropPenalty m with on_tile := true } : Game).px = m.px := by simp
    have e2 : ({ dropPenalty m with on_tile := true } : Game).pz = m.pz := by simp
    rw [e1, e2]; omega
  · omega
  · dsimp only; omega

/-- Off the elevator tiles the tile logic only clears `on_tile`. -/
theorem tileLanding_off (m : Game) (h : ¬ isTile m (10 * m.pz + m.px)) :
    tileLanding m = { m with on_tile := false } := by
  unfold tileLanding
  rw [if_neg h]

/-- When `gamescreen` returns, the player is at most one cell outside the grid. -/
theorem gamescreen_position (s : Game) :
    -1 ≤ (gamescreen s).px ∧ (gamescreen s).px ≤ 10 ∧ -1 ≤ (gamescreen s).pz ∧
      (gamescreen s).pz ≤ 10 := by
  have h1 := fatalCheck_in_grid (beforeFatal s)
  have h2 := tileLanding_near (fatalCheck (beforeFatal s))
  have hx : (gamescreen s).px = (tileLanding (fatalCheck (beforeFatal s))).px := by
    simp [gamescreen, beforeCollision]
  have hz : (gamescreen s).pz = (tileLanding (fatalCheck (beforeFatal s))).pz := by
    simp [gamescreen, beforeCollision]
  rw [hx, hz]
  omega

/-- A grounded player with no queued step, on a safe cell that is no elevator
tile, is left in place by `gamescreen`, with lives and health as before. -/
theorem gamescreen_still (s : Game) (hc : s.c_i = 0) (hj : s.jump = false) (hf : ¬ fatal s)
    (ht : ¬ isTile s (10 * s.pz + s.px)) :
    (gamescreen s).px = s.px ∧ (gamescreen s).pz = s.pz ∧ (gamescreen s).lives = s.lives ∧
      (gamescreen s).health = s.health ∧ (gamescreen s).jump = false := by
  have hbj : (beforeJump s).px = s.px ∧ (beforeJump s).pz = s.pz := by
    simp [beforeJump, autoAdvance_idle s hc]
  have hbf : beforeFatal s = beforeJump s := by
    unfold beforeFatal
    exact jumpBlock_grounded _ (by simp [hj])
  have hnf : ¬ fatal (beforeJump s) := by
    rw [fatal_congr (beforeJump s) s hbj.1 hbj.2 (by simp) (by simp)]
    exact hf
  have hfc : fatalCheck (beforeJump s) = beforeJump s := by
    unfold fatalCheck
    rw [if_neg hnf]
  have hnt : ¬ isTile (beforeJump s) (10 * (beforeJump s).pz + (beforeJump s).px) := by
    rw [isTile_congr (beforeJump s) s _ (by simp), hbj.1, hbj.2]
    exact ht
  have hbc : beforeCollision s = { beforeJump s with on_tile := false } := by
    unfold beforeCollision
    rw [hbf, hfc]
    exact tileLanding_off _ hnt
  have hjc : ∀ m : Game, m.jump = false → jumpCancel m = m := by
    intro m hm
    unfold jumpCancel
    simp [hm]
  have htc : ∀ m : Game, m.jump = false → tileCollision m = m := by
    intro m hm
    unfold tileCollision collideEast collideWest collideSouth collideNorth
    simp [hjc m hm]
  have hg : gamescreen s = { beforeJump s with on_tile := false } := by
    unfold gamescreen
    rw [hbc]
    exact htc _ (by simp [hj])
  rw [hg]
  simp [hbj.1, hbj.2, hj]

/-- On the initial board all holes and elevator tiles have index 0: a grounded,
healthy player with no queued step, inside the grid and off cell 0, is left in
place by `gamescreen`. -/
theorem gamescreen_still_initial_board (s : Game) (hc : s.c_i = 0) (hj : s.jump = false)
    (hh : 0 < s.health) (hhole : s.hole = fun _ => 0) (htile : s.tile = fun _ => 0)
    (hx : 0 ≤ s.px ∧ s.px ≤ 9) (hz : 0 ≤ s.pz ∧ s.pz ≤ 9) (h0 : 10 * s.pz + s.px ≠ 0) :
    (gamescreen s).px = s.px ∧ (gamescreen s).pz = s.pz ∧ (gamescreen s).lives = s.lives ∧
      (gamescreen s).health = s.health ∧ (gamescreen s).jump = false := by
  have hf : ¬ fatal s := by
    unfold fatal
    rw [hhole]
    simp only [not_or, not_le, not_lt]
    refine ⟨hx.1, hx.2, hz.2, hz.1, ?_, ?_, ?_, ?_, ?_, hh⟩ <;> omega
  have ht : ¬ isTile s (10 * s.pz + s.px) := by
    unfold isTile
    rw [htile]
    simp only [not_or]
    exact ⟨h0, h0, h0, h0, h0⟩
  exact gamescreen_still s hc hj hf ht

/-- The position at the level-completion check is the one `gamescreen` left. -/
theorem beforeCompletion_position (inp : Input) (s : Game) :
    (beforeCompletion inp s).px = (gamescreen s).px ∧
      (beforeCompletion inp s).pz = (gamescreen s).pz := by
  simp [beforeCompletion]

/-- At the coin check the player is at most one cell outside the grid. -/
theorem beforeCoins_position (inp : Input) (s : Game) :
    -1 ≤ (beforeCoins inp s).px ∧ (beforeCoins inp s).px ≤ 10 ∧ -1 ≤ (beforeCoins inp s).pz ∧
      (beforeCoins inp s).pz ≤ 10 := by
  have hg := gamescreen_position s
  have hb := beforeCompletion_position inp s
  unfold beforeCoins completionCheck
  split_ifs
  · simp
  · rw [hb.1, hb.2]
    exact hg

/-- Away from the exit cell, or short of five counted coins, the player reaches
the coin check where `gamescreen` left it. -/
theorem beforeCoins_of_no_completion (inp : Input) (s : Game)
    (h : ¬ (10 * (gamescreen s).pz + (gamescreen s).px = 9 ∧ s.coin_count = 5)) :
    beforeCoins inp s = beforeCompletion inp s := by
  have hb := beforeCompletion_position inp s
  have hcc : (beforeCompletion inp s).coin_count = s.coin_count := by simp
  unfold beforeCoins completionCheck
  rw [if_neg (by rw [hb.1, hb.2, hcc]; exact h)]

/-! ## A Play tick during a jump -/

/-- What `beforeJump` hands to the jump block when no step is queued. -/
theorem beforeJump_idle (s : Game) (hc : s.c_i = 0) :
    (beforeJump s).px = s.px ∧ (beforeJump s).pz = s.pz := by
  simp [beforeJump, autoAdvance_idle s hc]

/-- The cancellation does nothing to a grounded player. -/
theorem jumpCancel_grounded (m : Game) (h : m.jump = false) : jumpCancel m = m := by
  unfold jumpCancel
  simp [h]

/-- The cancellation either does nothing or clears the jump flag. -/
theorem jumpCancel_cases (m : Game) :
    jumpCancel m = m ∨ (jumpCancel m).jump = false := by
  unfold jumpCancel
  split_ifs
  · exact Or.inr rfl
  · exact Or.inl rfl

/-- The collision check for direction 1 does nothing or cancels the jump. -/
theorem collideNorth_cases (m : Game) :
    collideNorth m = m ∨ (collideNorth m = jumpCancel m ∧ (jumpCancel m).jump = false) := by
  unfold collideNorth
  split_ifs
  · rcases jumpCancel_cases m with h | h
    · exact Or.inl h
    · exact Or.inr ⟨rfl, h⟩
  · exact Or.inl rfl
  · exact Or.inl rfl

/-- The collision check for direction 4 does nothing or cancels the jump. -/
theorem collideSouth_cases (m : Game) :
    collideSouth m = m ∨ (collideSouth m = jumpCancel m ∧ (jumpCancel m).jump = false) := by
  unfold collideSouth
  split_ifs
  · rcases jumpCancel_cases m with h | h
    · exact Or.inl h
    · exact Or.inr ⟨rfl, h⟩
  · exact Or.inl rfl
  · exact Or.inl rfl

/-- The collision check for direction 2 does nothing or cancels the jump. -/
theorem collideWest_cases (m : Game) :
    collideWest m = m ∨ (collideWest m = jumpCancel m ∧ (jumpCancel m).jump = false) := by
  unfold collideWest
  split_ifs
  · rcases jumpCancel_cases m with h | h
    · exact Or.inl h
    · exact Or.inr ⟨rfl, h⟩
  · exact Or.inl rfl
  · exact Or.inl rfl

/-- The collision check for direction 3 does nothing or cancels the jump. -/
theorem collideEast_cases (m : Game) :
    collideEast m = m ∨ (collideEast m = jumpCancel m ∧ (jumpCancel m).jump = false) := by
  unfold collideEast
  split_ifs
  · rcases jumpCancel_cases m with h | h
    · exact Or.inl h
    · exact Or.inr ⟨rfl, h⟩
  · exact Or.inl rfl
  · exact Or.inl rfl

/-- The collision checks leave a grounded player alone. -/
theorem collide_grounded (m : Game) (h : m.jump = false) :
    collideNorth m = m ∧ collideSouth m = m ∧ collideWest m = m ∧ collideEast m = m := by
  have hjc := jumpCancel_grounded m h
  unfold collideNorth collideSouth collideWest collideEast
  simp [hjc]

/-- A grounded player passes the four collision checks unchanged. -/
theorem tileCollision_grounded (m : Game) (h : m.jump = false) : tileCollision m = m := by
  obtain ⟨h1, h2, h3, h4⟩ := collide_grounded m h
  unfold tileCollision
  rw [h1, h2, h3, h4]

/-- The four collision checks together do nothing or cancel the jump. -/
theorem tileCollision_cases (m : Game) :
    tileCollision m = m ∨ (tileCollision m = jumpCancel m ∧ (jumpCancel m).jump = false) := by
  unfold tileCollision
  rcases collideNorth_cases m with h1 | ⟨h1, hf⟩
  swap
  · obtain ⟨-, g2, g3, g4⟩ := collide_grounded (jumpCancel m) hf
    rw [h1, g2, g3, g4]
    exact Or.inr ⟨rfl, hf⟩
  rw [h1]
  rcases collideSouth_cases m with h2 | ⟨h2, hf⟩
  swap
  · obtain ⟨-, -, g3, g4⟩ := collide_grounded (jumpCancel m) hf
    rw [h2, g3, g4]
    exact Or.inr ⟨rfl, hf⟩
  rw [h2]
  rcases collideWest_cases m with h3 | ⟨h3, hf⟩
  swap
  · obtain ⟨-, -, -, g4⟩ := collide_grounded (jumpCancel m) hf
    rw [h3, g4]
    exact Or.inr ⟨rfl, hf⟩
  rw [h3]
  rcases collideEast_cases m with h4 | ⟨h4, hf⟩
  · exact Or.inl h4
  · exact Or.inr ⟨h4, hf⟩

/-- If the jump flag is set when `gamescreen` returns, the collision checks of
that call did nothing. -/
theorem gamescreen_of_jump (s : Game) (h : (gamescreen s).jump = true) :
    gamescreen s = beforeCollision s := by
  unfold gamescreen at h ⊢
  rcases tileCollision_cases (beforeCollision s) with hc | ⟨hc, hf⟩
  · exact hc
  · rw [hc, hf] at h
    exact absurd h (by decide)

/-- The jump flag and the jump clock at the collision checks are those the jump
block left. -/
theorem beforeCollision_jump (s : Game) :
    (beforeCollision s).jump = (beforeFatal s).jump ∧
      (beforeCollision s).ttime = (beforeFatal s).ttime ∧
      (beforeCollision s).rx = (beforeFatal s).rx ∧ (beforeCollision s).ry = (beforeFatal s).ry := by
  simp [beforeCollision]

/-- The jump block at a tick whose new elapsed time does not exceed 2.1. -/
theorem jumpBlock_continue (m : Game) (hj : m.jump = true) (ht : floatAdd m.ttime 0.1 ≤ 2.1) :
    jumpBlock m = jumpKinematics m := by
  rw [jumpBlock_airborne m hj]
  have h : ¬ (jumpKinematics m).ttime > 2.1 := not_lt.mpr ht
  unfold jumpEnd
  rw [if_neg h]

/-- The jump block at a tick whose new elapsed time exceeds 2.1. -/
theorem jumpBlock_finish (m : Game) (hj : m.jump = true) (ht : floatAdd m.ttime 0.1 > 2.1) :
    jumpBlock m = { jumpLand { jumpKinematics m with jump := false } with rx := 0, ttime := 0 } := by
  rw [jumpBlock_airborne m hj]
  have h : (jumpKinematics m).ttime > 2.1 := ht
  unfold jumpEnd
  rw [if_pos h]


/-- With no elevator tile on the cell ahead the collision checks do nothing. -/
theorem tileCollision_free (m : Game)
    (h1 : m.dir = 1 → ¬ isTile m (10 * (m.pz - 1) + m.px))
    (h4 : m.dir = 4 → ¬ isTile m (10 * (m.pz + 1) + m.px))
    (h2 : m.dir = 2 → ¬ isTile m (10 * m.pz + m.px - 1))
    (h3 : m.dir = 3 → ¬ isTile m (10 * m.pz + m.px + 1)) : tileCollision m = m := by
  have e1 : collideNorth m = m := by
    unfold collideNorth
    split_ifs with a b
    · exact absurd b (h1 a)
    · rfl
    · rfl
  have e4 : collideSouth m = m := by
    unfold collideSouth
    split_ifs with a b
    · exact absurd b (h4 a)
    · rfl
    · rfl
  have e2 : collideWest m = m := by
    unfold collideWest
    split_ifs with a b
    · exact absurd b (h2 a)
    · rfl
    · rfl
  have e3 : collideEast m = m := by
    unfold collideEast
    split_ifs with a b
    · exact absurd b (h3 a)
    · rfl
    · rfl
  unfold tileCollision
  rw [e1, e4, e2, e3]

/-- The state at the collision checks when the jump block left the player on
its cell, a safe cell that is no elevator tile. -/
theorem beforeCollision_airborne (s : Game) (hf : ¬ fatal s)
    (ht : ¬ isTile s (10 * s.pz + s.px))
    (hpos : (beforeFatal s).px = s.px ∧ (beforeFatal s).pz = s.pz) :
    beforeCollision s = { beforeFatal s with on_tile := false } := by
  have hnf : ¬ fatal (beforeFatal s) := by
    rw [fatal_congr (beforeFatal s) s hpos.1 hpos.2 (by simp) (by simp)]
    exact hf
  have hfc : fatalCheck (beforeFatal s) = beforeFatal s := by
    unfold fatalCheck
    rw [if_neg hnf]
  have hnt : ¬ isTile (beforeFatal s) (10 * (beforeFatal s).pz + (beforeFatal s).px) := by
    rw [isTile_congr (beforeFatal s) s _ (by simp), hpos.1, hpos.2]
    exact ht
  unfold beforeCollision
  rw [hfc]
  exact tileLanding_off _ hnt

/-- A tick in the middle of a jump, over a safe cell that is no elevator tile
and with no elevator tile on the cell ahead: only the kinematics act. -/
theorem gamescreen_midjump (s : Game) (hc : s.c_i = 0) (hj : s.jump = true)
    (htime : floatAdd s.ttime 0.1 ≤ 2.1) (hf : ¬ fatal s) (ht : ¬ isTile s (10 * s.pz + s.px))
    (h1 : s.dir = 1 → ¬ isTile s (10 * (s.pz - 1) + s.px))
    (h4 : s.dir = 4 → ¬ isTile s (10 * (s.pz + 1) + s.px))
    (h2 : s.dir = 2 → ¬ isTile s (10 * s.pz + s.px - 1))
    (h3 : s.dir = 3 → ¬ isTile s (10 * s.pz + s.px + 1)) :
    gamescreen s = { jumpKinematics (beforeJump s) with on_tile := false } := by
  have hbj := beforeJump_idle s hc
  have hjb : beforeFatal s = jumpKinematics (beforeJump s) := by
    unfold beforeFatal
    exact jumpBlock_continue _ (by simp [hj]) (by simpa using htime)
  have hpos : (beforeFatal s).px = s.px ∧ (beforeFatal s).pz = s.pz := by
    rw [hjb]
    exact ⟨by simp [hbj.1], by simp [hbj.2]⟩
  have hbc := beforeCollision_airborne s hf ht hpos
  have hx : ({ beforeFatal s with on_tile := false } : Game).px = s.px := hpos.1
  have hz : ({ beforeFatal s with on_tile := false } : Game).pz = s.pz := hpos.2
  have hd : ({ beforeFatal s with on_tile := false } : Game).dir = s.dir := by simp
  have htl : ∀ i : Int, isTile ({ beforeFatal s with on_tile := false } : Game) i ↔ isTile s i :=
    fun i => isTile_congr _ s i (by simp)
  unfold gamescreen
  rw [hbc, tileCollision_free _
    (by rw [htl, hx, hz, hd]; exact h1) (by rw [htl, hx, hz, hd]; exact h4)
    (by rw [htl, hx, hz, hd]; exact h2) (by rw [htl, hx, hz, hd]; exact h3), hjb]

/-- The tick that ends a jump, when the landing cell is safe and no elevator
tile: the jump flag is cleared, the player has moved by the landing only, `rx`
and `ttime` are 0 and `ry` keeps the value of the kinematics. -/
theorem gamescreen_landing (s : Game) (hj : s.jump = true)
    (htime : floatAdd s.ttime 0.1 > 2.1)
    (hf : ¬ fatal { jumpLand { jumpKinematics (beforeJump s) with jump := false } with rx := 0, ttime := 0 })
    (ht : ¬ isTile s (10 * (jumpLand { jumpKinematics (beforeJump s) with jump := false }).pz +
      (jumpLand { jumpKinematics (beforeJump s) with jump := false }).px)) :
    gamescreen s =
      { jumpLand { jumpKinematics (beforeJump s) with jump := false } with
        rx := 0, ttime := 0, on_tile := false } := by
  have hjb : beforeFatal s =
      { jumpLand { jumpKinematics (beforeJump s) with jump := false } with rx := 0, ttime := 0 } := by
    unfold beforeFatal
    exact jumpBlock_finish _ (by simp [hj]) (by simpa using htime)
  have hfc : fatalCheck (beforeFatal s) = beforeFatal s := by
    unfold fatalCheck
    rw [if_neg (by rw [hjb]; exact hf)]
  have hnt : ¬ isTile (beforeFatal s) (10 * (beforeFatal s).pz + (beforeFatal s).px) := by
    rw [isTile_congr (beforeFatal s) s _ (by simp), hjb]
    exact ht
  have hbc : beforeCollision s = { beforeFatal s with on_tile := false } := by
    unfold beforeCollision
    rw [hfc]
    exact tileLanding_off _ hnt
  unfold gamescreen
  rw [hbc, tileCollision_grounded _ (by rw [hjb]; simp), hjb]

/-! ## A jump on the initial board -/

/-- The cell (5,5) of the initial board is safe and no elevator tile, and the
cell ahead of it is no elevator tile either. -/
theorem Jumping.clear {k : Nat} {s : Game} (h : Jumping k s) :
    ¬ fatal s ∧ ¬ isTile s (10 * s.pz + s.px) ∧ ∀ i : Int, i ≠ 0 → ¬ isTile s i := by
  refine ⟨?_, ?_, ?_⟩
  · unfold fatal
    rw [h.px, h.pz, h.hole, h.health]
    norm_num
  · unfold isTile
    rw [h.px, h.pz, h.tile]
    decide
  · intro i hi
    unfold isTile
    rw [h.tile]
    simp only [not_or]
    exact ⟨hi, hi, hi, hi, hi⟩

/-- One of the first 20 ticks of the jump. -/
theorem Jumping.step {k : Nat} {s : Game} (h : Jumping k s) (hk : k ≤ 19) :
    Jumping (k + 1) (gamescreen s) ∧
      (gamescreen s).rx = 0.6 * s.ttime ∧
      (gamescreen s).ry = 0.4 * s.ttime - 0.2 * s.ttime * s.ttime := by
  obtain ⟨hf, ht, hfree⟩ := h.clear
  have htime : floatAdd s.ttime 0.1 ≤ 2.1 := by
    rw [h.clock]
    exact tenths_jump k hk
  have hg := gamescreen_midjump s h.idle h.jump htime hf ht
    (fun _ => hfree _ (by rw [h.px, h.pz]; decide))
    (fun _ => hfree _ (by rw [h.px, h.pz]; decide))
    (fun _ => hfree _ (by rw [h.px, h.pz]; decide))
    (fun _ => hfree _ (by rw [h.px, h.pz]; decide))
  have hbj := beforeJump_idle s h.idle
  rw [hg]
  refine ⟨⟨?_, ?_, ?_, ?_, ?_, ?_, ?_, ?_, ?_⟩, ?_, ?_⟩
  · simp [jumpKinematics, beforeJump, autoAdvance_idle s h.idle, h.idle]
  · simp [jumpKinematics, h.jump]
  · simp [jumpKinematics, h.clock, tenths_succ]
  · simp [jumpKinematics, hbj.1, h.px]
  · simp [jumpKinematics, hbj.2, h.pz]
  · simp [jumpKinematics, h.dir]
  · simp [jumpKinematics, h.hole]
  · simp [jumpKinematics, h.tile]
  · simp [jumpKinematics, h.health]
  · simp [jumpKinematics]
  · simp [jumpKinematics]

/-- The jump flag is set when the jump starts, with the clock at 0. -/
theorem jumpStart_jumping : Jumping 0 jumpStart := by
  constructor <;> rfl

/-- The first 20 ticks of the jump from `jumpStart`. -/
theorem jumpStart_iterate (k : Nat) (hk : k ≤ 20) : Jumping k (gamescreen^[k] jumpStart) := by
  induction k with
  | zero => exact jumpStart_jumping
  | succ n ih =>
    rw [Function.iterate_succ_apply']
    exact ((ih (by omega)).step (by omega)).1

/-- The landing of a jump in direction 1. -/
theorem jumpLand_north (m : Game) (h : m.dir = 1) :
    (jumpLand m).pz = m.pz - 2 ∧ (jumpLand m).px = m.px := by
  unfold jumpLand
  rw [if_pos h]
  exact ⟨rfl, rfl⟩

/-- The 21st tick of the jump: the player lands on cell (5,3). The vertical
offset is the one the kinematics computed from the clock of 20 ticks. -/
theorem Jumping.landing {s : Game} (h : Jumping 20 s) :
    (gamescreen s).jump = false ∧ (gamescreen s).px = 5 ∧ (gamescreen s).pz = 3 ∧
      (gamescreen s).rx = 0 ∧ (gamescreen s).ttime = 0 ∧
      (gamescreen s).ry = -(8388609 / 87960930222080) := by
  have hbj := beforeJump_idle s h.idle
  have hd : ({ jumpKinematics (beforeJump s) with jump := false } : Game).dir = 1 := by
    simp [jumpKinematics, h.dir]
  have hland := jumpLand_north _ hd
  have hpz : (jumpLand { jumpKinematics (beforeJump s) with jump := false }).pz = 3 := by
    rw [hland.1]
    simp [jumpKinematics, hbj.2, h.pz]
  have hpx : (jumpLand { jumpKinematics (beforeJump s) with jump := false }).px = 5 := by
    rw [hland.2]
    simp [jumpKinematics, hbj.1, h.px]
  have htime : floatAdd s.ttime 0.1 > 2.1 := by
    rw [h.clock]
    exact tenths_past_jump
  have hf : ¬ fatal { jumpLand { jumpKinematics (beforeJump s) with jump := false } with
      rx := 0, ttime := 0 } := by
    unfold fatal
    simp only [hpz, hpx]
    simp [jumpKinematics, h.hole, h.health]
  have ht : ¬ isTile s (10 * (jumpLand { jumpKinematics (beforeJump s) with jump := false }).pz +
      (jumpLand { jumpKinematics (beforeJump s) with jump := false }).px) := by
    rw [hpz, hpx]
    exact h.clear.2.2 _ (by decide)
  rw [gamescreen_landing s h.jump htime hf ht]
  refine ⟨by simp, hpx, hpz, rfl, rfl, ?_⟩
  simp [jumpKinematics, h.clock, tenths_at_20]
  norm_num

/-! ## A jump stopped by an elevator tile -/

/-- At level 3 an elevator that is moving up and below its upper bound rises by
one `float` step of 0.01. -/
theorem elevatorStep_rising (m : Game) (hl : m.level = 3) (hb : m.b_m = 0) (hc : m.cy < 0.5) :
    (elevatorStep m).cy = floatAdd m.cy 0.01 ∧ (elevatorStep m).b_m = 0 := by
  have h1 : elevatorTop m = m := by
    unfold elevatorTop
    rw [if_neg (not_le.mpr hc)]
  have h2 : (elevatorBottom m).b_m = 0 ∧ (elevatorBottom m).cy = m.cy := by
    unfold elevatorBottom
    split_ifs
    · exact ⟨rfl, rfl⟩
    · exact ⟨hb, rfl⟩
  unfold elevatorStep
  rw [if_pos hl, h1]
  unfold elevatorMove
  rw [if_pos h2.1]
  refine ⟨?_, h2.1⟩
  show floatAdd (elevatorBottom m).cy 0.01 = floatAdd m.cy 0.01
  rw [h2.2]

/-- Facing direction 1 with an elevator tile on the cell ahead, the collision
checks are the cancellation. -/
theorem tileCollision_north (m : Game) (hd : m.dir = 1)
    (ht : isTile m (10 * (m.pz - 1) + m.px)) : tileCollision m = jumpCancel m := by
  have hd1 : (jumpCancel m).dir = 1 := by simp [hd]
  have e1 : collideNorth m = jumpCancel m := by
    unfold collideNorth
    rw [if_pos hd, if_pos ht]
  have e4 : collideSouth (jumpCancel m) = jumpCancel m := by
    unfold collideSouth
    rw [if_neg (by rw [hd1]; decide)]
  have e2 : collideWest (jumpCancel m) = jumpCancel m := by
    unfold collideWest
    rw [if_neg (by rw [hd1]; decide)]
  have e3 : collideEast (jumpCancel m) = jumpCancel m := by
    unfold collideEast
    rw [if_neg (by rw [hd1]; decide)]
  unfold tileCollision
  rw [e1, e4, e2, e3]

/-- The cancellation when its condition holds. -/
theorem jumpCancel_fires (m : Game) (h1 : m.cy > m.ry) (h2 : m.on_tile = false)
    (h3 : m.jump = true) :
    (jumpCancel m).jump = false ∧ (jumpCancel m).ry = 0 ∧ (jumpCancel m).health = m.health - 5 := by
  have hcond : m.cy + 0.5 > 0.5 + m.ry ∧ m.on_tile = false ∧ m.jump = true :=
    ⟨by linarith, h2, h3⟩
  unfold jumpCancel
  rw [if_pos hcond]
  exact ⟨rfl, rfl, rfl⟩

/-- A tick of a jump in direction 1 towards an elevator tile that stands above
the player: the collision check cancels the jump. The jump flag is cleared and
`ry` is set to 0, at the cost of 5 health; the player does not move, and `rx`
and the jump clock keep the values of the kinematics. -/
theorem gamescreen_blocked (s : Game) (hc : s.c_i = 0) (hj : s.jump = true)
    (htime : floatAdd s.ttime 0.1 ≤ 2.1) (hf : ¬ fatal s) (ht : ¬ isTile s (10 * s.pz + s.px))
    (hd : s.dir = 1) (hahead : isTile s (10 * (s.pz - 1) + s.px))
    (hhigh : (beforeJump s).cy > 0.4 * s.ttime - 0.2 * s.ttime * s.ttime) :
    (beforeCollision s).jump = true ∧ (gamescreen s).jump = false ∧
      (gamescreen s).ttime = floatAdd s.ttime 0.1 ∧ (gamescreen s).rx = 0.6 * s.ttime ∧
      (gamescreen s).ry = 0 ∧ (gamescreen s).px = s.px ∧ (gamescreen s).pz = s.pz ∧
      (gamescreen s).health = s.health - 5 := by
  have hbj := beforeJump_idle s hc
  have hcont : beforeFatal s = jumpKinematics (beforeJump s) := by
    unfold beforeFatal
    exact jumpBlock_continue _ (by simp [hj]) (by simpa using htime)
  have hpos : (beforeFatal s).px = s.px ∧ (beforeFatal s).pz = s.pz := by
    rw [hcont]
    exact ⟨by simp [hbj.1], by simp [hbj.2]⟩
  have hbc := beforeCollision_airborne s hf ht hpos
  have mjump : (beforeCollision s).jump = true := by
    rw [hbc, hcont]; simp [jumpKinematics, hj]
  have mtile : (beforeCollision s).on_tile = false := by rw [hbc]
  have mcy : (beforeCollision s).cy = (beforeJump s).cy := by
    rw [hbc, hcont]; simp [jumpKinematics]
  have mry : (beforeCollision s).ry = 0.4 * s.ttime - 0.2 * s.ttime * s.ttime := by
    rw [hbc, hcont]; simp [jumpKinematics]
  have mrx : (beforeCollision s).rx = 0.6 * s.ttime := by
    rw [hbc, hcont]; simp [jumpKinematics]
  have mtime : (beforeCollision s).ttime = floatAdd s.ttime 0.1 := by
    rw [hbc, hcont]; simp [jumpKinematics]
  have mpx : (beforeCollision s).px = s.px := by rw [hbc]; exact hpos.1
  have mpz : (beforeCollision s).pz = s.pz := by rw [hbc]; exact hpos.2
  have mdir : (beforeCollision s).dir = 1 := by simp [hd]
  have mhealth : (beforeCollision s).health = s.health := by
    rw [hbc, hcont]; simp [jumpKinematics]
  have mahead : isTile (beforeCollision s)
      (10 * ((beforeCollision s).pz - 1) + (beforeCollision s).px) := by
    rw [isTile_congr _ s _ (by simp), mpx, mpz]
    exact hahead
  have hg : gamescreen s = jumpCancel (beforeCollision s) := by
    unfold gamescreen
    exact tileCollision_north _ mdir mahead
  obtain ⟨c1, c2, c3⟩ := jumpCancel_fires (beforeCollision s) (by rw [mcy, mry]; exact hhigh)
    mtile mjump
  rw [hg]
  refine ⟨mjump, c1, ?_, ?_, c2, ?_, ?_, ?_⟩
  · rw [← mtime]; simp
  · rw [← mrx]; simp
  · rw [← mpx]; simp
  · rw [← mpz]; simp
  · rw [c3, mhealth]

/-- The elevator height of `blockedJump` at the jump block of its first tick:
one `float` step above 0.3. -/
theorem blockedJump_height : (beforeJump blockedJump).cy = 5200937 / 16777216 := by
  have h := (elevatorStep_rising
    (formatTimer (formatScore (helicopterTurn (autoAdvance blockedJump))))
    (by simp [blockedJump]) (by simp [blockedJump, playState, initial])
    (by simp [blockedJump]; norm_num)).1
  unfold beforeJump
  rw [h]
  have e : (formatTimer (formatScore (helicopterTurn (autoAdvance blockedJump)))).cy = 3 / 10 := by
    simp [blockedJump]
    norm_num
  rw [e]
  exact floatAdd_three_tenths

/-! ## A grounded player -/

/-- For a grounded player with no queued step on a cell that is not fatal,
`gamescreen` is the elevator-tile logic applied to the state the jump block
was given. -/
theorem gamescreen_grounded (s : Game) (hc : s.c_i = 0) (hj : s.jump = false) (hf : ¬ fatal s) :
    gamescreen s = tileLanding (beforeJump s) := by
  have hbj := beforeJump_idle s hc
  have hbf : beforeFatal s = beforeJump s := by
    unfold beforeFatal
    exact jumpBlock_grounded _ (by simp [hj])
  have hnf : ¬ fatal (beforeJump s) := by
    rw [fatal_congr (beforeJump s) s hbj.1 hbj.2 (by simp) (by simp)]
    exact hf
  have hfc : fatalCheck (beforeJump s) = beforeJump s := by
    unfold fatalCheck
    rw [if_neg hnf]
  unfold gamescreen beforeCollision
  rw [hbf, hfc]
  exact tileCollision_grounded _ (by simp [hj])

/-- An elevator tile standing above a player who is not yet on a tile: 5 health
are taken and the player is moved back. -/
theorem tileLanding_high (m : Game) (htile : isTile m (10 * m.pz + m.px))
    (hoff : m.on_tile = false) (hhigh : m.cy > m.ry) :
    tileLanding m = bounceBack { m with health := m.health - 5 } := by
  have hc : m.cy + 0.5 > 0.5 + m.ry ∧ m.on_tile = false := ⟨by linarith, hoff⟩
  unfold tileLanding
  rw [if_pos htile, if_pos hc]

/-- The step back from a move in direction 1. -/
theorem bounceBack_north (m : Game) (h : m.dir = 1) :
    (bounceBack m).pz = m.pz + 1 ∧ (bounceBack m).px = m.px := by
  unfold bounceBack
  rw [if_pos h]
  exact ⟨rfl, rfl⟩

/-! ## The bounce off an elevator tile -/

/-- The step back, by direction. -/
theorem bounceBack_cases (m : Game) :
    (m.dir = 1 → (bounceBack m).pz = m.pz + 1 ∧ (bounceBack m).px = m.px) ∧
    (m.dir = 4 → (bounceBack m).pz = m.pz - 1 ∧ (bounceBack m).px = m.px) ∧
    (m.dir = 2 → (bounceBack m).px = m.px + 1 ∧ (bounceBack m).pz = m.pz) ∧
    (m.dir = 3 → (bounceBack m).px = m.px - 1 ∧ (bounceBack m).pz = m.pz) := by
  unfold bounceBack
  refine ⟨fun h => ?_, fun h => ?_, fun h => ?_, fun h => ?_⟩
  · rw [if_pos h]; exact ⟨rfl, rfl⟩
  · rw [if_neg (by omega), if_pos h]; exact ⟨rfl, rfl⟩
  · rw [if_neg (by omega), if_neg (by omega), if_pos h]; exact ⟨rfl, rfl⟩
  · rw [if_neg (by omega), if_neg (by omega), if_neg (by omega), if_pos h]; exact ⟨rfl, rfl⟩

/-- The tick of `aliasState` in `gamescreen`: the tile stands above the player,
who is moved back against direction 3, off the grid to (-1,1). -/
theorem aliasState_gamescreen :
    (gamescreen aliasState).px = -1 ∧ (gamescreen aliasState).pz = 1 ∧
      (gamescreen aliasState).lives = 3 ∧ (gamescreen aliasState).level = 3 ∧
      (gamescreen aliasState).timer = 15 ∧ (gamescreen aliasState).coin_count = 5 := by
  have hf : ¬ fatal aliasState := by
    unfold fatal
    norm_num [aliasState, playState, initial]
  have hg := gamescreen_grounded aliasState rfl rfl hf
  have hbj := beforeJump_idle aliasState rfl
  have hcy : (beforeJump aliasState).cy = 5200937 / 16777216 := by
    have h := (elevatorStep_rising
      (formatTimer (formatScore (helicopterTurn (autoAdvance aliasState))))
      (by simp [aliasState]) (by simp [aliasState, playState, initial])
      (by simp [aliasState]; norm_num)).1
    unfold beforeJump
    rw [h]
    have e : (formatTimer (formatScore (helicopterTurn (autoAdvance aliasState)))).cy = 3 / 10 := by
      simp [aliasState]
      norm_num
    rw [e]
    exact floatAdd_three_tenths
  have hry : (beforeJump aliasState).ry = 0 := by simp [aliasState, playState, initial]
  have htile : isTile (beforeJump aliasState)
      (10 * (beforeJump aliasState).pz + (beforeJump aliasState).px) := by
    rw [isTile_congr _ aliasState _ (by simp), hbj.1, hbj.2]
    unfold isTile
    decide
  have hl := tileLanding_high (beforeJump aliasState) htile (by simp [aliasState, playState, initial])
    (by rw [hcy, hry]; norm_num)
  have hb := (bounceBack_cases
    { beforeJump aliasState with health := (beforeJump aliasState).health - 5 }).2.2.2
    (by simp [aliasState])
  rw [hg, hl]
  refine ⟨?_, ?_, ?_, ?_, ?_, ?_⟩
  · rw [hb.1]
    show (beforeJump aliasState).px - 1 = -1
    rw [hbj.1]
    rfl
  · rw [hb.2]
    exact hbj.2
  · simp [aliasState, playState, initial]
  · simp [aliasState]
  · simp [aliasState, playState, initial]
  · simp [aliasState]
/-! ## C1: a new game -/

/-- One of the 200 loading iterations advances the loading time by one `float` step. -/
theorem loadingAdvance_of_loading {k : Nat} {s : Game} (h : LoadingAt k s) (hk : k ≤ 199) :
    loadingAdvance s = { s with init_flag := 1, loading_time := tenths (k + 1) } := by
  have hb := tenths_loading k hk
  unfold loadingAdvance
  rw [if_pos (by rw [h.loading]; exact hb), h.loading]
  rfl

theorem mainLoop_loading {k : Nat} {s : Game} (inp : Input) (h : LoadingAt k s) (hk : k ≤ 199)
    (hq : inp.events = []) :
    LoadingAt (k + 1) (mainLoop inp s) ∧ (mainLoop inp s).init_flag = 4 ∧
      (mainLoop inp s).level = 1 ∧ (mainLoop inp s).health = 15 ∧
      (mainLoop inp s).timer = timerAfterLoading inp s ∧
      (mainLoop inp s).last_timer_update =
        (if inp.timer_update - s.last_timer_update ≥ 1 then inp.timer_update else s.last_timer_update) := by
  have hg : gameStep inp s = coinReseed inp (initDone (loadingTick
      { s with init_flag := 1, loading_time := tenths (k + 1) })) := by
    unfold gameStep
    rw [loadingAdvance_of_loading h hk]
    rfl
  have hm : mainLoop inp s = timerStep inp (hazardReseed inp (gameStep inp s)) := by
    unfold mainLoop
    simp [h.running, h.unpaused, hq, pollEvents, screenStep, h.sc]
  rw [hm, hg]
  refine ⟨⟨?_, ?_, ?_, ?_, ?_, ?_, ?_, ?_⟩, ?_, ?_, ?_, ?_, ?_⟩
  all_goals simp [loadingTick, initDone, h.sc, h.lives, h.score, h.px, h.pz, h.running, h.unpaused]
  · unfold timerStep timerAfterLoading
    simp
    split_ifs <;> simp [loadingTick]
  · unfold timerStep
    simp
    split_ifs <;> simp

theorem run_append_one (inps : List Input) (last : Input) (s : Game) :
    run (inps ++ [last]) s = mainLoop last (run inps s) := by
  simp [run, List.foldl_append]

theorem run_loading (inps : List Input) :
    ∀ (k : Nat) (s : Game), LoadingAt k s → k + inps.length ≤ 200 →
      (∀ i ∈ inps, i.events = []) → LoadingAt (k + inps.length) (run inps s) := by
  induction inps with
  | nil => intro k s h _ _; simpa [run] using h
  | cons inp rest ih =>
    intro k s h hk hq
    have hlen : k + 1 + rest.length ≤ 200 := by
      simp only [List.length_cons] at hk; omega
    have h1 := (mainLoop_loading inp h (by omega) (hq inp (by simp))).1
    have h2 := ih (k + 1) (mainLoop inp s) h1 hlen (fun i hi => hq i (by simp [hi]))
    have e : k + (inp :: rest).length = k + 1 + rest.length := by
      simp only [List.length_cons]; omega
    rw [e]
    exact h2

/-- Selecting New Game: the state after the iteration whose poll delivers the
confirming event is a new game with no loading iteration run yet. -/
theorem newGame_loadingAt (s : Game) (inp0 : Input) (e : Event)
    (hsc : s.sc_flag = 0) (hp : s.pause = false) (hx : s.exited = false)
    (hsel : (menuStep inp0 s).hover_flag = 0)
    (he : e = Event.key Key.ENTER Action.PRESS ∨ e = Event.mouse Button.LEFT Action.RELEASE)
    (hev : inp0.events = [e]) :
    LoadingAt 0 (mainLoop inp0 s) := by
  have hm : mainLoop inp0 s =
      timerStep inp0 (hazardReseed inp0 (handleEvent (menuStep inp0 s) e)) := by
    unfold mainLoop
    rcases he with rfl | rfl <;>
      simp [hx, hp, hev, pollEvents, screenStep, hsc, handleEvent, keyboard, keyPress, mouseButton,
        leftRelease, hsel, newGameKey, newGameClick]
  rw [hm]
  rcases he with rfl | rfl <;>
    constructor <;>
      simp [hx, hp, hsc, handleEvent, keyboard, keyPress, mouseButton, leftRelease, hsel,
        newGameKey, newGameClick, tenths]

theorem newGame_clock (s : Game) (inp0 : Input) (e : Event)
    (hsc : s.sc_flag = 0) (hp : s.pause = false) (hx : s.exited = false)
    (hsel : (menuStep inp0 s).hover_flag = 0)
    (he : e = Event.key Key.ENTER Action.PRESS ∨ e = Event.mouse Button.LEFT Action.RELEASE)
    (hev : inp0.events = [e]) (hc : inp0.timer_update - s.last_timer_update < 1) :
    (mainLoop inp0 s).last_timer_update = s.last_timer_update := by
  have hm : mainLoop inp0 s =
      timerStep inp0 (hazardReseed inp0 (handleEvent (menuStep inp0 s) e)) := by
    unfold mainLoop
    rcases he with rfl | rfl <;>
      simp [hx, hp, hev, pollEvents, screenStep, hsc, handleEvent, keyboard, keyPress, mouseButton,
        leftRelease, hsel, newGameKey, newGameClick]
  rw [hm]
  have hl : (hazardReseed inp0 (handleEvent (menuStep inp0 s) e)).last_timer_update
      = s.last_timer_update := by
    rcases he with rfl | rfl <;>
      simp [hx, hsc, handleEvent, keyboard, keyPress, mouseButton, leftRelease, hsel,
        newGameKey, newGameClick]
  unfold timerStep
  rw [hl, if_neg (not_le.mpr hc)]
  exact hl

theorem run_loading_clock (inps : List Input) :
    ∀ (k : Nat) (s : Game), LoadingAt k s → k + inps.length ≤ 200 →
      (∀ i ∈ inps, i.events = [] ∧ i.timer_update - s.last_timer_update < 1) →
      (run inps s).last_timer_update = s.last_timer_update := by
  induction inps with
  | nil => intro k s _ _ _; rfl
  | cons inp rest ih =>
    intro k s h hk hq
    have hlen : k + 1 + rest.length ≤ 200 := by
      simp only [List.length_cons] at hk; omega
    have hstep := mainLoop_loading inp h (by omega) (hq inp (by simp)).1
    have hclock : (mainLoop inp s).last_timer_update = s.last_timer_update := by
      rw [hstep.2.2.2.2.2, if_neg (not_le.mpr (hq inp (by simp)).2)]
    have h2 := ih (k + 1) (mainLoop inp s) hstep.1 hlen
      (fun i hi => by rw [hclock]; exact hq i (by simp [hi]))
    show (run rest (mainLoop inp s)).last_timer_update = s.last_timer_update
    rw [h2, hclock]

/-- Up to 199 iterations after New Game was selected the game is still loading. -/
theorem newGame_before (s : Game) (inp0 : Input) (e : Event) (inps : List Input)
    (hsc : s.sc_flag = 0) (hp : s.pause = false) (hx : s.exited = false)
    (hsel : (menuStep inp0 s).hover_flag = 0)
    (he : e = Event.key Key.ENTER Action.PRESS ∨ e = Event.mouse Button.LEFT Action.RELEASE)
    (hev : inp0.events = [e])
    (hlen : inps.length = 199) (hq : ∀ i ∈ inps, i.events = []) :
    ∀ k ≤ 199, LoadingAt k (newGameRun inp0 (inps.take k) s) := by
  have h0 := newGame_loadingAt s inp0 e hsc hp hx hsel he hev
  intro k hk
  have hl : (inps.take k).length = k := by
    rw [List.length_take, hlen]; omega
  have := run_loading (inps.take k) 0 (mainLoop inp0 s) h0 (by rw [hl]; omega)
    (fun i hi => hq i (List.mem_of_mem_take hi))
  rw [hl, Nat.zero_add] at this
  exact this

/-- After its 199th loading iteration the game is still loading. -/
theorem newGame_last_loading (s : Game) (inp0 : Input) (e : Event) (inps : List Input)
    (hsc : s.sc_flag = 0) (hp : s.pause = false) (hx : s.exited = false)
    (hsel : (menuStep inp0 s).hover_flag = 0)
    (he : e = Event.key Key.ENTER Action.PRESS ∨ e = Event.mouse Button.LEFT Action.RELEASE)
    (hev : inp0.events = [e])
    (hlen : inps.length = 199) (hq : ∀ i ∈ inps, i.events = []) :
    LoadingAt 199 (newGameRun inp0 inps s) := by
  have := newGame_before s inp0 e inps hsc hp hx hsel he hev hlen hq 199 (le_refl _)
  rwa [List.take_of_length_le (by rw [hlen])] at this

/-- Once the loading interval is over and the resources are set up, the
iteration runs a Play tick. -/
theorem playTick_after_loading (inp : Input) (s : Game) (hl : s.loading_time > 20)
    (hi : s.init_flag = 4) : playOrLoad inp (loadingAdvance s) = playTick inp s := by
  have hlt : ¬ (s.loading_time ≥ 0 ∧ s.loading_time ≤ 20) := fun h => absurd h.2 (not_le.mpr hl)
  unfold loadingAdvance
  rw [if_neg hlt]
  unfold playOrLoad
  rw [if_pos hi]

theorem quiet_hover : (menuStep enterInput (initial 0 0 0 0)).hover_flag = 0 := by
  norm_num [menuStep, inRegion, widthc, heightc, enterInput, quietInput, initial]

theorem quiet_replicate (n : Nat) : ∀ i ∈ List.replicate n quietInput, i.events = [] := by
  intro i hi
  rw [(List.mem_replicate.mp hi).2]
  rfl

/-- C1 (amended). New Game is selected on the Menu with selection index 0, by
Enter or by a left-click release, and the 200 loading iterations run without
further input events (the `float` loading time, advanced by 0.1 per iteration,
is at most 20 before each of them and above 20 after the 200th). Then the
iteration after them is the first to run a Play tick, and when it begins
lives=3, health=15, score=0, level=1 and the player is at the spawn cell (0,9);
timer is 15, or 14 when the one-second clock check fired at the end of the last
loading iteration. -/
theorem new_game_session (s : Game) (inp0 : Input) (e : Event) (inps : List Input) (last : Input)
    (hsc : s.sc_flag = 0) (hp : s.pause = false) (hx : s.exited = false)
    (hsel : (menuStep inp0 s).hover_flag = 0)
    (he : e = Event.key Key.ENTER Action.PRESS ∨ e = Event.mouse Button.LEFT Action.RELEASE)
    (hev : inp0.events = [e])
    (hlen : inps.length = 199) (hq : ∀ i ∈ inps, i.events = []) (hlast : last.events = []) :
    (∀ k ≤ 199, ∀ inp, playOrLoad inp (loadingAdvance (newGameRun inp0 (inps.take k) s)) =
        loadingTick (loadingAdvance (newGameRun inp0 (inps.take k) s))) ∧
    (∀ inp, playOrLoad inp (loadingAdvance (newGameRun inp0 (inps ++ [last]) s)) =
        playTick inp (newGameRun inp0 (inps ++ [last]) s)) ∧
    (newGameRun inp0 (inps ++ [last]) s).sc_flag = 3 ∧
    (newGameRun inp0 (inps ++ [last]) s).lives = 3 ∧
    (newGameRun inp0 (inps ++ [last]) s).health = 15 ∧
    (newGameRun inp0 (inps ++ [last]) s).score = 0 ∧
    (newGameRun inp0 (inps ++ [last]) s).level = 1 ∧
    (newGameRun inp0 (inps ++ [last]) s).px = 0 ∧
    (newGameRun inp0 (inps ++ [last]) s).pz = 9 ∧
    (newGameRun inp0 (inps ++ [last]) s).timer =
      (if last.timer_update - (newGameRun inp0 inps s).last_timer_update ≥ 1 then 14 else 15) := by
  have hbefore := newGame_before s inp0 e inps hsc hp hx hsel he hev hlen hq
  have hlastload := newGame_last_loading s inp0 e inps hsc hp hx hsel he hev hlen hq
  have hrun : newGameRun inp0 (inps ++ [last]) s = mainLoop last (newGameRun inp0 inps s) := by
    unfold newGameRun; exact run_append_one _ _ _
  rw [hrun]
  obtain ⟨hL, hinit, hlevel, hhealth, htimer, -⟩ := mainLoop_loading last hlastload (le_refl _) hlast
  refine ⟨?_, ?_, hL.sc, hL.lives, hhealth, hL.score, hlevel, hL.px, hL.pz, htimer⟩
  · intro k hk inp
    rw [loadingAdvance_of_loading (hbefore k hk) hk]
    rfl
  · intro inp
    exact playTick_after_loading inp _ (by rw [hL.loading]; exact tenths_past_loading) hinit

/-- C1, witness: from the initial state, Enter on New Game followed by 200
quiet iterations. -/
theorem new_game_session_witness :
    (newGameRun enterInput (List.replicate 199 quietInput ++ [quietInput]) (initial 0 0 0 0)).lives = 3 ∧
    (newGameRun enterInput (List.replicate 199 quietInput ++ [quietInput]) (initial 0 0 0 0)).health = 15 ∧
    (newGameRun enterInput (List.replicate 199 quietInput ++ [quietInput]) (initial 0 0 0 0)).level = 1 ∧
    (newGameRun enterInput (List.replicate 199 quietInput ++ [quietInput]) (initial 0 0 0 0)).pz = 9 :=
  have h := new_game_session (initial 0 0 0 0) enterInput (Event.key Key.ENTER Action.PRESS)
    (List.replicate 199 quietInput) quietInput rfl rfl rfl quiet_hover (Or.inl rfl) rfl
    (List.length_replicate 199 quietInput) (quiet_replicate 199) rfl
  ⟨h.2.2.2.1, h.2.2.2.2.1, h.2.2.2.2.2.2.1, h.2.2.2.2.2.2.2.2.1⟩

/-- C1, counterexample: Enter on New Game in the initial state, 199 quiet
loading iterations, and the 200th and last loading iteration at whose end the
clock has advanced by one second. The next iteration runs the first Play tick,
and it begins with timer = 14. -/
theorem new_game_timer_fourteen :
    (initial 0 0 0 0).sc_flag = 0 ∧ (menuStep enterInput (initial 0 0 0 0)).hover_flag = 0 ∧
    (∀ inp, playOrLoad inp (loadingAdvance
        (newGameRun enterInput (List.replicate 199 quietInput ++ [lateInput]) (initial 0 0 0 0))) =
      playTick inp
        (newGameRun enterInput (List.replicate 199 quietInput ++ [lateInput]) (initial 0 0 0 0))) ∧
    (newGameRun enterInput (List.replicate 199 quietInput ++ [lateInput]) (initial 0 0 0 0)).timer = 14 ∧
    ¬ (newGameRun enterInput (List.replicate 199 quietInput ++ [lateInput]) (initial 0 0 0 0)).timer = 15 := by
  have h0 := newGame_loadingAt (initial 0 0 0 0) enterInput (Event.key Key.ENTER Action.PRESS)
    rfl rfl rfl quiet_hover (Or.inl rfl) rfl
  have hlastload := newGame_last_loading (initial 0 0 0 0) enterInput (Event.key Key.ENTER Action.PRESS)
    (List.replicate 199 quietInput) rfl rfl rfl quiet_hover (Or.inl rfl) rfl
    (List.length_replicate 199 quietInput) (quiet_replicate 199)
  have hc0 : (mainLoop enterInput (initial 0 0 0 0)).last_timer_update = 0 :=
    newGame_clock (initial 0 0 0 0) enterInput (Event.key Key.ENTER Action.PRESS)
      rfl rfl rfl quiet_hover (Or.inl rfl) rfl (by norm_num [enterInput, quietInput, initial])
  have hc : (newGameRun enterInput (List.replicate 199 quietInput) (initial 0 0 0 0)).last_timer_update
      = 0 := by
    unfold newGameRun
    rw [run_loading_clock (List.replicate 199 quietInput) 0 _ h0
      (by rw [List.length_replicate]; norm_num) ?_, hc0]
    intro i hi
    rw [(List.mem_replicate.mp hi).2, hc0]
    exact ⟨rfl, by norm_num [quietInput]⟩
  have hrun : newGameRun enterInput (List.replicate 199 quietInput ++ [lateInput]) (initial 0 0 0 0)
      = mainLoop lateInput (newGameRun enterInput (List.replicate 199 quietInput) (initial 0 0 0 0)) := by
    unfold newGameRun; exact run_append_one _ _ _
  obtain ⟨hL, hinit, -, -, htimer, -⟩ := mainLoop_loading lateInput hlastload (le_refl _) rfl
  have ht : (newGameRun enterInput (List.replicate 199 quietInput ++ [lateInput])
      (initial 0 0 0 0)).timer = 14 := by
    rw [hrun, htimer, timerAfterLoading, hc]
    norm_num [lateInput, quietInput]
  refine ⟨rfl, quiet_hover, ?_, ht, by rw [ht]; decide⟩
  intro inp
  rw [hrun]
  exact playTick_after_loading inp _ (by rw [hL.loading]; exact tenths_past_loading) hinit

/-! ## C2: the fatal check -/

/-- The condition of the fatal check in the words of the specification. -/
theorem fatal_iff (s : Game) :
    fatal s ↔ ((s.px < 0 ∨ 9 < s.px ∨ s.pz < 0 ∨ 9 < s.pz) ∨
      (∃ i : Fin 5, s.hole i = s.pz * 10 + s.px) ∨ s.health ≤ 0) := by
  unfold fatal
  constructor
  · rintro (h | h | h | h | h | h | h | h | h | h)
    · exact Or.inl (Or.inl h)
    · exact Or.inl (Or.inr (Or.inl h))
    · exact Or.inl (Or.inr (Or.inr (Or.inr h)))
    · exact Or.inl (Or.inr (Or.inr (Or.inl h)))
    · exact Or.inr (Or.inl ⟨0, h⟩)
    · exact Or.inr (Or.inl ⟨1, h⟩)
    · exact Or.inr (Or.inl ⟨2, h⟩)
    · exact Or.inr (Or.inl ⟨3, h⟩)
    · exact Or.inr (Or.inl ⟨4, h⟩)
    · exact Or.inr (Or.inr h)
  · rintro ((h | h | h | h) | ⟨i, h⟩ | h)
    · exact Or.inl h
    · exact Or.inr (Or.inl h)
    · exact Or.inr (Or.inr (Or.inr (Or.inl h)))
    · exact Or.inr (Or.inr (Or.inl h))
    · fin_cases i
      · exact Or.inr (Or.inr (Or.inr (Or.inr (Or.inl h))))
      · exact Or.inr (Or.inr (Or.inr (Or.inr (Or.inr (Or.inl h)))))
      · exact Or.inr (Or.inr (Or.inr (Or.inr (Or.inr (Or.inr (Or.inl h))))))
      · exact Or.inr (Or.inr (Or.inr (Or.inr (Or.inr (Or.inr (Or.inr (Or.inl h)))))))
      · exact Or.inr (Or.inr (Or.inr (Or.inr (Or.inr (Or.inr (Or.inr (Or.inr (Or.inl h))))))))
    · exact Or.inr (Or.inr (Or.inr (Or.inr (Or.inr (Or.inr (Or.inr (Or.inr (Or.inr h))))))))

/-- C2. At the fatal check of a Play tick (state `m`): if the position is
outside [0,9]x[0,9], or its index pz*10+px is one of the five hole indices, or
health <= 0, the check takes one life, puts the player on the spawn cell (0,9)
and sets health to 15, leaving level and score alone; otherwise it leaves
lives, position and health as they were. Every `gamescreen` call runs the check,
on the state `beforeFatal s`. -/
theorem fatal_check_effect (m : Game) :
    (((m.px < 0 ∨ 9 < m.px ∨ m.pz < 0 ∨ 9 < m.pz) ∨
        (∃ i : Fin 5, m.hole i = m.pz * 10 + m.px) ∨ m.health ≤ 0) →
      (fatalCheck m).lives = m.lives - 1 ∧ (fatalCheck m).px = 0 ∧ (fatalCheck m).pz = 9 ∧
        (fatalCheck m).health = 15 ∧ (fatalCheck m).level = m.level ∧
        (fatalCheck m).score = m.score) ∧
    (¬ ((m.px < 0 ∨ 9 < m.px ∨ m.pz < 0 ∨ 9 < m.pz) ∨
        (∃ i : Fin 5, m.hole i = m.pz * 10 + m.px) ∨ m.health ≤ 0) →
      (fatalCheck m).lives = m.lives ∧ (fatalCheck m).px = m.px ∧ (fatalCheck m).pz = m.pz ∧
        (fatalCheck m).health = m.health) ∧
    (∀ s : Game, gamescreen s = tileCollision (tileLanding (fatalCheck (beforeFatal s)))) := by
  refine ⟨fun h => ?_, fun h => ?_, fun s => rfl⟩
  · have hf : fatal m := (fatal_iff m).mpr h
    unfold fatalCheck
    rw [if_pos hf]
    exact ⟨rfl, rfl, rfl, rfl, rfl, rfl⟩
  · have hf : ¬ fatal m := fun hf => h ((fatal_iff m).mp hf)
    unfold fatalCheck
    rw [if_neg hf]
    exact ⟨rfl, rfl, rfl, rfl⟩

/-- C2, witness: the player on cell (3,3), which is hole 2, loses a life and
is back on the spawn cell. -/
theorem fatal_check_effect_witness :
    (fatalCheck onHoleState).lives = onHoleState.lives - 1 ∧ (fatalCheck onHoleState).px = 0 ∧
      (fatalCheck onHoleState).pz = 9 ∧ (fatalCheck onHoleState).health = 15 ∧
      (fatalCheck onHoleState).level = onHoleState.level ∧
      (fatalCheck onHoleState).score = onHoleState.score :=
  (fatal_check_effect onHoleState).1 (Or.inr (Or.inl ⟨2, by decide⟩))

/-! ## C3, C4: level completion -/

/-- The level-completion check when its condition holds. -/
theorem completionCheck_pos (m : Game) (h : 10 * m.pz + m.px = 9 ∧ m.coin_count = 5) :
    completionCheck m =
      levelStart { m with level := m.level + 1, px := 0, pz := 9, coin_count := 0 } := by
  unfold completionCheck
  rw [if_pos h]

/-- The level-completion check when its condition fails. -/
theorem completionCheck_neg (m : Game) (h : ¬ (10 * m.pz + m.px = 9 ∧ m.coin_count = 5)) :
    completionCheck m = m := by
  unfold completionCheck
  rw [if_neg h]

/-- The timer and the screen after `levelStart`, by the level reached. -/
theorem levelStart_cases (m : Game) :
    (m.level = 2 → (levelStart m).timer = 30) ∧ (m.level = 3 → (levelStart m).timer = 45) ∧
      (m.level = 4 → (levelStart m).sc_flag = 4 ∧ (levelStart m).lives = 3) := by
  unfold levelStart
  refine ⟨fun h => ?_, fun h => ?_, fun h => ?_⟩
  · rw [if_pos h]
  · rw [if_neg (by omega), if_pos h]
  · rw [if_neg (by omega), if_neg (by omega), if_pos h]
    exact ⟨rfl, rfl⟩

/-- C3. In a Play tick that reaches the level-completion check with the player
on the exit cell (10*pz+px = 9) and coin_count = 5, the check raises level by
exactly 1, puts the player on the spawn cell (0,9), sets coin_count to 0, sets
timer to 30 when the new level is 2 and to 45 when it is 3, and makes the screen
End when the new level is 4. The new level, the position, the timer and the
screen are still so when the tick ends. -/
theorem level_completion (inp : Input) (s : Game)
    (hexit : 10 * (beforeCompletion inp s).pz + (beforeCompletion inp s).px = 9)
    (hcoins : (beforeCompletion inp s).coin_count = 5) :
    ((beforeCoins inp s).level = (beforeCompletion inp s).level + 1 ∧
      (beforeCoins inp s).px = 0 ∧ (beforeCoins inp s).pz = 9 ∧
      (beforeCoins inp s).coin_count = 0 ∧
      ((beforeCoins inp s).level = 2 → (beforeCoins inp s).timer = 30) ∧
      ((beforeCoins inp s).level = 3 → (beforeCoins inp s).timer = 45) ∧
      ((beforeCoins inp s).level = 4 → (beforeCoins inp s).sc_flag = 4)) ∧
    ((playTick inp s).level = s.level + 1 ∧ (playTick inp s).px = 0 ∧ (playTick inp s).pz = 9 ∧
      ((playTick inp s).level = 2 → (playTick inp s).timer = 30) ∧
      ((playTick inp s).level = 3 → (playTick inp s).timer = 45) ∧
      ((playTick inp s).level = 4 → (playTick inp s).sc_flag = 4)) := by
  have hb : beforeCoins inp s = levelStart { beforeCompletion inp s with
      level := (beforeCompletion inp s).level + 1, px := 0, pz := 9, coin_count := 0 } := by
    unfold beforeCoins
    exact completionCheck_pos _ ⟨hexit, hcoins⟩
  have hc := levelStart_cases { beforeCompletion inp s with
      level := (beforeCompletion inp s).level + 1, px := 0, pz := 9, coin_count := 0 }
  rw [← hb] at hc
  have hlevel : (beforeCoins inp s).level = (beforeCompletion inp s).level + 1 := by
    rw [hb]; simp
  have hpx : (beforeCoins inp s).px = 0 := by rw [hb]; simp
  have hpz : (beforeCoins inp s).pz = 9 := by rw [hb]; simp
  have hcc : (beforeCoins inp s).coin_count = 0 := by rw [hb]; simp
  have hl : (beforeCompletion inp s).level = s.level := by simp
  have h2 : (beforeCoins inp s).level = 2 → (beforeCoins inp s).timer = 30 := by
    intro h; rw [hlevel] at h; exact hc.1 h
  have h3 : (beforeCoins inp s).level = 3 → (beforeCoins inp s).timer = 45 := by
    intro h; rw [hlevel] at h; exact hc.2.1 h
  have h4 : (beforeCoins inp s).level = 4 → (beforeCoins inp s).sc_flag = 4 := by
    intro h; rw [hlevel] at h; exact (hc.2.2 h).1
  refine ⟨⟨hlevel, hpx, hpz, hcc, h2, h3, h4⟩, ?_⟩
  have e1 : (playTick inp s).level = (beforeCoins inp s).level := by simp [playTick]
  have e2 : (playTick inp s).px = (beforeCoins inp s).px := by simp [playTick]
  have e3 : (playTick inp s).pz = (beforeCoins inp s).pz := by simp [playTick]
  have e4 : (playTick inp s).timer = (beforeCoins inp s).timer := by simp [playTick]
  have e5 : (playTick inp s).sc_flag = (beforeCoins inp s).sc_flag := by simp [playTick]
  rw [e1, e2, e3, e4, e5]
  exact ⟨by rw [hlevel, hl], hpx, hpz, h2, h3, h4⟩

/-- On the exit cell of the initial board, grounded and healthy, off the holes
and tiles (all at index 0), a Play tick reaches the completion check with the
player still on cell (9,0). -/
theorem exit_cell_kept (inp : Input) (s : Game) (hpx : s.px = 9) (hpz : s.pz = 0)
    (hc : s.c_i = 0) (hj : s.jump = false) (hh : 0 < s.health) (hhole : s.hole = fun _ => 0)
    (htile : s.tile = fun _ => 0) :
    (beforeCompletion inp s).px = 9 ∧ (beforeCompletion inp s).pz = 0 ∧
      (gamescreen s).lives = s.lives := by
  have hf : ¬ fatal s := by
    unfold fatal
    rw [hpx, hpz, hhole]
    simp only [not_or, not_le]
    exact ⟨by decide, by decide, by decide, by decide, by decide, by decide, by decide, by decide,
      by decide, hh⟩
  have ht : ¬ isTile s (10 * s.pz + s.px) := by
    unfold isTile
    rw [hpx, hpz, htile]
    decide
  obtain ⟨h1, h2, h3, -, -⟩ := gamescreen_still s hc hj hf ht
  refine ⟨?_, ?_, h3⟩
  · simp [beforeCompletion, h1, hpx]
  · simp [beforeCompletion, h2, hpz]

/-- C3, witness: level 1 completed on the initial board. -/
theorem level_completion_witness :
    (playTick quietInput exitState).level = exitState.level + 1 ∧
      (playTick quietInput exitState).px = 0 ∧ (playTick quietInput exitState).pz = 9 :=
  have hk := exit_cell_kept quietInput exitState rfl rfl rfl rfl
    (by norm_num [exitState, playState, initial]) rfl rfl
  have h := level_completion quietInput exitState (by rw [hk.1, hk.2.1]; decide)
    (by simp [exitState])
  ⟨h.2.1, h.2.2.1, h.2.2.2.1⟩

/-- C4, the code at a failing input. In every Play tick the level is changed
only by the completion check, by exactly 1, and only when the index 10*pz+px is
9 with coin_count = 5 there; with index 9 and coin_count other than 5 the check
leaves level, timer and coin_count unchanged. But the index is not the cell:
the check does not test that the player is on the exit cell (9,0). The player
of `aliasState`, at level 3 with coin_count = 5, is on cell (0,1) when the tick
begins and at (-1,1) when the tick reaches the check, never on the exit cell,
and the tick raises the level to 4. -/
theorem level_raised_off_exit_cell :
    (∀ (inp : Input) (s : Game),
      ((playTick inp s).level = s.level ∨ (playTick inp s).level = s.level + 1) ∧
      ((playTick inp s).level ≠ s.level →
        10 * (beforeCompletion inp s).pz + (beforeCompletion inp s).px = 9 ∧
          (beforeCompletion inp s).coin_count = 5) ∧
      (10 * (beforeCompletion inp s).pz + (beforeCompletion inp s).px = 9 →
        (beforeCompletion inp s).coin_count ≠ 5 →
        (beforeCoins inp s).level = (beforeCompletion inp s).level ∧
          (beforeCoins inp s).timer = (beforeCompletion inp s).timer ∧
          (beforeCoins inp s).coin_count = (beforeCompletion inp s).coin_count ∧
          (playTick inp s).level = s.level)) ∧
    (aliasState.level = 3 ∧ aliasState.px = 0 ∧ aliasState.pz = 1 ∧
      (beforeCompletion quietInput aliasState).coin_count = 5 ∧
      (beforeCompletion quietInput aliasState).px = -1 ∧
      (beforeCompletion quietInput aliasState).pz = 1 ∧
      ¬ ((beforeCompletion quietInput aliasState).px = 9 ∧
        (beforeCompletion quietInput aliasState).pz = 0) ∧
      (playTick quietInput aliasState).level = aliasState.level + 1) := by
  have hgen : ∀ (inp : Input) (s : Game),
      ((playTick inp s).level = s.level ∨ (playTick inp s).level = s.level + 1) ∧
      ((playTick inp s).level ≠ s.level →
        10 * (beforeCompletion inp s).pz + (beforeCompletion inp s).px = 9 ∧
          (beforeCompletion inp s).coin_count = 5) ∧
      (10 * (beforeCompletion inp s).pz + (beforeCompletion inp s).px = 9 →
        (beforeCompletion inp s).coin_count ≠ 5 →
        (beforeCoins inp s).level = (beforeCompletion inp s).level ∧
          (beforeCoins inp s).timer = (beforeCompletion inp s).timer ∧
          (beforeCoins inp s).coin_count = (beforeCompletion inp s).coin_count ∧
          (playTick inp s).level = s.level) := by
    intro inp s
    have e1 : (playTick inp s).level = (beforeCoins inp s).level := by simp [playTick]
    have hl : (beforeCompletion inp s).level = s.level := by simp
    by_cases hc : 10 * (beforeCompletion inp s).pz + (beforeCompletion inp s).px = 9 ∧
        (beforeCompletion inp s).coin_count = 5
    · have hb : beforeCoins inp s = levelStart { beforeCompletion inp s with
          level := (beforeCompletion inp s).level + 1, px := 0, pz := 9, coin_count := 0 } := by
        unfold beforeCoins
        exact completionCheck_pos _ hc
      have hlevel : (beforeCoins inp s).level = s.level + 1 := by
        rw [hb, ← hl]; simp
      refine ⟨Or.inr (by rw [e1, hlevel]), fun _ => hc, fun h1 h2 => absurd hc.2 h2⟩
    · have hb : beforeCoins inp s = beforeCompletion inp s := by
        unfold beforeCoins
        exact completionCheck_neg _ hc
      have hlevel : (playTick inp s).level = s.level := by rw [e1, hb, hl]
      refine ⟨Or.inl hlevel, fun h => absurd hlevel h, fun _ _ => ?_⟩
      rw [hb]
      exact ⟨rfl, rfl, rfl, hlevel⟩
  obtain ⟨g1, g2, -, -, -, g6⟩ := aliasState_gamescreen
  have hb := beforeCompletion_position quietInput aliasState
  have hcc : (beforeCompletion quietInput aliasState).coin_count = 5 := by
    have e : (beforeCompletion quietInput aliasState).coin_count =
        (gamescreen aliasState).coin_count := by simp
    rw [e, g6]
  have hpx : (beforeCompletion quietInput aliasState).px = -1 := by rw [hb.1, g1]
  have hpz : (beforeCompletion quietInput aliasState).pz = 1 := by rw [hb.2, g2]
  have hcond : 10 * (beforeCompletion quietInput aliasState).pz +
      (beforeCompletion quietInput aliasState).px = 9 ∧
      (beforeCompletion quietInput aliasState).coin_count = 5 := by
    rw [hpx, hpz, hcc]
    exact ⟨rfl, rfl⟩
  refine ⟨hgen, rfl, rfl, rfl, hcc, hpx, hpz, ?_, ?_⟩
  · rw [hpx, hpz]
    decide
  · have e1 : (playTick quietInput aliasState).level = (beforeCoins quietInput aliasState).level := by
      simp [playTick]
    have hl : (beforeCompletion quietInput aliasState).level = aliasState.level := by simp
    have hbc : beforeCoins quietInput aliasState = levelStart { beforeCompletion quietInput aliasState with
        level := (beforeCompletion quietInput aliasState).level + 1, px := 0, pz := 9,
        coin_count := 0 } := by
      unfold beforeCoins
      exact completionCheck_pos _ hcond
    rw [e1, hbc, ← hl]
    simp
/-! ## C5: from Play to End -/

/-- The screen and the lives after `levelStart`. -/
theorem levelStart_screen (m : Game) :
    (levelStart m).sc_flag = (if m.level = 4 then 4 else m.sc_flag) ∧
      (levelStart m).lives = (if m.level = 4 then 3 else m.lives) := by
  unfold levelStart
  by_cases h2 : m.level = 2
  · rw [if_pos h2, if_neg (by omega), if_neg (by omega)]
    exact ⟨rfl, rfl⟩
  · by_cases h3 : m.level = 3
    · rw [if_neg h2, if_pos h3, if_neg (by omega), if_neg (by omega)]
      exact ⟨rfl, rfl⟩
    · by_cases h4 : m.level = 4
      · rw [if_neg h2, if_neg h3, if_pos h4, if_pos h4, if_pos h4]
        exact ⟨rfl, rfl⟩
      · rw [if_neg h2, if_neg h3, if_neg h4, if_neg h4, if_neg h4]
        exact ⟨rfl, rfl⟩

/-- The End check when its condition holds. -/
theorem endCheck_pos (g : Game) (h : g.lives = 0 ∨ g.level = 4 ∨ g.timer = 0) :
    endCheck g = { g with
      sc_flag := 4, hover_flag := 5, lives := 3, health := 15,
      tower_view := false, top_view := false, adventure_view := false,
      follow_view := false, cy := 0 } := by
  unfold endCheck
  rw [if_pos h]

/-- The End check when its condition fails. -/
theorem endCheck_neg (g : Game) (h : ¬ (g.lives = 0 ∨ g.level = 4 ∨ g.timer = 0)) :
    endCheck g = g := by
  unfold endCheck
  rw [if_neg h]

/-- The screen and the lives at the end of a Play tick, by what the
level-completion check found. -/
theorem playTick_screen (inp : Input) (s : Game) :
    ((10 * (beforeCompletion inp s).pz + (beforeCompletion inp s).px = 9 ∧
        (beforeCompletion inp s).coin_count = 5 ∧ s.level = 3) →
      (playTick inp s).sc_flag = 4 ∧ (playTick inp s).lives = 3) ∧
    (¬ (10 * (beforeCompletion inp s).pz + (beforeCompletion inp s).px = 9 ∧
        (beforeCompletion inp s).coin_count = 5 ∧ s.level = 3) →
      (playTick inp s).sc_flag = (endCheck (gamescreen s)).sc_flag ∧
        (playTick inp s).lives = (endCheck (gamescreen s)).lives) := by
  have e1 : (playTick inp s).sc_flag = (beforeCoins inp s).sc_flag := by simp [playTick]
  have e2 : (playTick inp s).lives = (beforeCoins inp s).lives := by simp [playTick]
  have e3 : (beforeCompletion inp s).sc_flag = (endCheck (gamescreen s)).sc_flag := by
    simp [beforeCompletion]
  have e4 : (beforeCompletion inp s).lives = (endCheck (gamescreen s)).lives := by
    simp [beforeCompletion]
  have hl : (beforeCompletion inp s).level = s.level := by simp
  rw [e1, e2]
  by_cases hc : 10 * (beforeCompletion inp s).pz + (beforeCompletion inp s).px = 9 ∧
      (beforeCompletion inp s).coin_count = 5
  · have hb : beforeCoins inp s = levelStart { beforeCompletion inp s with
        level := (beforeCompletion inp s).level + 1, px := 0, pz := 9, coin_count := 0 } := by
      unfold beforeCoins
      exact completionCheck_pos _ hc
    have hs := levelStart_screen { beforeCompletion inp s with
        level := (beforeCompletion inp s).level + 1, px := 0, pz := 9, coin_count := 0 }
    rw [← hb] at hs
    simp only [hl] at hs
    constructor
    · rintro ⟨-, -, h3⟩
      rw [hs.1, hs.2, if_pos (by omega), if_pos (by omega)]
      exact ⟨rfl, rfl⟩
    · intro hn
      have h3 : ¬ s.level = 3 := fun h3 => hn ⟨hc.1, hc.2, h3⟩
      rw [hs.1, hs.2, if_neg (by omega), if_neg (by omega)]
      exact ⟨e3, e4⟩
  · have hb : beforeCoins inp s = beforeCompletion inp s := by
      unfold beforeCoins
      exact completionCheck_neg _ hc
    rw [hb]
    exact ⟨fun h => absurd ⟨h.1, h.2.1⟩ hc, fun _ => ⟨e3, e4⟩⟩

/-- C5 (amended). A Play tick takes the screen from Play to End exactly when the
End check after `gamescreen` finds lives = 0, level = 4 or timer = 0, or the
level-completion check raises the level from 3 to 4. On every such transition
lives is 3 afterwards. When the End check made it, the toggles tower, top,
follow and adventure are false afterwards. -/
theorem play_to_end (inp : Input) (s : Game) (hplay : s.sc_flag = 3) :
    ((playTick inp s).sc_flag = 4 ↔
      (((gamescreen s).lives = 0 ∨ s.level = 4 ∨ s.timer = 0) ∨
        (10 * (beforeCompletion inp s).pz + (beforeCompletion inp s).px = 9 ∧
          (beforeCompletion inp s).coin_count = 5 ∧ s.level = 3))) ∧
    ((playTick inp s).sc_flag = 4 → (playTick inp s).lives = 3) ∧
    (((gamescreen s).lives = 0 ∨ s.level = 4 ∨ s.timer = 0) →
      (playTick inp s).tower_view = false ∧ (playTick inp s).top_view = false ∧
        (playTick inp s).follow_view = false ∧ (playTick inp s).adventure_view = false) := by
  have hgl : (gamescreen s).level = s.level := by simp
  have hgt : (gamescreen s).timer = s.timer := by simp
  have hgs : (gamescreen s).sc_flag = 3 := by simp [hplay]
  have hpt := playTick_screen inp s
  have hend : ((gamescreen s).lives = 0 ∨ s.level = 4 ∨ s.timer = 0) →
      endCheck (gamescreen s) = { gamescreen s with
        sc_flag := 4, hover_flag := 5, lives := 3, health := 15,
        tower_view := false, top_view := false, adventure_view := false,
        follow_view := false, cy := 0 } := by
    intro h
    exact endCheck_pos _ (by rw [hgl, hgt]; exact h)
  have hnend : ¬ ((gamescreen s).lives = 0 ∨ s.level = 4 ∨ s.timer = 0) →
      endCheck (gamescreen s) = gamescreen s := by
    intro h
    exact endCheck_neg _ (by rw [hgl, hgt]; exact h)
  refine ⟨?_, ?_, ?_⟩
  · by_cases hc : 10 * (beforeCompletion inp s).pz + (beforeCompletion inp s).px = 9 ∧
        (beforeCompletion inp s).coin_count = 5 ∧ s.level = 3
    · exact ⟨fun _ => Or.inr hc, fun _ => (hpt.1 hc).1⟩
    · rw [(hpt.2 hc).1]
      by_cases he : (gamescreen s).lives = 0 ∨ s.level = 4 ∨ s.timer = 0
      · rw [hend he]
        exact ⟨fun _ => Or.inl he, fun _ => rfl⟩
      · rw [hnend he, hgs]
        exact ⟨fun h => absurd h (by decide), fun h => h.elim (fun h => absurd h he) (fun h => absurd h hc)⟩
  · intro h4
    by_cases hc : 10 * (beforeCompletion inp s).pz + (beforeCompletion inp s).px = 9 ∧
        (beforeCompletion inp s).coin_count = 5 ∧ s.level = 3
    · exact (hpt.1 hc).2
    · rw [(hpt.2 hc).1] at h4
      rw [(hpt.2 hc).2]
      by_cases he : (gamescreen s).lives = 0 ∨ s.level = 4 ∨ s.timer = 0
      · rw [hend he]
      · rw [hnend he, hgs] at h4
        exact absurd h4 (by decide)
  · intro he
    have h1 : (playTick inp s).tower_view = (endCheck (gamescreen s)).tower_view := by
      simp [playTick, beforeCoins, beforeCompletion]
    have h2 : (playTick inp s).top_view = (endCheck (gamescreen s)).top_view := by
      simp [playTick, beforeCoins, beforeCompletion]
    have h3 : (playTick inp s).follow_view = (endCheck (gamescreen s)).follow_view := by
      simp [playTick, beforeCoins, beforeCompletion]
    have h4 : (playTick inp s).adventure_view = (endCheck (gamescreen s)).adventure_view := by
      simp [playTick, beforeCoins, beforeCompletion]
    rw [h1, h2, h3, h4, hend he]
    exact ⟨rfl, rfl, rfl, rfl⟩

/-- C5, witness: the timer has run out. -/
theorem play_to_end_witness :
    (playTick quietInput timeoutState).sc_flag = 4 ∧ (playTick quietInput timeoutState).lives = 3 ∧
      (playTick quietInput timeoutState).tower_view = false :=
  have h := play_to_end quietInput timeoutState rfl
  have h4 : (playTick quietInput timeoutState).sc_flag = 4 := h.1.mpr (Or.inl (Or.inr (Or.inr rfl)))
  ⟨h4, h.2.1 h4, (h.2.2 (Or.inr (Or.inr rfl))).1⟩

/-- C5, counterexample: two transitions from Play to End after which a camera
toggle is still set. The timer runs out while the helicopter key is held: the
helicopter toggle stays true. The last level is completed with the tower view
on: the tower toggle stays true. -/
theorem end_keeps_toggles :
    (timeoutState.sc_flag = 3 ∧ (playTick quietInput timeoutState).sc_flag = 4 ∧
      (playTick quietInput timeoutState).helicopter_view = true) ∧
    (lastExitState.sc_flag = 3 ∧ (playTick quietInput lastExitState).sc_flag = 4 ∧
      (playTick quietInput lastExitState).tower_view = true) := by
  have hk := exit_cell_kept quietInput lastExitState rfl rfl rfl rfl
    (by norm_num [lastExitState, exitState, playState, initial]) rfl rfl
  have hc : 10 * (beforeCompletion quietInput lastExitState).pz +
      (beforeCompletion quietInput lastExitState).px = 9 ∧
      (beforeCompletion quietInput lastExitState).coin_count = 5 ∧ lastExitState.level = 3 := by
    rw [hk.1, hk.2.1]
    exact ⟨by decide, by simp [lastExitState, exitState], rfl⟩
  have hne : ¬ ((gamescreen lastExitState).lives = 0 ∨ (gamescreen lastExitState).level = 4 ∨
      (gamescreen lastExitState).timer = 0) := by
    rw [hk.2.2]
    simp [lastExitState, exitState, playState, initial]
  have ht : (playTick quietInput lastExitState).tower_view = (endCheck (gamescreen lastExitState)).tower_view := by
    simp [playTick, beforeCoins, beforeCompletion]
  refine ⟨⟨rfl, ?_, by simp [timeoutState]⟩, ⟨rfl, ((playTick_screen quietInput lastExitState).1 hc).1, ?_⟩⟩
  · have hn : ¬ (10 * (beforeCompletion quietInput timeoutState).pz +
        (beforeCompletion quietInput timeoutState).px = 9 ∧
        (beforeCompletion quietInput timeoutState).coin_count = 5 ∧ timeoutState.level = 3) :=
      fun h => absurd h.2.2 (by decide)
    rw [((playTick_screen quietInput timeoutState).2 hn).1,
      endCheck_pos _ (Or.inr (Or.inr (by simp [timeoutState, playState, initial])))]
  · rw [ht, endCheck_neg _ hne]
    simp [lastExitState]

/-! ## C6: coin collection -/

/-- The five indices of a five-element array. -/
theorem fin5_cases : ∀ j : Fin 5, j = 0 ∨ j = 1 ∨ j = 2 ∨ j = 3 ∨ j = 4 := by decide

/-- The coin check collects the lowest-numbered slot the player stands on. -/
theorem coinCheck_first (m : Game) (j : Fin 5) (hj : onCoin m j)
    (hmin : ∀ i : Fin 5, i < j → ¬ onCoin m i) :
    coinCheck m = { takeCoin m j with coin_count := m.coin_count + coinWeight j } := by
  unfold coinCheck
  rcases fin5_cases j with rfl | rfl | rfl | rfl | rfl
  · rw [if_pos hj]; simp [coinWeight, takeCoin]
  · rw [if_neg (hmin 0 (by decide)), if_pos hj]; simp [coinWeight, takeCoin]
  · rw [if_neg (hmin 0 (by decide)), if_neg (hmin 1 (by decide)), if_pos hj]
    simp [coinWeight, takeCoin]
  · rw [if_neg (hmin 0 (by decide)), if_neg (hmin 1 (by decide)), if_neg (hmin 2 (by decide)),
      if_pos hj]
    simp [coinWeight, takeCoin]
    ring
  · rw [if_neg (hmin 0 (by decide)), if_neg (hmin 1 (by decide)), if_neg (hmin 2 (by decide)),
      if_neg (hmin 3 (by decide)), if_pos hj]
    simp [coinWeight, takeCoin]

/-- With the player on no coin the coin check does nothing. -/
theorem coinCheck_none (m : Game) (h : ∀ i : Fin 5, ¬ onCoin m i) : coinCheck m = m := by
  unfold coinCheck
  rw [if_neg (h 0), if_neg (h 1), if_neg (h 2), if_neg (h 3), if_neg (h 4)]

/-- Among the slots the player stands on there is a lowest one. -/
theorem exists_first_coin (m : Game) (i : Fin 5) (hi : onCoin m i) :
    ∃ j : Fin 5, j ≤ i ∧ onCoin m j ∧ ∀ k : Fin 5, k < j → ¬ onCoin m k := by
  have hne : (Finset.univ.filter (fun k : Fin 5 => onCoin m k)).Nonempty :=
    ⟨i, by simp [hi]⟩
  refine ⟨(Finset.univ.filter (fun k : Fin 5 => onCoin m k)).min' hne, ?_, ?_, ?_⟩
  · exact Finset.min'_le _ _ (by simp [hi])
  · have := Finset.min'_mem _ hne
    simpa using this
  · intro k hk hon
    have := Finset.min'_le (Finset.univ.filter (fun k : Fin 5 => onCoin m k)) k (by simp [hon])
    exact absurd hk (not_lt.mpr this)

/-- The coin positions and the score reach the coin check unchanged, and what
the coin check leaves is what the tick leaves. -/
theorem playTick_coins (inp : Input) (s : Game) :
    (beforeCoins inp s).coins_x = s.coins_x ∧ (beforeCoins inp s).coins_z = s.coins_z ∧
      (beforeCoins inp s).score = s.score ∧
      (playTick inp s).coins_x = (coinCheck (beforeCoins inp s)).coins_x ∧
      (playTick inp s).coins_z = (coinCheck (beforeCoins inp s)).coins_z ∧
      (playTick inp s).score = (coinCheck (beforeCoins inp s)).score ∧
      (playTick inp s).coin_count = (coinCheck (beforeCoins inp s)).coin_count := by
  simp [playTick]

/-- A slot at the sentinel position is never under the player at the coin check. -/
theorem retired_not_onCoin (inp : Input) (s : Game) (i : Fin 5) (h : retired s i) :
    ¬ onCoin (beforeCoins inp s) i := by
  have hp := beforeCoins_position inp s
  have hc := playTick_coins inp s
  unfold onCoin
  rw [hc.1, h.1]
  intro hx
  have := hx.1
  omega

/-- C6 (amended). In a Play tick where the player's position at the coin check
equals the position of some coin slot, score increases by exactly 10 and the
lowest-numbered such slot is retired to the sentinel position (100,100), the
other slots staying where they are; with the player on no slot, score and coins
are unchanged. A slot that is retired when the tick begins does not match the
player's position at the coin check, whatever the state, and is still retired
when the tick ends: it awards no further points until coins are reseeded. -/
theorem coin_collection (inp : Input) (s : Game) :
    (∀ j : Fin 5, onCoin (beforeCoins inp s) j →
      (∀ i : Fin 5, i < j → ¬ onCoin (beforeCoins inp s) i) →
      (playTick inp s).score = s.score + 10 ∧ retired (playTick inp s) j ∧
        ∀ i : Fin 5, i ≠ j →
          (playTick inp s).coins_x i = s.coins_x i ∧ (playTick inp s).coins_z i = s.coins_z i) ∧
    (∀ i : Fin 5, onCoin (beforeCoins inp s) i → (playTick inp s).score = s.score + 10) ∧
    ((∀ i : Fin 5, ¬ onCoin (beforeCoins inp s) i) →
      (playTick inp s).score = s.score ∧ (playTick inp s).coins_x = s.coins_x ∧
        (playTick inp s).coins_z = s.coins_z) ∧
    (∀ i : Fin 5, retired s i →
      ¬ onCoin (beforeCoins inp s) i ∧ retired (playTick inp s) i) := by
  obtain ⟨hx, hz, hs, px, pz, ps, -⟩ := playTick_coins inp s
  have first : ∀ j : Fin 5, onCoin (beforeCoins inp s) j →
      (∀ i : Fin 5, i < j → ¬ onCoin (beforeCoins inp s) i) →
      (playTick inp s).score = s.score + 10 ∧
        (playTick inp s).coins_x = Function.update s.coins_x j 100 ∧
        (playTick inp s).coins_z = Function.update s.coins_z j 100 := by
    intro j hj hmin
    rw [ps, px, pz, coinCheck_first _ j hj hmin]
    simp [takeCoin, hx, hz, hs]
  refine ⟨?_, ?_, ?_, ?_⟩
  · intro j hj hmin
    obtain ⟨h1, h2, h3⟩ := first j hj hmin
    refine ⟨h1, ?_, ?_⟩
    · unfold retired
      rw [h2, h3]
      simp
    · intro i hij
      rw [h2, h3]
      simp [hij]
  · intro i hi
    obtain ⟨j, -, hj, hmin⟩ := exists_first_coin _ i hi
    exact (first j hj hmin).1
  · intro hnone
    rw [ps, px, pz, coinCheck_none _ hnone]
    exact ⟨hs, hx, hz⟩
  · intro i hi
    have hno := retired_not_onCoin inp s i hi
    refine ⟨hno, ?_⟩
    by_cases hany : ∃ k : Fin 5, onCoin (beforeCoins inp s) k
    · obtain ⟨k, hk⟩ := hany
      obtain ⟨j, -, hj, hmin⟩ := exists_first_coin _ k hk
      obtain ⟨-, h2, h3⟩ := first j hj hmin
      have hij : i ≠ j := fun e => hno (e ▸ hj)
      unfold retired
      rw [h2, h3]
      simp [hij]
      exact hi
    · push_neg at hany
      unfold retired
      rw [px, pz, coinCheck_none _ hany, hx, hz]
      exact hi

/-- A still player of `gamescreen_still_initial_board`, away from the exit
cell, is at the coin check where it was when the tick began. -/
theorem beforeCoins_still (inp : Input) (s : Game) (hc : s.c_i = 0) (hj : s.jump = false)
    (hh : 0 < s.health) (hhole : s.hole = fun _ => 0) (htile : s.tile = fun _ => 0)
    (hx : 0 ≤ s.px ∧ s.px ≤ 9) (hz : 0 ≤ s.pz ∧ s.pz ≤ 9) (h0 : 10 * s.pz + s.px ≠ 0)
    (h9 : 10 * s.pz + s.px ≠ 9) :
    (beforeCoins inp s).px = s.px ∧ (beforeCoins inp s).pz = s.pz := by
  obtain ⟨g1, g2, -⟩ := gamescreen_still_initial_board s hc hj hh hhole htile hx hz h0
  have hb := beforeCompletion_position inp s
  rw [beforeCoins_of_no_completion inp s (by rw [g1, g2]; exact fun h => h9 h.1), hb.1, hb.2]
  exact ⟨g1, g2⟩

/-- The two coins of `twoCoinsState` are both under the player at the coin check. -/
theorem twoCoins_onCoin (i : Fin 5) (hi : i = 0 ∨ i = 1) :
    onCoin (beforeCoins quietInput twoCoinsState) i := by
  have hp := beforeCoins_still quietInput twoCoinsState rfl rfl
    (by norm_num [twoCoinsState, playState, initial]) rfl rfl (by decide) (by decide) (by decide)
    (by decide)
  have hc := playTick_coins quietInput twoCoinsState
  unfold onCoin
  rw [hp.1, hp.2, hc.1, hc.2.1]
  rcases hi with rfl | rfl <;> decide

/-- C6, witness: of two coins on the player's cell, slot 0 is the one collected. -/
theorem coin_collection_witness :
    (playTick quietInput twoCoinsState).score = twoCoinsState.score + 10 ∧
      retired (playTick quietInput twoCoinsState) 0 :=
  have h := (coin_collection quietInput twoCoinsState).1 0 (twoCoins_onCoin 0 (Or.inl rfl))
    (fun i hi => absurd hi (by omega))
  ⟨h.1, h.2.1⟩

/-- C6, counterexample: coin slots 0 and 1 both lie on the player's cell (3,3).
The player's position equals the position of slot 1 at the coin check, but the
tick retires slot 0 only: slot 1 is still at (3,3) afterwards. -/
theorem second_coin_not_retired :
    onCoin (beforeCoins quietInput twoCoinsState) 1 ∧
      (playTick quietInput twoCoinsState).coins_x 1 = 3 ∧
      (playTick quietInput twoCoinsState).coins_z 1 = 3 ∧
      ¬ retired (playTick quietInput twoCoinsState) 1 := by
  obtain ⟨hx, hz, -, px, pz, -, -⟩ := playTick_coins quietInput twoCoinsState
  have h0 := twoCoins_onCoin 0 (Or.inl rfl)
  have hcc := coinCheck_first _ 0 h0 (fun i hi => absurd hi (by omega))
  have e1 : (playTick quietInput twoCoinsState).coins_x 1 = 3 := by
    rw [px, hcc]
    simp [takeCoin, hx, twoCoinsState]
  have e2 : (playTick quietInput twoCoinsState).coins_z 1 = 3 := by
    rw [pz, hcc]
    simp [takeCoin, hz, twoCoinsState]
  refine ⟨twoCoins_onCoin 1 (Or.inr rfl), e1, e2, ?_⟩
  unfold retired
  rw [e1]
  exact fun h => absurd h.1 (by decide)

/-! ## C7: the level-completion counter -/

/-- Retiring a slot that was not retired adds its weight to the count of
collected slots. -/
theorem collectedCount_take (t : Game) (j : Fin 5) (hnr : ¬ retired t j) (c : Int) :
    collectedCount { takeCoin t j with coin_count := c } = collectedCount t + coinWeight j := by
  have key : ∀ i : Fin 5, retired { takeCoin t j with coin_count := c } i ↔ (i = j ∨ retired t i) := by
    intro i
    unfold retired
    by_cases hij : i = j
    · subst hij; simp [takeCoin]
    · simp [takeCoin, hij]
  unfold collectedCount
  simp only [key]
  rcases fin5_cases j with rfl | rfl | rfl | rfl | rfl <;>
    simp [hnr, coinWeight] <;> ring

/-- The count of collected slots is 5 exactly when slots 0, 1, 3 and 4 are retired. -/
theorem collectedCount_five (t : Game) :
    collectedCount t = 5 ↔ (retired t 0 ∧ retired t 1 ∧ retired t 3 ∧ retired t 4) := by
  unfold collectedCount
  by_cases h0 : retired t 0 <;> by_cases h1 : retired t 1 <;> by_cases h3 : retired t 3 <;>
    by_cases h4 : retired t 4 <;> simp [h0, h1, h3, h4]

/-- One coin check, with the player somewhere other than the sentinel position,
keeps `coin_count` equal to the count of collected slots. -/
theorem coinCheck_count (m : Game) (hp : (m.px, m.pz) ≠ (100, 100))
    (hI : m.coin_count = collectedCount m) :
    (coinCheck m).coin_count = collectedCount (coinCheck m) := by
  by_cases hany : ∃ k : Fin 5, onCoin m k
  · obtain ⟨k, hk⟩ := hany
    obtain ⟨j, -, hj, hmin⟩ := exists_first_coin _ k hk
    have hnr : ¬ retired m j := by
      intro hr
      apply hp
      rw [hj.1, hj.2, hr.1, hr.2]
    rw [coinCheck_first _ j hj hmin, collectedCount_take _ j hnr, hI]
  · push_neg at hany
    rw [coinCheck_none _ hany]
    exact hI

/-- Consecutive coin checks keep `coin_count` equal to the count of collected slots. -/
theorem coinChecks_count (ps : List (Int × Int)) :
    ∀ t : Game, (∀ p ∈ ps, p ≠ (100, 100)) → t.coin_count = collectedCount t →
      (coinChecks ps t).coin_count = collectedCount (coinChecks ps t) := by
  induction ps with
  | nil => intro t _ hI; exact hI
  | cons p rest ih =>
    intro t hp hI
    have hp1 : ((({ t with px := p.1, pz := p.2 } : Game).px,
        ({ t with px := p.1, pz := p.2 } : Game).pz) : Int × Int) ≠ (100, 100) := hp p (by simp)
    exact ih _ (fun q hq => hp q (by simp [hq]))
      (coinCheck_count { t with px := p.1, pz := p.2 } hp1 hI)

/-- C7. The coin check raises coin_count by 1 when it collects slot 0, 1 or 4,
leaves it when it collects slot 2, and raises it by 2 when it collects slot 3.
Hence, from coin_count = 0 and no slot retired, after any sequence of coin
checks (the player never at the sentinel position) coin_count is the number of
retired slots among 0, 1, 4 plus 2 if slot 3 is retired; it is 5 exactly when
slots 0, 1, 3 and 4 are all retired, whether or not slot 2 is. -/
theorem coin_count_by_slot :
    (∀ m : Game, onCoin m 0 → (coinCheck m).coin_count = m.coin_count + 1) ∧
    (∀ m : Game, ¬ onCoin m 0 → onCoin m 1 → (coinCheck m).coin_count = m.coin_count + 1) ∧
    (∀ m : Game, ¬ onCoin m 0 → ¬ onCoin m 1 → onCoin m 2 →
      (coinCheck m).coin_count = m.coin_count) ∧
    (∀ m : Game, ¬ onCoin m 0 → ¬ onCoin m 1 → ¬ onCoin m 2 → onCoin m 3 →
      (coinCheck m).coin_count = m.coin_count + 2) ∧
    (∀ m : Game, ¬ onCoin m 0 → ¬ onCoin m 1 → ¬ onCoin m 2 → ¬ onCoin m 3 → onCoin m 4 →
      (coinCheck m).coin_count = m.coin_count + 1) ∧
    (∀ (s : Game) (ps : List (Int × Int)), s.coin_count = 0 → (∀ i : Fin 5, ¬ retired s i) →
      (∀ p ∈ ps, p ≠ (100, 100)) →
      (coinChecks ps s).coin_count =
          (if retired (coinChecks ps s) 0 then 1 else 0) +
          (if retired (coinChecks ps s) 1 then 1 else 0) +
          (if retired (coinChecks ps s) 4 then 1 else 0) +
          2 * (if retired (coinChecks ps s) 3 then 1 else 0) ∧
        ((coinChecks ps s).coin_count = 5 ↔
          (retired (coinChecks ps s) 0 ∧ retired (coinChecks ps s) 1 ∧
            retired (coinChecks ps s) 3 ∧ retired (coinChecks ps s) 4))) := by
  refine ⟨?_, ?_, ?_, ?_, ?_, ?_⟩
  · intro m h0
    unfold coinCheck
    rw [if_pos h0]
    simp
  · intro m h0 h1
    unfold coinCheck
    rw [if_neg h0, if_pos h1]
    simp
  · intro m h0 h1 h2
    unfold coinCheck
    rw [if_neg h0, if_neg h1, if_pos h2]
    simp
  · intro m h0 h1 h2 h3
    unfold coinCheck
    rw [if_neg h0, if_neg h1, if_neg h2, if_pos h3]
    simp
    ring
  · intro m h0 h1 h2 h3 h4
    unfold coinCheck
    rw [if_neg h0, if_neg h1, if_neg h2, if_neg h3, if_pos h4]
    simp
  · intro s ps hc hr hp
    have hI : s.coin_count = collectedCount s := by
      rw [hc]
      unfold collectedCount
      simp [hr]
    have h := coinChecks_count ps s hp hI
    refine ⟨h, ?_⟩
    rw [h]
    exact collectedCount_five _


/-- No coin of `coinsState` is retired. -/
theorem coinsState_fresh : ∀ i : Fin 5, ¬ retired coinsState i := by
  intro i h
  have h1 : ((i.val : Int) + 1) = 100 := h.1
  have := i.isLt
  omega

/-- C7, witness: on the board `coinsState` the player visits the cells of slots
0, 1, 3 and 4; the counter is then the weighted count of retired slots, and it
is 5, with slot 2 still in place. -/
theorem coin_count_by_slot_witness :
    ((coinChecks [(1, 1), (2, 2), (4, 4), (5, 5)] coinsState).coin_count = 5 ↔
      (retired (coinChecks [(1, 1), (2, 2), (4, 4), (5, 5)] coinsState) 0 ∧
        retired (coinChecks [(1, 1), (2, 2), (4, 4), (5, 5)] coinsState) 1 ∧
        retired (coinChecks [(1, 1), (2, 2), (4, 4), (5, 5)] coinsState) 3 ∧
        retired (coinChecks [(1, 1), (2, 2), (4, 4), (5, 5)] coinsState) 4)) ∧
    (coinChecks [(1, 1), (2, 2), (4, 4), (5, 5)] coinsState).coin_count = 5 ∧
    ¬ retired (coinChecks [(1, 1), (2, 2), (4, 4), (5, 5)] coinsState) 2 :=
  ⟨(coin_count_by_slot.2.2.2.2.2 coinsState [(1, 1), (2, 2), (4, 4), (5, 5)] rfl coinsState_fresh
      (by decide)).2, by decide, by decide⟩
/-! ## C8: the jump arc -/

/-- The landing moves the player two cells along the direction and nowhere else. -/
theorem jumpLand_cases (m : Game) :
    (m.dir = 1 → (jumpLand m).pz = m.pz - 2 ∧ (jumpLand m).px = m.px) ∧
    (m.dir = 4 → (jumpLand m).pz = m.pz + 2 ∧ (jumpLand m).px = m.px) ∧
    (m.dir = 2 → (jumpLand m).px = m.px - 2 ∧ (jumpLand m).pz = m.pz) ∧
    (m.dir = 3 → (jumpLand m).px = m.px + 2 ∧ (jumpLand m).pz = m.pz) := by
  unfold jumpLand
  refine ⟨fun h => ?_, fun h => ?_, fun h => ?_, fun h => ?_⟩
  · rw [if_pos h]; exact ⟨rfl, rfl⟩
  · rw [if_neg (by omega), if_pos h]; exact ⟨rfl, rfl⟩
  · rw [if_neg (by omega), if_neg (by omega), if_pos h]; exact ⟨rfl, rfl⟩
  · rw [if_neg (by omega), if_neg (by omega), if_neg (by omega), if_pos h]; exact ⟨rfl, rfl⟩

/-- A tick of a jump whose new elapsed time does not exceed 2.1 and which is
not cut short: the jump goes on, the clock advances by one `float` step of 0.1
and the jump block leaves the position alone. -/
theorem jump_tick_continues (s : Game) (hj : s.jump = true) (ht : floatAdd s.ttime 0.1 ≤ 2.1)
    (hfree : ¬ cutShort s) :
    (gamescreen s).jump = true ∧ (gamescreen s).ttime = floatAdd s.ttime 0.1 ∧
      (beforeFatal s).px = (beforeJump s).px ∧ (beforeFatal s).pz = (beforeJump s).pz := by
  have hcont : beforeFatal s = jumpKinematics (beforeJump s) := by
    unfold beforeFatal
    exact jumpBlock_continue _ (by simp [hj]) (by simpa using ht)
  have hbc := beforeCollision_jump s
  have hbj : (beforeCollision s).jump = true := by
    rw [hbc.1, hcont]; simp [jumpKinematics, hj]
  have hg : (gamescreen s).jump = true := by
    by_contra hne
    exact hfree ⟨hbj, by simpa using hne⟩
  refine ⟨hg, ?_, ?_, ?_⟩
  · rw [gamescreen_of_jump s hg, hbc.2.1, hcont]
    simp [jumpKinematics]
  · rw [hcont]; simp [jumpKinematics]
  · rw [hcont]; simp [jumpKinematics]

/-- A tick of a jump whose new elapsed time exceeds 2.1: the jump ends, the
clock returns to 0 and the jump block has landed the player. -/
theorem jump_tick_ends (s : Game) (hj : s.jump = true) (ht : floatAdd s.ttime 0.1 > 2.1) :
    (gamescreen s).jump = false ∧ (gamescreen s).ttime = 0 ∧
      (beforeFatal s).px = (jumpLand { jumpKinematics (beforeJump s) with jump := false }).px ∧
      (beforeFatal s).pz = (jumpLand { jumpKinematics (beforeJump s) with jump := false }).pz := by
  have hfin : beforeFatal s = { jumpLand { jumpKinematics (beforeJump s) with jump := false }
      with rx := 0, ttime := 0 } := by
    unfold beforeFatal
    exact jumpBlock_finish _ (by simp [hj]) (by simpa using ht)
  have hbc := beforeCollision_jump s
  have hbj : (beforeCollision s).jump = false := by
    rw [hbc.1, hfin]; simp
  have hg : gamescreen s = beforeCollision s := by
    unfold gamescreen
    exact tileCollision_grounded _ hbj
  refine ⟨by rw [hg, hbj], ?_, ?_, ?_⟩
  · rw [hg, hbc.2.1, hfin]
  · rw [hfin]
  · rw [hfin]

/-- C9 (amended). Along consecutive `gamescreen` ticks (`tr k` is the state in
which tick k+1 begins, and between two ticks nothing writes the jump flag or
the jump clock), a jump that starts with elapsed time 0 and is not cut short by
an elevator-tile collision keeps the jump flag set through its first 20 ticks,
the jump block leaving the grid position alone and the `float` clock, advanced
by 0.1 per tick, staying within 1e-6 of the exact multiple of 0.1 and not above
2.1. It ends at the 21st tick, the first whose elapsed time exceeds 2.1: the
`float` clock is then 8808039/4194304 = 2.1000001. At that tick the jump block
moves the grid coordinate exactly 2 cells along the movement direction:
direction 1 pz-2, direction 4 pz+2, direction 2 px-2, direction 3 px+2. -/
theorem jump_ends_at_tick_21 (tr : Nat → Game)
    (hjump : (tr 0).jump = true) (hclock : (tr 0).ttime = 0)
    (hsteps : ∀ k < 20, (tr (k + 1)).jump = (gamescreen (tr k)).jump ∧
      (tr (k + 1)).ttime = (gamescreen (tr k)).ttime)
    (hfree : ∀ k < 20, ¬ cutShort (tr k)) :
    (∀ k < 20, (gamescreen (tr k)).jump = true ∧ (gamescreen (tr k)).ttime = tenths (k + 1) ∧
      |(gamescreen (tr k)).ttime - ((k : ℚ) + 1) / 10| ≤ 1 / 1000000 ∧
      (gamescreen (tr k)).ttime ≤ 2.1 ∧
      (beforeFatal (tr k)).px = (beforeJump (tr k)).px ∧
      (beforeFatal (tr k)).pz = (beforeJump (tr k)).pz) ∧
    ((gamescreen (tr 20)).jump = false ∧ (gamescreen (tr 20)).ttime = 0 ∧
      (jumpKinematics (beforeJump (tr 20))).ttime = 8808039 / 4194304 ∧
      (jumpKinematics (beforeJump (tr 20))).ttime > 2.1) ∧
    (((tr 20).dir = 1 → (beforeFatal (tr 20)).pz = (beforeJump (tr 20)).pz - 2 ∧
        (beforeFatal (tr 20)).px = (beforeJump (tr 20)).px) ∧
      ((tr 20).dir = 4 → (beforeFatal (tr 20)).pz = (beforeJump (tr 20)).pz + 2 ∧
        (beforeFatal (tr 20)).px = (beforeJump (tr 20)).px) ∧
      ((tr 20).dir = 2 → (beforeFatal (tr 20)).px = (beforeJump (tr 20)).px - 2 ∧
        (beforeFatal (tr 20)).pz = (beforeJump (tr 20)).pz) ∧
      ((tr 20).dir = 3 → (beforeFatal (tr 20)).px = (beforeJump (tr 20)).px + 2 ∧
        (beforeFatal (tr 20)).pz = (beforeJump (tr 20)).pz)) := by
  have inv : ∀ k, k ≤ 20 → (tr k).jump = true ∧ (tr k).ttime = tenths k := by
    intro k
    induction k with
    | zero => intro _; exact ⟨hjump, by rw [hclock]; rfl⟩
    | succ n ih =>
      intro hn
      obtain ⟨hj, ht⟩ := ih (by omega)
      have hle : floatAdd (tr n).ttime 0.1 ≤ 2.1 := by
        rw [ht]
        exact tenths_jump n (by omega)
      obtain ⟨g1, g2, -, -⟩ := jump_tick_continues (tr n) hj hle (hfree n (by omega))
      obtain ⟨s1, s2⟩ := hsteps n (by omega)
      refine ⟨by rw [s1, g1], ?_⟩
      rw [s2, g2, ht]
      rfl
  have hlast : floatAdd (tr 20).ttime 0.1 = 8808039 / 4194304 := by
    rw [(inv 20 (le_refl _)).2, ← tenths_succ, tenths_at_21]
  have hgt : floatAdd (tr 20).ttime 0.1 > 2.1 := by
    rw [hlast]
    norm_num
  refine ⟨?_, ?_, ?_⟩
  · intro k hk
    obtain ⟨hj, ht⟩ := inv k (by omega)
    have hle : floatAdd (tr k).ttime 0.1 ≤ 2.1 := by
      rw [ht]
      exact tenths_jump k (by omega)
    obtain ⟨g1, g2, g3, g4⟩ := jump_tick_continues (tr k) hj hle (hfree k hk)
    have e : (gamescreen (tr k)).ttime = tenths (k + 1) := by
      rw [g2, ht]
      rfl
    refine ⟨g1, e, ?_, ?_, g3, g4⟩
    · rw [e]
      have h := tenths_near (k + 1) (by omega)
      push_cast at h
      exact h
    · rw [e]
      exact tenths_in_jump (k + 1) (by omega)
  · obtain ⟨hj, -⟩ := inv 20 (le_refl _)
    obtain ⟨g1, g2, -, -⟩ := jump_tick_ends (tr 20) hj hgt
    refine ⟨g1, g2, ?_, ?_⟩
    · simpa [jumpKinematics] using hlast
    · simpa [jumpKinematics] using hgt
  · obtain ⟨hj, -⟩ := inv 20 (le_refl _)
    obtain ⟨-, -, g3, g4⟩ := jump_tick_ends (tr 20) hj hgt
    have hc := jumpLand_cases { jumpKinematics (beforeJump (tr 20)) with jump := false }
    have hd : ({ jumpKinematics (beforeJump (tr 20)) with jump := false } : Game).dir = (tr 20).dir := by
      simp [jumpKinematics]
    have hx : ({ jumpKinematics (beforeJump (tr 20)) with jump := false } : Game).px =
        (beforeJump (tr 20)).px := by simp [jumpKinematics]
    have hz : ({ jumpKinematics (beforeJump (tr 20)) with jump := false } : Game).pz =
        (beforeJump (tr 20)).pz := by simp [jumpKinematics]
    rw [hd, hx, hz] at hc
    rw [g3, g4]
    exact hc

/-- C9, witness: the jump from `jumpStart` on the initial board, followed
through its 21 ticks. -/
theorem jump_ends_at_tick_21_witness :
    (∀ k < 20, (gamescreen (gamescreen^[k] jumpStart)).jump = true) ∧
      (gamescreen (gamescreen^[20] jumpStart)).jump = false ∧
      (beforeFatal (gamescreen^[20] jumpStart)).pz = (beforeJump (gamescreen^[20] jumpStart)).pz - 2 :=
  have h := jump_ends_at_tick_21 (fun k => gamescreen^[k] jumpStart) rfl rfl
    (fun k _ => by
      show (gamescreen^[k + 1] jumpStart).jump = _ ∧ (gamescreen^[k + 1] jumpStart).ttime = _
      rw [Function.iterate_succ_apply']
      exact ⟨rfl, rfl⟩)
    (fun k hk hcut =>
      absurd ((jumpStart_iterate k (by omega)).step (by omega)).1.jump (by rw [hcut.2]; decide))
  ⟨fun k hk => (h.1 k hk).1, h.2.1.1, (h.2.2.1 (jumpStart_iterate 20 (le_refl _)).dir).1⟩

/-- C9, counterexample. The jump from `jumpStart` (elapsed time 0, nothing in
its way) still has the jump flag set after 20 ticks and has ended after 21,
two cells on: the `float` clock passes 2.1 at the 21st tick, not the 22nd. And
at level 3 the jump of `blockedJump`, which starts with elapsed time 0 on cell
(5,5) towards an elevator tile standing at height 0.3, is ended by its first
tick, at elapsed time 13421773/134217728 (the `float` 0.1), and the player has
not moved. -/
theorem jump_ends_before_tick_22 :
    (jumpStart.jump = true ∧ jumpStart.ttime = 0 ∧ jumpStart.pz = 5 ∧
      (gamescreen^[20] jumpStart).jump = true ∧ (gamescreen^[21] jumpStart).jump = false ∧
      (gamescreen^[21] jumpStart).pz = 3) ∧
    (blockedJump.jump = true ∧ blockedJump.ttime = 0 ∧
      (gamescreen blockedJump).jump = false ∧
      (gamescreen blockedJump).ttime = 13421773 / 134217728 ∧
      (gamescreen blockedJump).px = blockedJump.px ∧ (gamescreen blockedJump).pz = blockedJump.pz ∧
      cutShort blockedJump) := by
  have h20 := jumpStart_iterate 20 (le_refl _)
  have hland := h20.landing
  rw [← Function.iterate_succ_apply' gamescreen 20 jumpStart] at hland
  have hf : ¬ fatal blockedJump := by
    unfold fatal
    norm_num [blockedJump, playState, initial]
  have h := gamescreen_blocked blockedJump rfl rfl (tenths_jump 0 (by omega)) hf
    (by unfold isTile; decide) rfl (by unfold isTile; decide)
    (by rw [blockedJump_height]; norm_num [blockedJump, playState, initial])
  obtain ⟨h0, h1, h2, -, -, h5, h6, -⟩ := h
  refine ⟨⟨rfl, rfl, rfl, h20.jump, hland.1, hland.2.2.1⟩, rfl, rfl, h1, ?_, h5, h6, h0, h1⟩
  rw [h2]
  exact tenths_at_1
/-! ## C10: the offsets after a jump -/

/-- C10, the code at failing inputs. The jump from `jumpStart` ends at its 21st
tick with the jump flag clear, rx = 0 and ttime = 0, but with ry left at the
value the kinematics of that tick gave it, 0.4*t - 0.2*t*t at the `float` clock
value t = 8388609/4194304 of the 20th tick: about -9.5e-8 and not 0, so the end
of a jump does not reset the vertical offset. The jump of `blockedJump` is
ended by the collision check at its first tick with ry = 0 but with
ttime = 13421773/134217728 (the `float` 0.1): the cancellation does not reset
the jump clock. -/
theorem jump_end_keeps_offset :
    ((gamescreen^[21] jumpStart).jump = false ∧ (gamescreen^[21] jumpStart).rx = 0 ∧
      (gamescreen^[21] jumpStart).ttime = 0 ∧
      (gamescreen^[21] jumpStart).ry =
        0.4 * (8388609 / 4194304) - 0.2 * (8388609 / 4194304) * (8388609 / 4194304) ∧
      -(1 / 10000000) < (gamescreen^[21] jumpStart).ry ∧ (gamescreen^[21] jumpStart).ry < 0 ∧
      (gamescreen^[21] jumpStart).ry ≠ 0) ∧
    ((gamescreen blockedJump).jump = false ∧ (gamescreen blockedJump).ry = 0 ∧
      (gamescreen blockedJump).ttime = 13421773 / 134217728 ∧
      (gamescreen blockedJump).ttime ≠ 0) := by
  have h := (jumpStart_iterate 20 (le_refl _)).landing
  rw [← Function.iterate_succ_apply' gamescreen 20 jumpStart] at h
  obtain ⟨h1, -, -, h4, h5, h6⟩ := h
  have hf : ¬ fatal blockedJump := by
    unfold fatal
    norm_num [blockedJump, playState, initial]
  obtain ⟨-, b1, b2, -, b4, -, -, -⟩ := gamescreen_blocked blockedJump rfl rfl
    (tenths_jump 0 (by omega)) hf (by unfold isTile; decide) rfl
    (by unfold isTile; decide)
    (by rw [blockedJump_height]; norm_num [blockedJump, playState, initial])
  have bt : (gamescreen blockedJump).ttime = 13421773 / 134217728 := by
    rw [b2]
    exact tenths_at_1
  refine ⟨⟨h1, h4, h5, ?_, ?_, ?_, ?_⟩, ⟨b1, b4, bt, ?_⟩⟩
  · rw [h6]; norm_num
  · rw [h6]; norm_num
  · rw [h6]; norm_num
  · rw [h6]; norm_num
  · rw [bt]; norm_num
/-! ## C11: the direction during a jump -/

/-- What a Play tick leaves of the direction and the jump flag. -/
theorem playTick_dir_jump (inp : Input) (s : Game) :
    (playTick inp s).dir = (pointerDir inp (endCheck (gamescreen s))).dir ∧
      (playTick inp s).jump = (gamescreen s).jump := by
  simp [playTick, beforeCoins, beforeCompletion]

/-- A cursor that has moved to the right sets direction 3. -/
theorem pointerDir_right (inp : Input) (m : Game) (h : inp.xpos - m.xpos_o > 0) :
    (pointerDir inp m).dir = 3 := by
  have hn : ¬ inp.xpos - m.xpos_o < 0 := not_lt.mpr (le_of_lt h)
  unfold pointerDir
  simp [h, hn]

/-- In Play, during a jump, no event callback changes the direction. -/
theorem handleEvent_dir_of_jump (s : Game) (e : Event) (hs : s.sc_flag = 3) (hj : s.jump = true) :
    (handleEvent s e).dir = s.dir := by
  have hcm : ¬ canMove s := by
    unfold canMove
    simp [hj]
  unfold handleEvent
  split_ifs
  · rfl
  · cases e with
    | key k a =>
      cases a <;> cases k <;> simp [keyboard, keyPress, keyRelease, hs, hcm] <;> split_ifs <;> rfl
    | mouse b a =>
      cases b <;> cases a <;> simp [mouseButton, leftRelease, hs, hcm]
    | quitChar => simp
    | otherChar => rfl
    | close => simp

/-- C11, the code at a failing input. The jump of `jumpStart` has just started,
facing direction 1, and the cursor is found to the right of where it was: the
first Play tick of the jump leaves the jump flag set and the direction 3. The
event callbacks, by contrast, all leave the direction of a jumping player in
Play alone. -/
theorem pointer_turns_jumping_player :
    (jumpStart.jump = true ∧ jumpStart.dir = 1 ∧
      (playTick pointerRightInput jumpStart).jump = true ∧
      (playTick pointerRightInput jumpStart).dir = 3) ∧
    (∀ (s : Game) (e : Event), s.sc_flag = 3 → s.jump = true → (handleEvent s e).dir = s.dir) := by
  obtain ⟨hd, hj⟩ := playTick_dir_jump pointerRightInput jumpStart
  refine ⟨⟨rfl, rfl, ?_, ?_⟩, handleEvent_dir_of_jump⟩
  · rw [hj]
    exact (jumpStart_jumping.step (by decide)).1.jump
  · rw [hd]
    apply pointerDir_right
    have hx : (endCheck (gamescreen jumpStart)).xpos_o = 0 := by
      simp [jumpStart, playState, initial]
    rw [hx]
    norm_num [pointerRightInput, quietInput]

/-! ## C12: the elevator -/

/-- The elevator step reads the level, the height and the direction flag only. -/
theorem elevatorStep_congr (a b : Game) (hl : a.level = b.level) (hc : a.cy = b.cy)
    (hb : a.b_m = b.b_m) :
    (elevatorStep a).cy = (elevatorStep b).cy ∧ (elevatorStep a).b_m = (elevatorStep b).b_m := by
  unfold elevatorStep elevatorMove elevatorBottom elevatorTop
  simp only [hl, hc, hb]
  split_ifs <;> simp_all

/-- The height and direction flag that `gamescreen` leaves are those of the
elevator step applied to the state the call began with. -/
theorem gamescreen_elevator (s : Game) :
    (gamescreen s).cy = (elevatorStep s).cy ∧ (gamescreen s).b_m = (elevatorStep s).b_m := by
  have h1 : (gamescreen s).cy = (beforeJump s).cy := by simp [gamescreen, beforeCollision, beforeFatal]
  have h2 : (gamescreen s).b_m = (beforeJump s).b_m := by
    simp [gamescreen, beforeCollision, beforeFatal]
  have h := elevatorStep_congr (formatTimer (formatScore (helicopterTurn (autoAdvance s)))) s
    (by simp) (by simp) (by simp)
  rw [h1, h2]
  exact h

/-- The `float` step of 0.01 upwards is within 1e-7 of the exact step for a
height of magnitude at most 0.52. -/
theorem floatAdd_hundredth_near (x : ℚ) (h1 : -(52 / 100) ≤ x) (h2 : x ≤ 52 / 100) :
    |floatAdd x 0.01 - (x + 0.01)| ≤ 1 / 10000000 := by
  have e : floatAdd x 0.01 = toFloat (toDouble (x + 5764607523034235 / 576460752303423488)) := by
    unfold floatAdd
    rw [toDouble_hundredth]
  have hb := toFloat_toDouble_abs_sub_le (x + 5764607523034235 / 576460752303423488)
  have hz : |x + 5764607523034235 / 576460752303423488| ≤ 54 / 100 := by
    rw [abs_le]
    constructor <;> linarith
  have hE : |x + 5764607523034235 / 576460752303423488| / 2 ^ 23 ≤ 54 / 100 / 2 ^ 23 :=
    div_le_div_of_nonneg_right hz (by norm_num)
  rw [e]
  rw [abs_le] at hb ⊢
  obtain ⟨b1, b2⟩ := hb
  norm_num at hE b1 b2 ⊢
  constructor <;> linarith

/-- The `float` step of 0.01 downwards is within 1e-7 of the exact step for a
height of magnitude at most 0.52. -/
theorem floatSub_hundredth_near (x : ℚ) (h1 : -(52 / 100) ≤ x) (h2 : x ≤ 52 / 100) :
    |floatSub x 0.01 - (x - 0.01)| ≤ 1 / 10000000 := by
  have e : floatSub x 0.01 = toFloat (toDouble (x - 5764607523034235 / 576460752303423488)) := by
    unfold floatSub
    rw [toDouble_hundredth]
  have hb := toFloat_toDouble_abs_sub_le (x - 5764607523034235 / 576460752303423488)
  have hz : |x - 5764607523034235 / 576460752303423488| ≤ 54 / 100 := by
    rw [abs_le]
    constructor <;> linarith
  have hE : |x - 5764607523034235 / 576460752303423488| / 2 ^ 23 ≤ 54 / 100 / 2 ^ 23 :=
    div_le_div_of_nonneg_right hz (by norm_num)
  rw [e]
  rw [abs_le] at hb ⊢
  obtain ⟨b1, b2⟩ := hb
  norm_num at hE b1 b2 ⊢
  constructor <;> linarith

/-- One elevator step at level 3: the direction flag is changed at or beyond
the bound the elevator travels towards and nowhere else, and the height takes
one `float` step in the direction the flag then shows. -/
theorem elevatorStep_turn (m : Game) (hl : m.level = 3) (hf : m.b_m = 0 ∨ m.b_m = 1) :
    ((elevatorStep m).b_m = 0 ∧ (elevatorStep m).cy = floatAdd m.cy 0.01 ∧ m.cy < 0.5 ∨
      (elevatorStep m).b_m = 1 ∧ (elevatorStep m).cy = floatSub m.cy 0.01 ∧ -0.5 < m.cy) ∧
    ((elevatorStep m).b_m ≠ m.b_m ↔
      (m.b_m = 0 ∧ m.cy ≥ 0.5 ∨ m.b_m = 1 ∧ m.cy ≤ -0.5)) := by
  unfold elevatorStep
  rw [if_pos hl]
  by_cases ht : m.cy ≥ 0.5
  · have hb : ¬ m.cy ≤ -0.5 := by
      intro h
      norm_num at ht h
      linarith
    have e1 : elevatorTop m = { m with b_m := 1 } := by
      unfold elevatorTop
      rw [if_pos ht]
    have e2 : elevatorBottom { m with b_m := 1 } = { m with b_m := 1 } := by
      unfold elevatorBottom
      rw [if_neg (by simpa using hb)]
    have e3 : elevatorMove { m with b_m := 1 } = { m with b_m := 1, cy := floatSub m.cy 0.01 } := by
      unfold elevatorMove
      simp
    rw [e1, e2, e3]
    refine ⟨Or.inr ⟨rfl, rfl, lt_of_not_le hb⟩, ?_⟩
    show (1 : Int) ≠ m.b_m ↔ _
    rcases hf with h0 | h1
    · rw [h0]
      exact ⟨fun _ => Or.inl ⟨rfl, ht⟩, fun _ => by decide⟩
    · rw [h1]
      exact ⟨fun h => absurd rfl h, fun h => h.elim (fun a => absurd a.1 (by decide))
        (fun a => absurd a.2 hb)⟩
  · have e1 : elevatorTop m = m := by
      unfold elevatorTop
      rw [if_neg ht]
    rw [e1]
    by_cases hb : m.cy ≤ -0.5
    · have e2 : elevatorBottom m = { m with b_m := 0 } := by
        unfold elevatorBottom
        rw [if_pos hb]
      have e3 : elevatorMove { m with b_m := 0 } = { m with b_m := 0, cy := floatAdd m.cy 0.01 } := by
        unfold elevatorMove
        simp
      rw [e2, e3]
      refine ⟨Or.inl ⟨rfl, rfl, lt_of_not_le ht⟩, ?_⟩
      show (0 : Int) ≠ m.b_m ↔ _
      rcases hf with h0 | h1
      · rw [h0]
        exact ⟨fun h => absurd rfl h, fun h => h.elim (fun a => absurd a.2 ht)
          (fun a => absurd a.1 (by decide))⟩
      · rw [h1]
        exact ⟨fun _ => Or.inr ⟨rfl, hb⟩, fun _ => by decide⟩
    · have e2 : elevatorBottom m = m := by
        unfold elevatorBottom
        rw [if_neg hb]
      rw [e2]
      rcases hf with h0 | h1
      · have e3 : elevatorMove m = { m with cy := floatAdd m.cy 0.01 } := by
          unfold elevatorMove
          rw [if_pos h0]
        rw [e3]
        refine ⟨Or.inl ⟨h0, rfl, lt_of_not_le ht⟩, ?_⟩
        show m.b_m ≠ m.b_m ↔ _
        exact ⟨fun h => absurd rfl h, fun h => h.elim (fun a => absurd a.2 ht)
          (fun a => absurd a.2 hb)⟩
      · have e3 : elevatorMove m = { m with cy := floatSub m.cy 0.01 } := by
          unfold elevatorMove
          rw [if_neg (by rw [h1]; decide), if_pos h1]
        rw [e3]
        refine ⟨Or.inr ⟨h1, rfl, lt_of_not_le hb⟩, ?_⟩
        show m.b_m ≠ m.b_m ↔ _
        exact ⟨fun h => absurd rfl h, fun h => h.elim (fun a => absurd a.2 ht)
          (fun a => absurd a.2 hb)⟩

/-- C12 (amended). Along consecutive `gamescreen` ticks at level 3 (`tr k` is
the state in which tick k+1 begins, and between two ticks nothing writes the
elevator height or its direction flag), starting from height 0 with the
elevator travelling up or down: every tick moves cy by one `float` step of
0.01, within 1e-7 of 0.01, up when the direction flag it leaves is 0 and down
when it is 1; cy is within [-0.510001, 0.510001] when every tick begins and
ends; and a tick reverses the direction of travel exactly when it begins at or
beyond the bound the elevator travels towards: cy ≥ 0.5 travelling up, or
cy ≤ -0.5 travelling down. -/
theorem elevator_turns_past_bound (tr : Nat → Game)
    (hstart : (tr 0).cy = 0) (hflag : (tr 0).b_m = 0 ∨ (tr 0).b_m = 1)
    (hlevel : ∀ k, (tr k).level = 3)
    (hsteps : ∀ k, (tr (k + 1)).cy = (gamescreen (tr k)).cy ∧
      (tr (k + 1)).b_m = (gamescreen (tr k)).b_m) :
    ∀ k, (-(510001 / 1000000) ≤ (tr k).cy ∧ (tr k).cy ≤ 510001 / 1000000) ∧
      (-(510001 / 1000000) ≤ (gamescreen (tr k)).cy ∧
        (gamescreen (tr k)).cy ≤ 510001 / 1000000) ∧
      ((gamescreen (tr k)).b_m = 0 ∧ (gamescreen (tr k)).cy = floatAdd (tr k).cy 0.01 ∧
          |(gamescreen (tr k)).cy - ((tr k).cy + 0.01)| ≤ 1 / 10000000 ∨
        (gamescreen (tr k)).b_m = 1 ∧ (gamescreen (tr k)).cy = floatSub (tr k).cy 0.01 ∧
          |(gamescreen (tr k)).cy - ((tr k).cy - 0.01)| ≤ 1 / 10000000) ∧
      ((gamescreen (tr k)).b_m ≠ (tr k).b_m ↔
        ((tr k).b_m = 0 ∧ (tr k).cy ≥ 0.5 ∨ (tr k).b_m = 1 ∧ (tr k).cy ≤ -0.5)) := by
  have step : ∀ m : Game, m.level = 3 → (m.b_m = 0 ∨ m.b_m = 1) →
      -(510001 / 1000000) ≤ m.cy → m.cy ≤ 510001 / 1000000 →
      ((elevatorStep m).b_m = 0 ∨ (elevatorStep m).b_m = 1) ∧
      (-(510001 / 1000000) ≤ (elevatorStep m).cy ∧ (elevatorStep m).cy ≤ 510001 / 1000000) ∧
      ((elevatorStep m).b_m = 0 ∧ (elevatorStep m).cy = floatAdd m.cy 0.01 ∧
          |(elevatorStep m).cy - (m.cy + 0.01)| ≤ 1 / 10000000 ∨
        (elevatorStep m).b_m = 1 ∧ (elevatorStep m).cy = floatSub m.cy 0.01 ∧
          |(elevatorStep m).cy - (m.cy - 0.01)| ≤ 1 / 10000000) := by
    intro m hl hf h1 h2
    rcases (elevatorStep_turn m hl hf).1 with ⟨a, b, c⟩ | ⟨a, b, c⟩
    · have hn := floatAdd_hundredth_near m.cy (by linarith) (by linarith)
      rw [← b] at hn
      have hn2 := abs_le.mp hn
      norm_num at c hn2
      refine ⟨Or.inl a, ⟨?_, ?_⟩, Or.inl ⟨a, b, hn⟩⟩ <;> linarith [hn2.1, hn2.2]
    · have hn := floatSub_hundredth_near m.cy (by linarith) (by linarith)
      rw [← b] at hn
      have hn2 := abs_le.mp hn
      norm_num at c hn2
      refine ⟨Or.inr a, ⟨?_, ?_⟩, Or.inr ⟨a, b, hn⟩⟩ <;> linarith [hn2.1, hn2.2]
  have inv : ∀ k, ((tr k).b_m = 0 ∨ (tr k).b_m = 1) ∧
      -(510001 / 1000000) ≤ (tr k).cy ∧ (tr k).cy ≤ 510001 / 1000000 := by
    intro k
    induction k with
    | zero => exact ⟨hflag, by rw [hstart]; norm_num, by rw [hstart]; norm_num⟩
    | succ j ih =>
      obtain ⟨s1, s2⟩ := hsteps j
      obtain ⟨g1, g2⟩ := gamescreen_elevator (tr j)
      obtain ⟨a, b, -⟩ := step (tr j) (hlevel j) ih.1 ih.2.1 ih.2.2
      rw [s1, s2, g1, g2]
      exact ⟨a, b⟩
  intro k
  obtain ⟨hf, h1, h2⟩ := inv k
  obtain ⟨g1, g2⟩ := gamescreen_elevator (tr k)
  obtain ⟨-, b, c⟩ := step (tr k) (hlevel k) hf h1 h2
  rw [g1, g2]
  exact ⟨⟨h1, h2⟩, b, c, (elevatorStep_turn (tr k) (hlevel k) hf).2⟩

/-- Level and what else `gamescreen` leaves alone stay as they are over
repeated calls. -/
theorem gamescreen_iterate_level (s : Game) (k : Nat) : (gamescreen^[k] s).level = s.level := by
  induction k with
  | zero => rfl
  | succ j ih => rw [Function.iterate_succ_apply']; simp [ih]

/-- The first rise of the elevator: `k` ticks after a level-3 game started from
rest the height is the `k`-th `float` multiple of 0.01 and the elevator is
still travelling up, for every k up to 51. -/
theorem rising_iterate (k : Nat) (hk : k ≤ 51) : Rising k (gamescreen^[k] levelThreeState) := by
  induction k with
  | zero => exact ⟨rfl, rfl, rfl⟩
  | succ j ih =>
    have h := ih (by omega)
    rw [Function.iterate_succ_apply']
    obtain ⟨g1, g2⟩ := gamescreen_elevator (gamescreen^[j] levelThreeState)
    obtain ⟨e1, e2⟩ := elevatorStep_rising _ h.level h.flag
      (by rw [h.height]; exact (hundredths_rising j (by omega)).2)
    refine ⟨by simp [h.level], ?_, by rw [g2, e2]⟩
    rw [g1, e1, h.height]
    rfl

/-- C12, witness: the ticks of `levelThreeState`, the elevator starting at
height 0 and travelling up, at the 52nd tick. -/
theorem elevator_turns_past_bound_witness :
    (-(510001 / 1000000) ≤ (gamescreen^[51] levelThreeState).cy ∧
      (gamescreen^[51] levelThreeState).cy ≤ 510001 / 1000000) ∧
      ((gamescreen (gamescreen^[51] levelThreeState)).b_m ≠ (gamescreen^[51] levelThreeState).b_m ↔
        ((gamescreen^[51] levelThreeState).b_m = 0 ∧ (gamescreen^[51] levelThreeState).cy ≥ 0.5 ∨
          (gamescreen^[51] levelThreeState).b_m = 1 ∧
            (gamescreen^[51] levelThreeState).cy ≤ -0.5)) :=
  have h := elevator_turns_past_bound (fun j => gamescreen^[j] levelThreeState) rfl (Or.inl rfl)
    (fun j => gamescreen_iterate_level levelThreeState j)
    (fun j => by
      show (gamescreen^[j + 1] levelThreeState).cy = _ ∧ (gamescreen^[j + 1] levelThreeState).b_m = _
      rw [Function.iterate_succ_apply']
      exact ⟨rfl, rfl⟩) 51
  ⟨h.1, h.2.2.2⟩

/-- C12, counterexample: a level-3 game started from rest at height 0 with the
elevator travelling up. After 50 ticks the `float` height is 8388605/16777216,
below 0.5, so the 51st tick still moves up and leaves 8556377/16777216, above
0.5 and outside [-0.5, 0.5]; the direction flag is still 0 after the 51st tick
and is reversed by the 52nd, which begins above 0.5 and not at 0.5. -/
theorem elevator_overshoots_top :
    levelThreeState.level = 3 ∧ levelThreeState.cy = 0 ∧ levelThreeState.b_m = 0 ∧
    (gamescreen^[50] levelThreeState).cy = 8388605 / 16777216 ∧
    (gamescreen^[50] levelThreeState).cy < 0.5 ∧
    (gamescreen^[51] levelThreeState).cy = 8556377 / 16777216 ∧
    ¬ (gamescreen^[51] levelThreeState).cy ≤ 0.5 ∧
    (gamescreen^[51] levelThreeState).b_m = 0 ∧
    (gamescreen^[52] levelThreeState).b_m = 1 ∧
    (gamescreen^[52] levelThreeState).cy = 8388605 / 16777216 := by
  have h50 := rising_iterate 50 (by omega)
  have h51 := rising_iterate 51 (le_refl _)
  have c50 : (gamescreen^[50] levelThreeState).cy = 8388605 / 16777216 := by
    rw [h50.height, hundredths_at_50]
  have c51 : (gamescreen^[51] levelThreeState).cy = 8556377 / 16777216 := by
    rw [h51.height, hundredths_at_51]
  obtain ⟨g1, g2⟩ := gamescreen_elevator (gamescreen^[51] levelThreeState)
  have ht := elevatorStep_turn (gamescreen^[51] levelThreeState) h51.level (Or.inl h51.flag)
  have hge : (gamescreen^[51] levelThreeState).cy ≥ 0.5 := by rw [c51]; norm_num
  have e52 : gamescreen^[52] levelThreeState = gamescreen (gamescreen^[51] levelThreeState) :=
    Function.iterate_succ_apply' gamescreen 51 levelThreeState
  have hturn : (elevatorStep (gamescreen^[51] levelThreeState)).b_m = 1 ∧
      (elevatorStep (gamescreen^[51] levelThreeState)).cy =
        floatSub (gamescreen^[51] levelThreeState).cy 0.01 := by
    rcases ht.1 with ⟨-, -, c⟩ | ⟨a, b, -⟩
    · exact absurd hge (not_le.mpr c)
    · exact ⟨a, b⟩
  refine ⟨rfl, rfl, rfl, c50, by rw [c50]; norm_num, c51, by rw [c51]; norm_num, h51.flag, ?_, ?_⟩
  · rw [e52, g2]
    exact hturn.1
  · rw [e52, g1, hturn.2, c51]
    exact floatSub_after_rise
/-! ## C13: landing on an elevator tile -/

/-- C13 (amended). At the elevator-tile logic of a Play tick (state `m`), with
the player's cell an elevator tile and on_tile false: if the elevator stands
above the player's vertical offset (cy > ry), health decreases by exactly 5 and
the player is moved back one cell against the movement direction, on_tile
staying false; if it stands a quarter or more below (cy <= ry - 0.25), health
decreases by exactly 5, the player stays on the cell and on_tile becomes true;
in between, health and position are unchanged and on_tile becomes true. -/
theorem elevator_landing (m : Game) (htile : isTile m (10 * m.pz + m.px))
    (hoff : m.on_tile = false) :
    (m.cy > m.ry →
      (tileLanding m).health = m.health - 5 ∧ (tileLanding m).on_tile = false ∧
        (m.dir = 1 → (tileLanding m).pz = m.pz + 1 ∧ (tileLanding m).px = m.px) ∧
        (m.dir = 4 → (tileLanding m).pz = m.pz - 1 ∧ (tileLanding m).px = m.px) ∧
        (m.dir = 2 → (tileLanding m).px = m.px + 1 ∧ (tileLanding m).pz = m.pz) ∧
        (m.dir = 3 → (tileLanding m).px = m.px - 1 ∧ (tileLanding m).pz = m.pz)) ∧
    (m.cy ≤ m.ry - 0.25 →
      (tileLanding m).health = m.health - 5 ∧ (tileLanding m).on_tile = true ∧
        (tileLanding m).px = m.px ∧ (tileLanding m).pz = m.pz) ∧
    (m.ry - 0.25 < m.cy → m.cy ≤ m.ry →
      (tileLanding m).health = m.health ∧ (tileLanding m).on_tile = true ∧
        (tileLanding m).px = m.px ∧ (tileLanding m).pz = m.pz) := by
  refine ⟨fun h => ?_, fun h => ?_, fun h1 h2 => ?_⟩
  · have hc : m.cy + 0.5 > 0.5 + m.ry ∧ m.on_tile = false := ⟨by linarith, hoff⟩
    have e : tileLanding m = bounceBack { m with health := m.health - 5 } := by
      unfold tileLanding
      rw [if_pos htile, if_pos hc]
    have hb := bounceBack_cases { m with health := m.health - 5 }
    rw [e]
    exact ⟨by simp, by simp [hoff], hb.1, hb.2.1, hb.2.2.1, hb.2.2.2⟩
  · have hc : ¬ (m.cy + 0.5 > 0.5 + m.ry ∧ m.on_tile = false) := fun hc => by linarith [hc.1]
    have hc2 : m.cy + 0.5 ≤ 0.5 + m.ry := by linarith
    have hc3 : m.on_tile = false ∧ m.cy + 0.75 ≤ 0.5 + m.ry := ⟨hoff, by linarith⟩
    have e : tileLanding m = { dropPenalty m with on_tile := true } := by
      unfold tileLanding
      rw [if_pos htile, if_neg hc, if_pos hc2]
    have ed : dropPenalty m = { m with health := m.health - 5 } := by
      unfold dropPenalty
      rw [if_pos hc3]
    rw [e, ed]
    exact ⟨rfl, rfl, rfl, rfl⟩
  · have hc : ¬ (m.cy + 0.5 > 0.5 + m.ry ∧ m.on_tile = false) := fun hc => by linarith [hc.1]
    have hc2 : m.cy + 0.5 ≤ 0.5 + m.ry := by linarith
    have hc3 : ¬ (m.on_tile = false ∧ m.cy + 0.75 ≤ 0.5 + m.ry) := fun hc => by linarith [hc.2]
    have e : tileLanding m = { dropPenalty m with on_tile := true } := by
      unfold tileLanding
      rw [if_pos htile, if_neg hc, if_pos hc2]
    have ed : dropPenalty m = m := by
      unfold dropPenalty
      rw [if_neg hc3]
    rw [e, ed]
    exact ⟨rfl, rfl, rfl, rfl⟩

/-- C13, witness: the tile stands above the player, who is moved back from
(5,5) to (5,6) and loses 5 health. -/
theorem elevator_landing_witness :
    (tileLanding highTileState).health = highTileState.health - 5 ∧
      (tileLanding highTileState).pz = highTileState.pz + 1 ∧
      (tileLanding highTileState).px = highTileState.px :=
  have h := (elevator_landing highTileState (by unfold isTile; decide) rfl).1
    (by norm_num [highTileState, playState, initial])
  ⟨h.1, (h.2.2.1 rfl).1, (h.2.2.1 rfl).2⟩

/-- C13, counterexample: the player's cell (5,5) is an elevator tile, on_tile is
false and the elevator stands at -0.3, outside the bracket on the low side
(cy <= ry - 0.25). Health drops by 5, but the step is not reversed: the player
is still on (5,5), now with on_tile set. -/
theorem low_elevator_keeps_player :
    isTile lowTileState (10 * lowTileState.pz + lowTileState.px) ∧
      lowTileState.on_tile = false ∧ lowTileState.cy ≤ lowTileState.ry - 0.25 ∧
      (tileLanding lowTileState).health = lowTileState.health - 5 ∧
      (tileLanding lowTileState).px = 5 ∧ (tileLanding lowTileState).pz = 5 ∧
      (tileLanding lowTileState).on_tile = true := by
  have ht : isTile lowTileState (10 * lowTileState.pz + lowTileState.px) := by
    unfold isTile; decide
  have hlow : lowTileState.cy ≤ lowTileState.ry - 0.25 := by
    norm_num [lowTileState, playState, initial]
  have hc : ¬ (lowTileState.cy + 0.5 > 0.5 + lowTileState.ry ∧ lowTileState.on_tile = false) :=
    fun hc => by linarith [hc.1]
  have e : tileLanding lowTileState = { dropPenalty lowTileState with on_tile := true } := by
    unfold tileLanding
    rw [if_pos ht, if_neg hc, if_pos (by linarith)]
  have ed : dropPenalty lowTileState = { lowTileState with health := lowTileState.health - 5 } := by
    unfold dropPenalty
    rw [if_pos ⟨rfl, by linarith⟩]
  refine ⟨ht, rfl, hlow, ?_, ?_, ?_, ?_⟩ <;> rw [e, ed] <;> rfl

/-! ## C14: the camera priority -/

/-- C14. The camera frame is that of the first set toggle in the order tower,
top, follow, helicopter, adventure, and the default overhead frame (eye
(0.5,2,7), target (0,0,0), up (0,1,0)) when none is set. Toggles of lower
priority have no influence: changing them leaves the frame as it is. -/
theorem camera_priority (T : Trig) (s : Game) :
    (s.tower_view = true →
      camera T s =
        { ex := 0, ey := 10, ez := 10, tx := 0, ty := 0, tz := 0, ux := 0, uy := 1, uz := 0 } ∧
      ∀ a b c d : Bool,
        camera T
            { s with top_view := a, follow_view := b, helicopter_view := c, adventure_view := d } =
          camera T s) ∧
    (s.tower_view = false → s.top_view = true →
      camera T s =
        { ex := 0, ey := 10, ez := 0, tx := 0, ty := 0, tz := 3, ux := 0, uy := -1, uz := 0 } ∧
      ∀ b c d : Bool,
        camera T { s with follow_view := b, helicopter_view := c, adventure_view := d } =
          camera T s) ∧
    (s.tower_view = false → s.top_view = false → s.follow_view = true →
      camera T s =
        { ex := 0.6 * s.px - 3, ey := 5, ez := 7 + 0.6 * s.pz
          tx := -3 + 0.6 * s.px, ty := 0.5 + s.ry + s.cy, tz := 0.6 * s.pz
          ux := 0, uy := 1, uz := 0 } ∧
      ∀ c d : Bool, camera T { s with helicopter_view := c, adventure_view := d } = camera T s) ∧
    (s.tower_view = false → s.top_view = false → s.follow_view = false →
      s.helicopter_view = true →
      camera T s =
        { ex := T.sin (s.camera_rotation_angle * T.pi / 180) * 10, ey := 2
          ez := T.cos (s.camera_rotation_angle * T.pi / 180) * 10
          tx := 0, ty := 0, tz := 0, ux := 0, uy := 1, uz := 0 } ∧
      ∀ d : Bool, camera T { s with adventure_view := d } = camera T s) ∧
    (s.tower_view = false → s.top_view = false → s.follow_view = false →
      s.helicopter_view = false → s.adventure_view = true →
      (camera T s).ex = -3 + 0.6 * s.px ∧ (camera T s).ey = 0.5 + s.ry + s.cy + 1 ∧
        (camera T s).ez = 0.6 * s.pz - 2 ∧ (camera T s).ty = 0.5 + s.ry + s.cy ∧
        (s.dir = 1 → (camera T s).tx = -3 + 0.6 * s.px ∧ (camera T s).tz = 0.6 * s.pz - 5) ∧
        (s.dir = 4 → (camera T s).tx = -3 + 0.6 * s.px ∧ (camera T s).tz = 0.6 * s.pz + 5) ∧
        (s.dir = 2 → (camera T s).tx = -3 + 0.6 * s.px - 5 ∧ (camera T s).tz = 0.6 * s.pz - 2) ∧
        (s.dir = 3 → (camera T s).tx = -3 + 0.6 * s.px + 5 ∧ (camera T s).tz = 0.6 * s.pz - 2) ∧
        (camera T s).ux = 0 ∧ (camera T s).uy = 1 ∧ (camera T s).uz = 0) ∧
    (s.tower_view = false → s.top_view = false → s.follow_view = false →
      s.helicopter_view = false → s.adventure_view = false →
      camera T s =
        { ex := 0.5, ey := 2, ez := 7, tx := 0, ty := 0, tz := 0, ux := 0, uy := 1, uz := 0 }) := by
  refine ⟨fun h1 => ?_, fun h1 h2 => ?_, fun h1 h2 h3 => ?_, fun h1 h2 h3 h4 => ?_,
    fun h1 h2 h3 h4 h5 => ?_, fun h1 h2 h3 h4 h5 => ?_⟩
  · refine ⟨by simp [camera, h1], fun a b c d => ?_⟩
    simp [camera, h1]
  · refine ⟨by simp [camera, h1, h2], fun b c d => ?_⟩
    simp [camera, h1, h2]
  · refine ⟨by simp [camera, h1, h2, h3], fun c d => ?_⟩
    simp [camera, h1, h2, h3]
  · refine ⟨by simp [camera, h1, h2, h3, h4], fun d => ?_⟩
    simp [camera, h1, h2, h3, h4]
  · have e : camera T s =
        { ex := -3 + 0.6 * s.px, ey := 0.5 + s.ry + s.cy + 1, ez := 0.6 * s.pz - 2
          tx := if s.dir = 1 then -3 + 0.6 * s.px
                else if s.dir = 4 then -3 + 0.6 * s.px
                else if s.dir = 2 then -3 + 0.6 * s.px - 5
                else if s.dir = 3 then -3 + 0.6 * s.px + 5
                else -3 + 0.6 * s.px
          ty := 0.5 + s.ry + s.cy
          tz := if s.dir = 1 then 0.6 * s.pz - 5
                else if s.dir = 4 then 0.6 * s.pz + 5
                else 0.6 * s.pz - 2
          ux := 0, uy := 1, uz := 0 } := by
      simp [camera, h1, h2, h3, h4, h5]
    rw [e]
    refine ⟨rfl, rfl, rfl, rfl, fun hd => ?_, fun hd => ?_, fun hd => ?_, fun hd => ?_, rfl, rfl, rfl⟩
    · simp [hd]
    · simp [hd]
    · simp [hd]
    · simp [hd]
  · simp [camera, h1, h2, h3, h4, h5]

/-- C14, witness: with the tower and the adventure toggle both set the frame is
the tower frame. -/
theorem camera_priority_witness :
    camera quarterTurn { playState with tower_view := true, adventure_view := true } =
      { ex := 0, ey := 10, ez := 10, tx := 0, ty := 0, tz := 0, ux := 0, uy := 1, uz := 0 } :=
  ((camera_priority quarterTurn { playState with tower_view := true, adventure_view := true }).1
    rfl).1

/-! ## C15: lives -/

/-- A `gamescreen` call takes at most one life. -/
theorem gamescreen_lives (s : Game) :
    (gamescreen s).lives = s.lives ∨ (gamescreen s).lives = s.lives - 1 := by
  have h1 : (gamescreen s).lives = (fatalCheck (beforeFatal s)).lives := by
    simp [gamescreen, beforeCollision]
  have h2 : (beforeFatal s).lives = s.lives := by simp
  rw [h1, ← h2]
  unfold fatalCheck
  split_ifs
  · exact Or.inr rfl
  · exact Or.inl rfl

/-- The lives a Play tick leaves are those of the level-completion check. -/
theorem playTick_lives (inp : Input) (s : Game) :
    (playTick inp s).lives = (beforeCoins inp s).lives ∧
      (playTick inp s).sc_flag = (beforeCoins inp s).sc_flag := by
  simp [playTick]

/-- The level-completion check leaves lives alone or sets them to 3, and never
leaves the End screen. -/
theorem completionCheck_lives (m : Game) :
    ((completionCheck m).lives = m.lives ∨ (completionCheck m).lives = 3) ∧
      (m.sc_flag = 4 → (completionCheck m).sc_flag = 4) := by
  unfold completionCheck
  split_ifs with h
  · have hs := levelStart_screen { m with level := m.level + 1, px := 0, pz := 9, coin_count := 0 }
    rw [hs.1, hs.2]
    split_ifs
    · exact ⟨Or.inr rfl, fun _ => rfl⟩
    · exact ⟨Or.inl rfl, fun h4 => h4⟩
  · exact ⟨Or.inl rfl, fun h4 => h4⟩

/-- A Play tick keeps lives within 1..3, and when `gamescreen` has taken the
last life the tick ends on the End screen with lives back at 3. -/
theorem playTick_lives_range (inp : Input) (s : Game) (h1 : 1 ≤ s.lives) (h3 : s.lives ≤ 3) :
    (1 ≤ (playTick inp s).lives ∧ (playTick inp s).lives ≤ 3) ∧
      ((gamescreen s).lives = 0 → (playTick inp s).sc_flag = 4 ∧ (playTick inp s).lives = 3) := by
  obtain ⟨p1, p2⟩ := playTick_lives inp s
  have hg := gamescreen_lives s
  have hbc : (beforeCompletion inp s).lives = (endCheck (gamescreen s)).lives ∧
      (beforeCompletion inp s).sc_flag = (endCheck (gamescreen s)).sc_flag := by
    simp [beforeCompletion]
  have hc := completionCheck_lives (beforeCompletion inp s)
  have hbc' : beforeCoins inp s = completionCheck (beforeCompletion inp s) := rfl
  rw [p1, p2, hbc']
  by_cases he : (gamescreen s).lives = 0 ∨ (gamescreen s).level = 4 ∨ (gamescreen s).timer = 0
  · have e := endCheck_pos _ he
    have el : (beforeCompletion inp s).lives = 3 := by rw [hbc.1, e]
    have es : (beforeCompletion inp s).sc_flag = 4 := by rw [hbc.2, e]
    rw [el] at hc
    have hl : (completionCheck (beforeCompletion inp s)).lives = 3 := hc.1.elim id id
    exact ⟨⟨by rw [hl]; decide, by rw [hl]⟩, fun _ => ⟨hc.2 es, hl⟩⟩
  · have e := endCheck_neg _ he
    have hne : (gamescreen s).lives ≠ 0 := fun h0 => he (Or.inl h0)
    have el : (beforeCompletion inp s).lives = (gamescreen s).lives := by rw [hbc.1, e]
    rw [el] at hc
    refine ⟨?_, fun h0 => absurd h0 hne⟩
    rcases hc.1 with hl | hl
    · rw [hl]; constructor <;> omega
    · rw [hl]; constructor <;> decide

/-- An event callback leaves lives alone or sets them to 3. -/
theorem handleEvent_lives (s : Game) (e : Event) :
    (handleEvent s e).lives = s.lives ∨ (handleEvent s e).lives = 3 := by
  unfold handleEvent
  split_ifs
  · exact Or.inl rfl
  · cases e with
    | key k a =>
      cases a <;> cases k <;> simp [keyboard, keyPress, keyRelease, quit, newGameKey] <;>
        split_ifs <;> simp
    | mouse b a =>
      cases b <;> cases a <;> simp [mouseButton, leftRelease, quit, newGameClick] <;>
        split_ifs <;> simp
    | quitChar => exact Or.inl rfl
    | otherChar => exact Or.inl rfl
    | close => exact Or.inl rfl

/-- A poll keeps lives within 1..3. -/
theorem pollEvents_lives (es : List Event) :
    ∀ s : Game, 1 ≤ s.lives → s.lives ≤ 3 →
      1 ≤ (pollEvents es s).lives ∧ (pollEvents es s).lives ≤ 3 := by
  induction es with
  | nil => intro s h1 h3; exact ⟨h1, h3⟩
  | cons e rest ih =>
    intro s h1 h3
    have h := handleEvent_lives s e
    have : 1 ≤ (handleEvent s e).lives ∧ (handleEvent s e).lives ≤ 3 := by
      rcases h with h | h <;> rw [h]
      · exact ⟨h1, h3⟩
      · constructor <;> decide
    exact ih (handleEvent s e) this.1 this.2

/-- The screen dispatch keeps lives within 1..3. -/
theorem screenStep_lives (inp : Input) (s : Game) (h1 : 1 ≤ s.lives) (h3 : s.lives ≤ 3) :
    1 ≤ (screenStep inp s).lives ∧ (screenStep inp s).lives ≤ 3 := by
  unfold screenStep
  split_ifs
  · simp [h1, h3]
  · simp [h1, h3]
  · have e : (gameStep inp s).lives = (playOrLoad inp (loadingAdvance s)).lives := by
      simp [gameStep]
    rw [e]
    unfold playOrLoad
    split_ifs
    · exact (playTick_lives_range inp _ (by simpa using h1) (by simpa using h3)).1
    · simp [h1, h3]
  · simp [h1, h3]
  · exact ⟨h1, h3⟩

/-- One iteration of the main loop keeps lives within 1..3. -/
theorem mainLoop_lives (inp : Input) (s : Game) (h1 : 1 ≤ s.lives) (h3 : s.lives ≤ 3) :
    1 ≤ (mainLoop inp s).lives ∧ (mainLoop inp s).lives ≤ 3 := by
  have hp := pollEvents_lives inp.events (screenStep inp s) (screenStep_lives inp s h1 h3).1
    (screenStep_lives inp s h1 h3).2
  unfold mainLoop
  dsimp only
  split_ifs
  · exact ⟨h1, h3⟩
  · exact hp
  · simpa using hp
  · exact ⟨h1, h3⟩

/-- Any number of iterations keeps lives within 1..3. -/
theorem run_lives (inps : List Input) :
    ∀ s : Game, 1 ≤ s.lives → s.lives ≤ 3 → 1 ≤ (run inps s).lives ∧ (run inps s).lives ≤ 3 := by
  induction inps with
  | nil => intro s h1 h3; exact ⟨h1, h3⟩
  | cons inp rest ih =>
    intro s h1 h3
    have h := mainLoop_lives inp s h1 h3
    exact ih (mainLoop inp s) h.1 h.2

/-- C15. From the initial state lives is within [0,3] after every main-loop
iteration and after every event of every poll (it is within 1..3 there). Inside
a Play tick `gamescreen` can take lives to 0, from 1; the same tick then
switches the screen to End and sets lives back to 3. -/
theorem lives_in_range :
    (∀ (x0 y0 t0 t1 : ℚ) (inps : List Input),
      1 ≤ (run inps (initial x0 y0 t0 t1)).lives ∧ (run inps (initial x0 y0 t0 t1)).lives ≤ 3) ∧
    (∀ (x0 y0 t0 t1 : ℚ) (inps : List Input) (inp : Input) (es : List Event),
      1 ≤ (pollEvents es (screenStep inp (run inps (initial x0 y0 t0 t1)))).lives ∧
        (pollEvents es (screenStep inp (run inps (initial x0 y0 t0 t1)))).lives ≤ 3) ∧
    (∀ (inp : Input) (s : Game), 1 ≤ s.lives → s.lives ≤ 3 →
      (0 ≤ (gamescreen s).lives ∧ (gamescreen s).lives ≤ 3) ∧
        ((gamescreen s).lives = 0 → s.lives = 1 ∧ (playTick inp s).sc_flag = 4 ∧
          (playTick inp s).lives = 3) ∧
        (1 ≤ (playTick inp s).lives ∧ (playTick inp s).lives ≤ 3)) := by
  have hinit : ∀ x0 y0 t0 t1 : ℚ, 1 ≤ (initial x0 y0 t0 t1).lives ∧ (initial x0 y0 t0 t1).lives ≤ 3 :=
    fun _ _ _ _ => ⟨by simp [initial], by simp [initial]⟩
  refine ⟨?_, ?_, ?_⟩
  · intro x0 y0 t0 t1 inps
    exact run_lives inps _ (hinit x0 y0 t0 t1).1 (hinit x0 y0 t0 t1).2
  · intro x0 y0 t0 t1 inps inp es
    have h := run_lives inps _ (hinit x0 y0 t0 t1).1 (hinit x0 y0 t0 t1).2
    have h2 := screenStep_lives inp _ h.1 h.2
    exact pollEvents_lives es _ h2.1 h2.2
  · intro inp s h1 h3
    have hg := gamescreen_lives s
    have hp := playTick_lives_range inp s h1 h3
    refine ⟨?_, fun h0 => ⟨?_, hp.2 h0⟩, hp.1⟩
    · rcases hg with h | h <;> rw [h] <;> constructor <;> omega
    · rcases hg with h | h <;> omega

/-- C15, witness: the player of `lastLifeState`, on a hole with one life left. -/
theorem lives_in_range_witness :
    ((gamescreen lastLifeState).lives = 0 → lastLifeState.lives = 1 ∧
      (playTick quietInput lastLifeState).sc_flag = 4 ∧
      (playTick quietInput lastLifeState).lives = 3) ∧
    1 ≤ (playTick quietInput lastLifeState).lives :=
  have h := lives_in_range.2.2 quietInput lastLifeState (by decide) (by decide)
  ⟨h.2.1, h.2.2.1⟩

/-! ## C16: health -/

/-- The elevator-tile logic takes 5 health or none. -/
theorem tileLanding_health (m : Game) :
    (tileLanding m).health = m.health ∨ (tileLanding m).health = m.health - 5 := by
  unfold tileLanding dropPenalty
  split_ifs <;> simp

/-- The collision checks take 5 health or none. -/
theorem tileCollision_health (m : Game) :
    (tileCollision m).health = m.health ∨ (tileCollision m).health = m.health - 5 := by
  rcases tileCollision_cases m with h | ⟨h, -⟩
  · rw [h]; exact Or.inl rfl
  · rw [h]
    unfold jumpCancel
    split_ifs
    · exact Or.inr rfl
    · exact Or.inl rfl

/-- Right after the fatal check health is positive, and at most 15 if it was
at most 15 before. -/
theorem fatalCheck_health (m : Game) (h : m.health ≤ 15) :
    0 < (fatalCheck m).health ∧ (fatalCheck m).health ≤ 15 := by
  unfold fatalCheck
  split_ifs with hf
  · exact ⟨by norm_num, le_refl _⟩
  · unfold fatal at hf
    push_neg at hf
    exact ⟨hf.2.2.2.2.2.2.2.2.2, h⟩

/-- The health `gamescreen` leaves, against the health right after its fatal check. -/
theorem gamescreen_health (s : Game) :
    (fatalCheck (beforeFatal s)).health - 10 ≤ (gamescreen s).health ∧
      (gamescreen s).health ≤ (fatalCheck (beforeFatal s)).health := by
  have h1 := tileLanding_health (fatalCheck (beforeFatal s))
  have h2 := tileCollision_health (tileLanding (fatalCheck (beforeFatal s)))
  have e : gamescreen s = tileCollision (tileLanding (fatalCheck (beforeFatal s))) := rfl
  rw [e]
  rcases h1 with h1 | h1 <;> rcases h2 with h2 | h2 <;> rw [h2, h1] <;> constructor <;> linarith

/-- The fire check takes 0.1 health or none. -/
theorem fireCheck_health (m : Game) :
    (fireCheck m).health = m.health ∨ (fireCheck m).health = m.health - 0.1 := by
  unfold fireCheck
  split_ifs <;> simp

/-- The End check leaves health alone or sets it to 15. -/
theorem endCheck_health (m : Game) :
    (endCheck m).health = m.health ∨ (endCheck m).health = 15 := by
  unfold endCheck
  split_ifs
  · exact Or.inr rfl
  · exact Or.inl rfl

/-- The health a Play tick leaves. -/
theorem playTick_health (inp : Input) (s : Game) (h : s.health ≤ 15) :
    -10.1 < (playTick inp s).health ∧ (playTick inp s).health ≤ 15 := by
  have hbf : (beforeFatal s).health = s.health := by simp
  have hfc := fatalCheck_health (beforeFatal s) (by rw [hbf]; exact h)
  have hg := gamescreen_health s
  have he := endCheck_health (gamescreen s)
  have hf := fireCheck_health (coinCheck (beforeCoins inp s))
  have hc : (coinCheck (beforeCoins inp s)).health = (endCheck (gamescreen s)).health := by
    simp [beforeCoins, beforeCompletion]
  have e : playTick inp s = fireCheck (coinCheck (beforeCoins inp s)) := rfl
  rw [e]
  rcases hf with hf | hf <;> rcases he with he | he <;> rw [hf, hc, he] <;> constructor <;>
    norm_num <;> linarith

/-- One iteration of the main loop keeps health above -10.1 and at most 15. -/
theorem mainLoop_health (inp : Input) (s : Game) (h0 : -10.1 < s.health) (h : s.health ≤ 15) :
    -10.1 < (mainLoop inp s).health ∧ (mainLoop inp s).health ≤ 15 := by
  have hs : -10.1 < (screenStep inp s).health ∧ (screenStep inp s).health ≤ 15 := by
    unfold screenStep
    split_ifs
    · simp [h0, h]
    · simp [h0, h]
    · have e : (gameStep inp s).health = (playOrLoad inp (loadingAdvance s)).health := by
        simp [gameStep]
      rw [e]
      unfold playOrLoad
      split_ifs
      · exact playTick_health inp _ (by simpa using h)
      · simp [loadingTick]; norm_num
    · simp [h0, h]
    · exact ⟨h0, h⟩
  have hp : (pollEvents inp.events (screenStep inp s)).health = (screenStep inp s).health :=
    (pollEvents_frame inp.events (screenStep inp s)).1
  unfold mainLoop
  dsimp only
  split_ifs
  · exact ⟨h0, h⟩
  · rw [hp]; exact hs
  · simp only [timerStep_frame, hazardReseed_frame]
    rw [hp]; exact hs
  · exact ⟨h0, h⟩

/-- Any number of iterations keeps health above -10.1 and at most 15. -/
theorem run_health (inps : List Input) :
    ∀ s : Game, -10.1 < s.health → s.health ≤ 15 →
      -10.1 < (run inps s).health ∧ (run inps s).health ≤ 15 := by
  induction inps with
  | nil => intro s h0 h; exact ⟨h0, h⟩
  | cons inp rest ih =>
    intro s h0 h
    have hm := mainLoop_health inp s h0 h
    exact ih (mainLoop inp s) hm.1 hm.2

/-- The tick of `weakState` in `gamescreen`: the tile stands above the player,
who is moved back to (5,6) and left with -2 health. -/
theorem weakState_gamescreen :
    (gamescreen weakState).health = -2 ∧ (gamescreen weakState).px = 5 ∧
      (gamescreen weakState).pz = 6 ∧ (gamescreen weakState).lives = 3 := by
  have hf : ¬ fatal weakState := by
    unfold fatal
    norm_num [weakState, playState, initial]
  have hg := gamescreen_grounded weakState rfl rfl hf
  have hbj := beforeJump_idle weakState rfl
  have hcy : (beforeJump weakState).cy = 14092861 / 67108864 := by
    have h := (elevatorStep_rising
      (formatTimer (formatScore (helicopterTurn (autoAdvance weakState))))
      (by simp [weakState]) (by simp [weakState, playState, initial])
      (by simp [weakState]; norm_num)).1
    unfold beforeJump
    rw [h]
    have e : (formatTimer (formatScore (helicopterTurn (autoAdvance weakState)))).cy = 1 / 5 := by
      simp [weakState]
      norm_num
    rw [e]
    exact floatAdd_two_tenths
  have hry : (beforeJump weakState).ry = 0 := by simp [weakState, playState, initial]
  have htile : isTile (beforeJump weakState)
      (10 * (beforeJump weakState).pz + (beforeJump weakState).px) := by
    rw [isTile_congr _ weakState _ (by simp), hbj.1, hbj.2]
    unfold isTile
    decide
  have hl := tileLanding_high (beforeJump weakState) htile (by simp [weakState, playState, initial])
    (by rw [hcy, hry]; norm_num)
  have hb := bounceBack_north { beforeJump weakState with health := (beforeJump weakState).health - 5 }
    (by simp [weakState, playState, initial])
  rw [hg, hl]
  refine ⟨?_, ?_, ?_, ?_⟩
  · simp [weakState]
    norm_num
  · rw [hb.2]
    exact hbj.1
  · rw [hb.1]
    show (beforeJump weakState).pz + 1 = 6
    rw [hbj.2]
    rfl
  · simp [weakState, playState, initial]

/-- An event callback sets the loading time to 0, or leaves it as it is and
then either leaves the screen as it is or leaves a screen other than Play. -/
theorem handleEvent_screen (s : Game) (e : Event) :
    (handleEvent s e).loading_time = 0 ∨
      ((handleEvent s e).loading_time = s.loading_time ∧
        ((handleEvent s e).sc_flag = s.sc_flag ∨ (handleEvent s e).sc_flag ≠ 3)) := by
  unfold handleEvent
  split_ifs
  · exact Or.inr ⟨rfl, Or.inl rfl⟩
  · cases e with
    | key k a =>
      cases a <;> cases k <;> simp [keyboard, keyPress, keyRelease, quit, newGameKey] <;>
        split_ifs <;> simp_all
    | mouse b a =>
      cases b <;> cases a <;> simp [mouseButton, leftRelease, quit, newGameClick] <;>
        split_ifs <;> simp_all
    | quitChar => exact Or.inr ⟨rfl, Or.inl rfl⟩
    | otherChar => exact Or.inr ⟨rfl, Or.inl rfl⟩
    | close => exact Or.inr ⟨rfl, Or.inl rfl⟩

/-- Event callbacks keep the timer bound. -/
theorem handleEvent_timer (b : Int) (s : Game) (e : Event) (h : TimerAtLeast b s) :
    TimerAtLeast b (handleEvent s e) := by
  have ht : (handleEvent s e).timer = s.timer := by simp
  rcases handleEvent_screen s e with h0 | ⟨h2, h1 | hne⟩
  · exact ⟨by rw [h0], fun _ c => absurd c (by rw [h0]; exact lt_irrefl _)⟩
  · exact ⟨by rw [h2]; exact h.1, fun a c => by rw [ht]; exact h.2 (h1 ▸ a) (h2 ▸ c)⟩
  · exact ⟨by rw [h2]; exact h.1, fun a _ => absurd a hne⟩

/-- A poll keeps the timer bound. -/
theorem pollEvents_timer (b : Int) (es : List Event) :
    ∀ s : Game, TimerAtLeast b s → TimerAtLeast b (pollEvents es s) := by
  induction es with
  | nil => intro s h; exact h
  | cons e rest ih => intro s h; exact ih _ (handleEvent_timer b s e h)

/-- The timer and the screen a Play tick leaves: a tick that begins with
timer = 0 ends on the End screen, and otherwise the timer is the one the tick
began with, or 30, or 45. -/
theorem playTick_timer (inp : Input) (s : Game) :
    (s.timer = 0 → (playTick inp s).sc_flag = 4) ∧
      ((playTick inp s).timer = s.timer ∨ (playTick inp s).timer = 30 ∨
        (playTick inp s).timer = 45) := by
  have e1 : (playTick inp s).sc_flag = (beforeCoins inp s).sc_flag := by simp [playTick]
  have e2 : (playTick inp s).timer = (beforeCoins inp s).timer := by simp [playTick]
  have e3 : (beforeCompletion inp s).timer = s.timer := by simp
  have hc := completionCheck_lives (beforeCompletion inp s)
  have hb : beforeCoins inp s = completionCheck (beforeCompletion inp s) := rfl
  constructor
  · intro h0
    have he := endCheck_pos (gamescreen s) (Or.inr (Or.inr (by simp [h0])))
    have es : (beforeCompletion inp s).sc_flag = 4 := by
      have : (beforeCompletion inp s).sc_flag = (endCheck (gamescreen s)).sc_flag := by
        simp [beforeCompletion]
      rw [this, he]
    rw [e1, hb]
    exact hc.2 es
  · rw [e2, hb, ← e3]
    unfold completionCheck levelStart
    split_ifs <;> simp

/-- The screen dispatch turns a timer that is at least 0 at Play ticks into one
that is at least 1. -/
theorem screenStep_timer (inp : Input) (s : Game) (h : TimerAtLeast 0 s) :
    TimerAtLeast 1 (screenStep inp s) := by
  unfold screenStep
  split_ifs with h0 h1 h3 h4
  · exact ⟨by simpa using h.1, fun a => absurd a (by simp [h0])⟩
  · exact ⟨by simpa using h.1, fun a => absurd a (by simp [h1])⟩
  · by_cases hl : s.loading_time ≥ 0 ∧ s.loading_time ≤ 20
    · have ea : loadingAdvance s =
          { s with init_flag := 1, loading_time := floatAdd s.loading_time 0.1 } := by
        unfold loadingAdvance
        rw [if_pos hl]
      have ep : playOrLoad inp (loadingAdvance s) = loadingTick (loadingAdvance s) := by
        rw [ea]
        unfold playOrLoad
        rw [if_neg (by simp)]
      have et : (gameStep inp s).timer = 15 := by
        simp [gameStep, ep, loadingTick]
      have el : (gameStep inp s).loading_time = floatAdd s.loading_time 0.1 := by
        simp [gameStep, ep, ea]
      exact ⟨by rw [el]; exact floatAdd_nonneg _ _ hl.1 (by norm_num),
        fun _ _ => by rw [et]; decide⟩
    · have ea : loadingAdvance s = s := by
        unfold loadingAdvance
        rw [if_neg hl]
      have hpos : 0 < s.loading_time := by
        by_contra hn
        exact hl ⟨h.1, by linarith [not_lt.mp hn]⟩
      have el : (gameStep inp s).loading_time = s.loading_time := by
        by_cases hi : s.init_flag = 4
        · simp [gameStep, ea, playOrLoad, hi]
        · simp [gameStep, ea, playOrLoad, hi]
      refine ⟨by rw [el]; exact h.1, fun a _ => ?_⟩
      by_cases hi : s.init_flag = 4
      · have eg : (gameStep inp s).timer = (playTick inp s).timer ∧
            (gameStep inp s).sc_flag = (playTick inp s).sc_flag := by
          simp [gameStep, ea, playOrLoad, hi]
        obtain ⟨p1, p2⟩ := playTick_timer inp s
        have ht := h.2 h3 hpos
        rw [eg.1]
        by_cases hz : s.timer = 0
        · have := p1 hz
          rw [eg.2, this] at a
          exact absurd a (by decide)
        · rcases p2 with p | p | p <;> rw [p] <;> omega
      · have eg : (gameStep inp s).timer = 15 := by
          simp [gameStep, ea, playOrLoad, hi, loadingTick]
        rw [eg]
        decide
  · exact ⟨by simpa using h.1, fun a => absurd a (by simpa using h3)⟩
  · exact ⟨h.1, fun a => absurd a h3⟩

/-- One iteration of the main loop keeps the timer at least 0 at Play ticks. -/
theorem mainLoop_timer (inp : Input) (s : Game) (h : TimerAtLeast 0 s) :
    TimerAtLeast 0 (mainLoop inp s) := by
  have hp := pollEvents_timer 1 inp.events _ (screenStep_timer inp s h)
  have hweak : TimerAtLeast 0 (pollEvents inp.events (screenStep inp s)) :=
    ⟨hp.1, fun a c => by have := hp.2 a c; omega⟩
  have hstep : TimerAtLeast 0 (timerStep inp (hazardReseed inp (pollEvents inp.events (screenStep inp s)))) := by
    refine ⟨by simpa using hp.1, fun a c => ?_⟩
    have h1 := hp.2 (by simpa using a) (by simpa using c)
    unfold timerStep
    split_ifs
    · show 0 ≤ (hazardReseed inp (pollEvents inp.events (screenStep inp s))).timer - 1
      simp only [hazardReseed_frame]
      omega
    · simp only [hazardReseed_frame]
      omega
  unfold mainLoop
  dsimp only
  split_ifs
  · exact h
  · exact hweak
  · exact hstep
  · exact h

/-- Any number of iterations keeps the timer at least 0 at Play ticks. -/
theorem run_timer (inps : List Input) :
    ∀ s : Game, TimerAtLeast 0 s → TimerAtLeast 0 (run inps s) := by
  induction inps with
  | nil => intro s h; exact h
  | cons inp rest ih => intro s h; exact ih _ (mainLoop_timer inp s h)

/-- One quiet iteration on the Menu in which a second has passed. -/
theorem mainLoop_menu_second (t : ℚ) (s : Game) (hsc : s.sc_flag = 0) (hp : s.pause = false)
    (hx : s.exited = false) (ht : t - s.last_timer_update ≥ 1) :
    (mainLoop (clockInput t) s).sc_flag = 0 ∧ (mainLoop (clockInput t) s).pause = false ∧
      (mainLoop (clockInput t) s).exited = false ∧
      (mainLoop (clockInput t) s).timer = s.timer - 1 ∧
      (mainLoop (clockInput t) s).last_timer_update = t := by
  have hm : mainLoop (clockInput t) s =
      timerStep (clockInput t) (hazardReseed (clockInput t) (menuStep (clockInput t) s)) := by
    unfold mainLoop
    simp [hx, hp, pollEvents, screenStep, hsc, clockInput, quietInput]
  have hfire : (clockInput t).timer_update -
      (hazardReseed (clockInput t) (menuStep (clockInput t) s)).last_timer_update ≥ 1 := by
    simpa [clockInput, quietInput] using ht
  have hts : timerStep (clockInput t) (hazardReseed (clockInput t) (menuStep (clockInput t) s)) =
      { hazardReseed (clockInput t) (menuStep (clockInput t) s) with
        timer := (hazardReseed (clockInput t) (menuStep (clockInput t) s)).timer - 1
        last_timer_update := (clockInput t).timer_update } := by
    unfold timerStep
    rw [if_pos hfire]
  rw [hm, hts]
  refine ⟨by simp [hsc], by simp [hp], by simp [hx], by simp, rfl⟩

/-- On the Menu, `n` quiet iterations one second apart take `n` off the timer. -/
theorem run_menu_seconds (n : Nat) :
    ∀ (k : Nat) (s : Game), s.sc_flag = 0 → s.pause = false → s.exited = false →
      s.last_timer_update = k →
      (run (secondsFrom k n) s).sc_flag = 0 ∧ (run (secondsFrom k n) s).timer = s.timer - n := by
  induction n with
  | zero => intro k s hsc _ _ _; exact ⟨hsc, by simp [secondsFrom, run]⟩
  | succ m ih =>
    intro k s hsc hp hx hl
    obtain ⟨h1, h2, h3, h4, h5⟩ := mainLoop_menu_second ((k : ℚ) + 1) s hsc hp hx
      (by rw [hl]; norm_num)
    have h := ih (k + 1) (mainLoop (clockInput ((k : ℚ) + 1)) s) h1 h2 h3 (by rw [h5]; push_cast; ring)
    have e : run (secondsFrom k (m + 1)) s =
        run (secondsFrom (k + 1) m) (mainLoop (clockInput ((k : ℚ) + 1)) s) := rfl
    rw [e]
    refine ⟨h.1, ?_⟩
    rw [h.2, h4]
    push_cast
    ring

/-- C17 (amended). The timer is decremented by 1 whenever the one-second clock
check fires, on every screen and without a lower bound. From the initial state,
after every main-loop iteration: on the Play screen, once a loading tick has
run, timer >= 0; in particular timer >= 0 whenever a Play tick begins. A Play
tick that begins with timer = 0 ends on the End screen. -/
theorem timer_nonnegative_in_play :
    (∀ (inp : Input) (s : Game), inp.timer_update - s.last_timer_update ≥ 1 →
      (timerStep inp s).timer = s.timer - 1) ∧
    (∀ (x0 y0 t0 t1 : ℚ) (inps : List Input),
      (run inps (initial x0 y0 t0 t1)).sc_flag = 3 →
      0 < (run inps (initial x0 y0 t0 t1)).loading_time →
      0 ≤ (run inps (initial x0 y0 t0 t1)).timer) ∧
    (∀ (inp : Input) (s : Game), s.timer = 0 → (playTick inp s).sc_flag = 4) := by
  refine ⟨?_, ?_, ?_⟩
  · intro inp s h
    unfold timerStep
    rw [if_pos h]
  · intro x0 y0 t0 t1 inps
    have h0 : TimerAtLeast 0 (initial x0 y0 t0 t1) :=
      ⟨by simp [initial], fun a => absurd a (by simp [initial])⟩
    exact (run_timer inps _ h0).2
  · intro inp s h
    exact (playTick_timer inp s).1 h

/-- C17, witness: a Play tick of `timeoutState`, whose timer is 0. -/
theorem timer_nonnegative_in_play_witness :
    (timerStep lateInput timeoutState).timer = timeoutState.timer - 1 ∧
      (playTick quietInput timeoutState).sc_flag = 4 :=
  ⟨timer_nonnegative_in_play.1 lateInput timeoutState
      (by norm_num [lateInput, quietInput, timeoutState, playState, initial]),
    timer_nonnegative_in_play.2.2 quietInput timeoutState rfl⟩

/-- C17, counterexample: the program sits on the Menu for 16 seconds, one
iteration per second. The screen is still the Menu and the timer is -1. -/
theorem timer_negative_on_menu :
    (run (secondsFrom 0 16) (initial 0 0 0 0)).sc_flag = 0 ∧
      (run (secondsFrom 0 16) (initial 0 0 0 0)).timer = -1 ∧
      ¬ 0 ≤ (run (secondsFrom 0 16) (initial 0 0 0 0)).timer := by
  have h := run_menu_seconds 16 0 (initial 0 0 0 0) rfl rfl rfl (by simp [initial])
  have ht : (run (secondsFrom 0 16) (initial 0 0 0 0)).timer = -1 := by
    rw [h.2]
    rfl
  exact ⟨h.1, ht, by rw [ht]; decide⟩

/-! ## C18: the pause -/

/-- C18, the code at a failing input. While the pause flag is set an iteration
of the main loop changes nothing at all, whatever events are waiting: the poll
is inside the branch that the flag disables. In `pausedState`, with a press of
the pause key waiting, the iteration leaves the flag set, although the
callback, if it ran, would clear it. -/
theorem pause_blocks_the_poll :
    (∀ (inp : Input) (s : Game), s.pause = true → mainLoop inp s = s) ∧
    (mainLoop pauseKeyInput pausedState = pausedState ∧
      (mainLoop pauseKeyInput pausedState).pause = true ∧
      (keyboard Key.P Action.PRESS pausedState).pause = false) := by
  have h : ∀ (inp : Input) (s : Game), s.pause = true → mainLoop inp s = s := by
    intro inp s hp
    unfold mainLoop
    simp [hp]
  refine ⟨h, h pauseKeyInput pausedState rfl, ?_, rfl⟩
  rw [h pauseKeyInput pausedState rfl]
  rfl

/-! ## C19: fire -/

/-- The fire check when the player stands on some fire slot. -/
theorem fireCheck_on (m : Game) (i : Fin 5) (h : onFire m i) :
    (fireCheck m).health = m.health - 0.1 := by
  have h5 := fin5_cases i
  unfold fireCheck
  split_ifs with h0 h1 h2 h3 h4
  · rfl
  · rfl
  · rfl
  · rfl
  · rfl
  · rcases h5 with rfl | rfl | rfl | rfl | rfl
    · exact absurd h h0
    · exact absurd h h1
    · exact absurd h h2
    · exact absurd h h3
    · exact absurd h h4

/-- C19, the code at a failing input. The fire check does not look at the
level: whenever the player stands on a fire slot it takes exactly 0.1 health,
however many slots share the cell. At level 1, in `fireLevelOneState`, the
player on cell (4,4), where fire slot 0 lies, ends the Play tick with 14.9
health. -/
theorem fire_burns_at_level_one :
    (∀ (m : Game) (i : Fin 5), onFire m i → (fireCheck m).health = m.health - 0.1) ∧
    (fireLevelOneState.level = 1 ∧ fireLevelOneState.health = 15 ∧
      (playTick quietInput fireLevelOneState).level = 1 ∧
      (playTick quietInput fireLevelOneState).health = 149 / 10) := by
  obtain ⟨g1, g2, g3, g4, -⟩ := gamescreen_still_initial_board fireLevelOneState rfl rfl
    (by norm_num [fireLevelOneState, playState, initial]) rfl rfl (by decide) (by decide)
    (by decide)
  have hne : ¬ ((gamescreen fireLevelOneState).lives = 0 ∨
      (gamescreen fireLevelOneState).level = 4 ∨ (gamescreen fireLevelOneState).timer = 0) := by
    rw [g3]
    simp [fireLevelOneState, playState, initial]
  have he := endCheck_neg _ hne
  have hb := beforeCoins_of_no_completion quietInput fireLevelOneState
    (by rw [g1, g2]; decide)
  have hp := beforeCoins_still quietInput fireLevelOneState rfl rfl
    (by norm_num [fireLevelOneState, playState, initial]) rfl rfl (by decide) (by decide)
    (by decide) (by decide)
  have hon : onFire (coinCheck (beforeCoins quietInput fireLevelOneState)) 0 := by
    unfold onFire
    have e1 : (coinCheck (beforeCoins quietInput fireLevelOneState)).px =
        (beforeCoins quietInput fireLevelOneState).px := by simp
    have e2 : (coinCheck (beforeCoins quietInput fireLevelOneState)).pz =
        (beforeCoins quietInput fireLevelOneState).pz := by simp
    have e3 : (coinCheck (beforeCoins quietInput fireLevelOneState)).fire_x 0 = 4 := by
      rw [hb]
      simp [beforeCompletion, he, fireLevelOneState]
    have e4 : (coinCheck (beforeCoins quietInput fireLevelOneState)).fire_z 0 = 4 := by
      rw [hb]
      simp [beforeCompletion, he, fireLevelOneState]
    rw [e1, e2, e3, e4, hp.1, hp.2]
    exact ⟨rfl, rfl⟩
  have hh : (coinCheck (beforeCoins quietInput fireLevelOneState)).health = 15 := by
    have e : (coinCheck (beforeCompletion quietInput fireLevelOneState)).health =
        (endCheck (gamescreen fireLevelOneState)).health := by simp [beforeCompletion]
    rw [hb, e, he, g4]
    rfl
  refine ⟨fireCheck_on, rfl, rfl, ?_, ?_⟩
  · show (fireCheck (coinCheck (beforeCoins quietInput fireLevelOneState))).level = 1
    rw [hb]
    simp [beforeCompletion, he, fireLevelOneState, playState]
  · show (fireCheck (coinCheck (beforeCoins quietInput fireLevelOneState))).health = 149 / 10
    rw [fireCheck_on _ 0 hon, hh]
    norm_num

/-! ## C20: the coin counter across games -/

/-- Outside a Play tick the screen step leaves the coin counter alone. -/
theorem screenStep_coin_count (inp : Input) (s : Game)
    (h : s.sc_flag = 3 → 0 ≤ s.loading_time ∧ s.loading_time ≤ 20) :
    (screenStep inp s).coin_count = s.coin_count := by
  unfold screenStep
  split_ifs with h0 h1 h3 h4
  · simp
  · simp
  · have hl := h h3
    have ea : loadingAdvance s = { s with init_flag := 1, loading_time := floatAdd s.loading_time 0.1 } := by
      unfold loadingAdvance
      rw [if_pos hl]
    have ep : playOrLoad inp (loadingAdvance s) = loadingTick (loadingAdvance s) := by
      rw [ea]
      unfold playOrLoad
      rw [if_neg (by simp)]
    simp [gameStep, ep]
  · simp
  · rfl

/-- An iteration of the main loop that runs no Play tick leaves the coin counter alone. -/
theorem mainLoop_coin_count (inp : Input) (s : Game)
    (h : s.sc_flag = 3 → 0 ≤ s.loading_time ∧ s.loading_time ≤ 20) :
    (mainLoop inp s).coin_count = s.coin_count := by
  have hs := screenStep_coin_count inp s h
  have hp : (pollEvents inp.events (screenStep inp s)).coin_count = s.coin_count := by
    rw [(pollEvents_frame inp.events (screenStep inp s)).2.2.1, hs]
  unfold mainLoop
  dsimp only
  split_ifs
  · rfl
  · exact hp
  · simpa using hp
  · rfl

/-- The loading iterations of a new game leave the coin counter alone. -/
theorem run_loading_coin_count (inps : List Input) :
    ∀ (k : Nat) (s : Game), LoadingAt k s → k + inps.length ≤ 200 →
      (∀ i ∈ inps, i.events = []) → (run inps s).coin_count = s.coin_count := by
  induction inps with
  | nil => intro k s _ _ _; rfl
  | cons inp rest ih =>
    intro k s h hk hq
    have hk1 : k ≤ 199 := by
      simp only [List.length_cons] at hk
      omega
    have hstep := (mainLoop_loading inp h hk1 (hq inp (List.mem_cons_self _ _))).1
    have hload : 0 ≤ s.loading_time ∧ s.loading_time ≤ 20 := by
      rw [h.loading]
      exact tenths_loading k hk1
    have e : run (inp :: rest) s = run rest (mainLoop inp s) := rfl
    rw [e, ih (k + 1) (mainLoop inp s) hstep
      (by simp only [List.length_cons] at hk; omega)
      (fun i hi => hq i (List.mem_cons_of_mem _ hi)),
      mainLoop_coin_count inp s (fun _ => hload)]

/-- The sequence of 200 quiet iterations carries no event. -/
theorem quiet_loading_inputs :
    (List.replicate 199 quietInput ++ [quietInput]).length = 200 ∧
      ∀ i ∈ List.replicate 199 quietInput ++ [quietInput], i.events = [] := by
  refine ⟨by rw [List.length_append, List.length_replicate]; rfl, fun i hi => ?_⟩
  rcases List.mem_append.mp hi with h | h
  · exact quiet_replicate 199 i h
  · rw [List.mem_singleton.mp h]
    rfl

/-- C20, the code at a failing input. Neither the selection of New Game nor a
loading iteration writes the coin counter: when New Game is selected on the
Menu and the 200 loading iterations run without further input events, the
first Play tick, which the iteration after them runs, begins with the coin
counter the Menu state had. From `menuAfterGame`, the Menu after a game that
ended with two coins counted, the new game's first Play tick begins with
coin_count = 2. -/
theorem new_game_keeps_coin_count :
    (∀ (s : Game) (inp0 : Input) (e : Event) (inps : List Input),
      s.sc_flag = 0 → s.pause = false → s.exited = false → (menuStep inp0 s).hover_flag = 0 →
      (e = Event.key Key.ENTER Action.PRESS ∨ e = Event.mouse Button.LEFT Action.RELEASE) →
      inp0.events = [e] → inps.length = 200 → (∀ i ∈ inps, i.events = []) →
      (newGameRun inp0 inps s).coin_count = s.coin_count) ∧
    (menuAfterGame.sc_flag = 0 ∧ menuAfterGame.coin_count = 2 ∧
      (∀ inp, playOrLoad inp (loadingAdvance
          (newGameRun enterInput (List.replicate 199 quietInput ++ [quietInput]) menuAfterGame)) =
        playTick inp
          (newGameRun enterInput (List.replicate 199 quietInput ++ [quietInput]) menuAfterGame)) ∧
      (newGameRun enterInput (List.replicate 199 quietInput ++ [quietInput]) menuAfterGame).coin_count
        = 2) := by
  have hgen : ∀ (s : Game) (inp0 : Input) (e : Event) (inps : List Input),
      s.sc_flag = 0 → s.pause = false → s.exited = false → (menuStep inp0 s).hover_flag = 0 →
      (e = Event.key Key.ENTER Action.PRESS ∨ e = Event.mouse Button.LEFT Action.RELEASE) →
      inp0.events = [e] → inps.length = 200 → (∀ i ∈ inps, i.events = []) →
      (newGameRun inp0 inps s).coin_count = s.coin_count := by
    intro s inp0 e inps hsc hp hx hsel he hev hlen hq
    have h0 := newGame_loadingAt s inp0 e hsc hp hx hsel he hev
    unfold newGameRun
    rw [run_loading_coin_count inps 0 _ h0 (by omega) hq,
      mainLoop_coin_count inp0 s (fun a => absurd a (by rw [hsc]; decide))]
  have hsel : (menuStep enterInput menuAfterGame).hover_flag = 0 := by
    norm_num [menuStep, inRegion, widthc, heightc, enterInput, quietInput, menuAfterGame, initial]
  have hlastload := newGame_last_loading menuAfterGame enterInput (Event.key Key.ENTER Action.PRESS)
    (List.replicate 199 quietInput) rfl rfl rfl hsel (Or.inl rfl) rfl
    (List.length_replicate 199 quietInput) (quiet_replicate 199)
  have hrun : newGameRun enterInput (List.replicate 199 quietInput ++ [quietInput]) menuAfterGame
      = mainLoop quietInput (newGameRun enterInput (List.replicate 199 quietInput) menuAfterGame) := by
    unfold newGameRun; exact run_append_one _ _ _
  obtain ⟨hL, hinit, -⟩ := mainLoop_loading quietInput hlastload (le_refl _) rfl
  refine ⟨hgen, rfl, rfl, ?_, ?_⟩
  · intro inp
    rw [hrun]
    exact playTick_after_loading inp _ (by rw [hL.loading]; exact tenths_past_loading) hinit
  · exact hgen menuAfterGame enterInput (Event.key Key.ENTER Action.PRESS) _ rfl rfl rfl hsel
      (Or.inl rfl) rfl quiet_loading_inputs.1 quiet_loading_inputs.2

/-! ## C21, C22: the hazard reseed -/

/-- Round `i` of the reseed loop writes hole `i` and leaves the player in place. -/
theorem hazardSlot_hole (inp : Input) (s : Game) (i : Fin 5) :
    (hazardSlot inp s i).hole = Function.update s.hole i
        (if ((inp.randHole i % 100 : Nat) : Int) = s.pz * 10 + s.px ∨
            ((inp.randHole i % 100 : Nat) : Int) = 90 then 37
          else ((inp.randHole i % 100 : Nat) : Int)) ∧
      (hazardSlot inp s i).px = s.px ∧ (hazardSlot inp s i).pz = s.pz := by
  refine ⟨?_, by simp, by simp⟩
  unfold hazardSlot
  simp [holeDraw]

/-- The holes after a reseed, slot by slot. -/
theorem hazardReseed_hole (inp : Input) (s : Game)
    (h : inp.current_time - s.last_update_time ≥ 5) (i : Fin 5) :
    (hazardReseed inp s).hole i =
      (if ((inp.randHole i % 100 : Nat) : Int) = s.pz * 10 + s.px ∨
          ((inp.randHole i % 100 : Nat) : Int) = 90 then 37
        else ((inp.randHole i % 100 : Nat) : Int)) := by
  unfold hazardReseed
  rw [if_pos h]
  show (hazardSlot inp (hazardSlot inp (hazardSlot inp (hazardSlot inp (hazardSlot inp s 0) 1) 2) 3)
    4).hole i = _
  rcases fin5_cases i with rfl | rfl | rfl | rfl | rfl <;>
    simp [hazardSlot_hole, Function.update]

/-- C21. After a periodic hazard reseed, whatever `rand()` returned, each of
the five hole indices lies in 0..99 and none of them is 90, the index of the
spawn cell (0,9). -/
theorem reseed_holes_in_grid (inp : Input) (s : Game)
    (h : inp.current_time - s.last_update_time ≥ 5) :
    ∀ i : Fin 5, 0 ≤ (hazardReseed inp s).hole i ∧ (hazardReseed inp s).hole i ≤ 99 ∧
      (hazardReseed inp s).hole i ≠ 90 ∧ (hazardReseed inp s).hole i ≠ 9 * 10 + 0 := by
  intro i
  rw [hazardReseed_hole inp s h i]
  have h1 : (0 : Int) ≤ ((inp.randHole i % 100 : Nat) : Int) := Int.ofNat_nonneg _
  have h2 : ((inp.randHole i % 100 : Nat) : Int) ≤ 99 := by
    have : inp.randHole i % 100 < 100 := Nat.mod_lt _ (by decide)
    omega
  split_ifs with hc
  · exact ⟨by decide, by decide, by decide, by decide⟩
  · have h3 : ((inp.randHole i % 100 : Nat) : Int) ≠ 90 := fun e => hc (Or.inr e)
    exact ⟨h1, h2, h3, h3⟩

/-- C21, witness: a reseed in which every hole draw returns 90, at slot 0. -/
theorem reseed_holes_in_grid_witness :
    0 ≤ (hazardReseed reseedInput playState).hole 0 ∧
      (hazardReseed reseedInput playState).hole 0 ≤ 99 ∧
      (hazardReseed reseedInput playState).hole 0 ≠ 90 ∧
      (hazardReseed reseedInput playState).hole 0 ≠ 9 * 10 + 0 :=
  reseed_holes_in_grid reseedInput playState
    (by norm_num [reseedInput, quietInput, playState, initial]) 0

/-- C22, the code at a failing input. The player stands on cell (7,3), index
37, and the hole draw returns 90: the reseed replaces the draw by 37 and leaves
hole 0 on the player's cell, which the fatal check of the next tick finds.
Whenever the player's cell is not cell 37, no hole of the reseed lies on it. -/
theorem reseed_hole_under_player :
    (alternateCellState.px = 7 ∧ alternateCellState.pz = 3 ∧
      (hazardReseed reseedInput alternateCellState).hole 0 = 37 ∧
      (hazardReseed reseedInput alternateCellState).hole 0 =
        (hazardReseed reseedInput alternateCellState).pz * 10 +
          (hazardReseed reseedInput alternateCellState).px ∧
      fatal (hazardReseed reseedInput alternateCellState)) ∧
    (∀ (inp : Input) (s : Game), inp.current_time - s.last_update_time ≥ 5 →
      s.pz * 10 + s.px ≠ 37 →
      ∀ i : Fin 5, (hazardReseed inp s).hole i ≠
        (hazardReseed inp s).pz * 10 + (hazardReseed inp s).px) := by
  have hdue : reseedInput.current_time - alternateCellState.last_update_time ≥ 5 := by
    norm_num [reseedInput, quietInput, alternateCellState, playState, initial]
  have hpx : ∀ (inp : Input) (s : Game), (hazardReseed inp s).px = s.px := fun inp s => by simp
  have hpz : ∀ (inp : Input) (s : Game), (hazardReseed inp s).pz = s.pz := fun inp s => by simp
  have h0 : (hazardReseed reseedInput alternateCellState).hole 0 = 37 := by
    rw [hazardReseed_hole _ _ hdue 0]
    rfl
  have hcell : (hazardReseed reseedInput alternateCellState).hole 0 =
      (hazardReseed reseedInput alternateCellState).pz * 10 +
        (hazardReseed reseedInput alternateCellState).px := by
    rw [h0, hpx, hpz]
    rfl
  refine ⟨⟨rfl, rfl, h0, hcell, ?_⟩, ?_⟩
  · unfold fatal
    exact Or.inr (Or.inr (Or.inr (Or.inr (Or.inl hcell))))
  · intro inp s h hne i
    rw [hazardReseed_hole inp s h i, hpx, hpz]
    split_ifs with hc
    · exact fun e => hne e.symm
    · exact fun e => hc (Or.inl e)

/-! ## C23: the orientation of a move -/

/-- C23, the code at a failing input. The player of `groundedState` is in
Play, grounded, facing direction 1 on cell (5,5). A left-click release moves
it to (5,6): pz grows. The Up key, a queued auto-advance step and the landing
of a jump, all in direction 1, make pz smaller. In general the click moves by
+1 in pz for direction 1 and by -1 for direction 4, while the auto-advance
step moves by -1 and +1 and the landing of a jump by -2 and +2; for directions
2 and 3 the click agrees with them. -/
theorem click_moves_against_direction :
    (canMove groundedState ∧ groundedState.dir = 1 ∧ groundedState.pz = 5 ∧
      (mouseButton Button.LEFT Action.RELEASE groundedState).pz = 6 ∧
      (mouseButton Button.LEFT Action.RELEASE groundedState).px = 5 ∧
      (keyboard Key.UP Action.PRESS groundedState).dir = 1 ∧
      (keyboard Key.UP Action.PRESS groundedState).pz = 4 ∧
      (autoAdvance { groundedState with c_i := 1 }).pz = 4 ∧
      (jumpLand groundedState).pz = 3) ∧
    (∀ s : Game, canMove s →
      (s.dir = 1 → (mouseButton Button.LEFT Action.RELEASE s).pz = s.pz + 1 ∧
        (mouseButton Button.LEFT Action.RELEASE s).px = s.px) ∧
      (s.dir = 4 → (mouseButton Button.LEFT Action.RELEASE s).pz = s.pz - 1 ∧
        (mouseButton Button.LEFT Action.RELEASE s).px = s.px) ∧
      (s.dir = 2 → (mouseButton Button.LEFT Action.RELEASE s).px = s.px - 1 ∧
        (mouseButton Button.LEFT Action.RELEASE s).pz = s.pz) ∧
      (s.dir = 3 → (mouseButton Button.LEFT Action.RELEASE s).px = s.px + 1 ∧
        (mouseButton Button.LEFT Action.RELEASE s).pz = s.pz)) ∧
    (∀ s : Game, s.c_i ≠ 0 →
      (s.dir = 1 → (autoAdvance s).pz = s.pz - 1 ∧ (autoAdvance s).px = s.px) ∧
      (s.dir = 4 → (autoAdvance s).pz = s.pz + 1 ∧ (autoAdvance s).px = s.px) ∧
      (s.dir = 2 → (autoAdvance s).px = s.px - 1 ∧ (autoAdvance s).pz = s.pz) ∧
      (s.dir = 3 → (autoAdvance s).px = s.px + 1 ∧ (autoAdvance s).pz = s.pz)) ∧
    (∀ s : Game,
      (s.dir = 1 → (jumpLand s).pz = s.pz - 2 ∧ (jumpLand s).px = s.px) ∧
      (s.dir = 4 → (jumpLand s).pz = s.pz + 2 ∧ (jumpLand s).px = s.px) ∧
      (s.dir = 2 → (jumpLand s).px = s.px - 2 ∧ (jumpLand s).pz = s.pz) ∧
      (s.dir = 3 → (jumpLand s).px = s.px + 2 ∧ (jumpLand s).pz = s.pz)) ∧
    (∀ s : Game, canMove s → ¬ (s.on_tile = true ∧ s.cy ≤ s.ry) →
      ((keyboard Key.UP Action.PRESS s).dir = 1 ∧
        (keyboard Key.UP Action.PRESS s).pz = s.pz - 1 ∧
        (keyboard Key.UP Action.PRESS s).px = s.px) ∧
      ((keyboard Key.DOWN Action.PRESS s).dir = 4 ∧
        (keyboard Key.DOWN Action.PRESS s).pz = s.pz + 1 ∧
        (keyboard Key.DOWN Action.PRESS s).px = s.px) ∧
      ((keyboard Key.LEFT Action.PRESS s).dir = 2 ∧
        (keyboard Key.LEFT Action.PRESS s).px = s.px - 1 ∧
        (keyboard Key.LEFT Action.PRESS s).pz = s.pz) ∧
      ((keyboard Key.RIGHT Action.PRESS s).dir = 3 ∧
        (keyboard Key.RIGHT Action.PRESS s).px = s.px + 1 ∧
        (keyboard Key.RIGHT Action.PRESS s).pz = s.pz)) := by
  have hcm : canMove groundedState := by
    unfold canMove
    norm_num [groundedState, playState, initial]
  have hclick : ∀ s : Game, canMove s →
      (s.dir = 1 → (mouseButton Button.LEFT Action.RELEASE s).pz = s.pz + 1 ∧
        (mouseButton Button.LEFT Action.RELEASE s).px = s.px) ∧
      (s.dir = 4 → (mouseButton Button.LEFT Action.RELEASE s).pz = s.pz - 1 ∧
        (mouseButton Button.LEFT Action.RELEASE s).px = s.px) ∧
      (s.dir = 2 → (mouseButton Button.LEFT Action.RELEASE s).px = s.px - 1 ∧
        (mouseButton Button.LEFT Action.RELEASE s).pz = s.pz) ∧
      (s.dir = 3 → (mouseButton Button.LEFT Action.RELEASE s).px = s.px + 1 ∧
        (mouseButton Button.LEFT Action.RELEASE s).pz = s.pz) := by
    intro s hs
    have h3 : s.sc_flag = 3 := hs.1
    have e : mouseButton Button.LEFT Action.RELEASE s =
        (if s.dir = 1 then { s with pz := s.pz + 1 }
          else if s.dir = 4 then { s with pz := s.pz - 1 }
          else if s.dir = 2 then { s with px := s.px - 1 }
          else if s.dir = 3 then { s with px := s.px + 1 }
          else s) := by
      show leftRelease s = _
      unfold leftRelease
      rw [if_neg (by rw [h3]; decide), if_neg (by rw [h3]; decide),
        if_neg (by rw [h3]; decide), if_pos hs]
    rw [e]
    refine ⟨fun h => ?_, fun h => ?_, fun h => ?_, fun h => ?_⟩ <;> simp [h]
  have hkey : ∀ s : Game, canMove s → ¬ (s.on_tile = true ∧ s.cy ≤ s.ry) →
      ((keyboard Key.UP Action.PRESS s).dir = 1 ∧
        (keyboard Key.UP Action.PRESS s).pz = s.pz - 1 ∧
        (keyboard Key.UP Action.PRESS s).px = s.px) ∧
      ((keyboard Key.DOWN Action.PRESS s).dir = 4 ∧
        (keyboard Key.DOWN Action.PRESS s).pz = s.pz + 1 ∧
        (keyboard Key.DOWN Action.PRESS s).px = s.px) ∧
      ((keyboard Key.LEFT Action.PRESS s).dir = 2 ∧
        (keyboard Key.LEFT Action.PRESS s).px = s.px - 1 ∧
        (keyboard Key.LEFT Action.PRESS s).pz = s.pz) ∧
      ((keyboard Key.RIGHT Action.PRESS s).dir = 3 ∧
        (keyboard Key.RIGHT Action.PRESS s).px = s.px + 1 ∧
        (keyboard Key.RIGHT Action.PRESS s).pz = s.pz) := by
    intro s hs hfree
    have h3 : s.sc_flag = 3 := hs.1
    refine ⟨?_, ?_, ?_, ?_⟩ <;>
      simp [keyboard, keyPress, h3, hs, hfree]
  have hfree : ¬ (groundedState.on_tile = true ∧ groundedState.cy ≤ groundedState.ry) := by
    simp [groundedState, playState, initial]
  refine ⟨⟨hcm, rfl, rfl, ?_, ?_, ?_, ?_, ?_, ?_⟩, hclick, ?_, ?_, hkey⟩
  · rw [((hclick groundedState hcm).1 rfl).1]; rfl
  · rw [((hclick groundedState hcm).1 rfl).2]; rfl
  · exact (hkey groundedState hcm hfree).1.1
  · rw [(hkey groundedState hcm hfree).1.2.1]; rfl
  · simp [autoAdvance, groundedState, playState, initial]
  · simp [jumpLand, groundedState, playState, initial]
  · intro s hc
    refine ⟨fun h => ?_, fun h => ?_, fun h => ?_, fun h => ?_⟩ <;>
      simp [autoAdvance, hc, h]
  · intro s
    refine ⟨fun h => ?_, fun h => ?_, fun h => ?_, fun h => ?_⟩ <;>
      simp [jumpLand, h]

/-! ## C24: riding the elevator -/

/-- The elevator-tile logic leaves alone a player who is on the tile already
when the elevator stands above the offset. -/
theorem tileLanding_riding (m : Game) (htile : isTile m (10 * m.pz + m.px))
    (hon : m.on_tile = true) (hhigh : m.cy > m.ry) : tileLanding m = m := by
  unfold tileLanding
  rw [if_pos htile, if_neg (by simp [hon]), if_neg (by linarith)]

/-- C24 (amended). A grounded player with no queued step stands on an elevator
tile with on_tile set, and the elevator height after this tick's elevator step
is above the player's vertical offset (cy > ry). Then the tick deducts no
health and leaves on_tile set, the player staying on the cell with all its
lives. The flag is cleared, without a penalty, by the elevator-tile logic of a
tick in which the player's cell is not an elevator tile. -/
theorem riding_elevator_unharmed (s : Game) (hc : s.c_i = 0) (hj : s.jump = false)
    (hf : ¬ fatal s) (htile : isTile s (10 * s.pz + s.px)) (hon : s.on_tile = true)
    (hhigh : (beforeJump s).cy > s.ry) :
    ((gamescreen s).health = s.health ∧ (gamescreen s).on_tile = true ∧
      (gamescreen s).px = s.px ∧ (gamescreen s).pz = s.pz ∧ (gamescreen s).lives = s.lives) ∧
    (∀ m : Game, ¬ isTile m (10 * m.pz + m.px) →
      (tileLanding m).on_tile = false ∧ (tileLanding m).health = m.health) := by
  have hbj := beforeJump_idle s hc
  have hg := gamescreen_grounded s hc hj hf
  have mtile : isTile (beforeJump s) (10 * (beforeJump s).pz + (beforeJump s).px) := by
    rw [isTile_congr _ s _ (by simp), hbj.1, hbj.2]
    exact htile
  have mon : (beforeJump s).on_tile = true := by simp [hon]
  have mry : (beforeJump s).ry = s.ry := by simp
  have hl := tileLanding_riding (beforeJump s) mtile mon (by rw [mry]; exact hhigh)
  rw [hg, hl]
  refine ⟨⟨by simp, mon, hbj.1, hbj.2, by simp⟩, ?_⟩
  intro m hm
  unfold tileLanding
  rw [if_neg hm]
  exact ⟨rfl, rfl⟩

/-- The elevator height of `ridingState` at the jump block of its tick. -/
theorem ridingState_height : (beforeJump ridingState).cy = 5368709 / 536870912 := by
  have h := (elevatorStep_rising
    (formatTimer (formatScore (helicopterTurn (autoAdvance ridingState))))
    (by simp [ridingState]) (by simp [ridingState, playState, initial])
    (by simp [ridingState, playState, initial]; norm_num)).1
  unfold beforeJump
  rw [h]
  have e : (formatTimer (formatScore (helicopterTurn (autoAdvance ridingState)))).cy = 0 := by
    simp [ridingState, playState, initial]
  rw [e]
  exact hundredths_at_1

/-- The player of `ridingState` is not on a fatal cell. -/
theorem ridingState_safe : ¬ fatal ridingState := by
  unfold fatal
  norm_num [ridingState, playState, initial]

/-- C24, witness: the tick of `ridingState`. -/
theorem riding_elevator_unharmed_witness :
    (gamescreen ridingState).health = ridingState.health ∧
      (gamescreen ridingState).on_tile = true :=
  have h := (riding_elevator_unharmed ridingState rfl rfl ridingState_safe
    (by unfold isTile; decide) rfl
    (by rw [ridingState_height]; norm_num [ridingState, playState, initial])).1
  ⟨h.1, h.2.1⟩

/-- C24, counterexample: the player of `ridingState` is grounded on an elevator
tile with on_tile set, the elevator at the player's offset 0. The tick raises
the elevator by one step of 0.01, above the offset, and the player stays on the
cell: the health is still 15, not 10, and on_tile is still set. -/
theorem riding_player_keeps_health :
    ridingState.jump = false ∧ ridingState.on_tile = true ∧
      isTile ridingState (10 * ridingState.pz + ridingState.px) ∧
      ridingState.cy = ridingState.ry ∧ ridingState.health = 15 ∧
      (gamescreen ridingState).cy > (gamescreen ridingState).ry ∧
      (gamescreen ridingState).px = ridingState.px ∧
      (gamescreen ridingState).pz = ridingState.pz ∧
      (gamescreen ridingState).health = 15 ∧ (gamescreen ridingState).on_tile = true := by
  have hg := gamescreen_grounded ridingState rfl rfl ridingState_safe
  have hbj := beforeJump_idle ridingState rfl
  have mtile : isTile (beforeJump ridingState)
      (10 * (beforeJump ridingState).pz + (beforeJump ridingState).px) := by
    rw [isTile_congr _ ridingState _ (by simp), hbj.1, hbj.2]
    unfold isTile
    decide
  have mon : (beforeJump ridingState).on_tile = true := by simp [ridingState]
  have mry : (beforeJump ridingState).ry = 0 := by simp [ridingState, playState, initial]
  have hl := tileLanding_riding (beforeJump ridingState) mtile mon
    (by rw [mry, ridingState_height]; norm_num)
  have hgs : gamescreen ridingState = beforeJump ridingState := by rw [hg, hl]
  refine ⟨rfl, rfl, by unfold isTile; decide, rfl, rfl, ?_, ?_, ?_, ?_, ?_⟩
  · rw [hgs, mry, ridingState_height]; norm_num
  · rw [hgs]; exact hbj.1
  · rw [hgs]; exact hbj.2
  · rw [hgs]; simp [ridingState, playState, initial]
  · rw [hgs]; exact mon

/-! ## C25: the jump clock at the start of a jump -/

/-- C25, the code at a failing input. Neither way of starting a jump (the
Space key, the right mouse button) writes the jump clock. The first tick of
`blockedJump` is cut short by the collision check, which leaves the clock at
the `float` 0.1, 13421773/134217728; the jump key is pressed next, and the jump
of `secondJump` begins with the jump flag set and the clock at that value, not
0, so that its first tick computes the horizontal offset 0.6 times it,
40265319/671088640 (about 0.06), instead of 0. -/
theorem second_jump_starts_late :
    (∀ s : Game,
      (keyboard Key.SPACE Action.PRESS s).jump = true ∧
        (keyboard Key.SPACE Action.PRESS s).ttime = s.ttime ∧
        (mouseButton Button.RIGHT Action.PRESS s).jump = true ∧
        (mouseButton Button.RIGHT Action.PRESS s).ttime = s.ttime) ∧
    (blockedJump.ttime = 0 ∧ (gamescreen blockedJump).jump = false ∧
      secondJump.jump = true ∧ secondJump.ttime = 13421773 / 134217728 ∧ secondJump.ttime ≠ 0 ∧
      (jumpKinematics secondJump).rx = 40265319 / 671088640 ∧
      (jumpKinematics secondJump).rx ≠ 0) := by
  have hf : ¬ fatal blockedJump := by
    unfold fatal
    norm_num [blockedJump, playState, initial]
  obtain ⟨-, b1, b2, -⟩ := gamescreen_blocked blockedJump rfl rfl
    (tenths_jump 0 (by omega)) hf (by unfold isTile; decide) rfl
    (by unfold isTile; decide)
    (by rw [blockedJump_height]; norm_num [blockedJump, playState, initial])
  have ht : secondJump.ttime = 13421773 / 134217728 := by
    show (gamescreen blockedJump).ttime = 13421773 / 134217728
    rw [b2]
    exact tenths_at_1
  have hrx : (jumpKinematics secondJump).rx = 40265319 / 671088640 := by
    show 0.6 * secondJump.ttime = 40265319 / 671088640
    rw [ht]
    norm_num
  refine ⟨fun s => ⟨rfl, rfl, rfl, rfl⟩, rfl, b1, rfl, ht, ?_, hrx, ?_⟩
  · rw [ht]; norm_num
  · rw [hrx]; norm_num

/-! ## C26: the loading interval -/

/-- During the loading interval an iteration on the Play screen runs a loading
tick in place of the Play tick. -/
theorem gameStep_loading (inp : Input) (s : Game)
    (hl : 0 ≤ s.loading_time ∧ s.loading_time ≤ 20) :
    gameStep inp s = coinReseed inp (initDone (loadingTick (loadingAdvance s))) := by
  have ea : loadingAdvance s =
      { s with init_flag := 1, loading_time := floatAdd s.loading_time 0.1 } := by
    unfold loadingAdvance
    rw [if_pos hl]
  have ep : playOrLoad inp (loadingAdvance s) = loadingTick (loadingAdvance s) := by
    rw [ea]
    unfold playOrLoad
    rw [if_neg (by simp)]
  unfold gameStep
  rw [ep]

/-- The keys that name a direction. -/
theorem directional_key_blocked (k : Key) (a : Action) (s : Game)
    (hk : k = Key.UP ∨ k = Key.DOWN ∨ k = Key.LEFT ∨ k = Key.RIGHT ∨
      k = Key.W ∨ k = Key.S ∨ k = Key.A ∨ k = Key.D)
    (h3 : s.sc_flag = 3) (hcm : ¬ canMove s) : keyboard k a s = s := by
  rcases hk with rfl | rfl | rfl | rfl | rfl | rfl | rfl | rfl <;> cases a <;>
    simp [keyboard, keyPress, keyRelease, h3, hcm]

/-- C26. On the Play screen, until the loading interval has elapsed
(loading_time <= 20; the loading time is never negative in a run from the
initial state), an iteration runs the loading tick and not the Play tick:
`gamescreen` and the checks that follow it are not executed, and position,
direction, lives, score and the coin counter are as before. Directional input
(arrow keys, W/A/S/D, the left mouse button) leaves the whole state unchanged
during the interval, and the directional keys leave it unchanged on the Play
screen while a jump is in progress. -/
theorem loading_blocks_play :
    (∀ (x0 y0 t0 t1 : ℚ) (inps : List Input),
      0 ≤ (run inps (initial x0 y0 t0 t1)).loading_time) ∧
    (∀ (inp : Input) (s : Game), s.sc_flag = 3 → 0 ≤ s.loading_time → s.loading_time ≤ 20 →
      screenStep inp s = coinReseed inp (initDone (loadingTick (loadingAdvance s))) ∧
        (screenStep inp s).px = s.px ∧ (screenStep inp s).pz = s.pz ∧
        (screenStep inp s).dir = s.dir ∧ (screenStep inp s).lives = s.lives ∧
        (screenStep inp s).score = s.score ∧ (screenStep inp s).coin_count = s.coin_count) ∧
    (∀ (k : Key) (a : Action) (s : Game),
      (k = Key.UP ∨ k = Key.DOWN ∨ k = Key.LEFT ∨ k = Key.RIGHT ∨
        k = Key.W ∨ k = Key.S ∨ k = Key.A ∨ k = Key.D) →
      s.sc_flag = 3 → s.loading_time ≤ 20 → keyboard k a s = s) ∧
    (∀ (a : Action) (s : Game), s.sc_flag = 3 → s.loading_time ≤ 20 →
      mouseButton Button.LEFT a s = s) ∧
    (∀ (k : Key) (a : Action) (s : Game),
      (k = Key.UP ∨ k = Key.DOWN ∨ k = Key.LEFT ∨ k = Key.RIGHT ∨
        k = Key.W ∨ k = Key.S ∨ k = Key.A ∨ k = Key.D) →
      s.sc_flag = 3 → s.jump = true → keyboard k a s = s) := by
  refine ⟨?_, ?_, ?_, ?_, ?_⟩
  · intro x0 y0 t0 t1 inps
    have h0 : TimerAtLeast 0 (initial x0 y0 t0 t1) :=
      ⟨by simp [initial], fun a => absurd a (by simp [initial])⟩
    exact (run_timer inps _ h0).1
  · intro inp s h3 h0 h20
    have hg := gameStep_loading inp s ⟨h0, h20⟩
    have hs : screenStep inp s = gameStep inp s := by
      unfold screenStep
      rw [if_neg (by rw [h3]; decide), if_neg (by rw [h3]; decide), if_pos h3]
    rw [hs, hg]
    refine ⟨rfl, ?_, ?_, ?_, ?_, ?_, ?_⟩ <;> simp
  · intro k a s hk h3 hl
    exact directional_key_blocked k a s hk h3 (fun h => absurd h.2.1 (not_lt.mpr hl))
  · intro a s h3 hl
    have hcm : ¬ canMove s := fun h => absurd h.2.1 (not_lt.mpr hl)
    cases a <;> simp [mouseButton, leftRelease, h3, hcm]
  · intro k a s hk h3 hj
    exact directional_key_blocked k a s hk h3 (fun h => absurd h.2.2 (by simp [hj]))

/-- C26, witness: `loadingState`, half-way through the loading interval. -/
theorem loading_blocks_play_witness :
    screenStep quietInput loadingState =
        coinReseed quietInput (initDone (loadingTick (loadingAdvance loadingState))) ∧
      keyboard Key.UP Action.PRESS loadingState = loadingState ∧
      mouseButton Button.LEFT Action.RELEASE loadingState = loadingState ∧
      keyboard Key.W Action.PRESS jumpStart = jumpStart :=
  ⟨(loading_blocks_play.2.1 quietInput loadingState rfl
      (by norm_num [loadingState, playState, initial])
      (by norm_num [loadingState, playState, initial])).1,
    loading_blocks_play.2.2.1 Key.UP Action.PRESS loadingState (Or.inl rfl) rfl
      (by norm_num [loadingState, playState, initial]),
    loading_blocks_play.2.2.2.1 Action.RELEASE loadingState rfl
      (by norm_num [loadingState, playState, initial]),
    loading_blocks_play.2.2.2.2 Key.W Action.PRESS jumpStart
      (Or.inr (Or.inr (Or.inr (Or.inr (Or.inl rfl))))) rfl rfl⟩

/-! ## C27: the score string -/

/-- The source's digit conversion on a decimal digit. -/
theorem digitChar_digit (d : Nat) (h : d < 10) : digitChar (d : Int) = Nat.digitChar d := by
  interval_cases d <;> rfl

/-- One round of the digit loop on a non-negative value. -/
theorem scoreDigit_natCast (n L : Nat) :
    scoreDigit (n : Int) L =
      (((n / 10 : Nat) : Int), (if n ≠ 0 then L + 1 else L), digitChar ((n % 10 : Nat) : Int)) := by
  unfold scoreDigit
  simp only [Int.ofNat_tmod, Int.ofNat_tdiv]
  norm_cast

/-- The digits of a one-digit number. -/
theorem toDigits_one (n : Nat) (h : n < 10) : Nat.toDigits 10 n = [Nat.digitChar n] := by
  have hq : n / 10 = 0 := by omega
  have hm : n % 10 = n := by omega
  simp only [Nat.toDigits, Nat.toDigitsCore, hq, hm, if_true]

/-- The digits of a two-digit number. -/
theorem toDigits_two (n : Nat) (h1 : 10 ≤ n) (h2 : n < 100) :
    Nat.toDigits 10 n = [Nat.digitChar (n / 10), Nat.digitChar (n % 10)] := by
  have hq : n / 10 ≠ 0 := by omega
  have hq2 : n / 10 / 10 = 0 := by omega
  have hm : n / 10 % 10 = n / 10 := by omega
  obtain ⟨m, rfl⟩ : ∃ m, n = m + 1 := ⟨n - 1, by omega⟩
  simp only [Nat.toDigits, Nat.toDigitsCore, hq, hq2, hm, if_false, if_true]

/-- The digits of a three-digit number. -/
theorem toDigits_three (n : Nat) (h1 : 100 ≤ n) (h2 : n < 1000) :
    Nat.toDigits 10 n =
      [Nat.digitChar (n / 100), Nat.digitChar (n / 10 % 10), Nat.digitChar (n % 10)] := by
  have hq : n / 10 ≠ 0 := by omega
  have hq2 : n / 10 / 10 ≠ 0 := by omega
  have hq3 : n / 10 / 10 / 10 = 0 := by omega
  have hm : n / 10 / 10 % 10 = n / 100 := by omega
  obtain ⟨m, rfl⟩ : ∃ m, n = m + 2 := ⟨n - 2, by omega⟩
  simp only [Nat.toDigits, Nat.toDigitsCore, hq, hq2, hq3, hm, if_false, if_true]

/-- The characters of the decimal representation. -/
theorem scoreText_nat (n : Nat) (i : Fin 3) :
    scoreText (n : Int) i = (Nat.toDigits 10 n).getD i.val ' ' := rfl

/-- The score formatter on a score of at most three digits. -/
theorem formatScore_text (s : Game) (h0 : 0 ≤ s.score) (h1 : s.score ≤ 999)
    (hc : s.temp_score ≠ s.score ∨ s.score = 0) :
    (formatScore s).score_string = scoreText s.score ∧ (formatScore s).temp_score = s.score := by
  obtain ⟨n, hn⟩ := Int.eq_ofNat_of_zero_le h0
  have hlt : n < 1000 := by omega
  unfold formatScore
  rw [if_pos hc]
  refine ⟨?_, rfl⟩
  simp only [hn, scoreDigit_natCast]
  funext i
  rw [scoreText_nat]
  by_cases c0 : n = 0
  · subst c0
    fin_cases i <;> simp [swapChars, Function.update] <;> decide
  by_cases c1 : n < 10
  · have e1 : n / 10 = 0 := by omega
    rw [toDigits_one n c1]
    fin_cases i <;> simp [swapChars, Function.update, e1, c0, digitChar_digit n c1,
      Nat.mod_eq_of_lt c1] <;> decide
  by_cases c2 : n < 100
  · have e1 : n / 10 ≠ 0 := by omega
    have e2 : n / 10 / 10 = 0 := by omega
    have e3 : n / 10 % 10 = n / 10 := by omega
    have d1 := digitChar_digit (n / 10) (by omega)
    have d0 := digitChar_digit (n % 10) (Nat.mod_lt _ (by decide))
    push_cast at d0 d1
    rw [toDigits_two n (by omega) c2]
    fin_cases i <;> simp [swapChars, Function.update, e1, e2, e3, c0, d0, d1] <;> decide
  · have e1 : n / 10 ≠ 0 := by omega
    have e2 : n / 10 / 10 ≠ 0 := by omega
    have e3 : n / 10 / 10 % 10 = n / 100 := by omega
    have d2 := digitChar_digit (n / 100) (by omega)
    have d1 := digitChar_digit (n / 10 % 10) (Nat.mod_lt _ (by decide))
    have d0 := digitChar_digit (n % 10) (Nat.mod_lt _ (by decide))
    push_cast at d0 d1 d2
    rw [toDigits_three n (by omega) hlt]
    fin_cases i <;> simp [swapChars, Function.update, e1, e2, e3, c0, d0, d1, d2]


/-- The score formatter of a tick works on the score the tick began with. -/
theorem gamescreen_score_string (s : Game) :
    (gamescreen s).score_string = (formatScore (helicopterTurn (autoAdvance s))).score_string ∧
      (gamescreen s).temp_score = (formatScore (helicopterTurn (autoAdvance s))).temp_score ∧
      (helicopterTurn (autoAdvance s)).score = s.score ∧
      (helicopterTurn (autoAdvance s)).temp_score = s.temp_score ∧
      (helicopterTurn (autoAdvance s)).score_string = s.score_string := by
  refine ⟨?_, ?_, ?_, ?_, ?_⟩ <;>
    simp [gamescreen, beforeCollision, beforeFatal, beforeJump]

/-- The coin check adds 10 to the score, or nothing. -/
theorem coinCheck_score (m : Game) :
    (coinCheck m).score = m.score ∨ (coinCheck m).score = m.score + 10 := by
  by_cases h : ∃ i : Fin 5, onCoin m i
  · obtain ⟨i, hi⟩ := h
    obtain ⟨j, -, hj, hmin⟩ := exists_first_coin m i hi
    rw [coinCheck_first m j hj hmin]
    exact Or.inr (by simp [takeCoin])
  · rw [coinCheck_none m (fun i hi => h ⟨i, hi⟩)]
    exact Or.inl rfl

/-- C27 (amended). For every score in 0..999 with which a Play tick begins,
the 3-character score string after the score formatter of the tick, which is
the string the tick draws and leaves, is the decimal representation of that
score, left-justified and padded on the right with spaces (0 gives "0  ", 50
gives "50 ", 120 gives "120"). It is recomputed whenever the score differs
from the value last formatted, or is 0, and otherwise kept. The coin check runs
later in the tick: the tick leaves the score as it was or 10 higher, and the
string is the representation of the score after the tick when the tick
collected no coin. -/
theorem score_string_decimal (inp : Input) (s : Game) (h0 : 0 ≤ s.score) (h1 : s.score ≤ 999)
    (hfresh : s.temp_score ≠ s.score ∨ s.score = 0 ∨ s.score_string = scoreText s.score) :
    ((gamescreen s).score_string = scoreText s.score ∧ (gamescreen s).temp_score = s.score ∧
      (gamescreen s).score = s.score) ∧
    ((playTick inp s).score_string = scoreText s.score ∧
      ((playTick inp s).score = s.score ∨ (playTick inp s).score = s.score + 10) ∧
      ((playTick inp s).score = s.score →
        (playTick inp s).score_string = scoreText (playTick inp s).score)) ∧
    ((List.ofFn (scoreText 0)).asString = "0  " ∧ (List.ofFn (scoreText 50)).asString = "50 " ∧
      (List.ofFn (scoreText 120)).asString = "120") := by
  obtain ⟨g1, g2, m1, m2, m3⟩ := gamescreen_score_string s
  have hfmt : (formatScore (helicopterTurn (autoAdvance s))).score_string = scoreText s.score ∧
      (formatScore (helicopterTurn (autoAdvance s))).temp_score = s.score := by
    by_cases hc : s.temp_score ≠ s.score ∨ s.score = 0
    · have h := formatScore_text (helicopterTurn (autoAdvance s)) (by rw [m1]; exact h0)
        (by rw [m1]; exact h1) (by rw [m1, m2]; exact hc)
      rw [m1] at h
      exact h
    · have hkeep : formatScore (helicopterTurn (autoAdvance s)) = helicopterTurn (autoAdvance s) := by
        unfold formatScore
        rw [if_neg (by rw [m1, m2]; exact hc)]
      have hstr : s.score_string = scoreText s.score := by
        rcases hfresh with h | h | h
        · exact absurd (Or.inl h) hc
        · exact absurd (Or.inr h) hc
        · exact h
      have htemp : s.temp_score = s.score := by
        by_contra hne
        exact hc (Or.inl hne)
      rw [hkeep, m3, m2]
      exact ⟨hstr, htemp⟩
  have hgs : (gamescreen s).score_string = scoreText s.score := by rw [g1]; exact hfmt.1
  have hps : (playTick inp s).score_string = scoreText s.score := by
    have e : (playTick inp s).score_string = (gamescreen s).score_string := by
      simp [playTick, beforeCoins, beforeCompletion]
    rw [e, hgs]
  have hsc : (playTick inp s).score = s.score ∨ (playTick inp s).score = s.score + 10 := by
    obtain ⟨-, -, c3, -, -, c6, -⟩ := playTick_coins inp s
    rw [c6, ← c3]
    exact coinCheck_score _
  refine ⟨⟨hgs, by rw [g2]; exact hfmt.2, by simp⟩, ⟨hps, hsc, fun e => by rw [e]; exact hps⟩, ?_⟩
  decide

/-- C27, witness: the first tick of `playState`, whose score is 0. -/
theorem score_string_decimal_witness :
    (gamescreen playState).score_string = scoreText 0 ∧
      (playTick quietInput playState).score_string = scoreText 0 :=
  have h := score_string_decimal quietInput playState (by decide) (by decide) (Or.inr (Or.inl rfl))
  ⟨h.1.1, h.2.1.1⟩

/-- C27, counterexample: the player of `twoCoinsState` stands on a coin with
score 0. The tick formats the score before the coin check awards the coin:
after the tick the score is 10 and the string is that of 0, not that of 10. -/
theorem score_string_lags_behind_coin :
    twoCoinsState.score = 0 ∧ (playTick quietInput twoCoinsState).score = 10 ∧
      (playTick quietInput twoCoinsState).score_string = scoreText 0 ∧
      (playTick quietInput twoCoinsState).score_string ≠
        scoreText (playTick quietInput twoCoinsState).score := by
  obtain ⟨-, -, c3, -, -, c6, -⟩ := playTick_coins quietInput twoCoinsState
  have h0 := twoCoins_onCoin 0 (Or.inl rfl)
  have hcc := coinCheck_first _ 0 h0 (fun i hi => absurd hi (by omega))
  have hscore : (playTick quietInput twoCoinsState).score = 10 := by
    rw [c6, hcc]
    simp [takeCoin, c3, twoCoinsState, playState, initial]
  obtain ⟨g1, -, m1, m2, -⟩ := gamescreen_score_string twoCoinsState
  have hfmt := (formatScore_text (helicopterTurn (autoAdvance twoCoinsState))
    (by rw [m1]; decide) (by rw [m1]; decide) (by rw [m1]; exact Or.inr rfl)).1
  have hstr : (playTick quietInput twoCoinsState).score_string = scoreText 0 := by
    have e : (playTick quietInput twoCoinsState).score_string =
        (gamescreen twoCoinsState).score_string := by
      simp [playTick, beforeCoins, beforeCompletion]
    rw [e, g1, hfmt, m1]
    rfl
  refine ⟨rfl, hscore, hstr, ?_⟩
  rw [hstr, hscore]
  intro h
  have := congrFun h 1
  revert this
  decide

/-! ## C28: the exit cell and its index -/

/-- C28, the code at a failing input. The player of `aliasState` stands on
cell (0,1), an elevator tile that is above it, facing direction 3, with the
coin counter at 5. The elevator-tile logic of the tick moves the player back
to (-1,1), outside the grid; the level-completion check of the same tick
computes the index 10*1 + (-1) = 9 and raises the level from 3 to 4. In
general, a tick that changes the level has the player at (9,0) or at (-1,1)
when it reaches the check. -/
theorem level_completed_off_grid :
    (aliasState.level = 3 ∧ (beforeCompletion quietInput aliasState).px = -1 ∧
      (beforeCompletion quietInput aliasState).pz = 1 ∧
      (playTick quietInput aliasState).level = 4) ∧
    (∀ (inp : Input) (s : Game), (playTick inp s).level ≠ s.level →
      ((beforeCompletion inp s).px = 9 ∧ (beforeCompletion inp s).pz = 0) ∨
        ((beforeCompletion inp s).px = -1 ∧ (beforeCompletion inp s).pz = 1)) := by
  have hlev : ∀ (inp : Input) (s : Game),
      (playTick inp s).level = (completionCheck (beforeCompletion inp s)).level ∧
        (beforeCompletion inp s).level = s.level := by
    intro inp s
    constructor
    · simp [playTick, beforeCoins]
    · simp
  obtain ⟨g1, g2, g3, g4, g5, g6⟩ := aliasState_gamescreen
  have hb := beforeCompletion_position quietInput aliasState
  have hcc : (beforeCompletion quietInput aliasState).coin_count = 5 := by
    have e : (beforeCompletion quietInput aliasState).coin_count =
        (gamescreen aliasState).coin_count := by simp
    rw [e, g6]
  have hcond : 10 * (beforeCompletion quietInput aliasState).pz +
      (beforeCompletion quietInput aliasState).px = 9 ∧
      (beforeCompletion quietInput aliasState).coin_count = 5 := by
    rw [hb.1, hb.2, g1, g2, hcc]
    exact ⟨rfl, rfl⟩
  refine ⟨⟨rfl, by rw [hb.1, g1], by rw [hb.2, g2], ?_⟩, ?_⟩
  · rw [(hlev quietInput aliasState).1, completionCheck_pos _ hcond]
    have e : (levelStart { beforeCompletion quietInput aliasState with
        level := (beforeCompletion quietInput aliasState).level + 1, px := 0, pz := 9,
        coin_count := 0 }).level = (beforeCompletion quietInput aliasState).level + 1 := by
      simp
    rw [e, (hlev quietInput aliasState).2]
    rfl
  · intro inp s hne
    have hp := gamescreen_position s
    have hbp := beforeCompletion_position inp s
    have hc : 10 * (beforeCompletion inp s).pz + (beforeCompletion inp s).px = 9 ∧
        (beforeCompletion inp s).coin_count = 5 := by
      by_contra hn
      apply hne
      rw [(hlev inp s).1, completionCheck_neg _ hn, (hlev inp s).2]
    have h9 := hc.1
    rw [hbp.1, hbp.2] at h9 ⊢
    omega

/-! ## C29: the selection index -/

/-- The screen, the selection and the two flags after an iteration are those
the poll leaves. -/
theorem mainLoop_selection (inp : Input) (s : Game) (hx : s.exited = false)
    (hp : s.pause = false) :
    (mainLoop inp s).sc_flag = (pollEvents inp.events (screenStep inp s)).sc_flag ∧
      (mainLoop inp s).hover_flag = (pollEvents inp.events (screenStep inp s)).hover_flag ∧
      (mainLoop inp s).exited = (pollEvents inp.events (screenStep inp s)).exited ∧
      (mainLoop inp s).pause = (pollEvents inp.events (screenStep inp s)).pause := by
  unfold mainLoop
  rw [if_neg (by simp [hx]), if_pos hp]
  dsimp only
  split_ifs
  · exact ⟨rfl, rfl, rfl, rfl⟩
  · simp

/-- The screen step on the Menu and on the Controls screen. -/
theorem screenStep_menu_controls (inp : Input) (s : Game) :
    (s.sc_flag = 0 → screenStep inp s = menuStep inp s) ∧
      (s.sc_flag = 1 → screenStep inp s = controlsStep inp s) := by
  unfold screenStep
  refine ⟨fun h => ?_, fun h => ?_⟩
  · rw [if_pos h]
  · rw [if_neg (by rw [h]; decide), if_pos h]

/-- Down and Enter on the first option of the Menu open the Controls screen. -/
theorem poll_down_enter (m : Game) (h0 : m.sc_flag = 0) (h1 : m.hover_flag = 0)
    (hx : m.exited = false) :
    pollEvents [Event.key Key.DOWN Action.PRESS, Event.key Key.ENTER Action.PRESS] m =
      { m with hover_flag := 1, sc_flag := 1 } := by
  have e1 : handleEvent m (Event.key Key.DOWN Action.PRESS) = { m with hover_flag := 1 } := by
    simp [handleEvent, keyboard, keyPress, h0, h1, hx]
  have e2 : handleEvent { m with hover_flag := 1 } (Event.key Key.ENTER Action.PRESS) =
      { m with hover_flag := 1, sc_flag := 1 } := by
    simp [handleEvent, keyboard, keyPress, h0, hx]
  show handleEvent (handleEvent m (Event.key Key.DOWN Action.PRESS))
    (Event.key Key.ENTER Action.PRESS) = _
  rw [e1, e2]

/-- A left-click release on the back button of the Controls screen. -/
theorem poll_back_click (m : Game) (h0 : m.sc_flag = 1) (h1 : m.hover_flag = 4)
    (hx : m.exited = false) :
    pollEvents [Event.mouse Button.LEFT Action.RELEASE] m = { m with sc_flag := 0 } := by
  show handleEvent m (Event.mouse Button.LEFT Action.RELEASE) = _
  simp [handleEvent, mouseButton, leftRelease, h0, h1, hx]

/-- Two iterations from the initial state: Down and Enter on the Menu, then a
click on the back button of the Controls screen; and a third, idle one. -/
theorem back_click_run :
    (run [toControlsInput, backClickInput] (initial 0 0 0 0)).sc_flag = 0 ∧
    (run [toControlsInput, backClickInput] (initial 0 0 0 0)).hover_flag = 4 ∧
    (run [toControlsInput, backClickInput, restInput] (initial 0 0 0 0)).sc_flag = 0 ∧
    (run [toControlsInput, backClickInput, restInput] (initial 0 0 0 0)).hover_flag = 4 := by
  -- first iteration
  have a := mainLoop_selection toControlsInput (initial 0 0 0 0) rfl rfl
  have am := (screenStep_menu_controls toControlsInput (initial 0 0 0 0)).1 rfl
  have ah : (menuStep toControlsInput (initial 0 0 0 0)).hover_flag = 0 := by
    norm_num [menuStep, inRegion, widthc, heightc, toControlsInput, quietInput, initial]
  have ap := poll_down_enter (menuStep toControlsInput (initial 0 0 0 0)) (by simp [initial]) ah
    (by simp [initial])
  have ae : toControlsInput.events =
      [Event.key Key.DOWN Action.PRESS, Event.key Key.ENTER Action.PRESS] := rfl
  rw [am, ae, ap] at a
  obtain ⟨a1, a2, a3, a4⟩ := a
  have a3' : (mainLoop toControlsInput (initial 0 0 0 0)).exited = false := by
    rw [a3]; simp [initial]
  have a4' : (mainLoop toControlsInput (initial 0 0 0 0)).pause = false := by
    rw [a4]; simp [initial]
  have a1' : (mainLoop toControlsInput (initial 0 0 0 0)).sc_flag = 1 := a1
  -- second iteration
  have b := mainLoop_selection backClickInput (mainLoop toControlsInput (initial 0 0 0 0)) a3' a4'
  have bm := (screenStep_menu_controls backClickInput
    (mainLoop toControlsInput (initial 0 0 0 0))).2 a1'
  have bh : (controlsStep backClickInput (mainLoop toControlsInput (initial 0 0 0 0))).hover_flag
      = 4 := by
    norm_num [controlsStep, inRegion, widthc, heightc, backClickInput, quietInput]
  have bp := poll_back_click (controlsStep backClickInput (mainLoop toControlsInput (initial 0 0 0 0)))
    (by simp [a1']) bh (by simp [a3'])
  have be : backClickInput.events = [Event.mouse Button.LEFT Action.RELEASE] := rfl
  rw [bm, be, bp] at b
  obtain ⟨b1, b2, b3, b4⟩ := b
  have b1' : (run [toControlsInput, backClickInput] (initial 0 0 0 0)).sc_flag = 0 := b1
  have b2' : (run [toControlsInput, backClickInput] (initial 0 0 0 0)).hover_flag = 4 := by
    show (mainLoop backClickInput (mainLoop toControlsInput (initial 0 0 0 0))).hover_flag = 4
    rw [b2]
    exact bh
  have b3' : (run [toControlsInput, backClickInput] (initial 0 0 0 0)).exited = false := by
    show (mainLoop backClickInput (mainLoop toControlsInput (initial 0 0 0 0))).exited = false
    rw [b3]; simp [a3']
  have b4' : (run [toControlsInput, backClickInput] (initial 0 0 0 0)).pause = false := by
    show (mainLoop backClickInput (mainLoop toControlsInput (initial 0 0 0 0))).pause = false
    rw [b4]; simp [a4']
  -- third iteration
  have c := mainLoop_selection restInput (run [toControlsInput, backClickInput] (initial 0 0 0 0))
    b3' b4'
  have cm := (screenStep_menu_controls restInput
    (run [toControlsInput, backClickInput] (initial 0 0 0 0))).1 b1'
  have ch : (menuStep restInput (run [toControlsInput, backClickInput] (initial 0 0 0 0))).hover_flag
      = 4 := by
    norm_num [menuStep, inRegion, widthc, heightc, restInput, quietInput, b2']
  have ce : restInput.events = [] := rfl
  rw [cm, ce] at c
  refine ⟨b1', b2', ?_, ?_⟩
  · show (mainLoop restInput (run [toControlsInput, backClickInput] (initial 0 0 0 0))).sc_flag = 0
    rw [c.1]
    simp [pollEvents, b1']
  · show (mainLoop restInput (run [toControlsInput, backClickInput] (initial 0 0 0 0))).hover_flag = 4
    rw [c.2.1]
    exact ch


/-- A Play tick that ends on the End screen leaves the selection on its first option. -/
theorem playTick_selection (inp : Input) (s : Game) (h3 : s.sc_flag = 3) :
    (playTick inp s).sc_flag = 4 → (playTick inp s).hover_flag = 5 := by
  have e1 : (playTick inp s).sc_flag = (completionCheck (beforeCompletion inp s)).sc_flag := by
    simp [playTick, beforeCoins]
  have e2 : (playTick inp s).hover_flag = (completionCheck (beforeCompletion inp s)).hover_flag := by
    simp [playTick, beforeCoins]
  have b : (beforeCompletion inp s).sc_flag = 4 → (beforeCompletion inp s).hover_flag = 5 := by
    by_cases hc : (gamescreen s).lives = 0 ∨ (gamescreen s).level = 4 ∨ (gamescreen s).timer = 0
    · intro _
      simp [beforeCompletion, endCheck_pos _ hc]
    · intro h
      have : (beforeCompletion inp s).sc_flag = 3 := by
        simp [beforeCompletion, endCheck_neg _ hc, h3]
      rw [this] at h
      exact absurd h (by decide)
  rw [e1, e2]
  by_cases hc : 10 * (beforeCompletion inp s).pz + (beforeCompletion inp s).px = 9 ∧
      (beforeCompletion inp s).coin_count = 5
  · rw [completionCheck_pos _ hc]
    unfold levelStart
    split_ifs
    · exact b
    · exact b
    · exact fun _ => rfl
    · exact b
  · rw [completionCheck_neg _ hc]
    exact b

/-- The screen step keeps the selection of the End screen on one of its options. -/
theorem screenStep_end_selection (inp : Input) (s : Game)
    (h : s.sc_flag = 4 → s.hover_flag = 5 ∨ s.hover_flag = 6) :
    (screenStep inp s).sc_flag = 4 →
      (screenStep inp s).hover_flag = 5 ∨ (screenStep inp s).hover_flag = 6 := by
  unfold screenStep
  split_ifs with h0 h1 h3 h4
  · intro a
    have : (menuStep inp s).sc_flag = s.sc_flag := by simp
    rw [this, h0] at a
    exact absurd a (by decide)
  · intro a
    have : (controlsStep inp s).sc_flag = s.sc_flag := by simp
    rw [this, h1] at a
    exact absurd a (by decide)
  · intro a
    by_cases hi : (loadingAdvance s).init_flag = 4
    · have hls : (loadingAdvance s).sc_flag = 3 := by simp [h3]
      have e : playOrLoad inp (loadingAdvance s) = playTick inp (loadingAdvance s) := by
        unfold playOrLoad
        rw [if_pos hi]
      have a1 : (playTick inp (loadingAdvance s)).sc_flag = 4 := by
        have : (gameStep inp s).sc_flag = (playTick inp (loadingAdvance s)).sc_flag := by
          simp [gameStep, e]
        rw [← this]
        exact a
      have hh : (gameStep inp s).hover_flag = (playTick inp (loadingAdvance s)).hover_flag := by
        simp [gameStep, e]
      rw [hh]
      exact Or.inl (playTick_selection inp _ hls a1)
    · have e : playOrLoad inp (loadingAdvance s) = loadingTick (loadingAdvance s) := by
        unfold playOrLoad
        rw [if_neg hi]
      have : (gameStep inp s).sc_flag = s.sc_flag := by simp [gameStep, e]
      rw [this, h3] at a
      exact absurd a (by decide)
  · intro _
    have hs := h h4
    unfold endStep
    dsimp only
    split_ifs
    · exact Or.inl rfl
    · exact Or.inr rfl
    · exact hs
  · exact h

/-- An event callback keeps the selection of the End screen on one of its options. -/
theorem handleEvent_end_selection (s : Game) (e : Event)
    (h : s.sc_flag = 4 → s.hover_flag = 5 ∨ s.hover_flag = 6) :
    (handleEvent s e).sc_flag = 4 →
      (handleEvent s e).hover_flag = 5 ∨ (handleEvent s e).hover_flag = 6 := by
  unfold handleEvent
  split_ifs
  · exact h
  · cases e with
    | key k a =>
      cases a <;> cases k <;>
        simp only [keyboard, keyPress, keyRelease, quit, newGameKey, canMove] <;>
        (try split_ifs) <;> first | exact h | (simp_all <;> omega)
    | mouse b a =>
      cases b <;> cases a <;>
        simp only [mouseButton, leftRelease, quit, newGameClick, canMove] <;>
        (try split_ifs) <;> first | exact h | simp_all
    | quitChar => exact h
    | otherChar => exact h
    | close => exact h

/-- A poll keeps the selection of the End screen on one of its options. -/
theorem pollEvents_end_selection (es : List Event) :
    ∀ s : Game, (s.sc_flag = 4 → s.hover_flag = 5 ∨ s.hover_flag = 6) →
      ((pollEvents es s).sc_flag = 4 →
        (pollEvents es s).hover_flag = 5 ∨ (pollEvents es s).hover_flag = 6) := by
  induction es with
  | nil => intro s h; exact h
  | cons e rest ih => intro s h; exact ih _ (handleEvent_end_selection s e h)

/-- An iteration keeps the selection of the End screen on one of its options. -/
theorem mainLoop_end_selection (inp : Input) (s : Game)
    (h : s.sc_flag = 4 → s.hover_flag = 5 ∨ s.hover_flag = 6) :
    (mainLoop inp s).sc_flag = 4 →
      (mainLoop inp s).hover_flag = 5 ∨ (mainLoop inp s).hover_flag = 6 := by
  have hp := pollEvents_end_selection inp.events _ (screenStep_end_selection inp s h)
  unfold mainLoop
  dsimp only
  split_ifs
  · exact h
  · exact hp
  · simpa using hp
  · exact h

/-- C29, the code at a failing input. From the initial state: Down and Enter
on the Menu open the Controls screen; there the cursor is on the back button,
which makes the selection index 4, and the left button is released. The screen
is the Menu again and the selection index is still 4, which is none of the
Menu options 0, 1, 2; it stays 4 in the next iteration while the cursor rests.
The rest holds: in every run from the initial state the selection index is 5
or 6 whenever the screen is End, and the Up and Down keys cycle through 0, 1, 2
on the Menu and through 5, 6 on the End screen. -/
theorem back_click_keeps_selection_four :
    ((run [toControlsInput, backClickInput] (initial 0 0 0 0)).sc_flag = 0 ∧
      (run [toControlsInput, backClickInput] (initial 0 0 0 0)).hover_flag = 4 ∧
      (run [toControlsInput, backClickInput, restInput] (initial 0 0 0 0)).sc_flag = 0 ∧
      (run [toControlsInput, backClickInput, restInput] (initial 0 0 0 0)).hover_flag = 4) ∧
    (∀ (x0 y0 t0 t1 : ℚ) (inps : List Input),
      (run inps (initial x0 y0 t0 t1)).sc_flag = 4 →
        (run inps (initial x0 y0 t0 t1)).hover_flag = 5 ∨
          (run inps (initial x0 y0 t0 t1)).hover_flag = 6) ∧
    (∀ s : Game, s.sc_flag = 0 →
      (s.hover_flag = 0 → (keyboard Key.UP Action.PRESS s).hover_flag = 2 ∧
        (keyboard Key.DOWN Action.PRESS s).hover_flag = 1) ∧
      (s.hover_flag = 1 → (keyboard Key.UP Action.PRESS s).hover_flag = 0 ∧
        (keyboard Key.DOWN Action.PRESS s).hover_flag = 2) ∧
      (s.hover_flag = 2 → (keyboard Key.UP Action.PRESS s).hover_flag = 1 ∧
        (keyboard Key.DOWN Action.PRESS s).hover_flag = 0)) ∧
    (∀ s : Game, s.sc_flag = 4 →
      (s.hover_flag = 5 → (keyboard Key.UP Action.PRESS s).hover_flag = 6 ∧
        (keyboard Key.DOWN Action.PRESS s).hover_flag = 6) ∧
      (s.hover_flag = 6 → (keyboard Key.UP Action.PRESS s).hover_flag = 5 ∧
        (keyboard Key.DOWN Action.PRESS s).hover_flag = 5)) := by
  refine ⟨back_click_run, ?_, ?_, ?_⟩
  · intro x0 y0 t0 t1 inps
    have hgen : ∀ (l : List Input) (s : Game),
        (s.sc_flag = 4 → s.hover_flag = 5 ∨ s.hover_flag = 6) →
        ((run l s).sc_flag = 4 → (run l s).hover_flag = 5 ∨ (run l s).hover_flag = 6) := by
      intro l
      induction l with
      | nil => intro s h; exact h
      | cons inp rest ih => intro s h; exact ih _ (mainLoop_end_selection inp s h)
    exact hgen inps _ (fun a => absurd a (by simp [initial]))
  · intro s h0
    refine ⟨fun h => ?_, fun h => ?_, fun h => ?_⟩ <;>
      simp [keyboard, keyPress, h0, h]
  · intro s h4
    refine ⟨fun h => ?_, fun h => ?_⟩ <;>
      simp [keyboard, keyPress, h4, h]

/-! ## C30: an arrow key on the elevator -/

/-- C30. An arrow-key press in Play with the loading over and no jump in
progress: while the player is on an elevator tile (on_tile set) and the
elevator height is at or below the player's vertical offset (cy <= ry), the
press sets the facing direction and changes nothing else, the grid position
included; in every other case, in particular whenever on_tile is false, the
press sets the direction and changes exactly one coordinate by exactly 1 (Up:
pz-1, Down: pz+1, Left: px-1, Right: px+1). -/
theorem arrow_key_on_elevator (s : Game) (hcm : canMove s) :
    (s.on_tile = true → s.cy ≤ s.ry →
      keyboard Key.UP Action.PRESS s = { s with dir := 1 } ∧
        keyboard Key.DOWN Action.PRESS s = { s with dir := 4 } ∧
        keyboard Key.LEFT Action.PRESS s = { s with dir := 2 } ∧
        keyboard Key.RIGHT Action.PRESS s = { s with dir := 3 }) ∧
    (¬ (s.on_tile = true ∧ s.cy ≤ s.ry) →
      keyboard Key.UP Action.PRESS s = { s with pz := s.pz - 1, dir := 1 } ∧
        keyboard Key.DOWN Action.PRESS s = { s with pz := s.pz + 1, dir := 4 } ∧
        keyboard Key.LEFT Action.PRESS s = { s with px := s.px - 1, dir := 2 } ∧
        keyboard Key.RIGHT Action.PRESS s = { s with px := s.px + 1, dir := 3 }) ∧
    (s.on_tile = false →
      keyboard Key.UP Action.PRESS s = { s with pz := s.pz - 1, dir := 1 } ∧
        keyboard Key.DOWN Action.PRESS s = { s with pz := s.pz + 1, dir := 4 } ∧
        keyboard Key.LEFT Action.PRESS s = { s with px := s.px - 1, dir := 2 } ∧
        keyboard Key.RIGHT Action.PRESS s = { s with px := s.px + 1, dir := 3 }) := by
  have h3 : s.sc_flag = 3 := hcm.1
  have hmove : ¬ (s.on_tile = true ∧ s.cy ≤ s.ry) →
      keyboard Key.UP Action.PRESS s = { s with pz := s.pz - 1, dir := 1 } ∧
        keyboard Key.DOWN Action.PRESS s = { s with pz := s.pz + 1, dir := 4 } ∧
        keyboard Key.LEFT Action.PRESS s = { s with px := s.px - 1, dir := 2 } ∧
        keyboard Key.RIGHT Action.PRESS s = { s with px := s.px + 1, dir := 3 } := by
    intro hfree
    refine ⟨?_, ?_, ?_, ?_⟩ <;> simp [keyboard, keyPress, h3, hcm, hfree]
  refine ⟨fun hon hlow => ?_, hmove, fun hoff => hmove (fun h => ?_)⟩
  · have hblock : s.on_tile = true ∧ s.cy ≤ s.ry := ⟨hon, hlow⟩
    refine ⟨?_, ?_, ?_, ?_⟩ <;> simp [keyboard, keyPress, h3, hcm, hblock]
  · rw [hoff] at h
    exact absurd h.1 (by decide)

/-- C30, witness: the Up key for the player of `ridingState`, on the elevator
at the height of its offset, and for the player of `groundedState`, on no tile. -/
theorem arrow_key_on_elevator_witness :
    keyboard Key.UP Action.PRESS ridingState = { ridingState with dir := 1 } ∧
      keyboard Key.UP Action.PRESS groundedState =
        { groundedState with pz := groundedState.pz - 1, dir := 1 } :=
  ⟨((arrow_key_on_elevator ridingState
      (by unfold canMove; norm_num [ridingState, playState, initial])).1 rfl
      (by norm_num [ridingState, playState, initial])).1,
    ((arrow_key_on_elevator groundedState
      (by unfold canMove; norm_num [groundedState, playState, initial])).2.2 rfl).1⟩

end Gravity
